import Mathlib

/-!
# HomeGrow client: actuator safety state machine, calibration, filters and commands

Shallow embedding of `homegrow_client3/src/actuators` (BaseActuator, Pump,
DosingPump, WaterPump, AirPump, ActuatorManager), of
`homegrow_client3/src/sensors/calibration` (LinearCalibration,
MultiPointCalibration), of `homegrow_client3/src/sensors/filters`
(MovingAverageFilter, ExponentialFilter), of the `calibrate` methods of
`homegrow_client3/src/sensors` (PHSensor, TDSSensor, SensorManager) and of
`homegrow_client3/src/commands` (BaseCommand, the pump, dosing and system
command classes, CommandProcessor).

Conventions of the embedding:

* `unsigned long` is the 32-bit type of the ESP32 target.  Values are `Nat`,
  and every arithmetic operation the source performs on them is reduced
  modulo `2^32` (`uadd`, `usub`, `umul`).
* `millis()` is an explicit argument `now` of every operation that reads the
  clock; one call of an operation sees one clock value.
* `float` quantities (flow rate, volumes, samples) are rationals.  `roundFloat`
  rounds a rational to the nearest binary32 value; the duration and volume
  computations of `Pump` and the methods of the section on the moving-average
  filter in binary32 arithmetic apply it to the result of every `float`
  operation.  Elsewhere the embedding keeps the arithmetic of the source and
  leaves out IEEE rounding.
* `digitalWrite(pin, level)` is recorded in the field `gpio_high`.
* Logging calls have no effect on the state and are left out.
* A command works on a `Device`: the actuator manager and the sensor manager
  behind its pointers, and the clock.  Within one `validate` or `execute` the
  clock stands still except across `delay(ms)`, which advances it by `ms`;
  nothing is polled meanwhile.  The device also records every call of
  `ActuatorManager::dose` in `dose_log`.
* JSON parameters are a list of members; `abs`, `min` and `max` on `float` are
  the mathematical functions.
* `ESP.restart()` does not return.  The call is recorded in the field
  `restart_requested` of the device; a method in which the device restarts
  yields the state at the restart and no return value, and its callers stop
  there.
* The command processor keeps the results it hands to the MQTT client in the
  list `published`; its `std::map` and its queue are lists.
-/

namespace HomeGrow

/-! ## Machine integers -/

/-- Number of values of an `unsigned long` on the target (32 bits). -/
def ULONG_MOD : Nat := 4294967296

/-- Sum of two `unsigned long` values. -/
def uadd (a b : Nat) : Nat := (a + b) % ULONG_MOD

/-- Difference `a - b` of two `unsigned long` values (wraps around). -/
def usub (a b : Nat) : Nat := (a % ULONG_MOD + (ULONG_MOD - b % ULONG_MOD)) % ULONG_MOD

/-- Product of two `unsigned long` values. -/
def umul (a b : Nat) : Nat := (a * b) % ULONG_MOD

/-- Conversion of an `int` to `unsigned long` (as in `config.max_runtime_sec * 1000UL`). -/
def intToULong (i : Int) : Nat := (i % (ULONG_MOD : Int)).toNat

/-- Conversion of a `float` to `unsigned long`: the fractional part is discarded.
Values outside the range of the target type are undefined in C++; the embedding
reduces them modulo `2^32`. -/
def floatToULong (x : ℚ) : Nat := (Int.toNat ⌊x⌋) % ULONG_MOD

/-! ## Binary32 arithmetic -/

/-- The product `x * 2^k` for an integer `k`. -/
def scale2 (x : ℚ) (k : Int) : ℚ :=
  if 0 ≤ k then x * ((2 ^ k.toNat : Nat) : ℚ) else x / ((2 ^ (-k).toNat : Nat) : ℚ)

/-- The number of halvings that take `n` below 2, at most `fuel` of them. -/
def halvings : Nat → Nat → Nat
  | 0, _ => 0
  | fuel + 1, n => if 2 ≤ n then halvings fuel (n / 2) + 1 else 0

/-- The binary exponent of a positive rational `a`: the integer `e` with
`2^e <= a < 2^(e+1)`. -/
def binaryExponent (a : ℚ) : Int :=
  let e0 : Int := (halvings a.num.toNat a.num.toNat : Int) - (halvings a.den a.den : Int)
  if scale2 1 e0 ≤ a then e0 else e0 - 1

/-- Rounding of a non-negative rational to the nearest integer, ties to the
even one. -/
def roundHalfEven (n : ℚ) : Int :=
  if n - (⌊n⌋ : ℚ) < 1 / 2 then ⌊n⌋
  else if n - (⌊n⌋ : ℚ) > 1 / 2 then ⌊n⌋ + 1
  else if ⌊n⌋ % 2 = 0 then ⌊n⌋ else ⌊n⌋ + 1

/-- The result of a `float` operation whose exact result is `x`: the nearest
binary32 value, ties to the even significand.  The significand has 24 bits and
the exponent is at least -126, so that small values are rounded to multiples of
`2^-149`.  Overflow to infinity is not part of the embedding: a value beyond
the largest `float` is rounded like the others. -/
def roundFloat (x : ℚ) : ℚ :=
  if x = 0 then 0
  else
    let e := max (binaryExponent |x|) (-126)
    let r := scale2 (roundHalfEven (scale2 |x| (23 - e)) : ℚ) (e - 23)
    if x < 0 then -r else r

/-! ## core/Types.h, config/Config.h -/

/-- Actuator type tag (`enum class ActuatorType`). -/
inductive ActuatorType where
  | WATER_PUMP
  | AIR_PUMP
  | DOSING_PUMP
  deriving DecidableEq, Repr

/-- Actuator state (`enum class ActuatorState`). -/
inductive ActuatorState where
  | IDLE
  | ACTIVE
  | COOLDOWN
  | ERROR
  | ACTUATOR_DISABLED
  deriving DecidableEq, Repr

/-- The JSON document `ActuatorConfig::scheduled`: whether it has any member
(`size() > 0`) and the three members the pumps read, each possibly missing. -/
structure ScheduledJson where
  nonEmpty : Bool
  enabled : Option Bool
  interval_minutes : Option Nat
  duration_seconds : Option Nat
  deriving DecidableEq

/-- Configuration record `struct ActuatorConfig`. -/
structure ActuatorConfig where
  enabled : Bool
  pin : Int
  type : String
  flow_rate_ml_per_sec : ℚ
  max_runtime_sec : Int
  cooldown_sec : Int
  scheduled : ScheduledJson
  substance : String
  concentration : String
  deriving DecidableEq

/-! ## BaseActuator and Pump -/

/-- Members of `BaseActuator` followed by the members of `Pump`, and the level
last written to the GPIO line. -/
structure Pump where
  actuator_id : String
  type : ActuatorType
  config : ActuatorConfig
  state : ActuatorState
  activation_start_time : Nat
  last_activation_end : Nat
  total_runtime_ms : Nat
  activation_count : Nat
  initialized : Bool
  last_error : String
  pin : Int
  flow_rate_ml_per_sec : ℚ
  planned_duration_ms : Nat
  gpio_high : Bool
  deriving DecidableEq

/-- Constructor `Pump::Pump(id, pump_type)`.  The members of `config` are not
set by the constructor; `cfg0` stands for their contents.  The GPIO line has
not been written yet and is taken as low. -/
def Pump.new (id : String) (pump_type : ActuatorType) (cfg0 : ActuatorConfig) : Pump :=
  { actuator_id := id
    type := pump_type
    config := cfg0
    state := ActuatorState.IDLE
    activation_start_time := 0
    last_activation_end := 0
    total_runtime_ms := 0
    activation_count := 0
    initialized := false
    last_error := ""
    pin := -1
    flow_rate_ml_per_sec := 0
    planned_duration_ms := 0
    gpio_high := false }

/-- The product `config.cooldown_sec * 1000UL`. -/
def Pump.cooldownMs (p : Pump) : Nat := umul (intToULong p.config.cooldown_sec) 1000

/-- The product `config.max_runtime_sec * 1000UL`. -/
def Pump.maxRuntimeMs (p : Pump) : Nat := umul (intToULong p.config.max_runtime_sec) 1000

/-- Getter `BaseActuator::isActive`. -/
def Pump.isActive (p : Pump) : Bool := decide (p.state = ActuatorState.ACTIVE)

/-- Method `BaseActuator::isInCooldown`. -/
def Pump.isInCooldown (p : Pump) (now : Nat) : Bool :=
  if p.last_activation_end = 0 then false
  else decide (usub now p.last_activation_end < p.cooldownMs)

/-- Method `BaseActuator::canActivate`. -/
def Pump.canActivate (p : Pump) (now : Nat) : Bool :=
  if p.initialized = false then false
  else if p.state ≠ ActuatorState.IDLE then false
  else if p.isInCooldown now = true then false
  else true

/-- Method `BaseActuator::getRemainingCooldown`. -/
def Pump.getRemainingCooldown (p : Pump) (now : Nat) : Nat :=
  if p.isInCooldown now = false then 0
  else usub p.cooldownMs (usub now p.last_activation_end)

/-- Method `BaseActuator::hasExceededMaxRuntime`. -/
def Pump.hasExceededMaxRuntime (p : Pump) (now : Nat) : Bool :=
  if p.state ≠ ActuatorState.ACTIVE then false
  else decide (usub now p.activation_start_time > p.maxRuntimeMs)

/-- Method `BaseActuator::setState`. -/
def Pump.setState (p : Pump) (new_state : ActuatorState) : Pump :=
  if p.state ≠ new_state then { p with state := new_state } else p

/-- Method `BaseActuator::logActivation`. -/
def Pump.logActivation (p : Pump) (now : Nat) : Pump :=
  { p with activation_start_time := now
           activation_count := uadd p.activation_count 1 }

/-- Method `BaseActuator::logDeactivation`. -/
def Pump.logDeactivation (p : Pump) (now : Nat) : Pump :=
  let p1 :=
    if p.activation_start_time > 0 then
      { p with total_runtime_ms := uadd p.total_runtime_ms (usub now p.activation_start_time)
               last_activation_end := now }
    else p
  { p1 with activation_start_time := 0 }

/-- Method `BaseActuator::validateActivationRequest`. -/
def Pump.validateActivationRequest (p : Pump) (now duration_ms : Nat) : Bool :=
  if p.initialized = false then false
  else if p.config.enabled = false then false
  else if p.state = ActuatorState.ACTIVE then false
  else if p.isInCooldown now = true then false
  else if duration_ms > p.maxRuntimeMs then false
  else true

/-- Method `BaseActuator::isHealthy`. -/
def Pump.isHealthy (p : Pump) (now : Nat) : Bool :=
  if p.initialized = false then false
  else if p.state = ActuatorState.ERROR then false
  else if p.config.enabled = false then false
  else if p.state = ActuatorState.ACTIVE ∧ p.hasExceededMaxRuntime now = true then false
  else true

/-- Method `Pump::init`. -/
def Pump.init (p : Pump) (actuator_config : ActuatorConfig) : Bool × Pump :=
  let p1 := { p with config := actuator_config
                     pin := actuator_config.pin
                     flow_rate_ml_per_sec := actuator_config.flow_rate_ml_per_sec
                     gpio_high := false
                     initialized := true }
  (true, p1.setState ActuatorState.IDLE)

/-- Method `Pump::hardwareActivate`: drives the line high and reports success. -/
def Pump.hardwareActivate (p : Pump) : Bool × Pump := (true, { p with gpio_high := true })

/-- Method `Pump::hardwareDeactivate`: drives the line low and reports success. -/
def Pump.hardwareDeactivate (p : Pump) : Bool × Pump := (true, { p with gpio_high := false })

/-- Method `Pump::activate`. -/
def Pump.activate (p : Pump) (now duration_ms : Nat) : Bool × Pump :=
  if p.validateActivationRequest now duration_ms = false then (false, p)
  else
    let p1 := { p with planned_duration_ms := duration_ms }
    let hw := p1.hardwareActivate
    if hw.1 = true then
      (true, (hw.2.setState ActuatorState.ACTIVE).logActivation now)
    else
      (false, { hw.2.setState ActuatorState.ERROR with last_error := "Hardware activation failed" })

/-- Method `Pump::deactivate`. -/
def Pump.deactivate (p : Pump) (now : Nat) : Bool × Pump :=
  if p.state ≠ ActuatorState.ACTIVE then (false, p)
  else
    let hw := p.hardwareDeactivate
    if hw.1 = true then
      (true, { (hw.2.setState ActuatorState.IDLE).logDeactivation now with planned_duration_ms := 0 })
    else
      (false, { hw.2.setState ActuatorState.ERROR with last_error := "Hardware deactivation failed" })

/-- Method `Pump::checkAutoDeactivation`. -/
def Pump.checkAutoDeactivation (p : Pump) (now : Nat) : Pump :=
  let reached : Bool :=
    if p.planned_duration_ms > 0 then
      decide (usub now p.activation_start_time ≥ p.planned_duration_ms)
    else false
  if reached = true then (p.deactivate now).2
  else if p.hasExceededMaxRuntime now = true then
    let p1 := (p.deactivate now).2
    { p1.setState ActuatorState.ERROR with last_error := "Max runtime exceeded" }
  else p

/-- Method `Pump::loop`. -/
def Pump.loop (p : Pump) (now : Nat) : Pump :=
  let p1 := if p.state = ActuatorState.ACTIVE then p.checkAutoDeactivation now else p
  if p1.state = ActuatorState.IDLE ∧ p1.last_activation_end > 0 then
    if p1.isInCooldown now = true ∧ p1.state ≠ ActuatorState.COOLDOWN then
      p1.setState ActuatorState.COOLDOWN
    else if p1.isInCooldown now = false ∧ p1.state = ActuatorState.COOLDOWN then
      p1.setState ActuatorState.IDLE
    else p1
  else p1

/-- Method `Pump::calculateDurationForVolume` (a `float`, in milliseconds).
The quotient is a `float` division; the product with the `double` 1000.0 is
exact and is rounded when it is returned as a `float`. -/
def Pump.calculateDurationForVolume (p : Pump) (volume_ml : ℚ) : ℚ :=
  if p.flow_rate_ml_per_sec ≤ 0 then 0
  else
    let duration_sec := roundFloat (volume_ml / p.flow_rate_ml_per_sec)
    roundFloat (duration_sec * 1000)

/-- Method `Pump::calculateVolumeForDuration`.  The quotient by the `double`
1000.0 is rounded when it is stored in the `float duration_sec`. -/
def Pump.calculateVolumeForDuration (p : Pump) (duration_ms : Nat) : ℚ :=
  if p.flow_rate_ml_per_sec ≤ 0 then 0
  else
    let duration_sec : ℚ := roundFloat ((duration_ms : ℚ) / 1000)
    roundFloat (p.flow_rate_ml_per_sec * duration_sec)

/-- The local `unsigned long duration_ms` of `Pump::dose`: the `float` returned by
`calculateDurationForVolume`, converted to `unsigned long`. -/
def Pump.doseDurationMs (p : Pump) (volume_ml : ℚ) : Nat :=
  floatToULong (p.calculateDurationForVolume volume_ml)

/-- Method `Pump::dose`. -/
def Pump.dose (p : Pump) (now : Nat) (volume_ml : ℚ) : Bool × Pump :=
  if p.flow_rate_ml_per_sec ≤ 0 then (false, p)
  else p.activate now (p.doseDurationMs volume_ml)

/-! ## DosingPump -/

/-- Members of `DosingPump` on top of `Pump`. -/
structure DosingPump extends Pump where
  substance : String
  concentration : String
  max_dose_ml : ℚ
  last_dose_time : Nat
  total_volume_dispensed_ml : ℚ
  deriving DecidableEq

/-- Constructor `DosingPump::DosingPump(id)`. -/
def DosingPump.new (id : String) (cfg0 : ActuatorConfig) : DosingPump :=
  { toPump := Pump.new id ActuatorType.DOSING_PUMP cfg0
    substance := ""
    concentration := ""
    max_dose_ml := 50
    last_dose_time := 0
    total_volume_dispensed_ml := 0 }

/-- Method `DosingPump::init`. -/
def DosingPump.init (d : DosingPump) (actuator_config : ActuatorConfig) : Bool × DosingPump :=
  let base := d.toPump.init actuator_config
  if base.1 = false then (false, { d with toPump := base.2 })
  else
    let p := base.2
    let substance := if actuator_config.substance.length > 0 then actuator_config.substance else "Unknown"
    let concentration :=
      if actuator_config.concentration.length > 0 then actuator_config.concentration else "100%"
    (true, { d with toPump := p
                    substance := substance
                    concentration := concentration
                    max_dose_ml := p.flow_rate_ml_per_sec * (p.config.max_runtime_sec : ℚ) })

/-- Method `DosingPump::validateDoseRequest`. -/
def DosingPump.validateDoseRequest (d : DosingPump) (now : Nat) (volume_ml : ℚ) : Bool :=
  if d.initialized = false then false
  else if volume_ml ≤ 0 then false
  else if volume_ml > d.max_dose_ml then false
  else if d.toPump.isInCooldown now = true then false
  else if d.state = ActuatorState.ACTIVE then false
  else true

/-- Method `DosingPump::canDose`. -/
def DosingPump.canDose (d : DosingPump) (now : Nat) (volume_ml : ℚ) : Bool :=
  d.validateDoseRequest now volume_ml

/-- Method `DosingPump::logDose`. -/
def DosingPump.logDose (d : DosingPump) (now : Nat) (volume_ml : ℚ) : DosingPump :=
  { d with total_volume_dispensed_ml := d.total_volume_dispensed_ml + volume_ml
           last_dose_time := now }

/-- Method `DosingPump::dose`. -/
def DosingPump.dose (d : DosingPump) (now : Nat) (volume_ml : ℚ) : Bool × DosingPump :=
  if d.validateDoseRequest now volume_ml = false then (false, d)
  else
    let r := d.toPump.dose now volume_ml
    if r.1 = true then (true, ({ d with toPump := r.2 }).logDose now volume_ml)
    else (false, { d with toPump := r.2 })

/-! ## WaterPump and AirPump -/

/-- Members of `WaterPump` on top of `Pump`. -/
structure WaterPump extends Pump where
  scheduled_enabled : Bool
  schedule_interval_ms : Nat
  schedule_duration_ms : Nat
  last_scheduled_activation : Nat
  deriving DecidableEq

/-- Constructor `WaterPump::WaterPump()`. -/
def WaterPump.new (cfg0 : ActuatorConfig) : WaterPump :=
  { toPump := Pump.new "water_pump" ActuatorType.WATER_PUMP cfg0
    scheduled_enabled := false
    schedule_interval_ms := 0
    schedule_duration_ms := 0
    last_scheduled_activation := 0 }

/-- Method `WaterPump::setSchedule`. -/
def WaterPump.setSchedule (w : WaterPump) (interval_minutes duration_seconds : Nat) :
    Bool × WaterPump :=
  if interval_minutes = 0 ∨ duration_seconds = 0 then (false, w)
  else
    (true, { w with schedule_interval_ms := umul interval_minutes 60000
                    schedule_duration_ms := umul duration_seconds 1000
                    scheduled_enabled := true
                    last_scheduled_activation := 0 })

/-- Method `WaterPump::cancelSchedule`. -/
def WaterPump.cancelSchedule (w : WaterPump) : Bool × WaterPump :=
  (true, { w with scheduled_enabled := false
                  schedule_interval_ms := 0
                  schedule_duration_ms := 0
                  last_scheduled_activation := 0 })

/-- Method `WaterPump::init`. -/
def WaterPump.init (w : WaterPump) (actuator_config : ActuatorConfig) : Bool × WaterPump :=
  let base := w.toPump.init actuator_config
  if base.1 = false then (false, { w with toPump := base.2 })
  else
    let w1 : WaterPump := { w with toPump := base.2 }
    let w2 :=
      if actuator_config.scheduled.nonEmpty = true then
        if actuator_config.scheduled.enabled.getD false = true then
          (w1.setSchedule (actuator_config.scheduled.interval_minutes.getD 30)
            (actuator_config.scheduled.duration_seconds.getD 120)).2
        else w1
      else w1
    (true, w2)

/-- Method `WaterPump::shouldActivateScheduled`. -/
def WaterPump.shouldActivateScheduled (w : WaterPump) (now : Nat) : Bool :=
  if w.scheduled_enabled = false then false
  else if w.last_scheduled_activation = 0 then true
  else decide (usub now w.last_scheduled_activation ≥ w.schedule_interval_ms)

/-- Method `WaterPump::checkScheduledActivation`. -/
def WaterPump.checkScheduledActivation (w : WaterPump) (now : Nat) : WaterPump :=
  if w.scheduled_enabled = false ∨ w.state = ActuatorState.ACTIVE then w
  else if w.shouldActivateScheduled now = true then
    let r := w.toPump.activate now w.schedule_duration_ms
    if r.1 = true then { w with toPump := r.2, last_scheduled_activation := now }
    else { w with toPump := r.2 }
  else w

/-- Method `WaterPump::loop`. -/
def WaterPump.loop (w : WaterPump) (now : Nat) : WaterPump :=
  let w1 : WaterPump := { w with toPump := w.toPump.loop now }
  if w1.scheduled_enabled = true then w1.checkScheduledActivation now else w1

/-- Members of `AirPump` on top of `Pump`. -/
structure AirPump extends Pump where
  scheduled_enabled : Bool
  schedule_interval_ms : Nat
  schedule_duration_ms : Nat
  last_scheduled_activation : Nat
  deriving DecidableEq

/-- Constructor `AirPump::AirPump()`. -/
def AirPump.new (cfg0 : ActuatorConfig) : AirPump :=
  { toPump := Pump.new "air_pump" ActuatorType.AIR_PUMP cfg0
    scheduled_enabled := false
    schedule_interval_ms := 0
    schedule_duration_ms := 0
    last_scheduled_activation := 0 }

/-- Method `AirPump::setSchedule`. -/
def AirPump.setSchedule (w : AirPump) (interval_minutes duration_seconds : Nat) :
    Bool × AirPump :=
  if interval_minutes = 0 ∨ duration_seconds = 0 then (false, w)
  else
    (true, { w with schedule_interval_ms := umul interval_minutes 60000
                    schedule_duration_ms := umul duration_seconds 1000
                    scheduled_enabled := true
                    last_scheduled_activation := 0 })

/-- Method `AirPump::cancelSchedule`. -/
def AirPump.cancelSchedule (w : AirPump) : Bool × AirPump :=
  (true, { w with scheduled_enabled := false
                  schedule_interval_ms := 0
                  schedule_duration_ms := 0
                  last_scheduled_activation := 0 })

/-- Method `AirPump::init`. -/
def AirPump.init (w : AirPump) (actuator_config : ActuatorConfig) : Bool × AirPump :=
  let base := w.toPump.init actuator_config
  if base.1 = false then (false, { w with toPump := base.2 })
  else
    let w1 : AirPump := { w with toPump := base.2 }
    let w2 :=
      if actuator_config.scheduled.nonEmpty = true then
        if actuator_config.scheduled.enabled.getD false = true then
          (w1.setSchedule (actuator_config.scheduled.interval_minutes.getD 15)
            (actuator_config.scheduled.duration_seconds.getD 300)).2
        else w1
      else w1
    (true, w2)

/-- Method `AirPump::shouldActivateScheduled`. -/
def AirPump.shouldActivateScheduled (w : AirPump) (now : Nat) : Bool :=
  if w.scheduled_enabled = false then false
  else if w.last_scheduled_activation = 0 then true
  else decide (usub now w.last_scheduled_activation ≥ w.schedule_interval_ms)

/-- Method `AirPump::checkScheduledActivation`. -/
def AirPump.checkScheduledActivation (w : AirPump) (now : Nat) : AirPump :=
  if w.scheduled_enabled = false ∨ w.state = ActuatorState.ACTIVE then w
  else if w.shouldActivateScheduled now = true then
    let r := w.toPump.activate now w.schedule_duration_ms
    if r.1 = true then { w with toPump := r.2, last_scheduled_activation := now }
    else { w with toPump := r.2 }
  else w

/-- Method `AirPump::loop`. -/
def AirPump.loop (w : AirPump) (now : Nat) : AirPump :=
  let w1 : AirPump := { w with toPump := w.toPump.loop now }
  if w1.scheduled_enabled = true then w1.checkScheduledActivation now else w1

/-! ## ActuatorManager -/

/-- An object behind a `BaseActuator*`: one of the three concrete classes. -/
inductive Actuator where
  | water (w : WaterPump)
  | air (a : AirPump)
  | dosing (d : DosingPump)
  deriving DecidableEq

/-- The `Pump` part of an actuator. -/
def Actuator.toPump : Actuator → Pump
  | Actuator.water w => w.toPump
  | Actuator.air a => a.toPump
  | Actuator.dosing d => d.toPump

/-- Replaces the `Pump` part of an actuator. -/
def Actuator.withPump : Actuator → Pump → Actuator
  | Actuator.water w, p => Actuator.water { w with toPump := p }
  | Actuator.air a, p => Actuator.air { a with toPump := p }
  | Actuator.dosing d, p => Actuator.dosing { d with toPump := p }

/-- Getter `BaseActuator::getId`. -/
def Actuator.getId (a : Actuator) : String := a.toPump.actuator_id

/-- Getter `BaseActuator::getType`. -/
def Actuator.getType (a : Actuator) : ActuatorType := a.toPump.type

/-- Getter `BaseActuator::getState`. -/
def Actuator.getState (a : Actuator) : ActuatorState := a.toPump.state

/-- Getter `BaseActuator::isActive`. -/
def Actuator.isActive (a : Actuator) : Bool := a.toPump.isActive

/-- Virtual call `activate`: `Pump::activate` in all three classes. -/
def Actuator.activate (a : Actuator) (now duration_ms : Nat) : Bool × Actuator :=
  let r := a.toPump.activate now duration_ms
  (r.1, a.withPump r.2)

/-- Virtual call `deactivate`: `Pump::deactivate` in all three classes. -/
def Actuator.deactivate (a : Actuator) (now : Nat) : Bool × Actuator :=
  let r := a.toPump.deactivate now
  (r.1, a.withPump r.2)

/-- Virtual call `loop`. -/
def Actuator.loop : Actuator → Nat → Actuator
  | Actuator.water w, now => Actuator.water (w.loop now)
  | Actuator.air a, now => Actuator.air (a.loop now)
  | Actuator.dosing d, now => Actuator.dosing { d with toPump := d.toPump.loop now }

/-- Members of `ActuatorManager`.  The `std::map` is the list of its entries
in key order. -/
structure ActuatorManager where
  actuators : List (String × Actuator)
  emergency_stop_active : Bool
  emergency_stop_reason : String
  initialized : Bool
  deriving DecidableEq

/-- The part of `Config` read by the manager. -/
structure Config where
  water_pump : ActuatorConfig
  air_pump : ActuatorConfig
  dosing_pumps : Fin 5 → ActuatorConfig

/-- Constructor `ActuatorManager::ActuatorManager()`. -/
def ActuatorManager.new : ActuatorManager :=
  { actuators := []
    emergency_stop_active := false
    emergency_stop_reason := ""
    initialized := false }

/-- Assignment `actuators[id] = value` on the map, whose keys are ordered
character by character. -/
def mapAssign (id : String) (value : Actuator) :
    List (String × Actuator) → List (String × Actuator)
  | [] => [(id, value)]
  | (k, v) :: rest =>
    if id = k then (id, value) :: rest
    else if id.data < k.data then (id, value) :: (k, v) :: rest
    else (k, v) :: mapAssign id value rest

/-- Lookup `actuators.find(id)`. -/
def mapFind (id : String) : List (String × Actuator) → Option Actuator
  | [] => none
  | (k, v) :: rest => if id = k then some v else mapFind id rest

/-- Write through the pointer returned by a lookup of `id`. -/
def mapUpdate (id : String) (value : Actuator) :
    List (String × Actuator) → List (String × Actuator)
  | [] => []
  | (k, v) :: rest => if id = k then (k, value) :: rest else (k, v) :: mapUpdate id value rest

/-- Method `ActuatorManager::addActuator` (for a non-null actuator). -/
def ActuatorManager.addActuator (m : ActuatorManager) (actuator : Actuator) :
    Bool × ActuatorManager :=
  (true, { m with actuators := mapAssign actuator.getId actuator m.actuators })

/-- Method `ActuatorManager::getActuator`. -/
def ActuatorManager.getActuator (m : ActuatorManager) (actuator_id : String) : Option Actuator :=
  mapFind actuator_id m.actuators

/-- Method `ActuatorManager::getDosingPump`. -/
def ActuatorManager.getDosingPump (m : ActuatorManager) (pump_id : String) : Option DosingPump :=
  match m.getActuator pump_id with
  | some (Actuator.dosing d) => if d.type = ActuatorType.DOSING_PUMP then some d else none
  | _ => none

/-- Method `ActuatorManager::validateActuatorOperation`. -/
def ActuatorManager.validateActuatorOperation (m : ActuatorManager) (_actuator_id : String) : Bool :=
  if m.emergency_stop_active = true then false
  else if m.initialized = false then false
  else true

/-- Method `ActuatorManager::activateActuator`. -/
def ActuatorManager.activateActuator (m : ActuatorManager) (now : Nat) (actuator_id : String)
    (duration_ms : Nat) : Bool × ActuatorManager :=
  if m.validateActuatorOperation actuator_id = false then (false, m)
  else
    match m.getActuator actuator_id with
    | none => (false, m)
    | some actuator =>
      let r := actuator.activate now duration_ms
      (r.1, { m with actuators := mapUpdate actuator_id r.2 m.actuators })

/-- Method `ActuatorManager::deactivateActuator`. -/
def ActuatorManager.deactivateActuator (m : ActuatorManager) (now : Nat) (actuator_id : String) :
    Bool × ActuatorManager :=
  match m.getActuator actuator_id with
  | none => (false, m)
  | some actuator =>
    let r := actuator.deactivate now
    (r.1, { m with actuators := mapUpdate actuator_id r.2 m.actuators })

/-- The loop of `ActuatorManager::stopAllActuators` over the map entries:
the flag `all_stopped` and the entries after the loop. -/
def stopAllEntries (now : Nat) : List (String × Actuator) → Bool × List (String × Actuator)
  | [] => (true, [])
  | (k, a) :: rest =>
    let r := if a.isActive = true then a.deactivate now else (true, a)
    let rs := stopAllEntries now rest
    (r.1 && rs.1, (k, r.2) :: rs.2)

/-- Method `ActuatorManager::stopAllActuators`. -/
def ActuatorManager.stopAllActuators (m : ActuatorManager) (now : Nat) : Bool × ActuatorManager :=
  let r := stopAllEntries now m.actuators
  (r.1, { m with actuators := r.2 })

/-- Method `ActuatorManager::dose`. -/
def ActuatorManager.dose (m : ActuatorManager) (now : Nat) (pump_id : String) (volume_ml : ℚ) :
    Bool × ActuatorManager :=
  if m.validateActuatorOperation pump_id = false then (false, m)
  else
    match m.getDosingPump pump_id with
    | none => (false, m)
    | some pump =>
      let r := pump.dose now volume_ml
      (r.1, { m with actuators := mapUpdate pump_id (Actuator.dosing r.2) m.actuators })

/-- Method `ActuatorManager::canDose`. -/
def ActuatorManager.canDose (m : ActuatorManager) (now : Nat) (pump_id : String) (volume_ml : ℚ) :
    Bool :=
  match m.getDosingPump pump_id with
  | none => false
  | some pump => pump.canDose now volume_ml

/-- Method `ActuatorManager::setSchedule`. -/
def ActuatorManager.setSchedule (m : ActuatorManager) (actuator_id : String)
    (interval_minutes duration_seconds : Nat) : Bool × ActuatorManager :=
  match m.getActuator actuator_id with
  | none => (false, m)
  | some actuator =>
    if actuator.getType = ActuatorType.WATER_PUMP then
      match actuator with
      | Actuator.water w =>
        let r := w.setSchedule interval_minutes duration_seconds
        (r.1, { m with actuators := mapUpdate actuator_id (Actuator.water r.2) m.actuators })
      | _ => (false, m)
    else if actuator.getType = ActuatorType.AIR_PUMP then
      match actuator with
      | Actuator.air a =>
        let r := a.setSchedule interval_minutes duration_seconds
        (r.1, { m with actuators := mapUpdate actuator_id (Actuator.air r.2) m.actuators })
      | _ => (false, m)
    else (false, m)

/-- Method `ActuatorManager::cancelSchedule`. -/
def ActuatorManager.cancelSchedule (m : ActuatorManager) (actuator_id : String) :
    Bool × ActuatorManager :=
  match m.getActuator actuator_id with
  | none => (false, m)
  | some actuator =>
    if actuator.getType = ActuatorType.WATER_PUMP then
      match actuator with
      | Actuator.water w =>
        let r := w.cancelSchedule
        (r.1, { m with actuators := mapUpdate actuator_id (Actuator.water r.2) m.actuators })
      | _ => (false, m)
    else if actuator.getType = ActuatorType.AIR_PUMP then
      match actuator with
      | Actuator.air a =>
        let r := a.cancelSchedule
        (r.1, { m with actuators := mapUpdate actuator_id (Actuator.air r.2) m.actuators })
      | _ => (false, m)
    else (false, m)

/-- Method `ActuatorManager::emergencyStop`. -/
def ActuatorManager.emergencyStop (m : ActuatorManager) (now : Nat) (reason : String) :
    ActuatorManager :=
  let m1 := { m with emergency_stop_active := true, emergency_stop_reason := reason }
  (m1.stopAllActuators now).2

/-- Method `ActuatorManager::clearEmergencyStop`. -/
def ActuatorManager.clearEmergencyStop (m : ActuatorManager) : ActuatorManager :=
  if m.emergency_stop_active = true then
    { m with emergency_stop_active := false, emergency_stop_reason := "" }
  else m

/-- Method `ActuatorManager::loop`. -/
def ActuatorManager.loop (m : ActuatorManager) (now : Nat) : ActuatorManager :=
  if m.initialized = false then m
  else { m with actuators := m.actuators.map (fun pair => (pair.1, pair.2.loop now)) }

/-- The ids `pump_ids[]` of `ActuatorManager::createDosingPumps`. -/
def pump_ids : Fin 5 → String
  | 0 => "ph_down"
  | 1 => "ph_up"
  | 2 => "nutrient_a"
  | 3 => "nutrient_b"
  | 4 => "cal_mag"

/-- Method `ActuatorManager::createDosingPumps`.  `cfg0` stands for the contents
of the configuration members of a pump before `init`. -/
def ActuatorManager.createDosingPumps (m : ActuatorManager) (config : Config)
    (cfg0 : ActuatorConfig) : ActuatorManager :=
  (List.finRange 5).foldl
    (fun acc i =>
      if (config.dosing_pumps i).enabled = true then
        let r := (DosingPump.new (pump_ids i) cfg0).init (config.dosing_pumps i)
        if r.1 = true then (acc.addActuator (Actuator.dosing r.2)).2 else acc
      else acc)
    m

/-- Method `ActuatorManager::initializeActuators`. -/
def ActuatorManager.initializeActuators (m : ActuatorManager) (config : Config)
    (cfg0 : ActuatorConfig) : ActuatorManager :=
  let m1 :=
    if config.water_pump.enabled = true then
      let r := (WaterPump.new cfg0).init config.water_pump
      if r.1 = true then (m.addActuator (Actuator.water r.2)).2 else m
    else m
  let m2 :=
    if config.air_pump.enabled = true then
      let r := (AirPump.new cfg0).init config.air_pump
      if r.1 = true then (m1.addActuator (Actuator.air r.2)).2 else m1
    else m1
  m2.createDosingPumps config cfg0

/-- Method `ActuatorManager::init`. -/
def ActuatorManager.init (m : ActuatorManager) (config : Config) (cfg0 : ActuatorConfig) :
    Bool × ActuatorManager :=
  (true, { m.initializeActuators config cfg0 with initialized := true })

/-! ## Call sequences -/

/-- A call on a pump through its public interface. -/
inductive PumpOp where
  | activate (duration_ms : Nat)
  | deactivate
  | dose (volume_ml : ℚ)
  | loop

/-- The pump after one call made at clock value `now`. -/
def Pump.step (p : Pump) (now : Nat) : PumpOp → Pump
  | PumpOp.activate duration_ms => (p.activate now duration_ms).2
  | PumpOp.deactivate => (p.deactivate now).2
  | PumpOp.dose volume_ml => (p.dose now volume_ml).2
  | PumpOp.loop => p.loop now

/-- The pump after a sequence of calls, each with its own clock value. -/
def Pump.run (p : Pump) : List (Nat × PumpOp) → Pump
  | [] => p
  | (now, op) :: rest => (p.step now op).run rest

/-- A call on the manager through its public interface. -/
inductive ManagerOp where
  | init (config : Config) (cfg0 : ActuatorConfig)
  | addActuator (actuator : Actuator)
  | activateActuator (actuator_id : String) (duration_ms : Nat)
  | deactivateActuator (actuator_id : String)
  | stopAllActuators
  | dose (pump_id : String) (volume_ml : ℚ)
  | setSchedule (actuator_id : String) (interval_minutes duration_seconds : Nat)
  | cancelSchedule (actuator_id : String)
  | emergencyStop (reason : String)
  | clearEmergencyStop
  | loop

/-- The manager after one call made at clock value `now`. -/
def ActuatorManager.step (m : ActuatorManager) (now : Nat) : ManagerOp → ActuatorManager
  | ManagerOp.init config cfg0 => (m.init config cfg0).2
  | ManagerOp.addActuator actuator => (m.addActuator actuator).2
  | ManagerOp.activateActuator actuator_id duration_ms =>
    (m.activateActuator now actuator_id duration_ms).2
  | ManagerOp.deactivateActuator actuator_id => (m.deactivateActuator now actuator_id).2
  | ManagerOp.stopAllActuators => (m.stopAllActuators now).2
  | ManagerOp.dose pump_id volume_ml => (m.dose now pump_id volume_ml).2
  | ManagerOp.setSchedule actuator_id interval_minutes duration_seconds =>
    (m.setSchedule actuator_id interval_minutes duration_seconds).2
  | ManagerOp.cancelSchedule actuator_id => (m.cancelSchedule actuator_id).2
  | ManagerOp.emergencyStop reason => m.emergencyStop now reason
  | ManagerOp.clearEmergencyStop => m.clearEmergencyStop
  | ManagerOp.loop => m.loop now

/-- The manager after a sequence of calls, each with its own clock value. -/
def ActuatorManager.run (m : ActuatorManager) : List (Nat × ManagerOp) → ActuatorManager
  | [] => m
  | (now, op) :: rest => (m.step now op).run rest

/-- Whether a call is `clearEmergencyStop()`. -/
def ManagerOp.isClear : ManagerOp → Bool
  | ManagerOp.clearEmergencyStop => true
  | _ => false

/-- The dosing pump after one call made at clock value `now`; `dose` is the
override `DosingPump::dose`, the other calls are inherited from `Pump`. -/
def DosingPump.step (d : DosingPump) (now : Nat) : PumpOp → DosingPump
  | PumpOp.activate duration_ms => { d with toPump := (d.toPump.activate now duration_ms).2 }
  | PumpOp.deactivate => { d with toPump := (d.toPump.deactivate now).2 }
  | PumpOp.dose volume_ml => (d.dose now volume_ml).2
  | PumpOp.loop => { d with toPump := d.toPump.loop now }

/-- The dosing pump after a sequence of calls, each with its own clock value. -/
def DosingPump.run (d : DosingPump) : List (Nat × PumpOp) → DosingPump
  | [] => d
  | (now, op) :: rest => (d.step now op).run rest

/-- Rounding to the nearest integer, halves upwards: the `round` of the
dosing duration law as the specification words it. -/
def roundNearest (x : ℚ) : Int := ⌊x + 1 / 2⌋

/-! ## Concrete configurations used in the examples -/

/-- A pump configuration: enabled, 300 s maximum runtime, 60 s cooldown. -/
def exampleConfig : ActuatorConfig :=
  { enabled := true
    pin := 5
    type := "pump"
    flow_rate_ml_per_sec := 50
    max_runtime_sec := 300
    cooldown_sec := 60
    scheduled := { nonEmpty := false, enabled := none, interval_minutes := none,
                   duration_seconds := none }
    substance := ""
    concentration := "" }

/-- A dosing configuration with the given flow rate: enabled, 60 s maximum
runtime, 300 s cooldown. -/
def exampleDosingConfig (flow : ℚ) : ActuatorConfig :=
  { enabled := true
    pin := 12
    type := "dosing"
    flow_rate_ml_per_sec := flow
    max_runtime_sec := 60
    cooldown_sec := 300
    scheduled := { nonEmpty := false, enabled := none, interval_minutes := none,
                   duration_seconds := none }
    substance := "pH Down"
    concentration := "10%" }

/-- A freshly initialised pump with `exampleConfig`. -/
def examplePump : Pump :=
  ((Pump.new "water_pump" ActuatorType.WATER_PUMP exampleConfig).init exampleConfig).2

/-- A freshly initialised dosing pump with the given flow rate. -/
def exampleDosingPump (flow : ℚ) : DosingPump :=
  ((DosingPump.new "ph_down" (exampleDosingConfig flow)).init (exampleDosingConfig flow)).2

/-- Whether a call on the pump is an `activate` or `dose` that the pump accepts
(the call returns true). -/
def Pump.accepts (p : Pump) (now : Nat) : PumpOp → Bool
  | PumpOp.activate duration_ms => (p.activate now duration_ms).1
  | PumpOp.dose volume_ml => (p.dose now volume_ml).1
  | PumpOp.deactivate => false
  | PumpOp.loop => false

/-- The pump after a sequence of calls, as long as no `activate` or `dose` of
the sequence is accepted: `none` as soon as one is. -/
def Pump.runRejected (p : Pump) : List (Nat × PumpOp) → Option Pump
  | [] => some p
  | (now, op) :: rest =>
    if p.accepts now op = true then none else (p.step now op).runRejected rest

/-- The example pump driven into Error: activated with duration 0 at 1 ms and
polled at 300002 ms, after more than the 300 s maximum runtime. -/
def exampleErrorPump : Pump :=
  examplePump.run [(1, PumpOp.activate 0), (300002, PumpOp.loop)]

/-- A device configuration: water pump and air pump enabled with
`exampleConfig` and no schedule, all five dosing pumps disabled. -/
def exampleDeviceConfig : Config :=
  { water_pump := exampleConfig
    air_pump := exampleConfig
    dosing_pumps := fun _ => { exampleDosingConfig 1 with enabled := false } }

/-- A manager initialised with `exampleDeviceConfig` and then driven through
these calls: the air pump is activated for 1000 ms and the water pump with
duration 0, both at 1 ms; the air pump is deactivated at 500 ms; the manager
is polled at 600 ms (the air pump is in its cooldown) and at 300002 ms (the
water pump has run longer than its maximum runtime). -/
def exampleManager : ActuatorManager :=
  (ActuatorManager.new.init exampleDeviceConfig exampleConfig).2.run
    [(1, ManagerOp.activateActuator "air_pump" 1000),
     (1, ManagerOp.activateActuator "water_pump" 0),
     (500, ManagerOp.deactivateActuator "air_pump"),
     (600, ManagerOp.loop),
     (300002, ManagerOp.loop)]

/-! ## sensors/calibration -/

/-- One element of the JSON array `points`: the members a calibration reads,
each a number or missing. -/
structure JsonPoint where
  raw : Option ℚ
  value : Option ℚ
  ph : Option ℚ
  tds : Option ℚ
  deriving DecidableEq

/-- The expression `point["raw"] | 0.0`. -/
def JsonPoint.rawOrDefault (point : JsonPoint) : ℚ := point.raw.getD 0

/-- The expression `point["value"] | point["ph"] | point["tds"] | 0.0`. -/
def JsonPoint.valueOrDefault (point : JsonPoint) : ℚ :=
  ((point.value.orElse fun _ => point.ph).orElse fun _ => point.tds).getD 0

/-- The part of a calibration JSON object read by `loadFromJson`: a member is
`none` when the key is missing; a present `slope` or `offset` that is not a
number is `some none`. -/
structure CalibrationJson where
  slope : Option (Option ℚ)
  offset : Option (Option ℚ)
  points : Option (List JsonPoint)
  deriving DecidableEq

/-- Members of `LinearCalibration`. -/
structure LinearCalibration where
  slope : ℚ
  offset : ℚ
  valid : Bool
  deriving DecidableEq

/-- Constructor `LinearCalibration::LinearCalibration()`. -/
def LinearCalibration.new : LinearCalibration := { slope := 1, offset := 0, valid := false }

/-- Method `LinearCalibration::calibrate`. -/
def LinearCalibration.calibrate (c : LinearCalibration) (raw_value : ℚ) : ℚ :=
  if c.valid = false then raw_value
  else c.slope * raw_value + c.offset

/-- Getter `LinearCalibration::isValid`. -/
def LinearCalibration.isValid (c : LinearCalibration) : Bool := c.valid

/-- Method `LinearCalibration::setTwoPoints`. -/
def LinearCalibration.setTwoPoints (c : LinearCalibration) (raw1 value1 raw2 value2 : ℚ) :
    Bool × LinearCalibration :=
  if |raw2 - raw1| < 1 / 1000 then (false, { c with valid := false })
  else
    let slope := (value2 - value1) / (raw2 - raw1)
    let offset := value1 - slope * raw1
    (true, { slope := slope, offset := offset, valid := true })

/-- Method `LinearCalibration::setParameters`. -/
def LinearCalibration.setParameters (_c : LinearCalibration) (new_slope new_offset : ℚ) :
    LinearCalibration :=
  { slope := new_slope, offset := new_offset, valid := true }

/-- Method `LinearCalibration::loadFromJson`. -/
def LinearCalibration.loadFromJson (c : LinearCalibration) (calibration_data : CalibrationJson) :
    Bool × LinearCalibration :=
  match calibration_data.slope, calibration_data.offset with
  | some slope, some offset =>
    (true, { slope := slope.getD 1, offset := offset.getD 0, valid := true })
  | _, _ =>
    match calibration_data.points with
    | some (p0 :: p1 :: _) =>
      c.setTwoPoints p0.rawOrDefault p0.valueOrDefault p1.rawOrDefault p1.valueOrDefault
    | _ => (false, { c with valid := false })

/-- The nested `struct CalibrationPoint`. -/
structure CalibrationPoint where
  raw : ℚ
  value : ℚ
  deriving DecidableEq

/-- Members of `MultiPointCalibration`. -/
structure MultiPointCalibration where
  points : List CalibrationPoint
  valid : Bool
  deriving DecidableEq

/-- Constructor `MultiPointCalibration::MultiPointCalibration()`. -/
def MultiPointCalibration.new : MultiPointCalibration := { points := [], valid := false }

/-- Getter `MultiPointCalibration::isValid`. -/
def MultiPointCalibration.isValid (c : MultiPointCalibration) : Bool :=
  c.valid && decide (c.points.length ≥ 2)

/-- Getter `MultiPointCalibration::getPointCount`. -/
def MultiPointCalibration.getPointCount (c : MultiPointCalibration) : Nat := c.points.length

/-- Method `MultiPointCalibration::addPoint`. -/
def MultiPointCalibration.addPoint (c : MultiPointCalibration) (raw value : ℚ) :
    Bool × MultiPointCalibration :=
  if c.points.any (fun point => decide (|point.raw - raw| < 1 / 1000)) = true then (false, c)
  else (true, { c with points := c.points ++ [{ raw := raw, value := value }] })

/-- Method `MultiPointCalibration::clearPoints`. -/
def MultiPointCalibration.clearPoints (_c : MultiPointCalibration) : MultiPointCalibration :=
  { points := [], valid := false }

/-- Insertion of a point before the first point that compares greater under
the comparator `a.raw < b.raw` of `sortPoints`. -/
def insertByRaw (a : CalibrationPoint) : List CalibrationPoint → List CalibrationPoint
  | [] => [a]
  | b :: rest => if a.raw < b.raw then a :: b :: rest else b :: insertByRaw a rest

/-- The call `std::sort(points.begin(), points.end(), a.raw < b.raw)`: the
points rearranged in ascending order of `raw`.  The arrangement is determined
when the raw values are distinct, which `addPoint` ensures. -/
def sortByRaw : List CalibrationPoint → List CalibrationPoint
  | [] => []
  | a :: rest => insertByRaw a (sortByRaw rest)

/-- Method `MultiPointCalibration::sortPoints`. -/
def MultiPointCalibration.sortPoints (c : MultiPointCalibration) : MultiPointCalibration :=
  { c with points := sortByRaw c.points }

/-- The loop of `loadFromJson` over the JSON array: every element is added with
`addPoint`; the first rejected element ends the load with `false`. -/
def MultiPointCalibration.loadPoints (c : MultiPointCalibration) :
    List JsonPoint → Bool × MultiPointCalibration
  | [] => (true, c)
  | point :: rest =>
    let r := c.addPoint point.rawOrDefault point.valueOrDefault
    if r.1 = false then (false, r.2) else r.2.loadPoints rest

/-- Method `MultiPointCalibration::loadFromJson`.  A `points` member that is
not an array is the empty list. -/
def MultiPointCalibration.loadFromJson (c : MultiPointCalibration)
    (calibration_data : CalibrationJson) : Bool × MultiPointCalibration :=
  let c1 := c.clearPoints
  match calibration_data.points with
  | none => (false, c1)
  | some points_array =>
    let r := c1.loadPoints points_array
    if r.1 = false then (false, r.2)
    else if r.2.points.length < 2 then (false, { r.2 with valid := false })
    else (true, { r.2.sortPoints with valid := true })

/-- Element `points[i]` of the vector (an index outside the vector is undefined
in C++; the embedding returns the origin). -/
def MultiPointCalibration.pointAt (c : MultiPointCalibration) (i : Nat) : CalibrationPoint :=
  c.points.getD i { raw := 0, value := 0 }

/-- The `for` loop of `MultiPointCalibration::interpolate` over the pairs
`points[i]`, `points[i+1]`: the value returned from inside the loop, or `none`
when the loop ends without returning. -/
def interpolateLoop (raw_value : ℚ) : List CalibrationPoint → Option ℚ
  | p :: q :: rest =>
    if raw_value ≥ p.raw ∧ raw_value ≤ q.raw then
      let x1 := p.raw
      let y1 := p.value
      let x2 := q.raw
      let y2 := q.value
      let slope := (y2 - y1) / (x2 - x1)
      some (y1 + slope * (raw_value - x1))
    else interpolateLoop raw_value (q :: rest)
  | _ => none

/-- Method `MultiPointCalibration::interpolate`. -/
def MultiPointCalibration.interpolate (c : MultiPointCalibration) (raw_value : ℚ) : ℚ :=
  if c.points.isEmpty = true then raw_value
  else if c.points.length = 1 then (c.pointAt 0).value
  else if raw_value ≤ (c.pointAt 0).raw then
    let slope := ((c.pointAt 1).value - (c.pointAt 0).value) / ((c.pointAt 1).raw - (c.pointAt 0).raw)
    (c.pointAt 0).value + slope * (raw_value - (c.pointAt 0).raw)
  else if raw_value ≥ (c.pointAt (c.points.length - 1)).raw then
    let n := c.points.length
    let slope :=
      ((c.pointAt (n - 1)).value - (c.pointAt (n - 2)).value) / ((c.pointAt (n - 1)).raw - (c.pointAt (n - 2)).raw)
    (c.pointAt (n - 1)).value + slope * (raw_value - (c.pointAt (n - 1)).raw)
  else (interpolateLoop raw_value c.points).getD raw_value

/-- Method `MultiPointCalibration::calibrate`. -/
def MultiPointCalibration.calibrate (c : MultiPointCalibration) (raw_value : ℚ) : ℚ :=
  if c.isValid = false then raw_value
  else c.interpolate raw_value

/-- A call on a multi-point calibration through its public interface. -/
inductive CalibrationOp where
  | addPoint (raw value : ℚ)
  | clearPoints
  | loadFromJson (calibration_data : CalibrationJson)

/-- The calibration after one call. -/
def MultiPointCalibration.step (c : MultiPointCalibration) : CalibrationOp → MultiPointCalibration
  | CalibrationOp.addPoint raw value => (c.addPoint raw value).2
  | CalibrationOp.clearPoints => c.clearPoints
  | CalibrationOp.loadFromJson calibration_data => (c.loadFromJson calibration_data).2

/-- The calibration after a sequence of calls. -/
def MultiPointCalibration.run (c : MultiPointCalibration) :
    List CalibrationOp → MultiPointCalibration
  | [] => c
  | op :: rest => (c.step op).run rest

/-- The line through two calibration points, evaluated at `x`: linear
interpolation between them and linear extrapolation outside. -/
def lineThrough (a b : CalibrationPoint) (x : ℚ) : ℚ :=
  a.value + (b.value - a.value) / (b.raw - a.raw) * (x - a.raw)

/-! ## sensors/filters

The library function `sqrt` of `<cmath>` is not part of the sources; the
moving-average filter takes it as the argument `sqrtf`. -/

/-- The part of a filter JSON object read by `loadFromJson`: a member is `none`
when the key is missing, `some none` when it is present but not a number. -/
structure FilterJson where
  window_size : Option (Option Nat)
  alpha : Option (Option ℚ)
  outlier_threshold : Option (Option ℚ)
  deriving DecidableEq

/-- Members of `MovingAverageFilter`.  `size_t` is a 32-bit unsigned type on
the target. -/
structure MovingAverageFilter where
  buffer : List ℚ
  window_size : Nat
  current_index : Nat
  buffer_full : Bool
  outlier_threshold : ℚ
  deriving DecidableEq

/-- Constructor `MovingAverageFilter::MovingAverageFilter(window_size, outlier_threshold)`. -/
def MovingAverageFilter.new (window_size : Nat) (outlier_threshold : ℚ) : MovingAverageFilter :=
  { buffer := []
    window_size := window_size
    current_index := 0
    buffer_full := false
    outlier_threshold := outlier_threshold }

/-- Method `MovingAverageFilter::calculateAverage`. -/
def MovingAverageFilter.calculateAverage (f : MovingAverageFilter) : ℚ :=
  if f.buffer.isEmpty = true then 0
  else
    let sum := f.buffer.foldl (fun sum val => sum + val) 0
    sum / (f.buffer.length : ℚ)

/-- Method `MovingAverageFilter::calculateStandardDeviation`. -/
def MovingAverageFilter.calculateStandardDeviation (sqrtf : ℚ → ℚ) (f : MovingAverageFilter) : ℚ :=
  if f.buffer.length < 2 then 0
  else
    let avg := f.calculateAverage
    let sum_squared_diff :=
      f.buffer.foldl (fun sum_squared_diff val =>
        let diff := val - avg
        sum_squared_diff + diff * diff) 0
    sqrtf (sum_squared_diff / ((f.buffer.length - 1 : Nat) : ℚ))

/-- Method `MovingAverageFilter::isOutlier`. -/
def MovingAverageFilter.isOutlier (sqrtf : ℚ → ℚ) (f : MovingAverageFilter) (value : ℚ) : Bool :=
  if f.buffer.length < 3 then false
  else
    let avg := f.calculateAverage
    let std_dev := f.calculateStandardDeviation sqrtf
    if std_dev = 0 then false
    else
      let z_score := |value - avg| / std_dev
      decide (z_score > f.outlier_threshold)

/-- Method `MovingAverageFilter::filter`: the returned value and the filter
after the call. -/
def MovingAverageFilter.filter (sqrtf : ℚ → ℚ) (f : MovingAverageFilter) (value : ℚ) :
    ℚ × MovingAverageFilter :=
  if f.buffer.length ≥ 3 ∧ f.isOutlier sqrtf value = true then (f.calculateAverage, f)
  else
    let f1 :=
      if f.buffer.length < f.window_size then { f with buffer := f.buffer ++ [value] }
      else { f with buffer := f.buffer.set f.current_index value, buffer_full := true }
    let f2 := { f1 with current_index := ((f1.current_index + 1) % ULONG_MOD) % f1.window_size }
    (f2.calculateAverage, f2)

/-- Method `MovingAverageFilter::reset`. -/
def MovingAverageFilter.reset (f : MovingAverageFilter) : MovingAverageFilter :=
  { f with buffer := [], current_index := 0, buffer_full := false }

/-- Method `MovingAverageFilter::loadFromJson`. -/
def MovingAverageFilter.loadFromJson (f : MovingAverageFilter) (filter_config : FilterJson) :
    Bool × MovingAverageFilter :=
  let f1 :=
    match filter_config.window_size with
    | some w =>
      { f with window_size := w.getD 10, buffer := [], current_index := 0, buffer_full := false }
    | none => f
  let f2 :=
    match filter_config.outlier_threshold with
    | some t => { f1 with outlier_threshold := t.getD 2 }
    | none => f1
  (true, f2)

/-- The values returned by `filter` for a stream of samples, and the filter
after the stream. -/
def MovingAverageFilter.feed (sqrtf : ℚ → ℚ) (f : MovingAverageFilter) :
    List ℚ → List ℚ × MovingAverageFilter
  | [] => ([], f)
  | value :: rest =>
    let r := f.filter sqrtf value
    let rs := MovingAverageFilter.feed sqrtf r.2 rest
    (r.1 :: rs.1, rs.2)

/-- Members of `ExponentialFilter`. -/
structure ExponentialFilter where
  alpha : ℚ
  filtered_value : ℚ
  initialized : Bool
  outlier_threshold : ℚ
  last_valid_value : ℚ
  deriving DecidableEq

/-- Constructor `ExponentialFilter::ExponentialFilter(alpha, outlier_threshold)`.
The member initialisers copy the arguments.  In the constructor body the name
`alpha` is the parameter, which hides the member of the same name: the two
assignments of the body change the parameter (`param2`), not the member. -/
def ExponentialFilter.new (alpha outlier_threshold : ℚ) : ExponentialFilter :=
  let self : ExponentialFilter :=
    { alpha := alpha
      filtered_value := 0
      initialized := false
      outlier_threshold := outlier_threshold
      last_valid_value := 0 }
  let param1 := if alpha < 0 then 0 else alpha
  let _param2 := if param1 > 1 then 1 else param1
  self

/-- Getter `ExponentialFilter::getAlpha`. -/
def ExponentialFilter.getAlpha (f : ExponentialFilter) : ℚ := f.alpha

/-- Method `ExponentialFilter::setAlpha`. -/
def ExponentialFilter.setAlpha (f : ExponentialFilter) (new_alpha : ℚ) : ExponentialFilter :=
  let new_alpha1 := if new_alpha < 0 then 0 else new_alpha
  let new_alpha2 := if new_alpha1 > 1 then 1 else new_alpha1
  { f with alpha := new_alpha2 }

/-- Method `ExponentialFilter::isOutlier`. -/
def ExponentialFilter.isOutlier (f : ExponentialFilter) (value : ℚ) : Bool :=
  if f.initialized = false then false
  else
    let diff := |value - f.filtered_value|
    let relative_change := diff / |f.filtered_value|
    if |f.filtered_value| < 1 then decide (diff > f.outlier_threshold)
    else decide (relative_change > f.outlier_threshold / 10)

/-- Method `ExponentialFilter::filter`: the returned value and the filter after
the call. -/
def ExponentialFilter.filter (f : ExponentialFilter) (value : ℚ) : ℚ × ExponentialFilter :=
  if f.initialized = false then
    (value, { f with filtered_value := value, last_valid_value := value, initialized := true })
  else if f.isOutlier value = true then (f.filtered_value, f)
  else
    let y := f.alpha * value + (1 - f.alpha) * f.filtered_value
    (y, { f with filtered_value := y, last_valid_value := value })

/-- Method `ExponentialFilter::reset`. -/
def ExponentialFilter.reset (f : ExponentialFilter) : ExponentialFilter :=
  { f with filtered_value := 0, initialized := false, last_valid_value := 0 }

/-- Method `ExponentialFilter::loadFromJson`. -/
def ExponentialFilter.loadFromJson (f : ExponentialFilter) (filter_config : FilterJson) :
    Bool × ExponentialFilter :=
  let f1 :=
    match filter_config.alpha with
    | some a => f.setAlpha (a.getD (1 / 10))
    | none => f
  let f2 :=
    match filter_config.outlier_threshold with
    | some t => { f1 with outlier_threshold := t.getD 2 }
    | none => f1
  (true, f2)

/-- A call on an exponential filter through its public interface. -/
inductive ExponentialOp where
  | filter (value : ℚ)
  | reset
  | setAlpha (new_alpha : ℚ)
  | loadFromJson (filter_config : FilterJson)

/-- The exponential filter after one call. -/
def ExponentialFilter.step (f : ExponentialFilter) : ExponentialOp → ExponentialFilter
  | ExponentialOp.filter value => (f.filter value).2
  | ExponentialOp.reset => f.reset
  | ExponentialOp.setAlpha new_alpha => f.setAlpha new_alpha
  | ExponentialOp.loadFromJson filter_config => (f.loadFromJson filter_config).2

/-- The exponential filter after a sequence of calls. -/
def ExponentialFilter.run (f : ExponentialFilter) : List ExponentialOp → ExponentialFilter
  | [] => f
  | op :: rest => (f.step op).run rest

/-- A square root on the rationals for the examples: exact on squares of
rationals, the integer square roots of numerator and denominator otherwise. -/
def exampleSqrt (x : ℚ) : ℚ := (Nat.sqrt x.num.toNat : ℚ) / (Nat.sqrt x.den : ℚ)

/-- The calibration JSON of the pH scenario: points `(raw 2252, ph 4.0)` and
`(raw 1721, ph 7.0)`. -/
def examplePhJson : CalibrationJson :=
  { slope := none
    offset := none
    points := some
      [{ raw := some 2252, value := none, ph := some 4, tds := none },
       { raw := some 1721, value := none, ph := some 7, tds := none }] }

/-- The multi-point calibration loaded from `examplePhJson`. -/
def examplePhCalibration : MultiPointCalibration :=
  (MultiPointCalibration.new.loadFromJson examplePhJson).2

/-- A configuration for a pump that may run for a long time: enabled,
2000000 s maximum runtime, 60 s cooldown. -/
def exampleLongRunConfig : ActuatorConfig :=
  { exampleConfig with max_runtime_sec := 2000000 }

/-- A pump with `exampleLongRunConfig` that has run twice for 2000000000 ms and
has just been activated a third time at clock value 4000120001. -/
def exampleLongRunPump : Pump :=
  ((Pump.new "air_pump" ActuatorType.AIR_PUMP exampleLongRunConfig).init
      exampleLongRunConfig).2.run
    [(1, PumpOp.activate 2000000000), (2000000001, PumpOp.deactivate),
     (2000060001, PumpOp.activate 2000000000), (4000060001, PumpOp.deactivate),
     (4000120001, PumpOp.activate 2000000000)]

/-- The example device after `init` and an emergency stop at 10 ms: water pump
and air pump registered, both Idle and never activated, no schedule. -/
def exampleStoppedManager : ActuatorManager :=
  (ActuatorManager.new.init exampleDeviceConfig exampleConfig).2.emergencyStop 10 "leak"

/-! ## sensors/calibration/Calibration -/

/-- An object behind a `Calibration` pointer: one of the two calibration
classes. -/
inductive Calibration where
  | linear (c : LinearCalibration)
  | multiPoint (c : MultiPointCalibration)
  deriving DecidableEq

/-- Virtual call `isValid`. -/
def Calibration.isValid : Calibration → Bool
  | Calibration.linear c => c.isValid
  | Calibration.multiPoint c => c.isValid

/-- Virtual call `calibrate`. -/
def Calibration.calibrate : Calibration → ℚ → ℚ
  | Calibration.linear c, raw_value => c.calibrate raw_value
  | Calibration.multiPoint c, raw_value => c.calibrate raw_value

/-- The JSON object given to `Calibration::createFromConfig`, as far as it is
read: the text of `type` (`none` when the member is missing or not a string),
the member `reference_point` and the members read by `loadFromJson`. -/
structure CalibrationConfig where
  type : Option String
  reference_point : Option JsonPoint
  data : CalibrationJson
  deriving DecidableEq

/-- The expression `config.isNull() || config.size() == 0`, over the members
the embedding keeps. -/
def CalibrationConfig.isEmpty (config : CalibrationConfig) : Bool :=
  config.type.isNone && config.reference_point.isNone && config.data.slope.isNone &&
    config.data.offset.isNone && config.data.points.isNone

/-- Method `Calibration::createFromConfig`: `none` for the null pointer. -/
def Calibration.createFromConfig (config : CalibrationConfig) : Option Calibration :=
  if config.isEmpty = true then none
  else
    let type := config.type.getD ""
    if type = "linear" then
      let r := LinearCalibration.new.loadFromJson config.data
      if r.1 = true then some (Calibration.linear r.2) else none
    else if type = "multi_point" then
      let r := MultiPointCalibration.new.loadFromJson config.data
      if r.1 = true then some (Calibration.multiPoint r.2) else none
    else if type = "single_point" then
      match config.reference_point with
      | some ref =>
        some (Calibration.linear
          (LinearCalibration.new.setTwoPoints 0 0 ref.rawOrDefault ref.valueOrDefault).2)
      | none => none
    else if config.data.points.isSome = true then
      let r := MultiPointCalibration.new.loadFromJson config.data
      if r.1 = true then some (Calibration.multiPoint r.2) else none
    else if config.data.slope.isSome = true ∧ config.data.offset.isSome = true then
      let r := LinearCalibration.new.loadFromJson config.data
      if r.1 = true then some (Calibration.linear r.2) else none
    else none

/-! ## core/Types.h: sensors and commands -/

/-- Enumeration `SensorType`. -/
inductive SensorType where
  | PH
  | TDS
  deriving DecidableEq

/-- Enumeration `CommandStatus`. -/
inductive CommandStatus where
  | PENDING
  | EXECUTING
  | COMPLETED
  | FAILED
  | TIMEOUT
  deriving DecidableEq

/-- Structure `SensorReading`. -/
structure SensorReading where
  raw : ℚ
  calibrated : ℚ
  filtered : ℚ
  timestamp : Nat
  quality : String
  calibration_valid : Bool
  deriving DecidableEq

/-- The members of `BaseSensor` that the commands read or write; `calibration`
is `none` for the null pointer. -/
structure BaseSensor where
  type : SensorType
  calibration : Option Calibration
  last_reading : SensorReading
  deriving DecidableEq

/-- The member `sensors` of `SensorManager`. -/
structure SensorManager where
  sensors : List BaseSensor
  deriving DecidableEq

/-- Method `SensorManager::getSensor`: the first sensor of the given type. -/
def SensorManager.getSensor (s : SensorManager) (type : SensorType) : Option BaseSensor :=
  s.sensors.find? (fun sensor => decide (sensor.type = type))

/-! ## JSON parameters -/

/-- A JSON value as the commands test it.  An integer and a number with a
fraction are told apart (`is<int>()` holds for the first only); an array
carries its elements the way the calibrations read them. -/
inductive JsonValue where
  | null
  | bool (b : Bool)
  | int (n : Int)
  | float (x : ℚ)
  | str (s : String)
  | array (items : List JsonPoint)
  | object
  deriving DecidableEq

/-- Lookup `doc[key]` in a JSON object given as the list of its members. -/
def jsonFind (key : String) : List (String × JsonValue) → Option JsonValue
  | [] => none
  | (k, v) :: rest => if key = k then some v else jsonFind key rest

/-- Least value of the 32-bit `int`. -/
def INT_MIN : Int := -2147483648

/-- Greatest value of the 32-bit `int`. -/
def INT_MAX : Int := 2147483647

/-- Text of `String(x)` for a `float`: the value with two decimals. -/
def floatText (x : ℚ) : String :=
  let n : Nat := (⌊|x| * 100 + 1 / 2⌋).toNat
  (if x < 0 then "-" else "") ++ toString (n / 100) ++ "." ++
    (if n % 100 < 10 then "0" else "") ++ toString (n % 100)

/-! ## commands/BaseCommand -/

/-- Members of `BaseCommand`. -/
structure BaseCommand where
  command_id : String
  command_type : String
  params : List (String × JsonValue)
  status : CommandStatus
  error_message : String
  result_data : List (String × JsonValue)
  start_time : Nat
  execution_time_ms : Nat
  deriving DecidableEq

/-- Constructor `BaseCommand::BaseCommand(cmd_id, cmd_type)`. -/
def BaseCommand.new (cmd_id cmd_type : String) : BaseCommand :=
  { command_id := cmd_id
    command_type := cmd_type
    params := []
    status := CommandStatus.PENDING
    error_message := ""
    result_data := []
    start_time := 0
    execution_time_ms := 0 }

/-- Method `BaseCommand::setStatus`. -/
def BaseCommand.setStatus (c : BaseCommand) (now : Nat) (new_status : CommandStatus) :
    BaseCommand :=
  let c1 := { c with status := new_status }
  if c1.status = CommandStatus.EXECUTING ∧ c1.start_time = 0 then
    { c1 with start_time := now }
  else if c1.status = CommandStatus.COMPLETED ∨ c1.status = CommandStatus.FAILED ∨
      c1.status = CommandStatus.TIMEOUT then
    if c1.start_time > 0 then { c1 with execution_time_ms := usub now c1.start_time } else c1
  else c1

/-- Method `BaseCommand::setError`. -/
def BaseCommand.setError (c : BaseCommand) (now : Nat) (error : String) : BaseCommand :=
  ({ c with error_message := error }).setStatus now CommandStatus.FAILED

/-- Method `BaseCommand::setResultData`. -/
def BaseCommand.setResultData (c : BaseCommand) (data : List (String × JsonValue)) :
    BaseCommand :=
  { c with result_data := data }

/-- Method `BaseCommand::hasParam`. -/
def BaseCommand.hasParam (c : BaseCommand) (key : String) : Bool :=
  (jsonFind key c.params).isSome

/-- Method `BaseCommand::getStringParam`: `none` when it returns false, else
the text assigned, which is empty for a value that is not a string. -/
def BaseCommand.getStringParam (c : BaseCommand) (key : String) : Option String :=
  match jsonFind key c.params with
  | none => none
  | some (JsonValue.str s) => some s
  | some _ => some ""

/-- Method `BaseCommand::getFloatParam`: `none` when it returns false. -/
def BaseCommand.getFloatParam (c : BaseCommand) (key : String) : Option ℚ :=
  match jsonFind key c.params with
  | some (JsonValue.float x) => some x
  | some (JsonValue.int n) => some (n : ℚ)
  | _ => none

/-- Method `BaseCommand::getIntParam`: `none` when it returns false. -/
def BaseCommand.getIntParam (c : BaseCommand) (key : String) : Option Int :=
  match jsonFind key c.params with
  | some (JsonValue.int n) => if INT_MIN ≤ n ∧ n ≤ INT_MAX then some n else none
  | _ => none

/-- Method `BaseCommand::getBoolParam`: `none` when it returns false. -/
def BaseCommand.getBoolParam (c : BaseCommand) (key : String) : Option Bool :=
  match jsonFind key c.params with
  | some (JsonValue.bool b) => some b
  | _ => none

/-! ## The objects a command works on -/

/-- What a command reaches through its pointers and through the Arduino
runtime: the actuator manager, the sensor manager and the clock `millis()`.
`dose_log` lists the calls of `ActuatorManager::dose` made so far, oldest
first, each with its pump id and volume.  `restart_requested` records a call
of `ESP.restart()`. -/
structure Device where
  actuator_manager : ActuatorManager
  sensor_manager : SensorManager
  millis : Nat
  dose_log : List (String × ℚ)
  restart_requested : Bool

/-- Call `actuator_manager->dose(pump_id, volume_ml)`. -/
def Device.dose (dev : Device) (pump_id : String) (volume_ml : ℚ) : Bool × Device :=
  let r := dev.actuator_manager.dose dev.millis pump_id volume_ml
  (r.1, { dev with actuator_manager := r.2
                   dose_log := dev.dose_log ++ [(pump_id, volume_ml)] })

/-- Call `actuator_manager->deactivateActuator(pump_id)`. -/
def Device.deactivateActuator (dev : Device) (pump_id : String) : Bool × Device :=
  let r := dev.actuator_manager.deactivateActuator dev.millis pump_id
  (r.1, { dev with actuator_manager := r.2 })

/-- Call `delay(ms)`: the clock advances, nothing is polled. -/
def Device.delay (dev : Device) (ms : Nat) : Device :=
  { dev with millis := uadd dev.millis ms }

/-! ## commands/PumpCommand -/

/-- Members of `ActivatePumpCommand`. -/
structure ActivatePumpCommand extends BaseCommand where
  pump_id : String
  duration_ms : Nat

/-- Constructor of `ActivatePumpCommand`. -/
def ActivatePumpCommand.new (cmd_id : String) : ActivatePumpCommand :=
  { toBaseCommand := BaseCommand.new cmd_id "activate_pump", pump_id := "", duration_ms := 0 }

/-- Call of `setError` on an `ActivatePumpCommand`. -/
def ActivatePumpCommand.setError (c : ActivatePumpCommand) (now : Nat) (error : String) :
    ActivatePumpCommand :=
  { c with toBaseCommand := c.toBaseCommand.setError now error }

/-- Method `ActivatePumpCommand::validate`. -/
def ActivatePumpCommand.validate (c : ActivatePumpCommand) (dev : Device)
    (parameters : List (String × JsonValue)) : Bool × ActivatePumpCommand :=
  let c1 : ActivatePumpCommand := { c with params := parameters }
  match c1.getStringParam "pump_id" with
  | none => (false, c1.setError dev.millis "Missing or invalid pump_id parameter")
  | some id =>
    let c2 : ActivatePumpCommand := { c1 with pump_id := id }
    if c2.pump_id.length = 0 then
      (false, c2.setError dev.millis "Missing or invalid pump_id parameter")
    else
      match c2.getIntParam "duration_sec" with
      | none => (false, c2.setError dev.millis "Missing or invalid duration_sec parameter")
      | some duration_sec =>
        if duration_sec ≤ 0 then
          (false, c2.setError dev.millis "Missing or invalid duration_sec parameter")
        else
          let c3 : ActivatePumpCommand :=
            { c2 with duration_ms := umul (intToULong duration_sec) 1000 }
          if (dev.actuator_manager.getActuator c3.pump_id).isNone = true then
            (false, c3.setError dev.millis ("Pump " ++ c3.pump_id ++ " not found"))
          else (true, c3)

/-- Method `ActivatePumpCommand::abort`. -/
def ActivatePumpCommand.abort (c : ActivatePumpCommand) (dev : Device) :
    ActivatePumpCommand × Device :=
  let r := dev.deactivateActuator c.pump_id
  ({ c with toBaseCommand := c.toBaseCommand.setStatus r.2.millis CommandStatus.FAILED }, r.2)

/-- Members of `StopPumpCommand`. -/
structure StopPumpCommand extends BaseCommand where
  pump_id : String

/-- Constructor of `StopPumpCommand`. -/
def StopPumpCommand.new (cmd_id : String) : StopPumpCommand :=
  { toBaseCommand := BaseCommand.new cmd_id "stop_pump", pump_id := "" }

/-- Call of `setError` on a `StopPumpCommand`. -/
def StopPumpCommand.setError (c : StopPumpCommand) (now : Nat) (error : String) :
    StopPumpCommand :=
  { c with toBaseCommand := c.toBaseCommand.setError now error }

/-- Method `StopPumpCommand::validate`. -/
def StopPumpCommand.validate (c : StopPumpCommand) (dev : Device)
    (parameters : List (String × JsonValue)) : Bool × StopPumpCommand :=
  let c1 : StopPumpCommand := { c with params := parameters }
  match c1.getStringParam "pump_id" with
  | none => (false, c1.setError dev.millis "Missing or invalid pump_id parameter")
  | some id =>
    let c2 : StopPumpCommand := { c1 with pump_id := id }
    if c2.pump_id.length = 0 then
      (false, c2.setError dev.millis "Missing or invalid pump_id parameter")
    else if (dev.actuator_manager.getActuator c2.pump_id).isNone = true then
      (false, c2.setError dev.millis ("Pump " ++ c2.pump_id ++ " not found"))
    else (true, c2)

/-- Members of `StopAllPumpsCommand`. -/
structure StopAllPumpsCommand extends BaseCommand

/-- Constructor of `StopAllPumpsCommand`. -/
def StopAllPumpsCommand.new (cmd_id : String) : StopAllPumpsCommand :=
  { toBaseCommand := BaseCommand.new cmd_id "stop_all_pumps" }

/-- Method `StopAllPumpsCommand::validate`. -/
def StopAllPumpsCommand.validate (c : StopAllPumpsCommand) (_dev : Device)
    (parameters : List (String × JsonValue)) : Bool × StopAllPumpsCommand :=
  (true, { c with params := parameters })

/-- Members of `DoseVolumeCommand`. -/
structure DoseVolumeCommand extends BaseCommand where
  pump_id : String
  volume_ml : ℚ

/-- Constructor of `DoseVolumeCommand`. -/
def DoseVolumeCommand.new (cmd_id : String) : DoseVolumeCommand :=
  { toBaseCommand := BaseCommand.new cmd_id "dose_volume", pump_id := "", volume_ml := 0 }

/-- Call of `setError` on a `DoseVolumeCommand`. -/
def DoseVolumeCommand.setError (c : DoseVolumeCommand) (now : Nat) (error : String) :
    DoseVolumeCommand :=
  { c with toBaseCommand := c.toBaseCommand.setError now error }

/-- Method `DoseVolumeCommand::validate`. -/
def DoseVolumeCommand.validate (c : DoseVolumeCommand) (dev : Device)
    (parameters : List (String × JsonValue)) : Bool × DoseVolumeCommand :=
  let c1 : DoseVolumeCommand := { c with params := parameters }
  match c1.getStringParam "pump_id" with
  | none => (false, c1.setError dev.millis "Missing or invalid pump_id parameter")
  | some id =>
    let c2 : DoseVolumeCommand := { c1 with pump_id := id }
    if c2.pump_id.length = 0 then
      (false, c2.setError dev.millis "Missing or invalid pump_id parameter")
    else
      match c2.getFloatParam "volume_ml" with
      | none => (false, c2.setError dev.millis "Missing or invalid volume_ml parameter")
      | some volume =>
        let c3 : DoseVolumeCommand := { c2 with volume_ml := volume }
        if c3.volume_ml ≤ 0 then
          (false, c3.setError dev.millis "Missing or invalid volume_ml parameter")
        else if dev.actuator_manager.canDose dev.millis c3.pump_id c3.volume_ml = false then
          (false, c3.setError dev.millis
            ("Cannot dose " ++ floatText c3.volume_ml ++ " ml with pump " ++ c3.pump_id))
        else (true, c3)

/-- Method `DoseVolumeCommand::abort`. -/
def DoseVolumeCommand.abort (c : DoseVolumeCommand) (dev : Device) :
    DoseVolumeCommand × Device :=
  let r := dev.deactivateActuator c.pump_id
  ({ c with toBaseCommand := c.toBaseCommand.setStatus r.2.millis CommandStatus.FAILED }, r.2)

/-- Members of `SchedulePumpCommand`. -/
structure SchedulePumpCommand extends BaseCommand where
  pump_id : String
  interval_minutes : Nat
  duration_seconds : Nat

/-- Constructor of `SchedulePumpCommand`. -/
def SchedulePumpCommand.new (cmd_id : String) : SchedulePumpCommand :=
  { toBaseCommand := BaseCommand.new cmd_id "schedule_pump", pump_id := "",
    interval_minutes := 0, duration_seconds := 0 }

/-- Call of `setError` on a `SchedulePumpCommand`. -/
def SchedulePumpCommand.setError (c : SchedulePumpCommand) (now : Nat) (error : String) :
    SchedulePumpCommand :=
  { c with toBaseCommand := c.toBaseCommand.setError now error }

/-- Method `SchedulePumpCommand::validate`. -/
def SchedulePumpCommand.validate (c : SchedulePumpCommand) (dev : Device)
    (parameters : List (String × JsonValue)) : Bool × SchedulePumpCommand :=
  let c1 : SchedulePumpCommand := { c with params := parameters }
  match c1.getStringParam "pump_id" with
  | none => (false, c1.setError dev.millis "Missing or invalid pump_id parameter")
  | some id =>
    let c2 : SchedulePumpCommand := { c1 with pump_id := id }
    if c2.pump_id.length = 0 then
      (false, c2.setError dev.millis "Missing or invalid pump_id parameter")
    else
      match c2.getIntParam "interval_minutes" with
      | none => (false, c2.setError dev.millis "Missing or invalid interval_minutes parameter")
      | some interval_min =>
        if interval_min ≤ 0 then
          (false, c2.setError dev.millis "Missing or invalid interval_minutes parameter")
        else
          match c2.getIntParam "duration_seconds" with
          | none =>
            (false, c2.setError dev.millis "Missing or invalid duration_seconds parameter")
          | some duration_sec =>
            if duration_sec ≤ 0 then
              (false, c2.setError dev.millis "Missing or invalid duration_seconds parameter")
            else
              let c3 : SchedulePumpCommand :=
                { c2 with interval_minutes := intToULong interval_min
                          duration_seconds := intToULong duration_sec }
              if (dev.actuator_manager.getActuator c3.pump_id).isNone = true then
                (false, c3.setError dev.millis ("Pump " ++ c3.pump_id ++ " not found"))
              else (true, c3)

/-- Members of `CancelScheduleCommand`. -/
structure CancelScheduleCommand extends BaseCommand where
  pump_id : String

/-- Constructor of `CancelScheduleCommand`. -/
def CancelScheduleCommand.new (cmd_id : String) : CancelScheduleCommand :=
  { toBaseCommand := BaseCommand.new cmd_id "cancel_schedule", pump_id := "" }

/-- Call of `setError` on a `CancelScheduleCommand`. -/
def CancelScheduleCommand.setError (c : CancelScheduleCommand) (now : Nat) (error : String) :
    CancelScheduleCommand :=
  { c with toBaseCommand := c.toBaseCommand.setError now error }

/-- Method `CancelScheduleCommand::validate`. -/
def CancelScheduleCommand.validate (c : CancelScheduleCommand) (dev : Device)
    (parameters : List (String × JsonValue)) : Bool × CancelScheduleCommand :=
  let c1 : CancelScheduleCommand := { c with params := parameters }
  match c1.getStringParam "pump_id" with
  | none => (false, c1.setError dev.millis "Missing or invalid pump_id parameter")
  | some id =>
    let c2 : CancelScheduleCommand := { c1 with pump_id := id }
    if c2.pump_id.length = 0 then
      (false, c2.setError dev.millis "Missing or invalid pump_id parameter")
    else if (dev.actuator_manager.getActuator c2.pump_id).isNone = true then
      (false, c2.setError dev.millis ("Pump " ++ c2.pump_id ++ " not found"))
    else (true, c2)

/-! ## commands/DosingCommand -/

/-- Members of `AdjustPHByCommand`. -/
structure AdjustPHByCommand extends BaseCommand where
  delta_ph : ℚ
  max_volume_ml : ℚ

/-- Constructor of `AdjustPHByCommand`. -/
def AdjustPHByCommand.new (cmd_id : String) : AdjustPHByCommand :=
  { toBaseCommand := BaseCommand.new cmd_id "adjust_ph_by", delta_ph := 0, max_volume_ml := 10 }

/-- Call of `setStatus` on an `AdjustPHByCommand`. -/
def AdjustPHByCommand.setStatus (c : AdjustPHByCommand) (now : Nat)
    (new_status : CommandStatus) : AdjustPHByCommand :=
  { c with toBaseCommand := c.toBaseCommand.setStatus now new_status }

/-- Call of `setError` on an `AdjustPHByCommand`. -/
def AdjustPHByCommand.setError (c : AdjustPHByCommand) (now : Nat) (error : String) :
    AdjustPHByCommand :=
  { c with toBaseCommand := c.toBaseCommand.setError now error }

/-- Method `AdjustPHByCommand::validate`. -/
def AdjustPHByCommand.validate (c : AdjustPHByCommand) (dev : Device)
    (parameters : List (String × JsonValue)) : Bool × AdjustPHByCommand :=
  let c1 : AdjustPHByCommand := { c with params := parameters }
  match c1.getFloatParam "delta_ph" with
  | none => (false, c1.setError dev.millis "Missing or invalid delta_ph parameter")
  | some delta =>
    let c2 : AdjustPHByCommand := { c1 with delta_ph := delta }
    if |c2.delta_ph| > 2 then
      (false, c2.setError dev.millis
        ("Delta pH too large: " ++ floatText c2.delta_ph ++ " (max ±2.0)"))
    else
      (true, { c2 with max_volume_ml := (c2.getFloatParam "max_volume_ml").getD c2.max_volume_ml })

/-- Method `AdjustPHByCommand::getCurrentPH`. -/
def AdjustPHByCommand.getCurrentPH (s : SensorManager) : ℚ :=
  match s.getSensor SensorType.PH with
  | none => -1
  | some ph_sensor => ph_sensor.last_reading.filtered

/-- Method `AdjustPHByCommand::selectPHPump`. -/
def AdjustPHByCommand.selectPHPump (delta_ph : ℚ) : String :=
  if delta_ph < 0 then "ph_down"
  else if delta_ph > 0 then "ph_up"
  else ""

/-- Method `AdjustPHByCommand::calculateRequiredVolume`. -/
def AdjustPHByCommand.calculateRequiredVolume (c : AdjustPHByCommand) (_current_ph delta_ph : ℚ) :
    ℚ :=
  let volume := |delta_ph| * 10
  max (1 / 2) (min volume c.max_volume_ml)

/-- Method `AdjustPHByCommand::execute`. -/
def AdjustPHByCommand.execute (c : AdjustPHByCommand) (dev : Device) :
    Bool × AdjustPHByCommand × Device :=
  let c1 := c.setStatus dev.millis CommandStatus.EXECUTING
  let current_ph := AdjustPHByCommand.getCurrentPH dev.sensor_manager
  if current_ph < 0 then (false, c1.setError dev.millis "Cannot read current pH value", dev)
  else
    let pump_id := AdjustPHByCommand.selectPHPump c1.delta_ph
    if pump_id.length = 0 then
      (false, c1.setError dev.millis
        ("No suitable pH pump found for delta: " ++ floatText c1.delta_ph), dev)
    else
      let required_volume := c1.calculateRequiredVolume current_ph c1.delta_ph
      if required_volume > c1.max_volume_ml then
        (false, c1.setError dev.millis
          ("Required volume " ++ floatText required_volume ++ " ml exceeds max " ++
            floatText c1.max_volume_ml ++ " ml"), dev)
      else
        let r := dev.dose pump_id required_volume
        if r.1 = true then
          let result : List (String × JsonValue) :=
            [("current_ph", JsonValue.float current_ph),
             ("delta_ph", JsonValue.float c1.delta_ph),
             ("pump_id", JsonValue.str pump_id),
             ("volume_ml", JsonValue.float required_volume)]
          let c2 : AdjustPHByCommand :=
            { c1 with toBaseCommand := c1.toBaseCommand.setResultData result }
          (true, c2.setStatus r.2.millis CommandStatus.COMPLETED, r.2)
        else
          (false, c1.setError r.2.millis
            ("Failed to dose " ++ floatText required_volume ++ " ml with pump " ++ pump_id), r.2)

/-- Members of `SetPHTargetCommand`. -/
structure SetPHTargetCommand extends BaseCommand where
  target_ph : ℚ
  tolerance : ℚ
  max_attempts : Int

/-- Constructor of `SetPHTargetCommand`. -/
def SetPHTargetCommand.new (cmd_id : String) : SetPHTargetCommand :=
  { toBaseCommand := BaseCommand.new cmd_id "set_ph_target", target_ph := 13 / 2,
    tolerance := 1 / 10, max_attempts := 3 }

/-- Call of `setStatus` on a `SetPHTargetCommand`. -/
def SetPHTargetCommand.setStatus (c : SetPHTargetCommand) (now : Nat)
    (new_status : CommandStatus) : SetPHTargetCommand :=
  { c with toBaseCommand := c.toBaseCommand.setStatus now new_status }

/-- Call of `setError` on a `SetPHTargetCommand`. -/
def SetPHTargetCommand.setError (c : SetPHTargetCommand) (now : Nat) (error : String) :
    SetPHTargetCommand :=
  { c with toBaseCommand := c.toBaseCommand.setError now error }

/-- Method `SetPHTargetCommand::validate`. -/
def SetPHTargetCommand.validate (c : SetPHTargetCommand) (dev : Device)
    (parameters : List (String × JsonValue)) : Bool × SetPHTargetCommand :=
  let c1 : SetPHTargetCommand := { c with params := parameters }
  match c1.getFloatParam "target_ph" with
  | none => (false, c1.setError dev.millis "Missing or invalid target_ph parameter")
  | some target =>
    let c2 : SetPHTargetCommand := { c1 with target_ph := target }
    if c2.target_ph < 4 ∨ c2.target_ph > 17 / 2 then
      (false, c2.setError dev.millis
        ("Target pH out of safe range: " ++ floatText c2.target_ph ++ " (4.0-8.5)"))
    else
      (true, { c2 with tolerance := (c2.getFloatParam "tolerance").getD c2.tolerance
                       max_attempts := (c2.getIntParam "max_attempts").getD c2.max_attempts })

/-- Method `SetPHTargetCommand::getCurrentPH`. -/
def SetPHTargetCommand.getCurrentPH (s : SensorManager) : ℚ :=
  match s.getSensor SensorType.PH with
  | none => -1
  | some ph_sensor => ph_sensor.last_reading.filtered

/-- The sub-command of one iteration of `SetPHTargetCommand::adjustPHToTarget`,
built for the difference `delta` and validated: the result of its `validate`
and the sub-command afterwards. -/
def SetPHTargetCommand.subAdjustment (c : SetPHTargetCommand) (attempt : Nat) (delta : ℚ)
    (dev : Device) : Bool × AdjustPHByCommand :=
  let adjust_command := AdjustPHByCommand.new (c.command_id ++ "_adjust_" ++ toString attempt)
  let adjust_params : List (String × JsonValue) :=
    [("delta_ph", JsonValue.float (delta * (1 / 2))), ("max_volume_ml", JsonValue.float 5)]
  adjust_command.validate dev adjust_params

/-- The loop of `SetPHTargetCommand::adjustPHToTarget` from iteration `attempt`
on, with `remaining` iterations left before `attempt` reaches `max_attempts`:
the value returned and the device afterwards. -/
def SetPHTargetCommand.adjustLoop (c : SetPHTargetCommand) :
    Nat → Nat → Device → Bool × Device
  | 0, _, dev => (false, dev)
  | remaining + 1, attempt, dev =>
    let current_ph := SetPHTargetCommand.getCurrentPH dev.sensor_manager
    if current_ph < 0 then (false, dev)
    else
      let delta := c.target_ph - current_ph
      if |delta| ≤ c.tolerance then (true, dev)
      else
        let v := c.subAdjustment attempt delta dev
        if v.1 = false then (false, dev)
        else
          let e := v.2.execute dev
          if e.1 = false then (false, e.2.2)
          else SetPHTargetCommand.adjustLoop c remaining (attempt + 1) (e.2.2.delay 30000)

/-- Method `SetPHTargetCommand::adjustPHToTarget`. -/
def SetPHTargetCommand.adjustPHToTarget (c : SetPHTargetCommand) (dev : Device) : Bool × Device :=
  c.adjustLoop c.max_attempts.toNat 0 dev

/-- Method `SetPHTargetCommand::execute`. -/
def SetPHTargetCommand.execute (c : SetPHTargetCommand) (dev : Device) :
    Bool × SetPHTargetCommand × Device :=
  let c1 := c.setStatus dev.millis CommandStatus.EXECUTING
  let r := c1.adjustPHToTarget dev
  if r.1 = true then
    let result : List (String × JsonValue) :=
      [("target_ph", JsonValue.float c1.target_ph),
       ("final_ph", JsonValue.float (SetPHTargetCommand.getCurrentPH r.2.sensor_manager)),
       ("tolerance", JsonValue.float c1.tolerance)]
    let c2 : SetPHTargetCommand :=
      { c1 with toBaseCommand := c1.toBaseCommand.setResultData result }
    (true, c2.setStatus r.2.millis CommandStatus.COMPLETED, r.2)
  else
    (false, c1.setError r.2.millis
      ("Failed to reach target pH after " ++ toString c1.max_attempts ++ " attempts"), r.2)

/-- Members of `AdjustTDSByCommand`. -/
structure AdjustTDSByCommand extends BaseCommand where
  delta_tds : ℚ
  max_volume_ml : ℚ

/-- Constructor of `AdjustTDSByCommand`. -/
def AdjustTDSByCommand.new (cmd_id : String) : AdjustTDSByCommand :=
  { toBaseCommand := BaseCommand.new cmd_id "adjust_tds_by", delta_tds := 0, max_volume_ml := 20 }

/-- Call of `setStatus` on an `AdjustTDSByCommand`. -/
def AdjustTDSByCommand.setStatus (c : AdjustTDSByCommand) (now : Nat)
    (new_status : CommandStatus) : AdjustTDSByCommand :=
  { c with toBaseCommand := c.toBaseCommand.setStatus now new_status }

/-- Call of `setError` on an `AdjustTDSByCommand`. -/
def AdjustTDSByCommand.setError (c : AdjustTDSByCommand) (now : Nat) (error : String) :
    AdjustTDSByCommand :=
  { c with toBaseCommand := c.toBaseCommand.setError now error }

/-- Method `AdjustTDSByCommand::validate`. -/
def AdjustTDSByCommand.validate (c : AdjustTDSByCommand) (dev : Device)
    (parameters : List (String × JsonValue)) : Bool × AdjustTDSByCommand :=
  let c1 : AdjustTDSByCommand := { c with params := parameters }
  match c1.getFloatParam "delta_tds" with
  | none => (false, c1.setError dev.millis "Missing or invalid delta_tds parameter")
  | some delta =>
    let c2 : AdjustTDSByCommand := { c1 with delta_tds := delta }
    if c2.delta_tds < 0 then
      (false, c2.setError dev.millis "Cannot reduce TDS (delta_tds must be positive)")
    else if c2.delta_tds > 500 then
      (false, c2.setError dev.millis
        ("Delta TDS too large: " ++ floatText c2.delta_tds ++ " (max 500)"))
    else
      (true, { c2 with max_volume_ml := (c2.getFloatParam "max_volume_ml").getD c2.max_volume_ml })

/-- Method `AdjustTDSByCommand::getCurrentTDS`. -/
def AdjustTDSByCommand.getCurrentTDS (s : SensorManager) : ℚ :=
  match s.getSensor SensorType.TDS with
  | none => -1
  | some tds_sensor => tds_sensor.last_reading.filtered

/-- Method `AdjustTDSByCommand::selectNutrientPumps`. -/
def AdjustTDSByCommand.selectNutrientPumps (m : ActuatorManager) : List String :=
  (if (m.getDosingPump "nutrient_a").isSome = true then ["nutrient_a"] else []) ++
  (if (m.getDosingPump "nutrient_b").isSome = true then ["nutrient_b"] else []) ++
  (if (m.getDosingPump "cal_mag").isSome = true then ["cal_mag"] else [])

/-- Method `AdjustTDSByCommand::calculateRequiredVolume`. -/
def AdjustTDSByCommand.calculateRequiredVolume (c : AdjustTDSByCommand)
    (_current_tds delta_tds : ℚ) : ℚ :=
  let volume := delta_tds / 50
  max 1 (min volume c.max_volume_ml)

/-- The loop of `AdjustTDSByCommand::execute` over the selected pumps: the flag
`all_success` and the device after the loop. -/
def AdjustTDSByCommand.doseEach (volume_per_pump : ℚ) : List String → Device → Bool × Device
  | [], dev => (true, dev)
  | pump_id :: rest, dev =>
    let r := dev.dose pump_id volume_per_pump
    let rs := AdjustTDSByCommand.doseEach volume_per_pump rest r.2
    (r.1 && rs.1, rs.2)

/-- Method `AdjustTDSByCommand::execute`. -/
def AdjustTDSByCommand.execute (c : AdjustTDSByCommand) (dev : Device) :
    Bool × AdjustTDSByCommand × Device :=
  let c1 := c.setStatus dev.millis CommandStatus.EXECUTING
  let current_tds := AdjustTDSByCommand.getCurrentTDS dev.sensor_manager
  if current_tds < 0 then (false, c1.setError dev.millis "Cannot read current TDS value", dev)
  else
    let pumps := AdjustTDSByCommand.selectNutrientPumps dev.actuator_manager
    if pumps.isEmpty = true then
      (false, c1.setError dev.millis "No nutrient pumps available", dev)
    else
      let total_volume := c1.calculateRequiredVolume current_tds c1.delta_tds
      let volume_per_pump := total_volume / (pumps.length : ℚ)
      if total_volume > c1.max_volume_ml then
        (false, c1.setError dev.millis
          ("Required volume " ++ floatText total_volume ++ " ml exceeds max " ++
            floatText c1.max_volume_ml ++ " ml"), dev)
      else
        let r := AdjustTDSByCommand.doseEach volume_per_pump pumps dev
        if r.1 = true then
          let result : List (String × JsonValue) :=
            [("current_tds", JsonValue.float current_tds),
             ("delta_tds", JsonValue.float c1.delta_tds),
             ("total_volume_ml", JsonValue.float total_volume),
             ("pumps_used", JsonValue.int (pumps.length : Int))]
          let c2 : AdjustTDSByCommand :=
            { c1 with toBaseCommand := c1.toBaseCommand.setResultData result }
          (true, c2.setStatus r.2.millis CommandStatus.COMPLETED, r.2)
        else
          (false, c1.setError r.2.millis "Failed to dose with one or more nutrient pumps", r.2)

/-- Members of `SetTDSTargetCommand`. -/
structure SetTDSTargetCommand extends BaseCommand where
  target_tds : ℚ
  tolerance : ℚ
  max_attempts : Int

/-- Constructor of `SetTDSTargetCommand`. -/
def SetTDSTargetCommand.new (cmd_id : String) : SetTDSTargetCommand :=
  { toBaseCommand := BaseCommand.new cmd_id "set_tds_target", target_tds := 600,
    tolerance := 50, max_attempts := 3 }

/-- Call of `setStatus` on a `SetTDSTargetCommand`. -/
def SetTDSTargetCommand.setStatus (c : SetTDSTargetCommand) (now : Nat)
    (new_status : CommandStatus) : SetTDSTargetCommand :=
  { c with toBaseCommand := c.toBaseCommand.setStatus now new_status }

/-- Call of `setError` on a `SetTDSTargetCommand`. -/
def SetTDSTargetCommand.setError (c : SetTDSTargetCommand) (now : Nat) (error : String) :
    SetTDSTargetCommand :=
  { c with toBaseCommand := c.toBaseCommand.setError now error }

/-- Method `SetTDSTargetCommand::validate`. -/
def SetTDSTargetCommand.validate (c : SetTDSTargetCommand) (dev : Device)
    (parameters : List (String × JsonValue)) : Bool × SetTDSTargetCommand :=
  let c1 : SetTDSTargetCommand := { c with params := parameters }
  match c1.getFloatParam "target_tds" with
  | none => (false, c1.setError dev.millis "Missing or invalid target_tds parameter")
  | some target =>
    let c2 : SetTDSTargetCommand := { c1 with target_tds := target }
    if c2.target_tds < 100 ∨ c2.target_tds > 2000 then
      (false, c2.setError dev.millis
        ("Target TDS out of safe range: " ++ floatText c2.target_tds ++ " (100-2000)"))
    else
      (true, { c2 with tolerance := (c2.getFloatParam "tolerance").getD c2.tolerance
                       max_attempts := (c2.getIntParam "max_attempts").getD c2.max_attempts })

/-- Method `SetTDSTargetCommand::getCurrentTDS`. -/
def SetTDSTargetCommand.getCurrentTDS (s : SensorManager) : ℚ :=
  match s.getSensor SensorType.TDS with
  | none => -1
  | some tds_sensor => tds_sensor.last_reading.filtered

/-- The sub-command of one iteration of
`SetTDSTargetCommand::adjustTDSToTarget`, built for the difference `delta` and
validated: the result of its `validate` and the sub-command afterwards. -/
def SetTDSTargetCommand.subAdjustment (c : SetTDSTargetCommand) (attempt : Nat) (delta : ℚ)
    (dev : Device) : Bool × AdjustTDSByCommand :=
  let adjust_command := AdjustTDSByCommand.new (c.command_id ++ "_adjust_" ++ toString attempt)
  let adjust_params : List (String × JsonValue) :=
    [("delta_tds", JsonValue.float (delta * (1 / 2))), ("max_volume_ml", JsonValue.float 10)]
  adjust_command.validate dev adjust_params

/-- The loop of `SetTDSTargetCommand::adjustTDSToTarget` from iteration
`attempt` on, with `remaining` iterations left before `attempt` reaches
`max_attempts`: the value returned and the device afterwards. -/
def SetTDSTargetCommand.adjustLoop (c : SetTDSTargetCommand) :
    Nat → Nat → Device → Bool × Device
  | 0, _, dev => (false, dev)
  | remaining + 1, attempt, dev =>
    let current_tds := SetTDSTargetCommand.getCurrentTDS dev.sensor_manager
    if current_tds < 0 then (false, dev)
    else
      let delta := c.target_tds - current_tds
      if |delta| ≤ c.tolerance then (true, dev)
      else if delta ≤ 0 then (true, dev)
      else
        let v := c.subAdjustment attempt delta dev
        if v.1 = false then (false, dev)
        else
          let e := v.2.execute dev
          if e.1 = false then (false, e.2.2)
          else SetTDSTargetCommand.adjustLoop c remaining (attempt + 1) (e.2.2.delay 60000)

/-- Method `SetTDSTargetCommand::adjustTDSToTarget`. -/
def SetTDSTargetCommand.adjustTDSToTarget (c : SetTDSTargetCommand) (dev : Device) :
    Bool × Device :=
  c.adjustLoop c.max_attempts.toNat 0 dev

/-- Method `SetTDSTargetCommand::execute`. -/
def SetTDSTargetCommand.execute (c : SetTDSTargetCommand) (dev : Device) :
    Bool × SetTDSTargetCommand × Device :=
  let c1 := c.setStatus dev.millis CommandStatus.EXECUTING
  let r := c1.adjustTDSToTarget dev
  if r.1 = true then
    let result : List (String × JsonValue) :=
      [("target_tds", JsonValue.float c1.target_tds),
       ("final_tds", JsonValue.float (SetTDSTargetCommand.getCurrentTDS r.2.sensor_manager)),
       ("tolerance", JsonValue.float c1.tolerance)]
    let c2 : SetTDSTargetCommand :=
      { c1 with toBaseCommand := c1.toBaseCommand.setResultData result }
    (true, c2.setStatus r.2.millis CommandStatus.COMPLETED, r.2)
  else
    (false, c1.setError r.2.millis
      ("Failed to reach target TDS after " ++ toString c1.max_attempts ++ " attempts"), r.2)

/-! ## commands/SystemCommand -/

/-- Members of `EmergencyStopCommand`. -/
structure EmergencyStopCommand extends BaseCommand where
  reason : String

/-- Constructor of `EmergencyStopCommand`. -/
def EmergencyStopCommand.new (cmd_id : String) : EmergencyStopCommand :=
  { toBaseCommand := BaseCommand.new cmd_id "emergency_stop", reason := "" }

/-- Method `EmergencyStopCommand::validate`. -/
def EmergencyStopCommand.validate (c : EmergencyStopCommand) (_dev : Device)
    (parameters : List (String × JsonValue)) : Bool × EmergencyStopCommand :=
  let c1 : EmergencyStopCommand := { c with params := parameters }
  let c2 : EmergencyStopCommand :=
    { c1 with reason := (c1.getStringParam "reason").getD c1.reason }
  if c2.reason.length = 0 then (true, { c2 with reason := "Manual emergency stop" })
  else (true, c2)

/-- Members of `ClearEmergencyStopCommand`. -/
structure ClearEmergencyStopCommand extends BaseCommand

/-- Constructor of `ClearEmergencyStopCommand`. -/
def ClearEmergencyStopCommand.new (cmd_id : String) : ClearEmergencyStopCommand :=
  { toBaseCommand := BaseCommand.new cmd_id "clear_emergency_stop" }

/-- Method `ClearEmergencyStopCommand::validate`. -/
def ClearEmergencyStopCommand.validate (c : ClearEmergencyStopCommand) (_dev : Device)
    (parameters : List (String × JsonValue)) : Bool × ClearEmergencyStopCommand :=
  (true, { c with params := parameters })

/-- Members of `CalibrateSensorCommand`. -/
structure CalibrateSensorCommand extends BaseCommand where
  sensor_type : SensorType
  calibration_points : List JsonPoint

/-- Constructor of `CalibrateSensorCommand`. -/
def CalibrateSensorCommand.new (cmd_id : String) : CalibrateSensorCommand :=
  { toBaseCommand := BaseCommand.new cmd_id "calibrate_sensor", sensor_type := SensorType.PH,
    calibration_points := [] }

/-- Call of `setError` on a `CalibrateSensorCommand`. -/
def CalibrateSensorCommand.setError (c : CalibrateSensorCommand) (now : Nat) (error : String) :
    CalibrateSensorCommand :=
  { c with toBaseCommand := c.toBaseCommand.setError now error }

/-- Method `CalibrateSensorCommand::parseSensorType`. -/
def CalibrateSensorCommand.parseSensorType (sensor_id : String) : SensorType :=
  if sensor_id = "ph" then SensorType.PH
  else if sensor_id = "tds" then SensorType.TDS
  else SensorType.PH

/-- Method `CalibrateSensorCommand::validate`. -/
def CalibrateSensorCommand.validate (c : CalibrateSensorCommand) (dev : Device)
    (parameters : List (String × JsonValue)) : Bool × CalibrateSensorCommand :=
  let c1 : CalibrateSensorCommand := { c with params := parameters }
  match c1.getStringParam "sensor_id" with
  | none => (false, c1.setError dev.millis "Missing sensor_id parameter")
  | some sensor_id =>
    let c2 : CalibrateSensorCommand :=
      { c1 with sensor_type := CalibrateSensorCommand.parseSensorType sensor_id }
    if c2.sensor_type ≠ SensorType.PH ∧ c2.sensor_type ≠ SensorType.TDS then
      (false, c2.setError dev.millis ("Invalid sensor_id: " ++ sensor_id))
    else if c2.hasParam "calibration_points" = false then
      (false, c2.setError dev.millis "Missing calibration_points parameter")
    else
      let c3 : CalibrateSensorCommand :=
        { c2 with calibration_points :=
                    match jsonFind "calibration_points" c2.params with
                    | some (JsonValue.array items) => items
                    | _ => [] }
      if c3.calibration_points.length = 0 then
        (false, c3.setError dev.millis "Empty calibration_points array")
      else (true, c3)

/-- Members of `ResetSystemCommand`. -/
structure ResetSystemCommand extends BaseCommand

/-- Constructor of `ResetSystemCommand`. -/
def ResetSystemCommand.new (cmd_id : String) : ResetSystemCommand :=
  { toBaseCommand := BaseCommand.new cmd_id "reset_system" }

/-- Method `ResetSystemCommand::validate`. -/
def ResetSystemCommand.validate (c : ResetSystemCommand) (_dev : Device)
    (parameters : List (String × JsonValue)) : Bool × ResetSystemCommand :=
  (true, { c with params := parameters })

/-- Members of `GetSystemStatusCommand`. -/
structure GetSystemStatusCommand extends BaseCommand

/-- Constructor of `GetSystemStatusCommand`. -/
def GetSystemStatusCommand.new (cmd_id : String) : GetSystemStatusCommand :=
  { toBaseCommand := BaseCommand.new cmd_id "get_system_status" }

/-- Method `GetSystemStatusCommand::validate`. -/
def GetSystemStatusCommand.validate (c : GetSystemStatusCommand) (_dev : Device)
    (parameters : List (String × JsonValue)) : Bool × GetSystemStatusCommand :=
  (true, { c with params := parameters })

/-! ## commands/CommandProcessor: the command classes -/

/-- An object behind a `BaseCommand` pointer: one of the fifteen command
classes. -/
inductive Command where
  | activatePump (c : ActivatePumpCommand)
  | stopPump (c : StopPumpCommand)
  | stopAllPumps (c : StopAllPumpsCommand)
  | doseVolume (c : DoseVolumeCommand)
  | schedulePump (c : SchedulePumpCommand)
  | cancelSchedule (c : CancelScheduleCommand)
  | adjustPHBy (c : AdjustPHByCommand)
  | setPHTarget (c : SetPHTargetCommand)
  | adjustTDSBy (c : AdjustTDSByCommand)
  | setTDSTarget (c : SetTDSTargetCommand)
  | emergencyStop (c : EmergencyStopCommand)
  | clearEmergencyStop (c : ClearEmergencyStopCommand)
  | calibrateSensor (c : CalibrateSensorCommand)
  | resetSystem (c : ResetSystemCommand)
  | getSystemStatus (c : GetSystemStatusCommand)

/-- The `BaseCommand` part of a command. -/
def Command.base : Command → BaseCommand
  | Command.activatePump c => c.toBaseCommand
  | Command.stopPump c => c.toBaseCommand
  | Command.stopAllPumps c => c.toBaseCommand
  | Command.doseVolume c => c.toBaseCommand
  | Command.schedulePump c => c.toBaseCommand
  | Command.cancelSchedule c => c.toBaseCommand
  | Command.adjustPHBy c => c.toBaseCommand
  | Command.setPHTarget c => c.toBaseCommand
  | Command.adjustTDSBy c => c.toBaseCommand
  | Command.setTDSTarget c => c.toBaseCommand
  | Command.emergencyStop c => c.toBaseCommand
  | Command.clearEmergencyStop c => c.toBaseCommand
  | Command.calibrateSensor c => c.toBaseCommand
  | Command.resetSystem c => c.toBaseCommand
  | Command.getSystemStatus c => c.toBaseCommand

/-- Method `CommandProcessor::createCommand`: `none` for the null pointer. -/
def createCommand (command_type command_id : String) : Option Command :=
  if command_type = "activate_pump" then
    some (Command.activatePump (ActivatePumpCommand.new command_id))
  else if command_type = "stop_pump" then
    some (Command.stopPump (StopPumpCommand.new command_id))
  else if command_type = "stop_all_pumps" then
    some (Command.stopAllPumps (StopAllPumpsCommand.new command_id))
  else if command_type = "dose_volume" then
    some (Command.doseVolume (DoseVolumeCommand.new command_id))
  else if command_type = "schedule_pump" then
    some (Command.schedulePump (SchedulePumpCommand.new command_id))
  else if command_type = "cancel_schedule" then
    some (Command.cancelSchedule (CancelScheduleCommand.new command_id))
  else if command_type = "adjust_ph_by" then
    some (Command.adjustPHBy (AdjustPHByCommand.new command_id))
  else if command_type = "set_ph_target" then
    some (Command.setPHTarget (SetPHTargetCommand.new command_id))
  else if command_type = "adjust_tds_by" then
    some (Command.adjustTDSBy (AdjustTDSByCommand.new command_id))
  else if command_type = "set_tds_target" then
    some (Command.setTDSTarget (SetTDSTargetCommand.new command_id))
  else if command_type = "emergency_stop" then
    some (Command.emergencyStop (EmergencyStopCommand.new command_id))
  else if command_type = "clear_emergency_stop" then
    some (Command.clearEmergencyStop (ClearEmergencyStopCommand.new command_id))
  else if command_type = "calibrate_sensor" then
    some (Command.calibrateSensor (CalibrateSensorCommand.new command_id))
  else if command_type = "reset_system" then
    some (Command.resetSystem (ResetSystemCommand.new command_id))
  else if command_type = "get_system_status" then
    some (Command.getSystemStatus (GetSystemStatusCommand.new command_id))
  else none

/-- Virtual call `validate`. -/
def Command.validate (cmd : Command) (dev : Device) (parameters : List (String × JsonValue)) :
    Bool × Command :=
  match cmd with
  | Command.activatePump c =>
    ((c.validate dev parameters).1, Command.activatePump (c.validate dev parameters).2)
  | Command.stopPump c =>
    ((c.validate dev parameters).1, Command.stopPump (c.validate dev parameters).2)
  | Command.stopAllPumps c =>
    ((c.validate dev parameters).1, Command.stopAllPumps (c.validate dev parameters).2)
  | Command.doseVolume c =>
    ((c.validate dev parameters).1, Command.doseVolume (c.validate dev parameters).2)
  | Command.schedulePump c =>
    ((c.validate dev parameters).1, Command.schedulePump (c.validate dev parameters).2)
  | Command.cancelSchedule c =>
    ((c.validate dev parameters).1, Command.cancelSchedule (c.validate dev parameters).2)
  | Command.adjustPHBy c =>
    ((c.validate dev parameters).1, Command.adjustPHBy (c.validate dev parameters).2)
  | Command.setPHTarget c =>
    ((c.validate dev parameters).1, Command.setPHTarget (c.validate dev parameters).2)
  | Command.adjustTDSBy c =>
    ((c.validate dev parameters).1, Command.adjustTDSBy (c.validate dev parameters).2)
  | Command.setTDSTarget c =>
    ((c.validate dev parameters).1, Command.setTDSTarget (c.validate dev parameters).2)
  | Command.emergencyStop c =>
    ((c.validate dev parameters).1, Command.emergencyStop (c.validate dev parameters).2)
  | Command.clearEmergencyStop c =>
    ((c.validate dev parameters).1, Command.clearEmergencyStop (c.validate dev parameters).2)
  | Command.calibrateSensor c =>
    ((c.validate dev parameters).1, Command.calibrateSensor (c.validate dev parameters).2)
  | Command.resetSystem c =>
    ((c.validate dev parameters).1, Command.resetSystem (c.validate dev parameters).2)
  | Command.getSystemStatus c =>
    ((c.validate dev parameters).1, Command.getSystemStatus (c.validate dev parameters).2)

/-- Virtual call `abort`: two classes stop their pump and set Failed, the
others do nothing. -/
def Command.abort (cmd : Command) (dev : Device) : Command × Device :=
  match cmd with
  | Command.activatePump c => (Command.activatePump (c.abort dev).1, (c.abort dev).2)
  | Command.doseVolume c => (Command.doseVolume (c.abort dev).1, (c.abort dev).2)
  | other => (other, dev)

/-! ## Concrete devices used in the examples -/

/-- A sensor of the given type whose last filtered reading is `filtered`. -/
def exampleSensor (type : SensorType) (filtered : ℚ) : BaseSensor :=
  { type := type
    calibration := none
    last_reading := { raw := filtered, calibrated := filtered, filtered := filtered,
                      timestamp := 900, quality := "good", calibration_valid := true } }

/-- A device configuration with the two pH pumps and the first two nutrient
pumps enabled (flow 1 ml/s, 60 s maximum runtime, 300 s cooldown) and nothing
else. -/
def exampleDosingDeviceConfig : Config :=
  { water_pump := { exampleConfig with enabled := false }
    air_pump := { exampleConfig with enabled := false }
    dosing_pumps := fun i =>
      if i.val < 4 then exampleDosingConfig 1
      else { exampleDosingConfig 1 with enabled := false } }

/-- A device at clock value 1000: the manager initialised with
`exampleDosingDeviceConfig`, a pH sensor reading `ph` and a TDS sensor reading
`tds`, no dose requested yet. -/
def exampleDevice (ph tds : ℚ) : Device :=
  { actuator_manager := (ActuatorManager.new.init exampleDosingDeviceConfig exampleConfig).2
    sensor_manager := { sensors := [exampleSensor SensorType.PH ph,
                                    exampleSensor SensorType.TDS tds] }
    millis := 1000
    dose_log := []
    restart_requested := false }

/-- The device of `exampleDevice` without any sensor. -/
def exampleDeviceNoSensor : Device :=
  { exampleDevice 7 500 with sensor_manager := { sensors := [] } }

/-- The `adjust_ph_by` command `cmd-1` after a successful `validate` with the
parameter `delta_ph` alone. -/
def exampleAdjustPH (delta_ph : ℚ) : AdjustPHByCommand :=
  ((AdjustPHByCommand.new "cmd-1").validate exampleDeviceNoSensor
    [("delta_ph", JsonValue.float delta_ph)]).2

/-- The `adjust_tds_by` command `cmd-2` after `validate` with the parameters
`delta_tds` and `max_volume_ml`. -/
def exampleAdjustTDS (delta_tds max_volume_ml : ℚ) : AdjustTDSByCommand :=
  ((AdjustTDSByCommand.new "cmd-2").validate exampleDeviceNoSensor
    [("delta_tds", JsonValue.float delta_tds),
     ("max_volume_ml", JsonValue.float max_volume_ml)]).2

/-- The `set_ph_target` command `cmd-3` after `validate` with the parameters
`target_ph`, `tolerance` and `max_attempts`. -/
def exampleSetPHTarget (target_ph tolerance : ℚ) (max_attempts : Int) : SetPHTargetCommand :=
  ((SetPHTargetCommand.new "cmd-3").validate exampleDeviceNoSensor
    [("target_ph", JsonValue.float target_ph), ("tolerance", JsonValue.float tolerance),
     ("max_attempts", JsonValue.int max_attempts)]).2

/-- The `set_tds_target` command `cmd-4` after `validate` with the parameters
`target_tds`, `tolerance` and `max_attempts`. -/
def exampleSetTDSTarget (target_tds tolerance : ℚ) (max_attempts : Int) : SetTDSTargetCommand :=
  ((SetTDSTargetCommand.new "cmd-4").validate exampleDeviceNoSensor
    [("target_tds", JsonValue.float target_tds), ("tolerance", JsonValue.float tolerance),
     ("max_attempts", JsonValue.int max_attempts)]).2

/-! ## sensors: calibration of a sensor -/

/-- Whether the calibration pointer is set and the calibration valid: the test
`calibration && calibration->isValid()`. -/
def calibrationUsable : Option Calibration → Bool
  | some calibration => calibration.isValid
  | none => false

/-- Method `PHSensor::calibrate`. -/
def PHSensor.calibrate (s : BaseSensor) (calibration_points : List JsonPoint) :
    Bool × BaseSensor :=
  if calibration_points.length < 2 then (false, s)
  else
    let points : List JsonPoint :=
      calibration_points.map
        (fun point => { raw := point.raw, value := none, ph := point.ph, tds := none })
    let cal_obj : CalibrationConfig :=
      { type := some "multi_point", reference_point := none,
        data := { slope := none, offset := none, points := some points } }
    let s1 : BaseSensor := { s with calibration := Calibration.createFromConfig cal_obj }
    if calibrationUsable s1.calibration = true then
      (true, { s1 with last_reading := { s1.last_reading with calibration_valid := true } })
    else
      (false, { s1 with last_reading := { s1.last_reading with calibration_valid := false } })

/-- Method `TDSSensor::calibrate`. -/
def TDSSensor.calibrate (s : BaseSensor) (calibration_points : List JsonPoint) :
    Bool × BaseSensor :=
  match calibration_points with
  | [] => (false, s)
  | first :: more =>
    let cal_obj : CalibrationConfig :=
      if more.isEmpty = true then
        { type := some "single_point",
          reference_point := some { raw := first.raw, value := none, ph := none, tds := first.tds },
          data := { slope := none, offset := none, points := none } }
      else
        { type := some "multi_point", reference_point := none,
          data :=
            { slope := none, offset := none,
              points := some (calibration_points.map
                (fun point => { raw := point.raw, value := none, ph := none, tds := point.tds })) } }
    let s1 : BaseSensor := { s with calibration := Calibration.createFromConfig cal_obj }
    if calibrationUsable s1.calibration = true then
      (true, { s1 with last_reading := { s1.last_reading with calibration_valid := true } })
    else
      (false, { s1 with last_reading := { s1.last_reading with calibration_valid := false } })

/-- Virtual call `calibrate`: a sensor of type PH is a `PHSensor`, one of type
TDS a `TDSSensor`. -/
def BaseSensor.calibrate (s : BaseSensor) (calibration_points : List JsonPoint) :
    Bool × BaseSensor :=
  match s.type with
  | SensorType.PH => PHSensor.calibrate s calibration_points
  | SensorType.TDS => TDSSensor.calibrate s calibration_points

/-- The call `sensor->calibrate(points)` on the sensor that `getSensor(type)`
returns: its result and the sensors afterwards; false when there is none. -/
def calibrateFirst (type : SensorType) (calibration_points : List JsonPoint) :
    List BaseSensor → Bool × List BaseSensor
  | [] => (false, [])
  | sensor :: rest =>
    if sensor.type = type then
      ((sensor.calibrate calibration_points).1, (sensor.calibrate calibration_points).2 :: rest)
    else
      ((calibrateFirst type calibration_points rest).1,
       sensor :: (calibrateFirst type calibration_points rest).2)

/-- Method `SensorManager::calibrateSensor`. -/
def SensorManager.calibrateSensor (s : SensorManager) (type : SensorType)
    (calibration_points : List JsonPoint) : Bool × SensorManager :=
  ((calibrateFirst type calibration_points s.sensors).1,
   { s with sensors := (calibrateFirst type calibration_points s.sensors).2 })

/-! ## The calls a command makes on the device -/

/-- Call `actuator_manager->activateActuator(pump_id, duration_ms)`. -/
def Device.activateActuator (dev : Device) (pump_id : String) (duration_ms : Nat) :
    Bool × Device :=
  let r := dev.actuator_manager.activateActuator dev.millis pump_id duration_ms
  (r.1, { dev with actuator_manager := r.2 })

/-- Call `actuator_manager->stopAllActuators()`. -/
def Device.stopAllActuators (dev : Device) : Bool × Device :=
  let r := dev.actuator_manager.stopAllActuators dev.millis
  (r.1, { dev with actuator_manager := r.2 })

/-- Call `actuator_manager->setSchedule(pump_id, interval_minutes, duration_seconds)`. -/
def Device.setSchedule (dev : Device) (pump_id : String)
    (interval_minutes duration_seconds : Nat) : Bool × Device :=
  let r := dev.actuator_manager.setSchedule pump_id interval_minutes duration_seconds
  (r.1, { dev with actuator_manager := r.2 })

/-- Call `actuator_manager->cancelSchedule(pump_id)`. -/
def Device.cancelSchedule (dev : Device) (pump_id : String) : Bool × Device :=
  let r := dev.actuator_manager.cancelSchedule pump_id
  (r.1, { dev with actuator_manager := r.2 })

/-- Call `actuator_manager->emergencyStop(reason)`. -/
def Device.emergencyStop (dev : Device) (reason : String) : Device :=
  { dev with actuator_manager := dev.actuator_manager.emergencyStop dev.millis reason }

/-- Call `actuator_manager->clearEmergencyStop()`. -/
def Device.clearEmergencyStop (dev : Device) : Device :=
  { dev with actuator_manager := dev.actuator_manager.clearEmergencyStop }

/-- Call `sensor_manager->calibrateSensor(type, points)`. -/
def Device.calibrateSensor (dev : Device) (type : SensorType)
    (calibration_points : List JsonPoint) : Bool × Device :=
  let r := dev.sensor_manager.calibrateSensor type calibration_points
  (r.1, { dev with sensor_manager := r.2 })

/-- Call `ESP.restart()`, recorded in the device.  The call does not return:
what follows it in the source does not run. -/
def Device.restart (dev : Device) : Device :=
  { dev with restart_requested := true }

/-! ## commands: `execute` of the pump and system commands -/

/-- The end of an `execute` that succeeded: `setResultData(result)` and
`setStatus(COMPLETED)`. -/
def BaseCommand.complete (c : BaseCommand) (now : Nat) (result : List (String × JsonValue)) :
    BaseCommand :=
  (c.setResultData result).setStatus now CommandStatus.COMPLETED

/-- Method `ActivatePumpCommand::execute`. -/
def ActivatePumpCommand.execute (c : ActivatePumpCommand) (dev : Device) :
    Bool × ActivatePumpCommand × Device :=
  let c1 : ActivatePumpCommand :=
    { c with toBaseCommand := c.toBaseCommand.setStatus dev.millis CommandStatus.EXECUTING }
  let r := dev.activateActuator c1.pump_id c1.duration_ms
  if r.1 = true then
    let result : List (String × JsonValue) :=
      [("pump_id", JsonValue.str c1.pump_id), ("duration_ms", JsonValue.int c1.duration_ms)]
    (true, { c1 with toBaseCommand := c1.toBaseCommand.complete r.2.millis result }, r.2)
  else (false, c1.setError r.2.millis ("Failed to activate pump " ++ c1.pump_id), r.2)

/-- Method `StopPumpCommand::execute`. -/
def StopPumpCommand.execute (c : StopPumpCommand) (dev : Device) :
    Bool × StopPumpCommand × Device :=
  let c1 : StopPumpCommand :=
    { c with toBaseCommand := c.toBaseCommand.setStatus dev.millis CommandStatus.EXECUTING }
  let r := dev.deactivateActuator c1.pump_id
  if r.1 = true then
    let result : List (String × JsonValue) := [("pump_id", JsonValue.str c1.pump_id)]
    (true, { c1 with toBaseCommand := c1.toBaseCommand.complete r.2.millis result }, r.2)
  else (false, c1.setError r.2.millis ("Failed to stop pump " ++ c1.pump_id), r.2)

/-- Method `StopAllPumpsCommand::execute`. -/
def StopAllPumpsCommand.execute (c : StopAllPumpsCommand) (dev : Device) :
    Bool × StopAllPumpsCommand × Device :=
  let c1 : StopAllPumpsCommand :=
    { c with toBaseCommand := c.toBaseCommand.setStatus dev.millis CommandStatus.EXECUTING }
  let r := dev.stopAllActuators
  if r.1 = true then
    let result : List (String × JsonValue) := [("message", JsonValue.str "All pumps stopped")]
    (true, { c1 with toBaseCommand := c1.toBaseCommand.complete r.2.millis result }, r.2)
  else
    let failed := c1.toBaseCommand.setError r.2.millis "Failed to stop all pumps"
    (false, { c1 with toBaseCommand := failed }, r.2)

/-- Method `DoseVolumeCommand::execute`. -/
def DoseVolumeCommand.execute (c : DoseVolumeCommand) (dev : Device) :
    Bool × DoseVolumeCommand × Device :=
  let c1 : DoseVolumeCommand :=
    { c with toBaseCommand := c.toBaseCommand.setStatus dev.millis CommandStatus.EXECUTING }
  let r := dev.dose c1.pump_id c1.volume_ml
  if r.1 = true then
    let result : List (String × JsonValue) :=
      [("pump_id", JsonValue.str c1.pump_id), ("volume_ml", JsonValue.float c1.volume_ml)]
    (true, { c1 with toBaseCommand := c1.toBaseCommand.complete r.2.millis result }, r.2)
  else
    (false, c1.setError r.2.millis
      ("Failed to dose " ++ floatText c1.volume_ml ++ " ml with pump " ++ c1.pump_id), r.2)

/-- Method `SchedulePumpCommand::execute`. -/
def SchedulePumpCommand.execute (c : SchedulePumpCommand) (dev : Device) :
    Bool × SchedulePumpCommand × Device :=
  let c1 : SchedulePumpCommand :=
    { c with toBaseCommand := c.toBaseCommand.setStatus dev.millis CommandStatus.EXECUTING }
  let r := dev.setSchedule c1.pump_id c1.interval_minutes c1.duration_seconds
  if r.1 = true then
    let result : List (String × JsonValue) :=
      [("pump_id", JsonValue.str c1.pump_id),
       ("interval_minutes", JsonValue.int c1.interval_minutes),
       ("duration_seconds", JsonValue.int c1.duration_seconds)]
    (true, { c1 with toBaseCommand := c1.toBaseCommand.complete r.2.millis result }, r.2)
  else (false, c1.setError r.2.millis ("Failed to set schedule for pump " ++ c1.pump_id), r.2)

/-- Method `CancelScheduleCommand::execute`. -/
def CancelScheduleCommand.execute (c : CancelScheduleCommand) (dev : Device) :
    Bool × CancelScheduleCommand × Device :=
  let c1 : CancelScheduleCommand :=
    { c with toBaseCommand := c.toBaseCommand.setStatus dev.millis CommandStatus.EXECUTING }
  let r := dev.cancelSchedule c1.pump_id
  if r.1 = true then
    let result : List (String × JsonValue) :=
      [("pump_id", JsonValue.str c1.pump_id), ("message", JsonValue.str "Schedule cancelled")]
    (true, { c1 with toBaseCommand := c1.toBaseCommand.complete r.2.millis result }, r.2)
  else
    (false, c1.setError r.2.millis ("Failed to cancel schedule for pump " ++ c1.pump_id), r.2)

/-- Method `EmergencyStopCommand::execute`. -/
def EmergencyStopCommand.execute (c : EmergencyStopCommand) (dev : Device) :
    Bool × EmergencyStopCommand × Device :=
  let c1 : EmergencyStopCommand :=
    { c with toBaseCommand := c.toBaseCommand.setStatus dev.millis CommandStatus.EXECUTING }
  let dev1 := dev.emergencyStop c1.reason
  let result : List (String × JsonValue) :=
    [("message", JsonValue.str "Emergency stop activated"), ("reason", JsonValue.str c1.reason),
     ("timestamp", JsonValue.int dev1.millis)]
  (true, { c1 with toBaseCommand := c1.toBaseCommand.complete dev1.millis result }, dev1)

/-- Method `ClearEmergencyStopCommand::execute`. -/
def ClearEmergencyStopCommand.execute (c : ClearEmergencyStopCommand) (dev : Device) :
    Bool × ClearEmergencyStopCommand × Device :=
  let c1 : ClearEmergencyStopCommand :=
    { c with toBaseCommand := c.toBaseCommand.setStatus dev.millis CommandStatus.EXECUTING }
  if dev.actuator_manager.emergency_stop_active = false then
    let failed := c1.toBaseCommand.setError dev.millis "No emergency stop is currently active"
    (false, { c1 with toBaseCommand := failed }, dev)
  else
    let dev1 := dev.clearEmergencyStop
    let result : List (String × JsonValue) :=
      [("message", JsonValue.str "Emergency stop cleared"),
       ("timestamp", JsonValue.int dev1.millis)]
    (true, { c1 with toBaseCommand := c1.toBaseCommand.complete dev1.millis result }, dev1)

/-- Method `CalibrateSensorCommand::execute`. -/
def CalibrateSensorCommand.execute (c : CalibrateSensorCommand) (dev : Device) :
    Bool × CalibrateSensorCommand × Device :=
  let c1 : CalibrateSensorCommand :=
    { c with toBaseCommand := c.toBaseCommand.setStatus dev.millis CommandStatus.EXECUTING }
  let sensor_name := if c1.sensor_type = SensorType.PH then "pH" else "TDS"
  let r := dev.calibrateSensor c1.sensor_type c1.calibration_points
  if r.1 = true then
    let result : List (String × JsonValue) :=
      [("sensor_type", JsonValue.str sensor_name),
       ("calibration_points", JsonValue.int c1.calibration_points.length),
       ("message", JsonValue.str "Sensor calibration successful")]
    (true, { c1 with toBaseCommand := c1.toBaseCommand.complete r.2.millis result }, r.2)
  else
    (false, c1.setError r.2.millis
      ("Sensor calibration failed for " ++ sensor_name ++ " sensor"), r.2)

/-- Method `ResetSystemCommand::execute` up to its call `ESP.restart()`, which
does not return: the command and the device at the restart.  The method
returns no value; its last statement, `return true`, is not reached. -/
def ResetSystemCommand.execute (c : ResetSystemCommand) (dev : Device) :
    ResetSystemCommand × Device :=
  let c1 : ResetSystemCommand :=
    { c with toBaseCommand := c.toBaseCommand.setStatus dev.millis CommandStatus.EXECUTING }
  let dev1 := dev.stopAllActuators.2
  let dev2 :=
    if dev1.actuator_manager.emergency_stop_active = true then dev1.clearEmergencyStop else dev1
  let result : List (String × JsonValue) :=
    [("message", JsonValue.str "System reset completed"),
     ("timestamp", JsonValue.int dev2.millis)]
  let c2 : ResetSystemCommand :=
    { c1 with toBaseCommand := c1.toBaseCommand.complete dev2.millis result }
  (c2, (dev2.delay 1000).restart)

/-- Method `GetSystemStatusCommand::createSystemStatus`, with the members of
the status document.  The values taken from the ESP and WiFi libraries and the
nested status reports are not part of the embedding: these members are kept
as `null` and `object`. -/
def GetSystemStatusCommand.createSystemStatus (dev : Device) : List (String × JsonValue) :=
  [("timestamp", JsonValue.int dev.millis), ("uptime_ms", JsonValue.int dev.millis),
   ("free_heap", JsonValue.null), ("total_heap", JsonValue.null),
   ("sensors", JsonValue.object), ("actuators", JsonValue.object), ("wifi", JsonValue.object)]

/-- Method `GetSystemStatusCommand::execute`. -/
def GetSystemStatusCommand.execute (c : GetSystemStatusCommand) (dev : Device) :
    Bool × GetSystemStatusCommand × Device :=
  let c1 : GetSystemStatusCommand :=
    { c with toBaseCommand := c.toBaseCommand.setStatus dev.millis CommandStatus.EXECUTING }
  let status := GetSystemStatusCommand.createSystemStatus dev
  (true, { c1 with toBaseCommand := c1.toBaseCommand.complete dev.millis status }, dev)

/-- Virtual call `execute`: `some` of the value returned, or `none` when the
call does not return because the device restarts in it; with it the command and
the device after the call, or at the restart. -/
def Command.execute (cmd : Command) (dev : Device) : Option Bool × Command × Device :=
  match cmd with
  | Command.activatePump c =>
    (some (c.execute dev).1, Command.activatePump (c.execute dev).2.1, (c.execute dev).2.2)
  | Command.stopPump c =>
    (some (c.execute dev).1, Command.stopPump (c.execute dev).2.1, (c.execute dev).2.2)
  | Command.stopAllPumps c =>
    (some (c.execute dev).1, Command.stopAllPumps (c.execute dev).2.1, (c.execute dev).2.2)
  | Command.doseVolume c =>
    (some (c.execute dev).1, Command.doseVolume (c.execute dev).2.1, (c.execute dev).2.2)
  | Command.schedulePump c =>
    (some (c.execute dev).1, Command.schedulePump (c.execute dev).2.1, (c.execute dev).2.2)
  | Command.cancelSchedule c =>
    (some (c.execute dev).1, Command.cancelSchedule (c.execute dev).2.1, (c.execute dev).2.2)
  | Command.adjustPHBy c =>
    (some (c.execute dev).1, Command.adjustPHBy (c.execute dev).2.1, (c.execute dev).2.2)
  | Command.setPHTarget c =>
    (some (c.execute dev).1, Command.setPHTarget (c.execute dev).2.1, (c.execute dev).2.2)
  | Command.adjustTDSBy c =>
    (some (c.execute dev).1, Command.adjustTDSBy (c.execute dev).2.1, (c.execute dev).2.2)
  | Command.setTDSTarget c =>
    (some (c.execute dev).1, Command.setTDSTarget (c.execute dev).2.1, (c.execute dev).2.2)
  | Command.emergencyStop c =>
    (some (c.execute dev).1, Command.emergencyStop (c.execute dev).2.1, (c.execute dev).2.2)
  | Command.clearEmergencyStop c =>
    (some (c.execute dev).1, Command.clearEmergencyStop (c.execute dev).2.1, (c.execute dev).2.2)
  | Command.calibrateSensor c =>
    (some (c.execute dev).1, Command.calibrateSensor (c.execute dev).2.1, (c.execute dev).2.2)
  | Command.resetSystem c =>
    (none, Command.resetSystem (c.execute dev).1, (c.execute dev).2)
  | Command.getSystemStatus c =>
    (some (c.execute dev).1, Command.getSystemStatus (c.execute dev).2.1, (c.execute dev).2.2)

/-- Whether the command is a `ResetSystemCommand`. -/
def Command.isReset : Command → Bool
  | Command.resetSystem _ => true
  | _ => false

/-! ## commands/CommandProcessor -/

/-- A command document as the processor reads it: a member is `none` when the
key is missing.  `command_id` and `command` are the texts the document yields
for these members, `params` the members of the parameter object (none for a
value that is not an object). -/
structure CommandJson where
  command_id : Option String
  command : Option String
  params : Option (List (String × JsonValue))
  deriving DecidableEq

/-- Structure `CommandResult`. -/
structure CommandResult where
  command_id : String
  status : CommandStatus
  error_message : String
  result_data : List (String × JsonValue)
  execution_time_ms : Nat
  deriving DecidableEq

/-- Method `BaseCommand::getResult`. -/
def BaseCommand.getResult (c : BaseCommand) : CommandResult :=
  { command_id := c.command_id
    status := c.status
    error_message := c.error_message
    result_data := c.result_data
    execution_time_ms := c.execution_time_ms }

/-- Members of `CommandProcessor`.  The map `active_commands` is the list of
its entries in key order, the queue the list of its documents, oldest first.
`mqtt_connected` is what `mqtt_client->isConnected()` returns, and `published`
lists the results handed to `MQTTClient::publishCommandResponse` so far. -/
structure CommandProcessor where
  active_commands : List (String × Command)
  command_queue : List CommandJson
  commands_processed : Nat
  commands_failed : Nat
  commands_timeout : Nat
  initialized : Bool
  mqtt_connected : Bool
  published : List CommandResult

/-- Constant `MAX_QUEUE_SIZE`. -/
def MAX_QUEUE_SIZE : Nat := 10

/-- Constant `COMMAND_TIMEOUT_MS`. -/
def COMMAND_TIMEOUT_MS : Nat := 60000

/-- Constructor `CommandProcessor::CommandProcessor()`. -/
def CommandProcessor.new : CommandProcessor :=
  { active_commands := []
    command_queue := []
    commands_processed := 0
    commands_failed := 0
    commands_timeout := 0
    initialized := false
    mqtt_connected := false
    published := [] }

/-- Method `CommandProcessor::init` with three managers that are not null;
`mqtt_connected` tells whether the MQTT client it is given is connected. -/
def CommandProcessor.init (p : CommandProcessor) (mqtt_connected : Bool) :
    Bool × CommandProcessor :=
  (true, { p with initialized := true, mqtt_connected := mqtt_connected })

/-- Lookup `active_commands.find(command_id)`. -/
def activeFind (command_id : String) : List (String × Command) → Option Command
  | [] => none
  | (k, v) :: rest => if command_id = k then some v else activeFind command_id rest

/-- Assignment `active_commands[command_id] = command` on the map, whose keys
are ordered character by character. -/
def activeAssign (command_id : String) (command : Command) :
    List (String × Command) → List (String × Command)
  | [] => [(command_id, command)]
  | (k, v) :: rest =>
    if command_id = k then (command_id, command) :: rest
    else if command_id.data < k.data then (command_id, command) :: (k, v) :: rest
    else (k, v) :: activeAssign command_id command rest

/-- Method `CommandProcessor::validateCommandJson`. -/
def CommandProcessor.validateCommandJson (p : CommandProcessor) (command_doc : CommandJson) :
    Bool :=
  if command_doc.command_id.isNone = true then false
  else if command_doc.command.isNone = true then false
  else if command_doc.params.isNone = true then false
  else if (command_doc.command_id.getD "").length = 0 then false
  else if (activeFind (command_doc.command_id.getD "") p.active_commands).isSome = true then false
  else true

/-- Method `CommandProcessor::queueCommand`. -/
def CommandProcessor.queueCommand (p : CommandProcessor) (command : CommandJson) :
    Bool × CommandProcessor :=
  if p.validateCommandJson command = false then (false, p)
  else if p.command_queue.length ≥ MAX_QUEUE_SIZE then (false, p)
  else (true, { p with command_queue := p.command_queue ++ [command] })

/-- Method `CommandProcessor::publishCommandResponse`. -/
def CommandProcessor.publishCommandResponse (p : CommandProcessor) (result : CommandResult) :
    CommandProcessor :=
  if p.mqtt_connected = false then p
  else { p with published := p.published ++ [result] }

/-- Method `CommandProcessor::executeCommand`: `some` of the value returned, or
`none` when `execute` does not return because the device restarts in it; the
command is then in the active table as it was at the restart. -/
def CommandProcessor.executeCommand (p : CommandProcessor) (dev : Device) (command : Command)
    (params : List (String × JsonValue)) : Option Bool × CommandProcessor × Device :=
  let command_id := command.base.command_id
  let v := command.validate dev params
  if v.1 = false then (some false, p.publishCommandResponse v.2.base.getResult, dev)
  else
    let e := v.2.execute dev
    (e.1, { p with active_commands := activeAssign command_id e.2.1 p.active_commands }, e.2.2)

/-- The body of the loop of `CommandProcessor::processCommandQueue` after the
document `command_doc` has been taken from the queue: whether the iteration
reaches its end (false when the device restarts in `executeCommand`: no
counter is then increased), and the processor and the device after the
iteration, or at the restart. -/
def CommandProcessor.handleRequest (s : CommandProcessor × Device) (command_doc : CommandJson) :
    Bool × CommandProcessor × Device :=
  let command_id := command_doc.command_id.getD ""
  let command_type := command_doc.command.getD ""
  let params := command_doc.params.getD []
  match createCommand command_type command_id with
  | none => (true, { s.1 with commands_failed := uadd s.1.commands_failed 1 }, s.2)
  | some command =>
    let r := s.1.executeCommand s.2 command params
    match r.1 with
    | some true =>
      (true, { r.2.1 with commands_processed := uadd r.2.1.commands_processed 1 }, r.2.2)
    | some false =>
      (true, { r.2.1 with commands_failed := uadd r.2.1.commands_failed 1 }, r.2.2)
    | none => (false, r.2.1, r.2.2)

/-- One iteration of the loop of `CommandProcessor::processCommandQueue`: the
document at the front of the queue is taken from it and handled. -/
def CommandProcessor.processRequest (p : CommandProcessor) (dev : Device) :
    Bool × CommandProcessor × Device :=
  match p.command_queue with
  | [] => (true, p, dev)
  | command_doc :: rest =>
    CommandProcessor.handleRequest ({ p with command_queue := rest }, dev) command_doc

/-- The loop of `CommandProcessor::processCommandQueue` run for at most `count`
iterations: it ends with the iteration in which the device restarts. -/
def CommandProcessor.processRequests : Nat → CommandProcessor → Device → CommandProcessor × Device
  | 0, p, dev => (p, dev)
  | count + 1, p, dev =>
    if (p.processRequest dev).1 = true then
      CommandProcessor.processRequests count (p.processRequest dev).2.1
        (p.processRequest dev).2.2
    else (p.processRequest dev).2

/-- Method `CommandProcessor::processCommandQueue`: the loop runs while the
queue is not empty, one iteration for every queued document.  The result is
the processor and the device when the method returns, or at the restart of
the device when a command restarts it: the device then has `restart_requested`
set and the method does not return. -/
def CommandProcessor.processCommandQueue (p : CommandProcessor) (dev : Device) :
    CommandProcessor × Device :=
  CommandProcessor.processRequests p.command_queue.length p dev

/-- Whether a status ends a command: Completed, Failed or Timeout. -/
def CommandStatus.isFinal (status : CommandStatus) : Bool :=
  decide (status = CommandStatus.COMPLETED ∨ status = CommandStatus.FAILED ∨
    status = CommandStatus.TIMEOUT)

/-- Method `CommandProcessor::cleanupCompletedCommands`: the result of every
entry with a final status is published, in key order, and the entry erased. -/
def CommandProcessor.cleanupCompletedCommands (p : CommandProcessor) : CommandProcessor :=
  let finished := p.active_commands.filter (fun entry => entry.2.base.status.isFinal)
  let p1 := finished.foldl (fun acc entry => acc.publishCommandResponse entry.2.base.getResult) p
  { p1 with
    active_commands := p.active_commands.filter (fun entry => !entry.2.base.status.isFinal) }

/-- Method `CommandProcessor::loop`; `checkCommandTimeouts` changes nothing.
When the device restarts in `processCommandQueue` the two calls after it are
not reached. -/
def CommandProcessor.loop (p : CommandProcessor) (dev : Device) : CommandProcessor × Device :=
  if p.initialized = false then (p, dev)
  else
    let r := p.processCommandQueue dev
    if r.2.restart_requested = true then r else (r.1.cleanupCompletedCommands, r.2)

/-! ## Call sequences on a moving-average filter -/

/-- A call on a `MovingAverageFilter`. -/
inductive FilterCall where
  | filter (value : ℚ)
  | reset

/-- The filter after one call. -/
def MovingAverageFilter.call (sqrtf : ℚ → ℚ) (f : MovingAverageFilter) :
    FilterCall → MovingAverageFilter
  | FilterCall.filter value => (f.filter sqrtf value).2
  | FilterCall.reset => f.reset

/-- The filter after a sequence of calls. -/
def MovingAverageFilter.calls (sqrtf : ℚ → ℚ) (f : MovingAverageFilter) :
    List FilterCall → MovingAverageFilter
  | [] => f
  | c :: rest => MovingAverageFilter.calls sqrtf (f.call sqrtf c) rest

/-- Whether a poll of the pump at `now` runs the max-runtime branch of
`Pump::checkAutoDeactivation`: the pump is Active, the planned-duration branch
does not return first, and `hasExceededMaxRuntime()` holds. -/
def Pump.takesMaxRuntimeBranch (p : Pump) (now : Nat) : Bool :=
  decide (p.state = ActuatorState.ACTIVE) &&
    !(decide (p.planned_duration_ms > 0) &&
        decide (usub now p.activation_start_time ≥ p.planned_duration_ms)) &&
    p.hasExceededMaxRuntime now

/-- The pump after polls at the given clock values. -/
def Pump.polls (p : Pump) : List Nat → Pump
  | [] => p
  | now :: rest => (p.loop now).polls rest

/-! ## commands/DosingCommand: the calls of the dosing loop -/

/-- The values returned by the `dose` calls of the loop of
`AdjustTDSByCommand::execute`, in the order of the calls. -/
def AdjustTDSByCommand.doseResults (volume_per_pump : ℚ) : List String → Device → List Bool
  | [], _ => []
  | pump_id :: rest, dev =>
    (dev.dose pump_id volume_per_pump).1 ::
      AdjustTDSByCommand.doseResults volume_per_pump rest (dev.dose pump_id volume_per_pump).2

/-- The local `volume_per_pump` of `AdjustTDSByCommand::execute`. -/
def AdjustTDSByCommand.volumePerPump (c : AdjustTDSByCommand) (dev : Device) : ℚ :=
  c.calculateRequiredVolume (AdjustTDSByCommand.getCurrentTDS dev.sensor_manager) c.delta_tds /
    ((AdjustTDSByCommand.selectNutrientPumps dev.actuator_manager).length : ℚ)

/-! ## Observations on a device -/

/-- State and dispensed volume of the dosing pump `pump_id` of a device. -/
def Device.dosingPumpStatus (dev : Device) (pump_id : String) : Option (ActuatorState × ℚ) :=
  (dev.actuator_manager.getDosingPump pump_id).map
    (fun pump => (pump.state, pump.total_volume_dispensed_ml))

/-- The calibration function of the first sensor of the given type, applied to
`raw`: none when there is no such sensor, `some none` when it has no
calibration. -/
def Device.calibratedBy (dev : Device) (type : SensorType) (raw : ℚ) : Option (Option ℚ) :=
  (dev.sensor_manager.getSensor type).map
    (fun sensor => sensor.calibration.map (fun calibration => calibration.calibrate raw))

/-! ## The ring buffer of the moving-average filter -/

/-- A manager initialised with `exampleDeviceConfig` whose water pump has been
given a schedule (every 30 minutes for 120 seconds) and that has then been
stopped by `emergencyStop("leak")` at 10 ms. -/
def exampleScheduledStoppedManager : ActuatorManager :=
  (((ActuatorManager.new.init exampleDeviceConfig exampleConfig).2.setSchedule
    "water_pump" 30 120).2).emergencyStop 10 "leak"

/-- The parameters of a `calibrate_sensor` request that names the sensor
`sensor_id` and gives two points, raw 1000 at pH 4 and raw 2000 at pH 7. -/
def exampleCalibrationParams (sensor_id : String) : List (String × JsonValue) :=
  [("sensor_id", JsonValue.str sensor_id),
   ("calibration_points", JsonValue.array
      [{ raw := some 1000, value := none, ph := some 4, tds := none },
       { raw := some 2000, value := none, ph := some 7, tds := none }])]

/-- A `dose_volume` request with the given id, for `volume_ml` on `pump_id`. -/
def exampleDoseRequest (command_id pump_id : String) (volume_ml : ℚ) : CommandJson :=
  { command_id := some command_id
    command := some "dose_volume"
    params := some [("pump_id", JsonValue.str pump_id), ("volume_ml", JsonValue.float volume_ml)] }

/-- A processor after `init` with a connected MQTT client. -/
def exampleProcessor : CommandProcessor := (CommandProcessor.new.init true).2

/-- The device of `exampleDevice 6 800` at 200000 ms, after the pump
`nutrient_a` has dosed 1 ml at 100000 ms (1000 ms at 1 ml/s) and the manager
has been polled at 101000 ms and 102000 ms: `nutrient_a` has been switched off
by the first poll and is in its 300 s cooldown, `nutrient_b` is idle. -/
def exampleCooldownDevice : Device :=
  { exampleDevice 6 800 with
    actuator_manager :=
      (exampleDevice 6 800).actuator_manager.run
        [(100000, ManagerOp.dose "nutrient_a" 1),
         (101000, ManagerOp.loop),
         (102000, ManagerOp.loop)]
    millis := 200000 }

/-- The device of `exampleDevice 6 800` after `emergencyStop("leak")`. -/
def exampleStoppedDevice : Device :=
  { exampleDevice 6 800 with
    actuator_manager := (exampleDevice 6 800).actuator_manager.emergencyStop 1000 "leak" }

/-- The `dose_volume` command `cmd-5` with the members `validate` gives it for
the pump `pump_id` and the volume `volume_ml`. -/
def exampleDoseVolume (pump_id : String) (volume_ml : ℚ) : DoseVolumeCommand :=
  { DoseVolumeCommand.new "cmd-5" with pump_id := pump_id, volume_ml := volume_ml }

/-- The processor of `exampleProcessor` after two `queueCommand` calls with
the same `command_id`, "cmd-7": a dose of 5 ml on `nutrient_a`, then a dose of
3 ml on `nutrient_b`. -/
def exampleDuplicateQueue : CommandProcessor :=
  ((exampleProcessor.queueCommand (exampleDoseRequest "cmd-7" "nutrient_a" 5)).2.queueCommand
    (exampleDoseRequest "cmd-7" "nutrient_b" 3)).2

/-- The processor of `exampleProcessor` with three queued requests: a dose of
5 ml on `nutrient_a` ("cmd-1"), a request of the unknown type "open_valve"
("cmd-2") and a dose of 500 ml on `nutrient_b` ("cmd-3"). -/
def exampleQueue : CommandProcessor :=
  (((exampleProcessor.queueCommand (exampleDoseRequest "cmd-1" "nutrient_a" 5)).2.queueCommand
    { command_id := some "cmd-2", command := some "open_valve", params := some [] }).2.queueCommand
    (exampleDoseRequest "cmd-3" "nutrient_b" 500)).2

/-- A dosing pump initialised with flow rate 1 ml/s and a maximum runtime of
134219 s (enabled, 300 s cooldown): `max_dose_ml` is 134219. -/
def exampleLongRuntimePump : DosingPump :=
  ((DosingPump.new "ph_down" { exampleDosingConfig 1 with max_runtime_sec := 134219 }).init
    { exampleDosingConfig 1 with max_runtime_sec := 134219 }).2

/-- The processor of `exampleProcessor` with two queued requests: a
`reset_system` request ("cmd-1") and a dose of 5 ml on `nutrient_a`
("cmd-2"). -/
def exampleResetQueue : CommandProcessor :=
  ((exampleProcessor.queueCommand
    { command_id := some "cmd-1", command := some "reset_system", params := some [] }).2.queueCommand
    (exampleDoseRequest "cmd-2" "nutrient_a" 5)).2

/-! ## sensors/filters: MovingAverageFilter in binary32 arithmetic -/

/-- Method `MovingAverageFilter::calculateAverage` with the result of every
`float` operation rounded to binary32: the running sum after each addition,
the buffer size converted to `float`, and the quotient. -/
def MovingAverageFilter.calculateAverage32 (f : MovingAverageFilter) : ℚ :=
  if f.buffer.isEmpty = true then 0
  else
    let sum := f.buffer.foldl (fun sum val => roundFloat (sum + val)) 0
    roundFloat (sum / roundFloat (f.buffer.length : ℚ))

/-- Method `MovingAverageFilter::calculateStandardDeviation` with the result
of every `float` operation rounded to binary32; `sqrtf` is the library `sqrt`
with its `float` result. -/
def MovingAverageFilter.calculateStandardDeviation32 (sqrtf : ℚ → ℚ) (f : MovingAverageFilter) :
    ℚ :=
  if f.buffer.length < 2 then 0
  else
    let avg := f.calculateAverage32
    let sum_squared_diff :=
      f.buffer.foldl (fun sum_squared_diff val =>
        let diff := roundFloat (val - avg)
        roundFloat (sum_squared_diff + roundFloat (diff * diff))) 0
    sqrtf (roundFloat (sum_squared_diff / roundFloat ((f.buffer.length - 1 : Nat) : ℚ)))

/-- Method `MovingAverageFilter::isOutlier` with the result of every `float`
operation rounded to binary32. -/
def MovingAverageFilter.isOutlier32 (sqrtf : ℚ → ℚ) (f : MovingAverageFilter) (value : ℚ) :
    Bool :=
  if f.buffer.length < 3 then false
  else
    let avg := f.calculateAverage32
    let std_dev := f.calculateStandardDeviation32 sqrtf
    if std_dev = 0 then false
    else
      let z_score := roundFloat (|roundFloat (value - avg)| / std_dev)
      decide (z_score > f.outlier_threshold)

/-- Method `MovingAverageFilter::filter` with the result of every `float`
operation rounded to binary32: the returned value and the filter after the
call. -/
def MovingAverageFilter.filter32 (sqrtf : ℚ → ℚ) (f : MovingAverageFilter) (value : ℚ) :
    ℚ × MovingAverageFilter :=
  if f.buffer.length ≥ 3 ∧ f.isOutlier32 sqrtf value = true then (f.calculateAverage32, f)
  else
    let f1 :=
      if f.buffer.length < f.window_size then { f with buffer := f.buffer ++ [value] }
      else { f with buffer := f.buffer.set f.current_index value, buffer_full := true }
    let f2 := { f1 with current_index := ((f1.current_index + 1) % ULONG_MOD) % f1.window_size }
    (f2.calculateAverage32, f2)

/-- The values returned by `filter32` for a stream of samples, and the filter
after the stream. -/
def MovingAverageFilter.feed32 (sqrtf : ℚ → ℚ) (f : MovingAverageFilter) :
    List ℚ → List ℚ × MovingAverageFilter
  | [] => ([], f)
  | value :: rest =>
    let r := f.filter32 sqrtf value
    let rs := MovingAverageFilter.feed32 sqrtf r.2 rest
    (r.1 :: rs.1, rs.2)

/-! ## Basic facts about the embedding -/

theorem setState_state (p : Pump) (s : ActuatorState) : (p.setState s).state = s := by
  unfold Pump.setState
  split
  · rfl
  · rename_i h
    exact (not_not.mp h)

theorem setState_eq (p : Pump) (s : ActuatorState) : p.setState s = { p with state := s } := by
  unfold Pump.setState
  split
  · rfl
  · rename_i h
    have h2 : p.state = s := not_not.mp h
    cases p
    simp_all

theorem validate_true_iff (p : Pump) (now d : Nat) :
    p.validateActivationRequest now d = true ↔
      (p.initialized = true ∧ p.config.enabled = true ∧ p.state ≠ ActuatorState.ACTIVE ∧
        p.isInCooldown now = false ∧ d ≤ p.maxRuntimeMs) := by
  unfold Pump.validateActivationRequest
  by_cases h1 : p.initialized = false
  · simp [h1]
  · by_cases h2 : p.config.enabled = false
    · simp [h1, h2]
    · by_cases h3 : p.state = ActuatorState.ACTIVE
      · simp [h1, h2, h3]
      · by_cases h4 : p.isInCooldown now = true
        · simp [h1, h2, h3, h4]
        · by_cases h5 : d > p.maxRuntimeMs
          · simp [h1, h2, h3, h4, h5]
          · simp only [Bool.not_eq_false] at h1 h2
            simp only [Bool.not_eq_true] at h4
            simp [h1, h2, h3, h4, h5, Nat.le_of_not_gt h5]

theorem activate_accept (p : Pump) (now d : Nat)
    (h : p.validateActivationRequest now d = true) :
    p.activate now d =
      (true, { p with planned_duration_ms := d
                      gpio_high := true
                      state := ActuatorState.ACTIVE
                      activation_start_time := now
                      activation_count := uadd p.activation_count 1 }) := by
  simp [Pump.activate, h, Pump.hardwareActivate, setState_eq, Pump.logActivation]

theorem activate_reject (p : Pump) (now d : Nat)
    (h : p.validateActivationRequest now d = false) :
    p.activate now d = (false, p) := by
  simp [Pump.activate, h]

theorem deactivate_active (p : Pump) (now : Nat) (h : p.state = ActuatorState.ACTIVE) :
    p.deactivate now =
      (true, { p with gpio_high := false
                      state := ActuatorState.IDLE
                      total_runtime_ms :=
                        if p.activation_start_time > 0 then
                          uadd p.total_runtime_ms (usub now p.activation_start_time)
                        else p.total_runtime_ms
                      last_activation_end :=
                        if p.activation_start_time > 0 then now else p.last_activation_end
                      activation_start_time := 0
                      planned_duration_ms := 0 }) := by
  unfold Pump.deactivate
  simp only [h, ne_eq, not_true_eq_false, if_false, Pump.hardwareDeactivate, if_true,
    setState_eq, Pump.logDeactivation]
  split <;> rfl

theorem deactivate_not_active (p : Pump) (now : Nat) (h : p.state ≠ ActuatorState.ACTIVE) :
    p.deactivate now = (false, p) := by
  simp [Pump.deactivate, h]

theorem loop_not_active_not_idle (p : Pump) (now : Nat) (h1 : p.state ≠ ActuatorState.ACTIVE)
    (h2 : p.state ≠ ActuatorState.IDLE) : p.loop now = p := by
  simp [Pump.loop, h1, h2]

/-- Cooldown law away from the clock value 0: when a pump that was activated at
a non-zero clock value is deactivated at a non-zero clock value `t`, a later
`activate` is rejected while `t' - t` is below the cooldown and accepted from
then on (given the other guards). -/
theorem cooldown_law_nonzero_clock (p : Pump) (t t' d : Nat)
    (hA : p.state = ActuatorState.ACTIVE) (hs : p.activation_start_time ≠ 0) (ht : t ≠ 0) :
    (usub t' t < p.cooldownMs →
      (p.deactivate t).2.activate t' d = (false, (p.deactivate t).2)) ∧
    (usub t' t ≥ p.cooldownMs → p.initialized = true → p.config.enabled = true →
      d ≤ p.maxRuntimeMs → ((p.deactivate t).2.activate t' d).1 = true) := by
  have hpos : p.activation_start_time > 0 := Nat.pos_of_ne_zero hs
  rw [deactivate_active p t hA]
  constructor
  · intro hlt
    apply activate_reject
    simp [Pump.validateActivationRequest, Pump.isInCooldown, hpos, ht, Pump.cooldownMs] at *
    intro _ _
    exact fun h => absurd hlt (Nat.not_lt.mpr h)
  · intro hge hi he hd
    have hv : Pump.validateActivationRequest
        { p with gpio_high := false
                 state := ActuatorState.IDLE
                 total_runtime_ms :=
                   if p.activation_start_time > 0 then
                     uadd p.total_runtime_ms (usub t p.activation_start_time)
                   else p.total_runtime_ms
                 last_activation_end :=
                   if p.activation_start_time > 0 then t else p.last_activation_end
                 activation_start_time := 0
                 planned_duration_ms := 0 } t' d = true := by
      rw [validate_true_iff]
      simp [Pump.isInCooldown, hpos, ht, Pump.cooldownMs, Pump.maxRuntimeMs, hi, he] at *
      exact ⟨hge, hd⟩
    rw [activate_accept _ _ _ hv]

theorem step_error_rejected (p : Pump) (now : Nat) (op : PumpOp)
    (hE : p.state = ActuatorState.ERROR) (hr : p.accepts now op = false) :
    p.step now op = p := by
  have hna : p.state ≠ ActuatorState.ACTIVE := by rw [hE]; decide
  have hni : p.state ≠ ActuatorState.IDLE := by rw [hE]; decide
  cases op with
  | activate d =>
    simp only [Pump.accepts] at hr
    simp only [Pump.step]
    by_cases hv : p.validateActivationRequest now d = true
    · rw [activate_accept p now d hv] at hr
      simp at hr
    · have hv2 : p.validateActivationRequest now d = false := by simpa using hv
      rw [activate_reject p now d hv2]
  | deactivate =>
    simp only [Pump.step]
    rw [deactivate_not_active p now hna]
  | dose v =>
    simp only [Pump.accepts] at hr
    simp only [Pump.step]
    unfold Pump.dose at hr ⊢
    split
    · rfl
    · rename_i hf
      simp only [hf, if_false] at hr
      by_cases hv : p.validateActivationRequest now (p.doseDurationMs v) = true
      · rw [activate_accept p now _ hv] at hr
        simp at hr
      · have hv2 : p.validateActivationRequest now (p.doseDurationMs v) = false := by
          simpa using hv
        rw [activate_reject p now _ hv2]
  | loop =>
    simp only [Pump.step]
    exact loop_not_active_not_idle p now hna hni

theorem step_accepted_active (p : Pump) (now : Nat) (op : PumpOp)
    (ha : p.accepts now op = true) : (p.step now op).state = ActuatorState.ACTIVE := by
  cases op with
  | activate d =>
    simp only [Pump.accepts] at ha
    simp only [Pump.step]
    by_cases hv : p.validateActivationRequest now d = true
    · rw [activate_accept p now d hv]
    · have hv2 : p.validateActivationRequest now d = false := by simpa using hv
      rw [activate_reject p now d hv2] at ha
      simp at ha
  | deactivate => simp [Pump.accepts] at ha
  | dose v =>
    simp only [Pump.accepts] at ha
    simp only [Pump.step]
    unfold Pump.dose at ha ⊢
    split
    · rename_i hf
      simp [hf] at ha
    · rename_i hf
      simp only [hf, if_false] at ha
      by_cases hv : p.validateActivationRequest now (p.doseDurationMs v) = true
      · rw [activate_accept p now _ hv]
      · have hv2 : p.validateActivationRequest now (p.doseDurationMs v) = false := by
          simpa using hv
        rw [activate_reject p now _ hv2] at ha
        simp at ha
  | loop => simp [Pump.accepts] at ha

theorem runRejected_error (p : Pump) (hE : p.state = ActuatorState.ERROR) :
    ∀ (calls : List (Nat × PumpOp)) (q : Pump), p.runRejected calls = some q → q = p := by
  intro calls
  induction calls with
  | nil =>
    intro q h
    simp only [Pump.runRejected, Option.some.injEq] at h
    exact h.symm
  | cons c rest ih =>
    intro q h
    obtain ⟨now, op⟩ := c
    unfold Pump.runRejected at h
    by_cases ha : p.accepts now op = true
    · simp [ha] at h
    · have ha2 : p.accepts now op = false := by simpa using ha
      simp only [ha2, Bool.false_eq_true, if_false] at h
      rw [step_error_rejected p now op hE ha2] at h
      exact ih q h

/-! ### ActuatorManager -/

theorem toPump_withPump (a : Actuator) (p : Pump) : (a.withPump p).toPump = p := by
  cases a <;> rfl

theorem withPump_toPump (a : Actuator) : a.withPump a.toPump = a := by
  cases a <;> rfl

theorem stopAllEntries_states (now : Nat) (l : List (String × Actuator)) :
    (stopAllEntries now l).2.map (fun e => (e.1, e.2.getState)) =
      l.map (fun e =>
        (e.1, if e.2.getState = ActuatorState.ACTIVE then ActuatorState.IDLE
              else e.2.getState)) := by
  induction l with
  | nil => rfl
  | cons e rest ih =>
    obtain ⟨k, a⟩ := e
    simp only [stopAllEntries, List.map_cons, ih, List.cons.injEq, and_true, Prod.mk.injEq,
      true_and]
    by_cases h : a.toPump.state = ActuatorState.ACTIVE
    · simp [Actuator.isActive, Pump.isActive, Actuator.getState, h, Actuator.deactivate,
        toPump_withPump, deactivate_active]
    · simp [Actuator.isActive, Pump.isActive, Actuator.getState, h]

theorem foldl_flag {α : Type} (f : ActuatorManager → α → ActuatorManager)
    (hf : ∀ acc x, (f acc x).emergency_stop_active = acc.emergency_stop_active) :
    ∀ (l : List α) (acc : ActuatorManager),
      (l.foldl f acc).emergency_stop_active = acc.emergency_stop_active := by
  intro l
  induction l with
  | nil => intro acc; rfl
  | cons x rest ih =>
    intro acc
    rw [List.foldl_cons, ih, hf]

theorem createDosingPumps_flag (m : ActuatorManager) (config : Config) (cfg0 : ActuatorConfig) :
    (m.createDosingPumps config cfg0).emergency_stop_active = m.emergency_stop_active := by
  unfold ActuatorManager.createDosingPumps
  apply foldl_flag
  intro acc i
  dsimp only
  split
  · split
    · rfl
    · rfl
  · rfl

theorem initializeActuators_flag (m : ActuatorManager) (config : Config)
    (cfg0 : ActuatorConfig) :
    (m.initializeActuators config cfg0).emergency_stop_active = m.emergency_stop_active := by
  unfold ActuatorManager.initializeActuators
  dsimp only
  rw [createDosingPumps_flag]
  split <;> split <;> (try split) <;> (try split) <;> rfl

theorem step_keeps_emergency_stop (m : ActuatorManager) (now : Nat) (op : ManagerOp)
    (hm : m.emergency_stop_active = true) (hop : op.isClear = false) :
    (m.step now op).emergency_stop_active = true := by
  cases op with
  | init config cfg0 =>
    simp only [ActuatorManager.step, ActuatorManager.init]
    rw [← hm, ← initializeActuators_flag m config cfg0]
  | addActuator a => exact hm
  | activateActuator id d =>
    simp [ActuatorManager.step, ActuatorManager.activateActuator,
      ActuatorManager.validateActuatorOperation, hm]
  | deactivateActuator id =>
    simp only [ActuatorManager.step, ActuatorManager.deactivateActuator]
    split <;> exact hm
  | stopAllActuators => exact hm
  | dose id v =>
    simp [ActuatorManager.step, ActuatorManager.dose,
      ActuatorManager.validateActuatorOperation, hm]
  | setSchedule id i d =>
    simp only [ActuatorManager.step, ActuatorManager.setSchedule]
    split
    · exact hm
    · split
      · split <;> exact hm
      · split
        · split <;> exact hm
        · exact hm
  | cancelSchedule id =>
    simp only [ActuatorManager.step, ActuatorManager.cancelSchedule]
    split
    · exact hm
    · split
      · split <;> exact hm
      · split
        · split <;> exact hm
        · exact hm
  | emergencyStop reason => rfl
  | clearEmergencyStop => simp [ManagerOp.isClear] at hop
  | loop =>
    simp only [ActuatorManager.step, ActuatorManager.loop]
    split <;> exact hm

theorem run_keeps_emergency_stop (calls : List (Nat × ManagerOp)) :
    ∀ (m : ActuatorManager), m.emergency_stop_active = true →
      (∀ c ∈ calls, c.2.isClear = false) → (m.run calls).emergency_stop_active = true := by
  induction calls with
  | nil => intro m hm _; exact hm
  | cons c rest ih =>
    intro m hm hc
    obtain ⟨now, op⟩ := c
    simp only [ActuatorManager.run]
    apply ih
    · exact step_keeps_emergency_stop m now op hm (hc (now, op) (List.mem_cons_self _ _))
    · intro c' hc'
      exact hc c' (List.mem_cons_of_mem _ hc')

/-! ### Members fixed by `init`, and dosing -/

theorem checkAutoDeactivation_cases (p : Pump) (now : Nat) :
    p.checkAutoDeactivation now = (p.deactivate now).2 ∨
    p.checkAutoDeactivation now =
      { (p.deactivate now).2 with state := ActuatorState.ERROR
                                  last_error := "Max runtime exceeded" } ∨
    p.checkAutoDeactivation now = p := by
  unfold Pump.checkAutoDeactivation
  dsimp only
  generalize (if p.planned_duration_ms > 0 then
    decide (usub now p.activation_start_time ≥ p.planned_duration_ms) else false) = reached
  cases reached
  · cases h : p.hasExceededMaxRuntime now <;> simp [setState_eq]
  · simp

theorem loop_cases (p : Pump) (now : Nat) :
    ∃ q : Pump, q = (if p.state = ActuatorState.ACTIVE then p.checkAutoDeactivation now else p) ∧
      (p.loop now = q ∨
        (q.state = ActuatorState.IDLE ∧ q.last_activation_end > 0 ∧ q.isInCooldown now = true ∧
          p.loop now = { q with state := ActuatorState.COOLDOWN })) := by
  refine ⟨_, rfl, ?_⟩
  unfold Pump.loop
  dsimp only
  generalize (if p.state = ActuatorState.ACTIVE then p.checkAutoDeactivation now else p) = q
  by_cases h1 : q.state = ActuatorState.IDLE ∧ q.last_activation_end > 0
  · by_cases h2 : q.isInCooldown now = true
    · right
      refine ⟨h1.1, h1.2, h2, ?_⟩
      simp [h1, h2, setState_eq]
    · left
      simp [h1, h2]
  · left
    simp only [h1, if_false]

theorem dosing_dose_reject (d : DosingPump) (now : Nat) (v : ℚ)
    (h : d.validateDoseRequest now v = false) : d.dose now v = (false, d) := by
  simp [DosingPump.dose, h]

theorem floatToULong_of_range (x : ℚ) (h0 : 0 ≤ x) (h1 : x < (ULONG_MOD : ℚ)) :
    ((floatToULong x : Nat) : ℤ) = ⌊x⌋ := by
  unfold floatToULong
  have hn : 0 ≤ ⌊x⌋ := Int.floor_nonneg.mpr h0
  have hlt : ⌊x⌋ < (ULONG_MOD : ℤ) := by
    rw [Int.floor_lt]
    exact_mod_cast h1
  have hlt2 : ⌊x⌋.toNat < ULONG_MOD := by
    have := Int.toNat_of_nonneg hn
    omega
  rw [Nat.mod_eq_of_lt hlt2]
  exact Int.toNat_of_nonneg hn

theorem floatToULong_le_floor (x : ℚ) (h0 : 0 ≤ x) : ((floatToULong x : Nat) : ℤ) ≤ ⌊x⌋ := by
  unfold floatToULong
  have hn : 0 ≤ ⌊x⌋ := Int.floor_nonneg.mpr h0
  have h1 : ⌊x⌋.toNat % ULONG_MOD ≤ ⌊x⌋.toNat := Nat.mod_le _ _
  have h2 := Int.toNat_of_nonneg hn
  omega

theorem maxRuntimeMs_of_range (p : Pump) (h0 : 0 ≤ p.config.max_runtime_sec)
    (h1 : p.config.max_runtime_sec * 1000 < (ULONG_MOD : ℤ)) :
    (p.maxRuntimeMs : ℤ) = p.config.max_runtime_sec * 1000 := by
  unfold Pump.maxRuntimeMs umul intToULong
  have hM : (ULONG_MOD : ℤ) = 4294967296 := by norm_num [ULONG_MOD]
  rw [hM] at h1 ⊢
  have h2 : p.config.max_runtime_sec % 4294967296 = p.config.max_runtime_sec :=
    Int.emod_eq_of_lt h0 (by omega)
  rw [h2]
  have h3 := Int.toNat_of_nonneg h0
  have h4 : p.config.max_runtime_sec.toNat * 1000 < ULONG_MOD := by
    unfold ULONG_MOD; omega
  rw [Nat.mod_eq_of_lt h4]
  push_cast
  rw [h3]

theorem dosing_dose_cases (d : DosingPump) (now : Nat) (v : ℚ) :
    d.dose now v = (false, d) ∨
    ((d.dose now v).1 = true ∧
      d.toPump.validateActivationRequest now (d.toPump.doseDurationMs v) = true ∧
      (d.dose now v).2.toPump = (d.toPump.activate now (d.toPump.doseDurationMs v)).2 ∧
      (d.dose now v).2.total_volume_dispensed_ml = d.total_volume_dispensed_ml + v) := by
  unfold DosingPump.dose
  by_cases hv : d.validateDoseRequest now v = false
  · left
    simp [hv]
  · simp only [hv, if_false]
    unfold Pump.dose
    by_cases hf : d.flow_rate_ml_per_sec ≤ 0
    · left
      simp [hf]
    · simp only [hf, if_false]
      by_cases ha : d.toPump.validateActivationRequest now (d.toPump.doseDurationMs v) = true
      · right
        rw [activate_accept _ _ _ ha]
        simp [DosingPump.logDose, ha]
      · have ha2 : d.toPump.validateActivationRequest now (d.toPump.doseDurationMs v) = false := by
          simpa using ha
        left
        rw [activate_reject _ _ _ ha2]
        simp

theorem validateDose_true (d : DosingPump) (now : Nat) (v : ℚ)
    (h : d.validateDoseRequest now v = true) :
    d.initialized = true ∧ 0 < v ∧ v ≤ d.max_dose_ml ∧ d.toPump.isInCooldown now = false ∧
      d.state ≠ ActuatorState.ACTIVE := by
  unfold DosingPump.validateDoseRequest at h
  by_cases h1 : d.initialized = false
  · simp [h1] at h
  · by_cases h2 : v ≤ 0
    · simp [h1, h2] at h
    · by_cases h3 : v > d.max_dose_ml
      · simp [h1, h2, h3] at h
      · by_cases h4 : d.toPump.isInCooldown now = true
        · simp [h1, h2, h3, h4] at h
        · by_cases h5 : d.state = ActuatorState.ACTIVE
          · simp [h1, h2, h3, h4, h5] at h
          · exact ⟨by simpa using h1, lt_of_not_ge h2, le_of_not_gt h3, by simpa using h4, h5⟩

theorem dosing_dose_accept (d : DosingPump) (now : Nat) (v : ℚ)
    (hval : d.validateDoseRequest now v = true) (hf : 0 < d.flow_rate_ml_per_sec)
    (ha : d.toPump.validateActivationRequest now (d.toPump.doseDurationMs v) = true) :
    (d.dose now v).1 = true ∧
    (d.dose now v).2.toPump = (d.toPump.activate now (d.toPump.doseDurationMs v)).2 ∧
    (d.dose now v).2.total_volume_dispensed_ml = d.total_volume_dispensed_ml + v := by
  rcases dosing_dose_cases d now v with h | ⟨h1, _, h3, h4⟩
  · exfalso
    have h2 := congrArg Prod.fst h
    unfold DosingPump.dose Pump.dose at h2
    simp only [hval, Bool.true_eq_false, if_false, not_le.mpr hf, activate_accept _ _ _ ha,
      if_true] at h2
  · exact ⟨h1, h3, h4⟩

theorem exampleDosingPump_eq (flow : ℚ) :
    exampleDosingPump flow =
      { toPump :=
          { actuator_id := "ph_down"
            type := ActuatorType.DOSING_PUMP
            config := exampleDosingConfig flow
            state := ActuatorState.IDLE
            activation_start_time := 0
            last_activation_end := 0
            total_runtime_ms := 0
            activation_count := 0
            initialized := true
            last_error := ""
            pin := 12
            flow_rate_ml_per_sec := flow
            planned_duration_ms := 0
            gpio_high := false }
        substance := "pH Down"
        concentration := "10%"
        max_dose_ml := flow * 60
        last_dose_time := 0
        total_volume_dispensed_ml := 0 } := by
  simp [exampleDosingPump, DosingPump.init, Pump.init, setState_eq, DosingPump.new, Pump.new,
    exampleDosingConfig]
  decide

theorem example_validate_dose (flow v : ℚ) (h0 : 0 < v) (h1 : v ≤ flow * 60) (now : Nat) :
    (exampleDosingPump flow).validateDoseRequest now v = true := by
  rw [exampleDosingPump_eq]
  simp [DosingPump.validateDoseRequest, Pump.isInCooldown, h0, h1]

theorem example_validate_activation (flow : ℚ) (now d : Nat) (hd : d ≤ 60000) :
    (exampleDosingPump flow).toPump.validateActivationRequest now d = true := by
  rw [validate_true_iff, exampleDosingPump_eq]
  have hmax : (60 : ℤ) % 4294967296 = 60 := by norm_num
  simp [Pump.isInCooldown, Pump.maxRuntimeMs, umul, intToULong, exampleDosingConfig, ULONG_MOD,
    hmax]
  exact hd

/-! ### The invariant of C7 away from the clock value 0 -/

theorem step_active_start (p : Pump) (now : Nat) (op : PumpOp) (hnow : now ≠ 0)
    (hinv : p.state = ActuatorState.ACTIVE → p.activation_start_time ≠ 0) :
    (p.step now op).state = ActuatorState.ACTIVE → (p.step now op).activation_start_time ≠ 0 := by
  have hact : ∀ d, (p.activate now d).2.state = ActuatorState.ACTIVE →
      (p.activate now d).2.activation_start_time ≠ 0 := by
    intro d
    by_cases hv : p.validateActivationRequest now d = true
    · rw [activate_accept p now d hv]
      intro _
      exact hnow
    · have hv2 : p.validateActivationRequest now d = false := by simpa using hv
      rw [activate_reject p now d hv2]
      exact hinv
  have hdeact : (p.deactivate now).2.state = ActuatorState.ACTIVE →
      (p.deactivate now).2.activation_start_time ≠ 0 := by
    by_cases h : p.state = ActuatorState.ACTIVE
    · rw [deactivate_active p now h]
      intro hc
      cases hc
    · rw [deactivate_not_active p now h]
      exact hinv
  cases op with
  | activate d => exact hact d
  | deactivate => exact hdeact
  | dose v =>
    simp only [Pump.step]
    unfold Pump.dose
    split
    · exact hinv
    · exact hact _
  | loop =>
    simp only [Pump.step]
    obtain ⟨q, hq, hl⟩ := loop_cases p now
    have hqinv : q.state = ActuatorState.ACTIVE → q.activation_start_time ≠ 0 := by
      rw [hq]
      split
      · rcases checkAutoDeactivation_cases p now with h | h | h
        · rw [h]
          exact hdeact
        · rw [h]
          intro hc
          cases hc
        · rw [h]
          exact hinv
      · exact hinv
    rcases hl with h | ⟨_, _, _, h⟩
    · rw [h]
      exact hqinv
    · rw [h]
      intro hc
      cases hc

/-- The invariant of C7 holds as long as no call is made at the clock value 0:
for every pump reached from a freshly initialised pump by calls at non-zero
clock values, `state == Active` implies `activation_start_time != 0`. -/
theorem active_start_nonzero_of_nonzero_clocks (calls : List (Nat × PumpOp)) :
    ∀ p : Pump, (p.state = ActuatorState.ACTIVE → p.activation_start_time ≠ 0) →
      (∀ c ∈ calls, c.1 ≠ 0) →
      (p.run calls).state = ActuatorState.ACTIVE → (p.run calls).activation_start_time ≠ 0 := by
  induction calls with
  | nil => intro p hinv _; exact hinv
  | cons c rest ih =>
    intro p hinv hc
    obtain ⟨now, op⟩ := c
    simp only [Pump.run]
    apply ih
    · exact step_active_start p now op (hc (now, op) (List.mem_cons_self _ _)) hinv
    · intro c' hc'
      exact hc c' (List.mem_cons_of_mem _ hc')

/-! ### Linear calibration -/

theorem setTwoPoints_of_close (c : LinearCalibration) (raw1 value1 raw2 value2 : ℚ)
    (h : |raw2 - raw1| < 1 / 1000) :
    c.setTwoPoints raw1 value1 raw2 value2 = (false, { c with valid := false }) := by
  unfold LinearCalibration.setTwoPoints
  rw [if_pos h]

theorem setTwoPoints_of_apart (c : LinearCalibration) (raw1 value1 raw2 value2 : ℚ)
    (h : ¬ |raw2 - raw1| < 1 / 1000) :
    c.setTwoPoints raw1 value1 raw2 value2 =
      (true, { slope := (value2 - value1) / (raw2 - raw1)
               offset := value1 - (value2 - value1) / (raw2 - raw1) * raw1
               valid := true }) := by
  unfold LinearCalibration.setTwoPoints
  rw [if_neg h]

/-! ### Exponential filter -/

theorem setAlpha_clamped (f : ExponentialFilter) (new_alpha : ℚ) :
    0 ≤ (f.setAlpha new_alpha).getAlpha ∧ (f.setAlpha new_alpha).getAlpha ≤ 1 := by
  unfold ExponentialFilter.setAlpha ExponentialFilter.getAlpha
  dsimp only
  by_cases h1 : new_alpha < 0
  · simp only [h1, if_true]
    norm_num
  · by_cases h2 : new_alpha > 1
    · simp [h1, h2]
    · simp only [h1, h2, if_false]
      exact ⟨not_lt.mp h1, not_lt.mp h2⟩

theorem exp_filter_alpha (f : ExponentialFilter) (value : ℚ) :
    (f.filter value).2.alpha = f.alpha := by
  unfold ExponentialFilter.filter
  split
  · rfl
  · split <;> rfl

theorem exp_step_alpha_clamped (f : ExponentialFilter) (op : ExponentialOp)
    (h : 0 ≤ f.getAlpha ∧ f.getAlpha ≤ 1) :
    0 ≤ (f.step op).getAlpha ∧ (f.step op).getAlpha ≤ 1 := by
  cases op with
  | filter value =>
    simp only [ExponentialFilter.step, ExponentialFilter.getAlpha, exp_filter_alpha]
    exact h
  | reset => exact h
  | setAlpha a => exact setAlpha_clamped f a
  | loadFromJson j =>
    simp only [ExponentialFilter.step, ExponentialFilter.loadFromJson]
    cases j.alpha with
    | none =>
      cases j.outlier_threshold with
      | none => exact h
      | some t => exact h
    | some a =>
      cases j.outlier_threshold with
      | none => exact setAlpha_clamped f _
      | some t => exact setAlpha_clamped f _

/-- Once the smoothing factor is within `[0, 1]`, every later call keeps it
there; `setAlpha` and a `loadFromJson` with an `alpha` member bring it there. -/
theorem exp_run_alpha_clamped (calls : List ExponentialOp) :
    ∀ f : ExponentialFilter, 0 ≤ f.getAlpha ∧ f.getAlpha ≤ 1 →
      0 ≤ (f.run calls).getAlpha ∧ (f.run calls).getAlpha ≤ 1 := by
  induction calls with
  | nil => intro f h; exact h
  | cons op rest ih =>
    intro f h
    simp only [ExponentialFilter.run]
    exact ih _ (exp_step_alpha_clamped f op h)

/-! ### Moving-average filter -/

theorem set_replicate_self (c : ℚ) (k i : Nat) :
    (List.replicate k c).set i c = List.replicate k c := by
  induction k generalizing i with
  | zero => simp
  | succ n ih =>
    cases i with
    | zero => simp [List.replicate_succ]
    | succ j => simp [List.replicate_succ, ih]

theorem exampleSqrt_zero : exampleSqrt 0 = 0 := by
  simp [exampleSqrt]

theorem feed_congr (sqrtf : ℚ → ℚ) (f g : MovingAverageFilter) (h : f = g) (later : List ℚ) :
    MovingAverageFilter.feed sqrtf f later = MovingAverageFilter.feed sqrtf g later := by
  rw [h]

theorem insertByRaw_perm (a : CalibrationPoint) (l : List CalibrationPoint) :
    (insertByRaw a l).Perm (a :: l) := by
  induction l with
  | nil => exact List.Perm.refl _
  | cons b rest ih =>
    unfold insertByRaw
    split
    · exact List.Perm.refl _
    · exact (List.Perm.cons b ih).trans (List.Perm.swap a b rest)

theorem sortByRaw_perm (l : List CalibrationPoint) : (sortByRaw l).Perm l := by
  induction l with
  | nil => exact List.Perm.refl _
  | cons a rest ih =>
    unfold sortByRaw
    exact (insertByRaw_perm a (sortByRaw rest)).trans (List.Perm.cons a ih)

theorem insertByRaw_sorted (a : CalibrationPoint) (l : List CalibrationPoint)
    (h : l.Pairwise (fun x y => x.raw ≤ y.raw)) :
    (insertByRaw a l).Pairwise (fun x y => x.raw ≤ y.raw) := by
  induction l with
  | nil => simp [insertByRaw]
  | cons b rest ih =>
    have hb := List.pairwise_cons.mp h
    unfold insertByRaw
    split
    · rename_i hlt
      refine List.pairwise_cons.mpr ⟨?_, h⟩
      intro y hy
      rcases List.mem_cons.mp hy with hy | hy
      · rw [hy]; exact le_of_lt hlt
      · exact le_trans (le_of_lt hlt) (hb.1 y hy)
    · rename_i hnlt
      refine List.pairwise_cons.mpr ⟨?_, ih hb.2⟩
      intro y hy
      have hy2 : y ∈ a :: rest := (insertByRaw_perm a rest).mem_iff.mp hy
      rcases List.mem_cons.mp hy2 with hy3 | hy3
      · rw [hy3]; exact not_lt.mp hnlt
      · exact hb.1 y hy3

theorem sortByRaw_sorted (l : List CalibrationPoint) :
    (sortByRaw l).Pairwise (fun x y => x.raw ≤ y.raw) := by
  induction l with
  | nil => simp [sortByRaw]
  | cons a rest ih =>
    unfold sortByRaw
    exact insertByRaw_sorted a _ ih

theorem apart_perm {l1 l2 : List CalibrationPoint} (hp : l1.Perm l2)
    (h : l1.Pairwise (fun x y => (1 : ℚ) / 1000 ≤ |x.raw - y.raw|)) :
    l2.Pairwise (fun x y => (1 : ℚ) / 1000 ≤ |x.raw - y.raw|) := by
  refine (List.Perm.pairwise_iff ?_ hp).mp h
  intro x y hxy
  rw [abs_sub_comm]
  exact hxy

theorem sortByRaw_ascending (l : List CalibrationPoint)
    (h : l.Pairwise (fun x y => (1 : ℚ) / 1000 ≤ |x.raw - y.raw|)) :
    (sortByRaw l).Pairwise (fun x y => x.raw < y.raw) := by
  have h1 := sortByRaw_sorted l
  have h2 := apart_perm (sortByRaw_perm l).symm h
  refine (h1.and h2).imp ?_
  intro x y hxy
  obtain ⟨hle, hap⟩ := hxy
  rcases lt_or_eq_of_le hle with hlt | heq
  · exact hlt
  · rw [heq, sub_self, abs_zero] at hap
    norm_num at hap

theorem addPoint_cases (c : MultiPointCalibration) (raw value : ℚ) :
    ((∃ p ∈ c.points, |p.raw - raw| < 1 / 1000) ∧ c.addPoint raw value = (false, c)) ∨
    ((∀ p ∈ c.points, (1 : ℚ) / 1000 ≤ |p.raw - raw|) ∧
      c.addPoint raw value =
        (true, { c with points := c.points ++ [{ raw := raw, value := value }] })) := by
  unfold MultiPointCalibration.addPoint
  by_cases h : c.points.any (fun point => decide (|point.raw - raw| < 1 / 1000)) = true
  · left
    rw [if_pos h]
    refine ⟨?_, rfl⟩
    obtain ⟨p, hp, hd⟩ := List.any_eq_true.mp h
    exact ⟨p, hp, of_decide_eq_true hd⟩
  · right
    rw [if_neg h]
    refine ⟨?_, rfl⟩
    intro p hp
    by_contra hc
    apply h
    exact List.any_eq_true.mpr ⟨p, hp, decide_eq_true (not_le.mp hc)⟩

theorem addPoint_apart (c : MultiPointCalibration) (raw value : ℚ)
    (h : c.points.Pairwise (fun x y => (1 : ℚ) / 1000 ≤ |x.raw - y.raw|)) :
    (c.addPoint raw value).2.points.Pairwise (fun x y => (1 : ℚ) / 1000 ≤ |x.raw - y.raw|) ∧
    (c.addPoint raw value).2.valid = c.valid := by
  rcases addPoint_cases c raw value with ⟨_, he⟩ | ⟨hall, he⟩
  · rw [he]; exact ⟨h, rfl⟩
  · rw [he]
    refine ⟨?_, rfl⟩
    show (c.points ++ [({ raw := raw, value := value } : CalibrationPoint)]).Pairwise _
    rw [List.pairwise_append]
    refine ⟨h, List.pairwise_singleton _ _, ?_⟩
    intro x hx y hy
    rw [List.mem_singleton] at hy
    rw [hy]
    exact hall x hx

theorem loadPoints_apart (arr : List JsonPoint) :
    ∀ c : MultiPointCalibration,
      c.points.Pairwise (fun x y => (1 : ℚ) / 1000 ≤ |x.raw - y.raw|) →
      (c.loadPoints arr).2.points.Pairwise (fun x y => (1 : ℚ) / 1000 ≤ |x.raw - y.raw|) ∧
      (c.loadPoints arr).2.valid = c.valid := by
  induction arr with
  | nil => intro c h; exact ⟨h, rfl⟩
  | cons point rest ih =>
    intro c h
    obtain ⟨h1, h2⟩ := addPoint_apart c point.rawOrDefault point.valueOrDefault h
    unfold MultiPointCalibration.loadPoints
    dsimp only
    split
    · exact ⟨h1, h2⟩
    · obtain ⟨h3, h4⟩ := ih _ h1
      exact ⟨h3, h4.trans h2⟩

theorem loadFromJson_cases (c : MultiPointCalibration) (j : CalibrationJson) :
    ((c.loadFromJson j).1 = false ∧ (c.loadFromJson j).2.valid = false ∧
      (c.loadFromJson j).2.points.Pairwise (fun x y => (1 : ℚ) / 1000 ≤ |x.raw - y.raw|)) ∨
    ((c.loadFromJson j).1 = true ∧ (c.loadFromJson j).2.valid = true ∧
      2 ≤ (c.loadFromJson j).2.points.length ∧
      (c.loadFromJson j).2.points.Pairwise (fun x y => x.raw < y.raw) ∧
      (c.loadFromJson j).2.points.Pairwise (fun x y => (1 : ℚ) / 1000 ≤ |x.raw - y.raw|)) := by
  unfold MultiPointCalibration.loadFromJson
  dsimp only
  cases hj : j.points with
  | none =>
    left
    exact ⟨rfl, rfl, List.Pairwise.nil⟩
  | some arr =>
    dsimp only
    obtain ⟨h1, h2⟩ := loadPoints_apart arr c.clearPoints List.Pairwise.nil
    have hv : (c.clearPoints.loadPoints arr).2.valid = false := h2
    by_cases hr : (c.clearPoints.loadPoints arr).1 = false
    · left
      rw [if_pos hr]
      exact ⟨rfl, hv, h1⟩
    · rw [if_neg hr]
      by_cases hl : (c.clearPoints.loadPoints arr).2.points.length < 2
      · left
        rw [if_pos hl]
        exact ⟨rfl, rfl, h1⟩
      · right
        rw [if_neg hl]
        refine ⟨rfl, rfl, ?_, sortByRaw_ascending _ h1, apart_perm (sortByRaw_perm _).symm h1⟩
        show 2 ≤ (sortByRaw (c.clearPoints.loadPoints arr).2.points).length
        rw [(sortByRaw_perm _).length_eq]
        omega

theorem calibration_step_apart (c : MultiPointCalibration) (op : CalibrationOp)
    (h : c.points.Pairwise (fun x y => (1 : ℚ) / 1000 ≤ |x.raw - y.raw|)) :
    (c.step op).points.Pairwise (fun x y => (1 : ℚ) / 1000 ≤ |x.raw - y.raw|) := by
  cases op with
  | addPoint raw value => exact (addPoint_apart c raw value h).1
  | clearPoints => exact List.Pairwise.nil
  | loadFromJson j =>
    rcases loadFromJson_cases c j with ⟨_, _, h3⟩ | ⟨_, _, _, _, h5⟩
    · exact h3
    · exact h5

theorem calibration_run_apart (calls : List CalibrationOp) :
    ∀ c : MultiPointCalibration,
      c.points.Pairwise (fun x y => (1 : ℚ) / 1000 ≤ |x.raw - y.raw|) →
      (c.run calls).points.Pairwise (fun x y => (1 : ℚ) / 1000 ≤ |x.raw - y.raw|) := by
  induction calls with
  | nil => intro c h; exact h
  | cons op rest ih =>
    intro c h
    simp only [MultiPointCalibration.run]
    exact ih _ (calibration_step_apart c op h)

theorem examplePhCalibration_eq :
    MultiPointCalibration.new.loadFromJson examplePhJson =
      (true, { points := [{ raw := 1721, value := 7 }, { raw := 2252, value := 4 }],
               valid := true }) := by
  norm_num [MultiPointCalibration.loadFromJson, examplePhJson, MultiPointCalibration.clearPoints,
    MultiPointCalibration.loadPoints, MultiPointCalibration.addPoint, JsonPoint.rawOrDefault,
    JsonPoint.valueOrDefault, MultiPointCalibration.sortPoints, sortByRaw, insertByRaw,
    abs_lt]

/-! ### Interpolation on ascending points -/

theorem lineThrough_left (a b : CalibrationPoint) : lineThrough a b a.raw = a.value := by
  simp [lineThrough]

theorem lineThrough_right (a b : CalibrationPoint) (h : a.raw < b.raw) :
    lineThrough a b b.raw = b.value := by
  unfold lineThrough
  have hne : b.raw - a.raw ≠ 0 := by linarith
  field_simp

theorem interpolateLoop_head (x : ℚ) (a b : CalibrationPoint) (post : List CalibrationPoint)
    (h1 : a.raw ≤ x) (h2 : x ≤ b.raw) :
    interpolateLoop x (a :: b :: post) = some (lineThrough a b x) := by
  unfold interpolateLoop
  rw [if_pos ⟨h1, h2⟩]
  rfl

theorem interpolateLoop_segment (x : ℚ) (a b : CalibrationPoint)
    (post : List CalibrationPoint) (h1 : a.raw ≤ x) (h2 : x ≤ b.raw) :
    ∀ pre : List CalibrationPoint,
      (pre ++ a :: b :: post).Pairwise (fun p q => p.raw < q.raw) →
      interpolateLoop x (pre ++ a :: b :: post) = some (lineThrough a b x) := by
  intro pre
  induction pre with
  | nil =>
    intro _
    exact interpolateLoop_head x a b post h1 h2
  | cons p pre' ih =>
    intro hasc
    have hp := List.pairwise_cons.mp hasc
    have hpa : p.raw < a.raw := hp.1 a (by simp)
    cases pre' with
    | nil =>
      show interpolateLoop x (p :: a :: b :: post) = _
      unfold interpolateLoop
      by_cases hc : x ≥ p.raw ∧ x ≤ a.raw
      · rw [if_pos hc]
        have hxa : x = a.raw := le_antisymm hc.2 h1
        have hl := lineThrough_right p a hpa
        unfold lineThrough at hl
        rw [hxa, lineThrough_left]
        exact congrArg some hl
      · rw [if_neg hc]
        exact ih hp.2
    | cons q pre'' =>
      show interpolateLoop x (p :: q :: (pre'' ++ a :: b :: post)) = _
      have hq := List.pairwise_cons.mp hp.2
      have hqa : q.raw < a.raw := hq.1 a (by simp)
      unfold interpolateLoop
      have hc : ¬ (x ≥ p.raw ∧ x ≤ q.raw) := by
        intro hc
        linarith [hc.2]
      rw [if_neg hc]
      exact ih hp.2

theorem getD_last_concat (l : List CalibrationPoint) (z d : CalibrationPoint) :
    (l ++ [z]).getD ((l ++ [z]).length - 1) d = z := by
  have hlen : (l ++ [z]).length - 1 = l.length := by simp
  rw [hlen, List.getD_append_right l [z] d l.length (le_refl _)]
  simp

theorem getD_before_last (l : List CalibrationPoint) (a b d : CalibrationPoint) :
    (l ++ [a, b]).getD ((l ++ [a, b]).length - 2) d = a := by
  have hlen : (l ++ [a, b]).length - 2 = l.length := by simp
  rw [hlen, List.getD_append_right l [a, b] d l.length (le_refl _)]
  simp

theorem interpolate_segment (c : MultiPointCalibration) (pre post : List CalibrationPoint)
    (a b : CalibrationPoint) (x : ℚ) (hpts : c.points = pre ++ a :: b :: post)
    (hasc : c.points.Pairwise (fun p q => p.raw < q.raw)) (h1 : a.raw ≤ x) (h2 : x ≤ b.raw) :
    c.interpolate x = lineThrough a b x := by
  have hab : a.raw < b.raw := by
    rw [hpts] at hasc
    have := (List.pairwise_append.mp hasc).2.1
    exact (List.pairwise_cons.mp this).1 b (by simp)
  have hlen : c.points.length = pre.length + post.length + 2 := by
    rw [hpts]
    simp
    omega
  unfold MultiPointCalibration.interpolate
  have hne : c.points.isEmpty = false := by
    rw [hpts]
    cases pre <;> rfl
  rw [hne]
  simp only [Bool.false_eq_true, if_false]
  rw [if_neg (by omega)]
  by_cases hfirst : x ≤ (c.pointAt 0).raw
  · rw [if_pos hfirst]
    cases pre with
    | nil =>
      have h0 : c.pointAt 0 = a := by
        unfold MultiPointCalibration.pointAt
        rw [hpts]
        rfl
      have h1' : c.pointAt 1 = b := by
        unfold MultiPointCalibration.pointAt
        rw [hpts]
        rfl
      rw [h0, h1']
      rfl
    | cons p pre' =>
      exfalso
      have h0 : c.pointAt 0 = p := by
        unfold MultiPointCalibration.pointAt
        rw [hpts]
        rfl
      rw [h0] at hfirst
      rw [hpts] at hasc
      have hpa : p.raw < a.raw := (List.pairwise_cons.mp hasc).1 a (by simp)
      linarith
  · rw [if_neg hfirst]
    by_cases hlast : x ≥ (c.pointAt (c.points.length - 1)).raw
    · rw [if_pos hlast]
      rcases List.eq_nil_or_concat post with hpost | ⟨post', z, hpost⟩
      · subst hpost
        have hpts2 : c.points = pre ++ [a, b] := hpts
        have hl1 : c.pointAt (c.points.length - 1) = b := by
          unfold MultiPointCalibration.pointAt
          have : c.points = (pre ++ [a]) ++ [b] := by rw [hpts2]; simp
          rw [this]
          exact getD_last_concat _ _ _
        have hl2 : c.pointAt (c.points.length - 2) = a := by
          unfold MultiPointCalibration.pointAt
          rw [hpts2]
          exact getD_before_last _ _ _ _
        rw [hl1] at hlast
        have hxb : x = b.raw := le_antisymm h2 hlast
        rw [hl1, hl2, hxb, lineThrough_right a b hab]
        simp
      · exfalso
        have hpts2 : c.points = (pre ++ a :: b :: post') ++ [z] := by
          rw [hpts, hpost]
          simp
        have hl1 : c.pointAt (c.points.length - 1) = z := by
          unfold MultiPointCalibration.pointAt
          rw [hpts2]
          exact getD_last_concat _ _ _
        rw [hl1] at hlast
        rw [hpts, hpost] at hasc
        have h3 := (List.pairwise_append.mp hasc).2.1
        have h4 := (List.pairwise_cons.mp h3).2
        have hbz : b.raw < z.raw := (List.pairwise_cons.mp h4).1 z (by simp)
        linarith
    · rw [if_neg hlast]
      rw [hpts] at hasc ⊢
      rw [interpolateLoop_segment x a b post h1 h2 pre hasc]
      rfl

theorem mem_segment_end (l : List CalibrationPoint) (p : CalibrationPoint) (hp : p ∈ l)
    (hlen : 2 ≤ l.length) :
    (∃ pre b post, l = pre ++ p :: b :: post) ∨ (∃ pre a, l = pre ++ [a, p]) := by
  obtain ⟨s, t, hst⟩ := List.append_of_mem hp
  cases t with
  | cons b post => exact Or.inl ⟨s, b, post, hst⟩
  | nil =>
    right
    rcases List.eq_nil_or_concat s with hs | ⟨s', a, hs⟩
    · subst hs
      rw [hst] at hlen
      simp at hlen
    · refine ⟨s', a, ?_⟩
      rw [hst, hs]
      simp

theorem calibrate_of_valid (c : MultiPointCalibration) (hv : c.isValid = true) (x : ℚ) :
    c.calibrate x = c.interpolate x := by
  unfold MultiPointCalibration.calibrate
  rw [hv]
  rfl

theorem isValid_of (c : MultiPointCalibration) (hv : c.valid = true) (hl : 2 ≤ c.points.length) :
    c.isValid = true := by
  simp [MultiPointCalibration.isValid, hv, hl]

/-! ### Total runtime -/

theorem activate_total (p : Pump) (now d : Nat) :
    (p.activate now d).2.total_runtime_ms = p.total_runtime_ms := by
  by_cases hv : p.validateActivationRequest now d = true
  · rw [activate_accept p now d hv]
  · have hv2 : p.validateActivationRequest now d = false := by simpa using hv
    rw [activate_reject p now d hv2]

theorem deactivate_total (p : Pump) (now : Nat) :
    (p.deactivate now).2.total_runtime_ms = p.total_runtime_ms ∨
    (p.deactivate now).2.total_runtime_ms =
      uadd p.total_runtime_ms (usub now p.activation_start_time) := by
  by_cases h : p.state = ActuatorState.ACTIVE
  · rw [deactivate_active p now h]
    by_cases hs : p.activation_start_time > 0
    · right
      simp [hs]
    · left
      simp [hs]
  · left
    rw [deactivate_not_active p now h]

theorem step_total (p : Pump) (now : Nat) (op : PumpOp) :
    (p.step now op).total_runtime_ms = p.total_runtime_ms ∨
    (p.step now op).total_runtime_ms =
      uadd p.total_runtime_ms (usub now p.activation_start_time) := by
  cases op with
  | activate d => exact Or.inl (activate_total p now d)
  | deactivate => exact deactivate_total p now
  | dose v =>
    left
    simp only [Pump.step]
    unfold Pump.dose
    split
    · rfl
    · exact activate_total p now _
  | loop =>
    simp only [Pump.step]
    obtain ⟨q, hq, hl⟩ := loop_cases p now
    have hqt : q.total_runtime_ms = p.total_runtime_ms ∨
        q.total_runtime_ms = uadd p.total_runtime_ms (usub now p.activation_start_time) := by
      rw [hq]
      split
      · rcases checkAutoDeactivation_cases p now with h | h | h
        · rw [h]
          exact deactivate_total p now
        · rw [h]
          exact deactivate_total p now
        · rw [h]
          exact Or.inl rfl
      · exact Or.inl rfl
    rcases hl with h | ⟨_, _, _, h⟩
    · rw [h]
      exact hqt
    · rw [h]
      exact hqt

/-! ### Polls of an Active pump with a planned duration -/

theorem loop_planned_reached (p : Pump) (now : Nat) (hA : p.state = ActuatorState.ACTIVE)
    (hd : 0 < p.planned_duration_ms)
    (hr : usub now p.activation_start_time ≥ p.planned_duration_ms) :
    p.loop now =
      (if (p.deactivate now).2.last_activation_end > 0 ∧
          (p.deactivate now).2.isInCooldown now = true then
        { (p.deactivate now).2 with state := ActuatorState.COOLDOWN }
      else (p.deactivate now).2) := by
  have hc : p.checkAutoDeactivation now = (p.deactivate now).2 := by
    simp [Pump.checkAutoDeactivation, hd, hr]
  have hs : (p.deactivate now).2.state = ActuatorState.IDLE := by
    rw [deactivate_active p now hA]
  unfold Pump.loop
  simp only [hA, if_true, hc, hs, true_and]
  by_cases h1 : (p.deactivate now).2.last_activation_end > 0
  · by_cases h2 : (p.deactivate now).2.isInCooldown now = true
    · simp [h1, h2, setState_eq]
    · simp [h1, h2]
  · simp [h1]

theorem loop_planned_not_reached (p : Pump) (now : Nat) (hA : p.state = ActuatorState.ACTIVE)
    (hr : usub now p.activation_start_time < p.planned_duration_ms)
    (hmax : p.planned_duration_ms ≤ p.maxRuntimeMs) :
    p.loop now = p := by
  have hd : 0 < p.planned_duration_ms := Nat.lt_of_le_of_lt (Nat.zero_le _) hr
  have hx : p.hasExceededMaxRuntime now = false := by
    simp [Pump.hasExceededMaxRuntime, hA]
    omega
  have hc : p.checkAutoDeactivation now = p := by
    simp [Pump.checkAutoDeactivation, hd, Nat.not_le.mpr hr, hx]
  unfold Pump.loop
  simp [hA, hc]

/-! ### Cooldown projection -/

theorem loop_idle_projection (p : Pump) (now : Nat) (hI : p.state = ActuatorState.IDLE)
    (hend : p.last_activation_end > 0) :
    (p.loop now).state =
      (if usub now p.last_activation_end < p.cooldownMs then ActuatorState.COOLDOWN
       else ActuatorState.IDLE) := by
  have hne : p.last_activation_end ≠ 0 := Nat.pos_iff_ne_zero.mp hend
  unfold Pump.loop
  by_cases hc : usub now p.last_activation_end < p.cooldownMs
  · simp [hI, hend, Pump.isInCooldown, hne, hc, setState_eq]
  · simp [hI, hend, Pump.isInCooldown, hne, hc]

/-! ### stopAllActuators -/

theorem stopAllEntries_map (now : Nat) (l : List (String × Actuator)) :
    (stopAllEntries now l).2 =
      l.map (fun e => (e.1, if e.2.isActive = true then (e.2.deactivate now).2 else e.2)) := by
  induction l with
  | nil => rfl
  | cons e rest ih =>
    obtain ⟨k, a⟩ := e
    simp only [stopAllEntries, List.map_cons, ih]
    by_cases h : a.isActive = true
    · simp [h]
    · simp [h]

theorem stopAllEntries_flag (now : Nat) (l : List (String × Actuator)) :
    (stopAllEntries now l).1 = true ↔
      ∀ e ∈ l, e.2.isActive = true → (e.2.deactivate now).1 = true := by
  induction l with
  | nil => simp [stopAllEntries]
  | cons e rest ih =>
    obtain ⟨k, a⟩ := e
    simp only [stopAllEntries, Bool.and_eq_true, ih, List.mem_cons, forall_eq_or_imp]
    by_cases h : a.isActive = true
    · simp [h]
    · simp [h]

/-! ### Commands: status and start time -/

theorem setStatus_status (c : BaseCommand) (now : Nat) (s : CommandStatus) :
    (c.setStatus now s).status = s := by
  unfold BaseCommand.setStatus
  dsimp only
  split
  · rfl
  · split
    · split <;> rfl
    · rfl

theorem setError_facts (c : BaseCommand) (now : Nat) (error : String) :
    (c.setError now error).status = CommandStatus.FAILED ∧
    (c.setError now error).start_time = c.start_time ∧
    (c.start_time = 0 → (c.setError now error).execution_time_ms = c.execution_time_ms) := by
  unfold BaseCommand.setError BaseCommand.setStatus
  simp only [reduceCtorEq, false_and, if_false, or_true, true_or, if_true]
  by_cases h : c.start_time > 0
  · simp only [h, if_true, true_and]
    intro h0
    omega
  · simp only [h, if_false]
    exact ⟨trivial, trivial, fun _ => trivial⟩

theorem activatePump_validate_base (c : ActivatePumpCommand) (dev : Device)
    (parameters : List (String × JsonValue)) :
    ((c.validate dev parameters).1 = true ∧
      (c.validate dev parameters).2.toBaseCommand =
        { c.toBaseCommand with params := parameters }) ∨
    ((c.validate dev parameters).1 = false ∧
      ∃ error, (c.validate dev parameters).2.toBaseCommand =
        ({ c.toBaseCommand with params := parameters }).setError dev.millis error) := by
  unfold ActivatePumpCommand.validate
  dsimp only
  repeat' split
  all_goals first
    | exact Or.inl ⟨rfl, rfl⟩
    | exact Or.inr ⟨rfl, _, rfl⟩

theorem stopPump_validate_base (c : StopPumpCommand) (dev : Device)
    (parameters : List (String × JsonValue)) :
    ((c.validate dev parameters).1 = true ∧
      (c.validate dev parameters).2.toBaseCommand =
        { c.toBaseCommand with params := parameters }) ∨
    ((c.validate dev parameters).1 = false ∧
      ∃ error, (c.validate dev parameters).2.toBaseCommand =
        ({ c.toBaseCommand with params := parameters }).setError dev.millis error) := by
  unfold StopPumpCommand.validate
  dsimp only
  repeat' split
  all_goals first
    | exact Or.inl ⟨rfl, rfl⟩
    | exact Or.inr ⟨rfl, _, rfl⟩

theorem doseVolume_validate_base (c : DoseVolumeCommand) (dev : Device)
    (parameters : List (String × JsonValue)) :
    ((c.validate dev parameters).1 = true ∧
      (c.validate dev parameters).2.toBaseCommand =
        { c.toBaseCommand with params := parameters }) ∨
    ((c.validate dev parameters).1 = false ∧
      ∃ error, (c.validate dev parameters).2.toBaseCommand =
        ({ c.toBaseCommand with params := parameters }).setError dev.millis error) := by
  unfold DoseVolumeCommand.validate
  dsimp only
  repeat' split
  all_goals first
    | exact Or.inl ⟨rfl, rfl⟩
    | exact Or.inr ⟨rfl, _, rfl⟩

theorem schedulePump_validate_base (c : SchedulePumpCommand) (dev : Device)
    (parameters : List (String × JsonValue)) :
    ((c.validate dev parameters).1 = true ∧
      (c.validate dev parameters).2.toBaseCommand =
        { c.toBaseCommand with params := parameters }) ∨
    ((c.validate dev parameters).1 = false ∧
      ∃ error, (c.validate dev parameters).2.toBaseCommand =
        ({ c.toBaseCommand with params := parameters }).setError dev.millis error) := by
  unfold SchedulePumpCommand.validate
  dsimp only
  repeat' split
  all_goals first
    | exact Or.inl ⟨rfl, rfl⟩
    | exact Or.inr ⟨rfl, _, rfl⟩

theorem cancelSchedule_validate_base (c : CancelScheduleCommand) (dev : Device)
    (parameters : List (String × JsonValue)) :
    ((c.validate dev parameters).1 = true ∧
      (c.validate dev parameters).2.toBaseCommand =
        { c.toBaseCommand with params := parameters }) ∨
    ((c.validate dev parameters).1 = false ∧
      ∃ error, (c.validate dev parameters).2.toBaseCommand =
        ({ c.toBaseCommand with params := parameters }).setError dev.millis error) := by
  unfold CancelScheduleCommand.validate
  dsimp only
  repeat' split
  all_goals first
    | exact Or.inl ⟨rfl, rfl⟩
    | exact Or.inr ⟨rfl, _, rfl⟩

theorem adjustPHBy_validate_base (c : AdjustPHByCommand) (dev : Device)
    (parameters : List (String × JsonValue)) :
    ((c.validate dev parameters).1 = true ∧
      (c.validate dev parameters).2.toBaseCommand =
        { c.toBaseCommand with params := parameters }) ∨
    ((c.validate dev parameters).1 = false ∧
      ∃ error, (c.validate dev parameters).2.toBaseCommand =
        ({ c.toBaseCommand with params := parameters }).setError dev.millis error) := by
  unfold AdjustPHByCommand.validate
  dsimp only
  repeat' split
  all_goals first
    | exact Or.inl ⟨rfl, rfl⟩
    | exact Or.inr ⟨rfl, _, rfl⟩

theorem setPHTarget_validate_base (c : SetPHTargetCommand) (dev : Device)
    (parameters : List (String × JsonValue)) :
    ((c.validate dev parameters).1 = true ∧
      (c.validate dev parameters).2.toBaseCommand =
        { c.toBaseCommand with params := parameters }) ∨
    ((c.validate dev parameters).1 = false ∧
      ∃ error, (c.validate dev parameters).2.toBaseCommand =
        ({ c.toBaseCommand with params := parameters }).setError dev.millis error) := by
  unfold SetPHTargetCommand.validate
  dsimp only
  repeat' split
  all_goals first
    | exact Or.inl ⟨rfl, rfl⟩
    | exact Or.inr ⟨rfl, _, rfl⟩

theorem adjustTDSBy_validate_base (c : AdjustTDSByCommand) (dev : Device)
    (parameters : List (String × JsonValue)) :
    ((c.validate dev parameters).1 = true ∧
      (c.validate dev parameters).2.toBaseCommand =
        { c.toBaseCommand with params := parameters }) ∨
    ((c.validate dev parameters).1 = false ∧
      ∃ error, (c.validate dev parameters).2.toBaseCommand =
        ({ c.toBaseCommand with params := parameters }).setError dev.millis error) := by
  unfold AdjustTDSByCommand.validate
  dsimp only
  repeat' split
  all_goals first
    | exact Or.inl ⟨rfl, rfl⟩
    | exact Or.inr ⟨rfl, _, rfl⟩

theorem setTDSTarget_validate_base (c : SetTDSTargetCommand) (dev : Device)
    (parameters : List (String × JsonValue)) :
    ((c.validate dev parameters).1 = true ∧
      (c.validate dev parameters).2.toBaseCommand =
        { c.toBaseCommand with params := parameters }) ∨
    ((c.validate dev parameters).1 = false ∧
      ∃ error, (c.validate dev parameters).2.toBaseCommand =
        ({ c.toBaseCommand with params := parameters }).setError dev.millis error) := by
  unfold SetTDSTargetCommand.validate
  dsimp only
  repeat' split
  all_goals first
    | exact Or.inl ⟨rfl, rfl⟩
    | exact Or.inr ⟨rfl, _, rfl⟩

theorem calibrateSensor_validate_base (c : CalibrateSensorCommand) (dev : Device)
    (parameters : List (String × JsonValue)) :
    ((c.validate dev parameters).1 = true ∧
      (c.validate dev parameters).2.toBaseCommand =
        { c.toBaseCommand with params := parameters }) ∨
    ((c.validate dev parameters).1 = false ∧
      ∃ error, (c.validate dev parameters).2.toBaseCommand =
        ({ c.toBaseCommand with params := parameters }).setError dev.millis error) := by
  unfold CalibrateSensorCommand.validate
  dsimp only
  repeat' split
  all_goals first
    | exact Or.inl ⟨rfl, rfl⟩
    | exact Or.inr ⟨rfl, _, rfl⟩

theorem command_validate_base (cmd : Command) (dev : Device)
    (parameters : List (String × JsonValue)) :
    ((cmd.validate dev parameters).1 = true ∧
      (cmd.validate dev parameters).2.base = { cmd.base with params := parameters }) ∨
    ((cmd.validate dev parameters).1 = false ∧
      ∃ error, (cmd.validate dev parameters).2.base =
        ({ cmd.base with params := parameters }).setError dev.millis error) := by
  cases cmd with
  | activatePump c => exact activatePump_validate_base c dev parameters
  | stopPump c => exact stopPump_validate_base c dev parameters
  | stopAllPumps c => exact Or.inl ⟨rfl, rfl⟩
  | doseVolume c => exact doseVolume_validate_base c dev parameters
  | schedulePump c => exact schedulePump_validate_base c dev parameters
  | cancelSchedule c => exact cancelSchedule_validate_base c dev parameters
  | adjustPHBy c => exact adjustPHBy_validate_base c dev parameters
  | setPHTarget c => exact setPHTarget_validate_base c dev parameters
  | adjustTDSBy c => exact adjustTDSBy_validate_base c dev parameters
  | setTDSTarget c => exact setTDSTarget_validate_base c dev parameters
  | emergencyStop c =>
    left
    simp only [Command.validate, Command.base, EmergencyStopCommand.validate]
    split <;> exact ⟨rfl, rfl⟩
  | clearEmergencyStop c => exact Or.inl ⟨rfl, rfl⟩
  | calibrateSensor c => exact calibrateSensor_validate_base c dev parameters
  | resetSystem c => exact Or.inl ⟨rfl, rfl⟩
  | getSystemStatus c => exact Or.inl ⟨rfl, rfl⟩

theorem command_abort_base (cmd : Command) (dev : Device) :
    (cmd.abort dev).1.base = cmd.base ∨
    (cmd.abort dev).1.base =
      cmd.base.setStatus (cmd.abort dev).2.millis CommandStatus.FAILED := by
  cases cmd <;> first | exact Or.inl rfl | exact Or.inr rfl

theorem setStatus_failed_start (c : BaseCommand) (now : Nat) :
    (c.setStatus now CommandStatus.FAILED).start_time = c.start_time := by
  unfold BaseCommand.setStatus
  simp only [reduceCtorEq, false_and, if_false, or_true, true_or, if_true]
  split <;> rfl

theorem ite_some_property {c : Prop} [Decidable c] {x : Command} {o : Option Command}
    (Q : Command → Prop) (hx : Q x) (ho : ∀ cmd, o = some cmd → Q cmd) :
    ∀ cmd, (if c then some x else o) = some cmd → Q cmd := by
  intro cmd h
  by_cases hc : c
  · rw [if_pos hc] at h
    injection h with h
    rw [← h]
    exact hx
  · rw [if_neg hc] at h
    exact ho cmd h

theorem createCommand_fresh (command_type command_id : String) :
    ∀ cmd, createCommand command_type command_id = some cmd →
      cmd.base.status = CommandStatus.PENDING ∧ cmd.base.start_time = 0 ∧
        cmd.base.execution_time_ms = 0 := by
  unfold createCommand
  repeat (refine ite_some_property _ ⟨rfl, rfl, rfl⟩ ?_)
  intro cmd h
  cases h

/-! ### AdjustPHBy -/

theorem adjustPH_setStatus_fields (c : AdjustPHByCommand) (now : Nat) (s : CommandStatus) :
    (c.setStatus now s).delta_ph = c.delta_ph ∧
    (c.setStatus now s).max_volume_ml = c.max_volume_ml ∧
    (c.setStatus now s).status = s :=
  ⟨rfl, rfl, setStatus_status _ _ _⟩

theorem adjustPH_setError_status (c : AdjustPHByCommand) (now : Nat) (e : String) :
    (c.setError now e).status = CommandStatus.FAILED :=
  (setError_facts _ _ _).1

theorem adjustPH_validate_true (c : AdjustPHByCommand) (dev : Device)
    (parameters : List (String × JsonValue)) (h : (c.validate dev parameters).1 = true) :
    |(c.validate dev parameters).2.delta_ph| ≤ 2 := by
  revert h
  unfold AdjustPHByCommand.validate
  dsimp only
  split
  · intro h
    simp at h
  · split
    · intro h
      simp at h
    · rename_i hle
      intro _
      exact not_lt.mp hle

theorem selectPHPump_length (delta_ph : ℚ) :
    (AdjustPHByCommand.selectPHPump delta_ph).length = 0 ↔ delta_ph = 0 := by
  unfold AdjustPHByCommand.selectPHPump
  rcases lt_trichotomy delta_ph 0 with h | h | h
  · simp only [h, if_true]
    constructor
    · intro h2
      exact absurd h2 (by decide)
    · intro h2
      exact absurd h2 (ne_of_lt h)
  · subst h
    simp
  · simp only [not_lt.mpr (le_of_lt h), if_false, h, if_true]
    constructor
    · intro h2
      exact absurd h2 (by decide)
    · intro h2
      exact absurd h2 (ne_of_gt h)

theorem adjustPH_execute_no_reading (c : AdjustPHByCommand) (dev : Device)
    (h : AdjustPHByCommand.getCurrentPH dev.sensor_manager < 0) :
    c.execute dev =
      (false, (c.setStatus dev.millis CommandStatus.EXECUTING).setError dev.millis
        "Cannot read current pH value", dev) := by
  unfold AdjustPHByCommand.execute
  simp only [h, if_true]

theorem adjustPH_execute_zero (c : AdjustPHByCommand) (dev : Device)
    (hread : 0 ≤ AdjustPHByCommand.getCurrentPH dev.sensor_manager) (h0 : c.delta_ph = 0) :
    (c.execute dev).1 = false ∧ (c.execute dev).2.1.status = CommandStatus.FAILED ∧
    (c.execute dev).2.2 = dev := by
  have hl : (AdjustPHByCommand.selectPHPump
      (c.setStatus dev.millis CommandStatus.EXECUTING).delta_ph).length = 0 :=
    (selectPHPump_length _).mpr h0
  unfold AdjustPHByCommand.execute
  simp only [not_lt.mpr hread, if_false, hl, if_true]
  exact ⟨trivial, adjustPH_setError_status _ _ _, trivial⟩

theorem adjustPH_execute_exceeds (c : AdjustPHByCommand) (dev : Device)
    (hread : 0 ≤ AdjustPHByCommand.getCurrentPH dev.sensor_manager) (h0 : c.delta_ph ≠ 0)
    (hex : c.calculateRequiredVolume (AdjustPHByCommand.getCurrentPH dev.sensor_manager)
      c.delta_ph > c.max_volume_ml) :
    (c.execute dev).1 = false ∧ (c.execute dev).2.1.status = CommandStatus.FAILED ∧
    (c.execute dev).2.2 = dev := by
  have hl : ¬ (AdjustPHByCommand.selectPHPump
      (c.setStatus dev.millis CommandStatus.EXECUTING).delta_ph).length = 0 :=
    fun h => h0 ((selectPHPump_length _).mp h)
  have hex2 : (c.setStatus dev.millis CommandStatus.EXECUTING).calculateRequiredVolume
      (AdjustPHByCommand.getCurrentPH dev.sensor_manager)
      (c.setStatus dev.millis CommandStatus.EXECUTING).delta_ph >
      (c.setStatus dev.millis CommandStatus.EXECUTING).max_volume_ml := hex
  unfold AdjustPHByCommand.execute
  simp only [not_lt.mpr hread, if_false, hl, hex2, if_true]
  exact ⟨trivial, adjustPH_setError_status _ _ _, trivial⟩

theorem adjustPH_execute_dose (c : AdjustPHByCommand) (dev : Device)
    (hread : 0 ≤ AdjustPHByCommand.getCurrentPH dev.sensor_manager) (h0 : c.delta_ph ≠ 0)
    (hfit : ¬ c.calculateRequiredVolume (AdjustPHByCommand.getCurrentPH dev.sensor_manager)
      c.delta_ph > c.max_volume_ml) :
    (c.execute dev).1 =
      (dev.dose (AdjustPHByCommand.selectPHPump c.delta_ph)
        (c.calculateRequiredVolume (AdjustPHByCommand.getCurrentPH dev.sensor_manager)
          c.delta_ph)).1 ∧
    (c.execute dev).2.2 =
      (dev.dose (AdjustPHByCommand.selectPHPump c.delta_ph)
        (c.calculateRequiredVolume (AdjustPHByCommand.getCurrentPH dev.sensor_manager)
          c.delta_ph)).2 ∧
    (c.execute dev).2.1.status =
      (if (dev.dose (AdjustPHByCommand.selectPHPump c.delta_ph)
          (c.calculateRequiredVolume (AdjustPHByCommand.getCurrentPH dev.sensor_manager)
            c.delta_ph)).1 = true then CommandStatus.COMPLETED
       else CommandStatus.FAILED) := by
  have hl : ¬ (AdjustPHByCommand.selectPHPump
      (c.setStatus dev.millis CommandStatus.EXECUTING).delta_ph).length = 0 :=
    fun h => h0 ((selectPHPump_length _).mp h)
  have hfit2 : ¬ (c.setStatus dev.millis CommandStatus.EXECUTING).calculateRequiredVolume
      (AdjustPHByCommand.getCurrentPH dev.sensor_manager)
      (c.setStatus dev.millis CommandStatus.EXECUTING).delta_ph >
      (c.setStatus dev.millis CommandStatus.EXECUTING).max_volume_ml := hfit
  have hd : (c.setStatus dev.millis CommandStatus.EXECUTING).delta_ph = c.delta_ph := rfl
  have hv : ∀ a b, (c.setStatus dev.millis CommandStatus.EXECUTING).calculateRequiredVolume a b =
      c.calculateRequiredVolume a b := fun _ _ => rfl
  unfold AdjustPHByCommand.execute
  simp only [not_lt.mpr hread, if_false, hl, hfit2]
  rw [hd, hv]
  split
  · rename_i hr
    rw [hr]
    exact ⟨rfl, rfl, by simp [AdjustPHByCommand.setStatus, setStatus_status]⟩
  · rename_i hr
    have hr2 : (dev.dose (AdjustPHByCommand.selectPHPump c.delta_ph)
        (c.calculateRequiredVolume (AdjustPHByCommand.getCurrentPH dev.sensor_manager)
          c.delta_ph)).1 = false := by simpa using hr
    rw [hr2]
    exact ⟨rfl, rfl, by simp [adjustPH_setError_status]⟩

theorem exampleAdjustPH_eq (delta_ph : ℚ) (h : |delta_ph| ≤ 2) :
    ((AdjustPHByCommand.new "cmd-1").validate exampleDeviceNoSensor
      [("delta_ph", JsonValue.float delta_ph)]).1 = true ∧
    (exampleAdjustPH delta_ph).delta_ph = delta_ph ∧
    (exampleAdjustPH delta_ph).max_volume_ml = 10 := by
  unfold exampleAdjustPH AdjustPHByCommand.validate
  simp [BaseCommand.getFloatParam, jsonFind, not_lt.mpr h, AdjustPHByCommand.new]

theorem exampleDeviceNoSensor_reading :
    AdjustPHByCommand.getCurrentPH exampleDeviceNoSensor.sensor_manager = -1 := by
  rfl

theorem exampleDevice_ph (ph tds : ℚ) :
    AdjustPHByCommand.getCurrentPH (exampleDevice ph tds).sensor_manager = ph := by
  simp [AdjustPHByCommand.getCurrentPH, exampleDevice, SensorManager.getSensor, exampleSensor]

theorem device_dose_log (dev : Device) (pump_id : String) (volume_ml : ℚ) :
    (dev.dose pump_id volume_ml).2.dose_log = dev.dose_log ++ [(pump_id, volume_ml)] := rfl

/-! ### AdjustTDSBy -/

theorem adjustTDS_validate_true (c : AdjustTDSByCommand) (dev : Device)
    (parameters : List (String × JsonValue)) (h : (c.validate dev parameters).1 = true) :
    0 ≤ (c.validate dev parameters).2.delta_tds ∧
    (c.validate dev parameters).2.delta_tds ≤ 500 := by
  revert h
  unfold AdjustTDSByCommand.validate
  dsimp only
  split
  · intro h
    simp at h
  · split
    · intro h
      simp at h
    · split
      · intro h
        simp at h
      · rename_i h0 h500
        intro _
        exact ⟨not_lt.mp h0, not_lt.mp h500⟩

theorem doseEach_log (volume : ℚ) (pumps : List String) :
    ∀ dev : Device, (AdjustTDSByCommand.doseEach volume pumps dev).2.dose_log =
      dev.dose_log ++ pumps.map (fun pump_id => (pump_id, volume)) := by
  induction pumps with
  | nil =>
    intro dev
    simp [AdjustTDSByCommand.doseEach]
  | cons pump_id rest ih =>
    intro dev
    simp only [AdjustTDSByCommand.doseEach, ih, device_dose_log, List.map_cons,
      List.append_assoc, List.singleton_append]

theorem mem_ite_singleton (c : Prop) [Decidable c] (x a : String) :
    x ∈ (if c then [a] else []) ↔ x = a ∧ c := by
  by_cases h : c
  · simp [h]
  · simp [h]

theorem selectNutrientPumps_mem (m : ActuatorManager) (pump_id : String) :
    pump_id ∈ AdjustTDSByCommand.selectNutrientPumps m ↔
      (pump_id = "nutrient_a" ∨ pump_id = "nutrient_b" ∨ pump_id = "cal_mag") ∧
        (m.getDosingPump pump_id).isSome = true := by
  unfold AdjustTDSByCommand.selectNutrientPumps
  simp only [List.mem_append, mem_ite_singleton]
  constructor
  · rintro ((⟨rfl, h⟩ | ⟨rfl, h⟩) | ⟨rfl, h⟩)
    · exact ⟨Or.inl rfl, h⟩
    · exact ⟨Or.inr (Or.inl rfl), h⟩
    · exact ⟨Or.inr (Or.inr rfl), h⟩
  · rintro ⟨rfl | rfl | rfl, h⟩
    · exact Or.inl (Or.inl ⟨rfl, h⟩)
    · exact Or.inl (Or.inr ⟨rfl, h⟩)
    · exact Or.inr ⟨rfl, h⟩

theorem sum_map_const (pumps : List String) (x : ℚ) :
    (pumps.map (fun _ => x)).sum = (pumps.length : ℚ) * x := by
  induction pumps with
  | nil => simp
  | cons a rest ih =>
    simp only [List.map_cons, List.sum_cons, ih, List.length_cons]
    push_cast
    ring

theorem adjustTDS_execute_dose (c : AdjustTDSByCommand) (dev : Device)
    (hread : 0 ≤ AdjustTDSByCommand.getCurrentTDS dev.sensor_manager)
    (hk : AdjustTDSByCommand.selectNutrientPumps dev.actuator_manager ≠ [])
    (hfit : ¬ c.calculateRequiredVolume (AdjustTDSByCommand.getCurrentTDS dev.sensor_manager)
      c.delta_tds > c.max_volume_ml) :
    (c.execute dev).1 =
      (AdjustTDSByCommand.doseEach
        (c.calculateRequiredVolume (AdjustTDSByCommand.getCurrentTDS dev.sensor_manager)
          c.delta_tds /
          ((AdjustTDSByCommand.selectNutrientPumps dev.actuator_manager).length : ℚ))
        (AdjustTDSByCommand.selectNutrientPumps dev.actuator_manager) dev).1 ∧
    (c.execute dev).2.2 =
      (AdjustTDSByCommand.doseEach
        (c.calculateRequiredVolume (AdjustTDSByCommand.getCurrentTDS dev.sensor_manager)
          c.delta_tds /
          ((AdjustTDSByCommand.selectNutrientPumps dev.actuator_manager).length : ℚ))
        (AdjustTDSByCommand.selectNutrientPumps dev.actuator_manager) dev).2 ∧
    (c.execute dev).2.1.status =
      (if (c.execute dev).1 = true then CommandStatus.COMPLETED else CommandStatus.FAILED) := by
  have hne : (AdjustTDSByCommand.selectNutrientPumps dev.actuator_manager).isEmpty = false := by
    cases hp : AdjustTDSByCommand.selectNutrientPumps dev.actuator_manager with
    | nil => exact absurd hp hk
    | cons a rest => rfl
  have hfit2 : ¬ (c.setStatus dev.millis CommandStatus.EXECUTING).calculateRequiredVolume
      (AdjustTDSByCommand.getCurrentTDS dev.sensor_manager)
      (c.setStatus dev.millis CommandStatus.EXECUTING).delta_tds >
      (c.setStatus dev.millis CommandStatus.EXECUTING).max_volume_ml := hfit
  have hd : (c.setStatus dev.millis CommandStatus.EXECUTING).delta_tds = c.delta_tds := rfl
  have hv : ∀ a b, (c.setStatus dev.millis CommandStatus.EXECUTING).calculateRequiredVolume a b =
      c.calculateRequiredVolume a b := fun _ _ => rfl
  unfold AdjustTDSByCommand.execute
  simp only [not_lt.mpr hread, if_false, hne, Bool.false_eq_true, hfit2]
  rw [hd, hv]
  split
  · rename_i hr
    rw [hr]
    refine ⟨rfl, rfl, ?_⟩
    simp [AdjustTDSByCommand.setStatus, setStatus_status]
  · rename_i hr
    have hr2 : (AdjustTDSByCommand.doseEach
        (c.calculateRequiredVolume (AdjustTDSByCommand.getCurrentTDS dev.sensor_manager)
          c.delta_tds /
          ((AdjustTDSByCommand.selectNutrientPumps dev.actuator_manager).length : ℚ))
        (AdjustTDSByCommand.selectNutrientPumps dev.actuator_manager) dev).1 = false := by
      simpa using hr
    rw [hr2]
    refine ⟨rfl, rfl, ?_⟩
    simp [AdjustTDSByCommand.setError, setError_facts]

/-! ### SetPHTarget -/

theorem setStatus_command_id (c : BaseCommand) (now : Nat) (s : CommandStatus) :
    (c.setStatus now s).command_id = c.command_id := by
  unfold BaseCommand.setStatus
  dsimp only
  split
  · rfl
  · split
    · split <;> rfl
    · rfl

theorem adjustPH_execute_log_le (c : AdjustPHByCommand) (dev : Device) :
    (c.execute dev).2.2.dose_log.length ≤ dev.dose_log.length + 1 := by
  unfold AdjustPHByCommand.execute
  dsimp only
  repeat' split
  all_goals simp [Device.dose]

theorem delay_dose_log (dev : Device) (ms : Nat) : (dev.delay ms).dose_log = dev.dose_log :=
  rfl

theorem setPH_adjustLoop_log_le (c : SetPHTargetCommand) (remaining : Nat) :
    ∀ (attempt : Nat) (dev : Device),
      (c.adjustLoop remaining attempt dev).2.dose_log.length ≤ dev.dose_log.length + remaining := by
  induction remaining with
  | zero =>
    intro attempt dev
    simp [SetPHTargetCommand.adjustLoop]
  | succ n ih =>
    intro attempt dev
    unfold SetPHTargetCommand.adjustLoop
    dsimp only
    split
    · simp
    · split
      · simp
      · split
        · simp
        · split
          · have h := adjustPH_execute_log_le
              (c.subAdjustment attempt
                (c.target_ph - SetPHTargetCommand.getCurrentPH dev.sensor_manager) dev).2 dev
            exact Nat.le_trans h (by omega)
          · have h := adjustPH_execute_log_le
              (c.subAdjustment attempt
                (c.target_ph - SetPHTargetCommand.getCurrentPH dev.sensor_manager) dev).2 dev
            have h2 := ih (attempt + 1)
              (((c.subAdjustment attempt
                (c.target_ph - SetPHTargetCommand.getCurrentPH dev.sensor_manager)
                dev).2.execute dev).2.2.delay 30000)
            rw [delay_dose_log] at h2
            omega

theorem setPH_adjustLoop_setStatus (c : SetPHTargetCommand) (now : Nat) (s : CommandStatus)
    (remaining : Nat) :
    ∀ (attempt : Nat) (dev : Device),
      (c.setStatus now s).adjustLoop remaining attempt dev =
        c.adjustLoop remaining attempt dev := by
  have hsub : ∀ attempt delta dev, (c.setStatus now s).subAdjustment attempt delta dev =
      c.subAdjustment attempt delta dev := by
    intro attempt delta dev
    unfold SetPHTargetCommand.subAdjustment
    have hid : (c.setStatus now s).command_id = c.command_id :=
      setStatus_command_id c.toBaseCommand now s
    rw [hid]
  have ht : (c.setStatus now s).target_ph = c.target_ph := rfl
  have htol : (c.setStatus now s).tolerance = c.tolerance := rfl
  induction remaining with
  | zero =>
    intro attempt dev
    rfl
  | succ n ih =>
    intro attempt dev
    unfold SetPHTargetCommand.adjustLoop
    simp only [hsub, ht, htol, ih]

theorem subAdjustment_fields (c : SetPHTargetCommand) (attempt : Nat) (delta : ℚ) (dev : Device)
    (h : (c.subAdjustment attempt delta dev).1 = true) :
    (c.subAdjustment attempt delta dev).2.delta_ph = delta * (1 / 2) ∧
    (c.subAdjustment attempt delta dev).2.max_volume_ml = 5 := by
  revert h
  unfold SetPHTargetCommand.subAdjustment AdjustPHByCommand.validate
  simp only [BaseCommand.getFloatParam, jsonFind]
  simp only [String.reduceEq, if_true, if_false]
  split
  · intro h
    simp at h
  · intro _
    exact ⟨rfl, rfl⟩

theorem setPH_execute_loop (c : SetPHTargetCommand) (dev : Device) :
    (c.execute dev).1 = (c.adjustLoop c.max_attempts.toNat 0 dev).1 ∧
    (c.execute dev).2.2 = (c.adjustLoop c.max_attempts.toNat 0 dev).2 ∧
    (c.execute dev).2.1.status =
      (if (c.adjustLoop c.max_attempts.toNat 0 dev).1 = true then CommandStatus.COMPLETED
       else CommandStatus.FAILED) := by
  have hl : (c.setStatus dev.millis CommandStatus.EXECUTING).adjustPHToTarget dev =
      c.adjustLoop c.max_attempts.toNat 0 dev := by
    unfold SetPHTargetCommand.adjustPHToTarget
    exact setPH_adjustLoop_setStatus c dev.millis CommandStatus.EXECUTING _ 0 dev
  unfold SetPHTargetCommand.execute
  simp only [hl]
  split
  · rename_i hr
    rw [hr]
    refine ⟨rfl, rfl, ?_⟩
    simp [SetPHTargetCommand.setStatus, setStatus_status]
  · rename_i hr
    have hr2 : (c.adjustLoop c.max_attempts.toNat 0 dev).1 = false := by simpa using hr
    rw [hr2]
    refine ⟨rfl, rfl, ?_⟩
    simp [SetPHTargetCommand.setError, setError_facts]

theorem setPH_adjustLoop_step (c : SetPHTargetCommand) (remaining attempt : Nat) (d : Device) :
    (SetPHTargetCommand.getCurrentPH d.sensor_manager < 0 →
      c.adjustLoop (remaining + 1) attempt d = (false, d)) ∧
    (0 ≤ SetPHTargetCommand.getCurrentPH d.sensor_manager →
      |c.target_ph - SetPHTargetCommand.getCurrentPH d.sensor_manager| ≤ c.tolerance →
      c.adjustLoop (remaining + 1) attempt d = (true, d)) ∧
    (0 ≤ SetPHTargetCommand.getCurrentPH d.sensor_manager →
      ¬ |c.target_ph - SetPHTargetCommand.getCurrentPH d.sensor_manager| ≤ c.tolerance →
      ((c.subAdjustment attempt
          (c.target_ph - SetPHTargetCommand.getCurrentPH d.sensor_manager) d).1 = false →
        c.adjustLoop (remaining + 1) attempt d = (false, d)) ∧
      ((c.subAdjustment attempt
          (c.target_ph - SetPHTargetCommand.getCurrentPH d.sensor_manager) d).1 = true →
        ((c.subAdjustment attempt
          (c.target_ph - SetPHTargetCommand.getCurrentPH d.sensor_manager) d).2.execute d).1 =
          false →
        c.adjustLoop (remaining + 1) attempt d =
          (false, ((c.subAdjustment attempt
            (c.target_ph - SetPHTargetCommand.getCurrentPH d.sensor_manager) d).2.execute
              d).2.2)) ∧
      ((c.subAdjustment attempt
          (c.target_ph - SetPHTargetCommand.getCurrentPH d.sensor_manager) d).1 = true →
        ((c.subAdjustment attempt
          (c.target_ph - SetPHTargetCommand.getCurrentPH d.sensor_manager) d).2.execute d).1 =
          true →
        c.adjustLoop (remaining + 1) attempt d =
          c.adjustLoop remaining (attempt + 1)
            (((c.subAdjustment attempt
              (c.target_ph - SetPHTargetCommand.getCurrentPH d.sensor_manager) d).2.execute
                d).2.2.delay 30000))) := by
  refine ⟨?_, ?_, ?_⟩
  · intro h
    unfold SetPHTargetCommand.adjustLoop
    simp only [h, if_true]
  · intro h0 h1
    unfold SetPHTargetCommand.adjustLoop
    simp only [not_lt.mpr h0, if_false, h1, if_true]
  · intro h0 h1
    refine ⟨?_, ?_, ?_⟩
    · intro hv
      unfold SetPHTargetCommand.adjustLoop
      simp only [not_lt.mpr h0, if_false, h1, hv, if_true]
    · intro hv he
      unfold SetPHTargetCommand.adjustLoop
      simp only [not_lt.mpr h0, if_false, h1, hv, he, Bool.true_eq_false, if_true]
    · intro hv he
      conv_lhs => unfold SetPHTargetCommand.adjustLoop
      simp only [not_lt.mpr h0, if_false, h1, hv, he, Bool.true_eq_false]

/-! ### SetTDSTarget -/

theorem setTDS_validate_true (c : SetTDSTargetCommand) (dev : Device)
    (parameters : List (String × JsonValue)) (h : (c.validate dev parameters).1 = true) :
    100 ≤ (c.validate dev parameters).2.target_tds ∧
    (c.validate dev parameters).2.target_tds ≤ 2000 := by
  revert h
  unfold SetTDSTargetCommand.validate
  dsimp only
  split
  · intro h
    simp at h
  · split
    · intro h
      simp at h
    · rename_i hr
      intro _
      rw [not_or] at hr
      exact ⟨not_lt.mp hr.1, not_lt.mp hr.2⟩

theorem setTDS_loop_early (c : SetTDSTargetCommand) (remaining attempt : Nat) (dev : Device)
    (hread : 0 ≤ SetTDSTargetCommand.getCurrentTDS dev.sensor_manager)
    (hge : c.target_tds ≤ SetTDSTargetCommand.getCurrentTDS dev.sensor_manager) :
    c.adjustLoop (remaining + 1) attempt dev = (true, dev) := by
  have hd : c.target_tds - SetTDSTargetCommand.getCurrentTDS dev.sensor_manager ≤ 0 := by
    linarith
  unfold SetTDSTargetCommand.adjustLoop
  simp only [not_lt.mpr hread, if_false, hd, if_true]
  split <;> rfl

/-! ### Rejected doses -/

theorem mapUpdate_same (id : String) (a : Actuator) :
    ∀ l : List (String × Actuator), mapFind id l = some a → mapUpdate id a l = l := by
  intro l
  induction l with
  | nil => intro _; rfl
  | cons e rest ih =>
    obtain ⟨k, v⟩ := e
    intro h
    unfold mapFind at h
    unfold mapUpdate
    by_cases hk : id = k
    · simp only [hk, if_true] at h ⊢
      cases h
      rfl
    · simp only [hk, if_false] at h ⊢
      rw [ih h]

theorem getDosingPump_find (m : ActuatorManager) (pump_id : String) (d : DosingPump)
    (h : m.getDosingPump pump_id = some d) :
    mapFind pump_id m.actuators = some (Actuator.dosing d) := by
  unfold ActuatorManager.getDosingPump ActuatorManager.getActuator at h
  split at h
  · rename_i d2 heq
    split at h
    · cases h
      exact heq
    · cases h
  · cases h

theorem manager_dose_rejected (m : ActuatorManager) (now : Nat) (pump_id : String) (v : ℚ)
    (h : (m.dose now pump_id v).1 = false) : (m.dose now pump_id v).2 = m := by
  revert h
  unfold ActuatorManager.dose
  split
  · intro _; rfl
  · split
    · intro _; rfl
    · rename_i pump hp
      intro h
      rcases dosing_dose_cases pump now v with hc | ⟨h1, _⟩
      · simp only [hc]
        rw [mapUpdate_same pump_id (Actuator.dosing pump) m.actuators
          (getDosingPump_find m pump_id pump hp)]
      · simp only at h
        rw [h1] at h
        cases h

theorem device_dose_rejected (dev : Device) (pump_id : String) (v : ℚ)
    (h : (dev.dose pump_id v).1 = false) :
    (dev.dose pump_id v).2.actuator_manager = dev.actuator_manager :=
  manager_dose_rejected dev.actuator_manager dev.millis pump_id v h

theorem doseVolume_execute_cases (c : DoseVolumeCommand) (dev : Device) :
    (c.execute dev).1 = (dev.dose c.pump_id c.volume_ml).1 ∧
    (c.execute dev).2.2 = (dev.dose c.pump_id c.volume_ml).2 ∧
    (c.execute dev).2.1.status =
      (if (dev.dose c.pump_id c.volume_ml).1 = true then CommandStatus.COMPLETED
       else CommandStatus.FAILED) := by
  unfold DoseVolumeCommand.execute
  dsimp only
  by_cases h : (dev.dose c.pump_id c.volume_ml).1 = true
  · simp only [h, if_true]
    exact ⟨trivial, trivial, setStatus_status _ _ _⟩
  · have hf : (dev.dose c.pump_id c.volume_ml).1 = false := by simpa using h
    simp only [hf, Bool.false_eq_true, if_false]
    exact ⟨trivial, trivial, (setError_facts _ _ _).1⟩

theorem adjustPH_execute_failed (c : AdjustPHByCommand) (dev : Device)
    (h : (c.execute dev).1 = false) :
    (c.execute dev).2.1.status = CommandStatus.FAILED ∧
    (c.execute dev).2.2.actuator_manager = dev.actuator_manager := by
  by_cases hr : AdjustPHByCommand.getCurrentPH dev.sensor_manager < 0
  · rw [adjustPH_execute_no_reading c dev hr]
    exact ⟨adjustPH_setError_status _ _ _, rfl⟩
  · have hr2 : 0 ≤ AdjustPHByCommand.getCurrentPH dev.sensor_manager := not_lt.mp hr
    by_cases h0 : c.delta_ph = 0
    · obtain ⟨_, h2, h3⟩ := adjustPH_execute_zero c dev hr2 h0
      exact ⟨h2, by rw [h3]⟩
    · by_cases hex : c.calculateRequiredVolume (AdjustPHByCommand.getCurrentPH dev.sensor_manager)
          c.delta_ph > c.max_volume_ml
      · obtain ⟨_, h2, h3⟩ := adjustPH_execute_exceeds c dev hr2 h0 hex
        exact ⟨h2, by rw [h3]⟩
      · obtain ⟨h1, h2, h3⟩ := adjustPH_execute_dose c dev hr2 h0 hex
        rw [h1] at h
        rw [h3, h2]
        simp only [h, Bool.false_eq_true, if_false, true_and]
        exact device_dose_rejected dev _ _ h

/-! ### The volume check of the adjust commands -/

theorem max_min_gt_iff (lo x m : ℚ) : max lo (min x m) > m ↔ m < lo := by
  constructor
  · intro h
    by_contra hn
    have hlo : lo ≤ m := not_lt.mp hn
    have : max lo (min x m) ≤ m := max_le hlo (min_le_right x m)
    exact absurd h (not_lt.mpr this)
  · intro h
    exact lt_of_lt_of_le h (le_max_left lo _)

theorem max_min_eq_cap (lo x m : ℚ) (hlo : lo ≤ m) (hx : m ≤ x) : max lo (min x m) = m := by
  rw [min_eq_right hx, max_eq_right hlo]

/-! ### The max-runtime branch -/

theorem takesMaxRuntimeBranch_planned (p : Pump) (now : Nat)
    (hJ : p.state = ActuatorState.ACTIVE → p.planned_duration_ms ≤ p.maxRuntimeMs)
    (h : p.takesMaxRuntimeBranch now = true) : p.planned_duration_ms = 0 := by
  unfold Pump.takesMaxRuntimeBranch at h
  simp only [Bool.and_eq_true, decide_eq_true_eq, Bool.not_eq_true', Bool.and_eq_false_imp] at h
  obtain ⟨⟨hA, hnr⟩, hx⟩ := h
  by_contra h0
  have hpos : p.planned_duration_ms > 0 := Nat.pos_of_ne_zero h0
  have hlt := hnr hpos
  have hlt2 : ¬ usub now p.activation_start_time ≥ p.planned_duration_ms := by
    simpa using hlt
  have hle := hJ hA
  unfold Pump.hasExceededMaxRuntime at hx
  simp only [hA, ne_eq, not_true_eq_false, if_false, decide_eq_true_eq] at hx
  omega

theorem takesMaxRuntimeBranch_not_active (p : Pump) (now : Nat)
    (h : p.state ≠ ActuatorState.ACTIVE) : p.takesMaxRuntimeBranch now = false := by
  unfold Pump.takesMaxRuntimeBranch
  simp [h]

theorem step_planned_within_max (p : Pump) (now : Nat) (op : PumpOp)
    (hJ : p.state = ActuatorState.ACTIVE → p.planned_duration_ms ≤ p.maxRuntimeMs) :
    (p.step now op).state = ActuatorState.ACTIVE →
      (p.step now op).planned_duration_ms ≤ (p.step now op).maxRuntimeMs := by
  have hact : ∀ d, (p.activate now d).2.state = ActuatorState.ACTIVE →
      (p.activate now d).2.planned_duration_ms ≤ (p.activate now d).2.maxRuntimeMs := by
    intro d
    by_cases hv : p.validateActivationRequest now d = true
    · rw [activate_accept p now d hv]
      intro _
      exact ((validate_true_iff p now d).mp hv).2.2.2.2
    · have hv2 : p.validateActivationRequest now d = false := by simpa using hv
      rw [activate_reject p now d hv2]
      exact hJ
  have hdeact : (p.deactivate now).2.state = ActuatorState.ACTIVE →
      (p.deactivate now).2.planned_duration_ms ≤ (p.deactivate now).2.maxRuntimeMs := by
    by_cases h : p.state = ActuatorState.ACTIVE
    · rw [deactivate_active p now h]
      intro hc
      cases hc
    · rw [deactivate_not_active p now h]
      exact hJ
  cases op with
  | activate d => exact hact d
  | deactivate => exact hdeact
  | dose v =>
    simp only [Pump.step]
    unfold Pump.dose
    split
    · exact hJ
    · exact hact _
  | loop =>
    simp only [Pump.step]
    obtain ⟨q, hq, hl⟩ := loop_cases p now
    have hqJ : q.state = ActuatorState.ACTIVE → q.planned_duration_ms ≤ q.maxRuntimeMs := by
      rw [hq]
      split
      · rcases checkAutoDeactivation_cases p now with h | h | h
        · rw [h]
          exact hdeact
        · rw [h]
          intro hc
          cases hc
        · rw [h]
          exact hJ
      · exact hJ
    rcases hl with hl | ⟨_, _, _, hl⟩
    · rw [hl]
      exact hqJ
    · rw [hl]
      intro hc
      cases hc

theorem run_planned_within_max (calls : List (Nat × PumpOp)) :
    ∀ p : Pump, (p.state = ActuatorState.ACTIVE → p.planned_duration_ms ≤ p.maxRuntimeMs) →
      (p.run calls).state = ActuatorState.ACTIVE →
      (p.run calls).planned_duration_ms ≤ (p.run calls).maxRuntimeMs := by
  induction calls with
  | nil => intro p hJ; exact hJ
  | cons c rest ih =>
    intro p hJ
    obtain ⟨now, op⟩ := c
    exact ih (p.step now op) (step_planned_within_max p now op hJ)

theorem polls_after_planned_activation (p0 : Pump) (t d : Nat)
    (hacc : (p0.activate t d).1 = true) (hd : 0 < d) (polls : List Nat) :
    ∀ q : Pump,
      (q = (p0.activate t d).2 ∨
        (q.state ≠ ActuatorState.ACTIVE ∧ q.state ≠ ActuatorState.ERROR ∧
          q.last_error = p0.last_error)) →
      (q.polls polls = (p0.activate t d).2 ∨
        ((q.polls polls).state ≠ ActuatorState.ACTIVE ∧
          (q.polls polls).state ≠ ActuatorState.ERROR ∧
          (q.polls polls).last_error = p0.last_error)) := by
  have hv : p0.validateActivationRequest t d = true := by
    by_contra hv
    have hv2 : p0.validateActivationRequest t d = false := by simpa using hv
    rw [activate_reject p0 t d hv2] at hacc
    simp at hacc
  have hmax : d ≤ p0.maxRuntimeMs := ((validate_true_iff p0 t d).mp hv).2.2.2.2
  have hA : (p0.activate t d).2.state = ActuatorState.ACTIVE := by
    rw [activate_accept p0 t d hv]
  have hpl : (p0.activate t d).2.planned_duration_ms = d := by
    rw [activate_accept p0 t d hv]
  have hmr : (p0.activate t d).2.maxRuntimeMs = p0.maxRuntimeMs := by
    rw [activate_accept p0 t d hv]
    rfl
  have herr : (p0.activate t d).2.last_error = p0.last_error := by
    rw [activate_accept p0 t d hv]
  induction polls with
  | nil => intro q hq; exact hq
  | cons now rest ih =>
    intro q hq
    apply ih
    rcases hq with hq | ⟨h1, h2, h3⟩
    · rw [hq]
      by_cases hr : usub now (p0.activate t d).2.activation_start_time ≥ d
      · right
        have hl := loop_planned_reached (p0.activate t d).2 now hA (by rw [hpl]; exact hd)
          (by rw [hpl]; exact hr)
        rw [hl]
        have hde := deactivate_active (p0.activate t d).2 now hA
        split
        · rw [hde]
          exact ⟨(fun h => by cases h), (fun h => by cases h), herr⟩
        · rw [hde]
          exact ⟨(fun h => by cases h), (fun h => by cases h), herr⟩
      · left
        exact loop_planned_not_reached (p0.activate t d).2 now hA
          (by rw [hpl]; exact Nat.not_le.mp hr) (by rw [hpl, hmr]; exact hmax)
    · right
      obtain ⟨q2, hq2, hl⟩ := loop_cases q now
      simp only [h1, if_false] at hq2
      rcases hl with hl | ⟨_, _, _, hl⟩
      · rw [hl, hq2]
        exact ⟨h1, h2, h3⟩
      · rw [hl, hq2]
        exact ⟨(fun h => by cases h), (fun h => by cases h), h3⟩

/-! ### The dosing loop of AdjustTDSBy -/

theorem doseResults_length (volume : ℚ) (pumps : List String) :
    ∀ dev : Device, (AdjustTDSByCommand.doseResults volume pumps dev).length = pumps.length := by
  induction pumps with
  | nil => intro dev; rfl
  | cons pump_id rest ih =>
    intro dev
    simp only [AdjustTDSByCommand.doseResults, List.length_cons, ih]

theorem doseEach_all (volume : ℚ) (pumps : List String) :
    ∀ dev : Device, (AdjustTDSByCommand.doseEach volume pumps dev).1 = true ↔
      ∀ r ∈ AdjustTDSByCommand.doseResults volume pumps dev, r = true := by
  induction pumps with
  | nil =>
    intro dev
    simp [AdjustTDSByCommand.doseEach, AdjustTDSByCommand.doseResults]
  | cons pump_id rest ih =>
    intro dev
    simp only [AdjustTDSByCommand.doseEach, AdjustTDSByCommand.doseResults, Bool.and_eq_true,
      List.mem_cons, forall_eq_or_imp, ih]

/-! ### A dosed pump stays Active until it is polled -/

theorem mapFind_update (id : String) (a : Actuator) :
    ∀ l : List (String × Actuator), (mapFind id l).isSome = true →
      mapFind id (mapUpdate id a l) = some a := by
  intro l
  induction l with
  | nil => intro h; cases h
  | cons e rest ih =>
    obtain ⟨k, v⟩ := e
    intro h
    unfold mapFind at h
    unfold mapUpdate
    by_cases hk : id = k
    · simp only [hk, if_true]
      unfold mapFind
      simp
    · simp only [hk, if_false] at h ⊢
      unfold mapFind
      simp only [hk, if_false]
      exact ih h

theorem dosing_dose_active (d : DosingPump) (now : Nat) (v : ℚ)
    (hA : d.state = ActuatorState.ACTIVE) : d.dose now v = (false, d) := by
  rcases dosing_dose_cases d now v with h | ⟨_, h2, _⟩
  · exact h
  · exact absurd hA ((validate_true_iff _ _ _).mp h2).2.2.1

theorem manager_dose_blocks (m : ActuatorManager) (now : Nat) (pump_id : String) (v : ℚ)
    (h : (m.dose now pump_id v).1 = true) (now2 : Nat) (v2 : ℚ) :
    ((m.dose now pump_id v).2.dose now2 pump_id v2).1 = false := by
  revert h
  unfold ActuatorManager.dose
  split
  · intro h; cases h
  · rename_i hval
    split
    · intro h; cases h
    · rename_i pump hp
      intro h
      simp only at h
      rcases dosing_dose_cases pump now v with hc | ⟨_, h2, h3, _⟩
      · rw [hc] at h
        cases h
      · have hA : (pump.dose now v).2.state = ActuatorState.ACTIVE := by
          show (pump.dose now v).2.toPump.state = ActuatorState.ACTIVE
          rw [h3, activate_accept _ _ _ h2]
        have hfind : mapFind pump_id m.actuators = some (Actuator.dosing pump) :=
          getDosingPump_find m pump_id pump hp
        have hfind2 : mapFind pump_id
            (mapUpdate pump_id (Actuator.dosing (pump.dose now v).2) m.actuators) =
            some (Actuator.dosing (pump.dose now v).2) :=
          mapFind_update pump_id _ m.actuators (by rw [hfind]; rfl)
        have hval2 : ∀ l : List (String × Actuator),
            ({ m with actuators := l } : ActuatorManager).validateActuatorOperation pump_id =
              m.validateActuatorOperation pump_id := fun _ => rfl
        simp only [hval2, hval, if_false]
        unfold ActuatorManager.getDosingPump ActuatorManager.getActuator
        simp only [hfind2]
        by_cases hty : (pump.dose now v).2.type = ActuatorType.DOSING_PUMP
        · simp only [hty, if_true, dosing_dose_active _ now2 v2 hA]
          split <;> rfl
        · simp only [hty, if_false]
          split <;> rfl

theorem adjustPH_execute_true (c : AdjustPHByCommand) (dev : Device)
    (h : (c.execute dev).1 = true) :
    (dev.dose (AdjustPHByCommand.selectPHPump c.delta_ph)
      (c.calculateRequiredVolume (AdjustPHByCommand.getCurrentPH dev.sensor_manager)
        c.delta_ph)).1 = true ∧
    (c.execute dev).2.2 =
      (dev.dose (AdjustPHByCommand.selectPHPump c.delta_ph)
        (c.calculateRequiredVolume (AdjustPHByCommand.getCurrentPH dev.sensor_manager)
          c.delta_ph)).2 := by
  by_cases hr : AdjustPHByCommand.getCurrentPH dev.sensor_manager < 0
  · rw [adjustPH_execute_no_reading c dev hr] at h
    cases h
  · have hr2 : 0 ≤ AdjustPHByCommand.getCurrentPH dev.sensor_manager := not_lt.mp hr
    by_cases h0 : c.delta_ph = 0
    · rw [(adjustPH_execute_zero c dev hr2 h0).1] at h
      cases h
    · by_cases hex : c.calculateRequiredVolume (AdjustPHByCommand.getCurrentPH dev.sensor_manager)
          c.delta_ph > c.max_volume_ml
      · rw [(adjustPH_execute_exceeds c dev hr2 h0 hex).1] at h
        cases h
      · obtain ⟨h1, h2, _⟩ := adjustPH_execute_dose c dev hr2 h0 hex
        rw [h1] at h
        exact ⟨h, h2⟩

theorem adjustPH_execute_frame (c : AdjustPHByCommand) (dev : Device) :
    (c.execute dev).2.2.sensor_manager = dev.sensor_manager ∧
    (c.execute dev).2.2.millis = dev.millis := by
  by_cases h : (c.execute dev).1 = true
  · rw [(adjustPH_execute_true c dev h).2]
    exact ⟨rfl, rfl⟩
  · have hf : (c.execute dev).1 = false := by simpa using h
    by_cases hr : AdjustPHByCommand.getCurrentPH dev.sensor_manager < 0
    · rw [adjustPH_execute_no_reading c dev hr]
      exact ⟨rfl, rfl⟩
    · have hr2 : 0 ≤ AdjustPHByCommand.getCurrentPH dev.sensor_manager := not_lt.mp hr
      by_cases h0 : c.delta_ph = 0
      · rw [(adjustPH_execute_zero c dev hr2 h0).2.2]
        exact ⟨rfl, rfl⟩
      · by_cases hex : c.calculateRequiredVolume
            (AdjustPHByCommand.getCurrentPH dev.sensor_manager) c.delta_ph > c.max_volume_ml
        · rw [(adjustPH_execute_exceeds c dev hr2 h0 hex).2.2]
          exact ⟨rfl, rfl⟩
        · rw [(adjustPH_execute_dose c dev hr2 h0 hex).2.1]
          exact ⟨rfl, rfl⟩

/-- The loop of `adjustPHToTarget` seen from one of its iterations: it returns
true exactly when an iteration is left and the reading is non-negative and
within the tolerance; the sensors are untouched; and the actuators are either
untouched or as one accepted `dose` call leaves them. -/
theorem setPH_adjustLoop_single_pass (c : SetPHTargetCommand) (remaining attempt : Nat)
    (dev : Device) :
    ((c.adjustLoop remaining attempt dev).1 = true ↔
      (1 ≤ remaining ∧ 0 ≤ SetPHTargetCommand.getCurrentPH dev.sensor_manager ∧
        |c.target_ph - SetPHTargetCommand.getCurrentPH dev.sensor_manager| ≤ c.tolerance)) ∧
    (c.adjustLoop remaining attempt dev).2.sensor_manager = dev.sensor_manager ∧
    ((c.adjustLoop remaining attempt dev).2.actuator_manager = dev.actuator_manager ∨
      ∃ (pump_id : String) (volume_ml : ℚ),
        (dev.actuator_manager.dose dev.millis pump_id volume_ml).1 = true ∧
        (c.adjustLoop remaining attempt dev).2.actuator_manager =
          (dev.actuator_manager.dose dev.millis pump_id volume_ml).2) ∧
    (c.adjustLoop remaining attempt dev).2.dose_log.length ≤ dev.dose_log.length + 2 := by
  cases remaining with
  | zero =>
    refine ⟨?_, rfl, Or.inl rfl, Nat.le_add_right _ _⟩
    constructor
    · intro h; cases h
    · intro h; omega
  | succ k =>
    obtain ⟨s1, s2, s3⟩ := setPH_adjustLoop_step c k attempt dev
    by_cases hr : SetPHTargetCommand.getCurrentPH dev.sensor_manager < 0
    · rw [s1 hr]
      refine ⟨?_, rfl, Or.inl rfl, Nat.le_add_right _ _⟩
      constructor
      · intro h; cases h
      · intro h; exact absurd hr (not_lt.mpr h.2.1)
    · have hr2 : 0 ≤ SetPHTargetCommand.getCurrentPH dev.sensor_manager := not_lt.mp hr
      by_cases ht : |c.target_ph - SetPHTargetCommand.getCurrentPH dev.sensor_manager| ≤
          c.tolerance
      · rw [s2 hr2 ht]
        exact ⟨⟨fun _ => ⟨by omega, hr2, ht⟩, fun _ => rfl⟩, rfl, Or.inl rfl,
          Nat.le_add_right _ _⟩
      · obtain ⟨t1, t2, t3⟩ := s3 hr2 ht
        have hiff : ∀ b : Bool, b = false →
            (b = true ↔ (1 ≤ k + 1 ∧ 0 ≤ SetPHTargetCommand.getCurrentPH dev.sensor_manager ∧
              |c.target_ph - SetPHTargetCommand.getCurrentPH dev.sensor_manager| ≤
                c.tolerance)) := by
          intro b hb
          rw [hb]
          exact ⟨(fun h => by cases h), fun h => absurd h.2.2 ht⟩
        by_cases hv : (c.subAdjustment attempt
            (c.target_ph - SetPHTargetCommand.getCurrentPH dev.sensor_manager) dev).1 = true
        · by_cases he : ((c.subAdjustment attempt
              (c.target_ph - SetPHTargetCommand.getCurrentPH dev.sensor_manager) dev).2.execute
                dev).1 = true
          · rw [t3 hv he]
            obtain ⟨hd1, hd2⟩ := adjustPH_execute_true _ dev he
            have hf1 := (subAdjustment_fields c attempt _ dev hv).1
            rw [hf1] at hd1 hd2
            rw [hd2]
            generalize hvol : (c.subAdjustment attempt
              (c.target_ph - SetPHTargetCommand.getCurrentPH dev.sensor_manager)
              dev).2.calculateRequiredVolume (AdjustPHByCommand.getCurrentPH dev.sensor_manager)
              ((c.target_ph - SetPHTargetCommand.getCurrentPH dev.sensor_manager) * (1 / 2)) =
              vol at hd1 hd2
            generalize hpump : AdjustPHByCommand.selectPHPump
              ((c.target_ph - SetPHTargetCommand.getCurrentPH dev.sensor_manager) * (1 / 2)) =
              pump at hd1 hd2
            have hacc : (dev.actuator_manager.dose dev.millis pump vol).1 = true := hd1
            cases k with
            | zero =>
              refine ⟨hiff _ rfl, rfl, Or.inr ⟨pump, vol, hacc, rfl⟩, ?_⟩
              show (dev.dose_log ++ [(pump, vol)]).length ≤ dev.dose_log.length + 2
              simp
            | succ j =>
              obtain ⟨_, _, u3⟩ := setPH_adjustLoop_step c j (attempt + 1)
                ((dev.dose pump vol).2.delay 30000)
              have hsm : ((dev.dose pump vol).2.delay 30000).sensor_manager =
                  dev.sensor_manager := rfl
              rw [hsm] at u3
              obtain ⟨w1, w2, _⟩ := u3 hr2 ht
              by_cases hv2 : (c.subAdjustment (attempt + 1)
                  (c.target_ph - SetPHTargetCommand.getCurrentPH dev.sensor_manager)
                  ((dev.dose pump vol).2.delay 30000)).1 = true
              · have he2 : ((c.subAdjustment (attempt + 1)
                    (c.target_ph - SetPHTargetCommand.getCurrentPH dev.sensor_manager)
                    ((dev.dose pump vol).2.delay 30000)).2.execute
                      ((dev.dose pump vol).2.delay 30000)).1 = false := by
                  by_contra hc
                  have hc2 := (adjustPH_execute_true _ _ (by simpa using hc)).1
                  rw [(subAdjustment_fields c (attempt + 1) _ _ hv2).1, hpump] at hc2
                  have hb := manager_dose_blocks dev.actuator_manager dev.millis pump vol hacc
                    ((dev.dose pump vol).2.delay 30000).millis
                    ((c.subAdjustment (attempt + 1)
                      (c.target_ph - SetPHTargetCommand.getCurrentPH dev.sensor_manager)
                      ((dev.dose pump vol).2.delay 30000)).2.calculateRequiredVolume
                      (AdjustPHByCommand.getCurrentPH
                        ((dev.dose pump vol).2.delay 30000).sensor_manager)
                      ((c.target_ph - SetPHTargetCommand.getCurrentPH dev.sensor_manager) *
                        (1 / 2)))
                  rw [show ∀ x, (((dev.dose pump vol).2.delay 30000).dose pump x).1 =
                    ((dev.actuator_manager.dose dev.millis pump vol).2.dose
                      ((dev.dose pump vol).2.delay 30000).millis pump x).1 from fun _ => rfl,
                    hb] at hc2
                  cases hc2
                rw [w2 hv2 he2]
                refine ⟨hiff _ rfl, ?_, Or.inr ⟨pump, vol, hacc, ?_⟩, ?_⟩
                · rw [(adjustPH_execute_frame _ _).1]
                  rfl
                · rw [(adjustPH_execute_failed _ _ he2).2]
                  rfl
                · have hl := adjustPH_execute_log_le (c.subAdjustment (attempt + 1)
                    (c.target_ph - SetPHTargetCommand.getCurrentPH dev.sensor_manager)
                    ((dev.dose pump vol).2.delay 30000)).2 ((dev.dose pump vol).2.delay 30000)
                  have hl2 : ((dev.dose pump vol).2.delay 30000).dose_log.length =
                      dev.dose_log.length + 1 := by
                    show (dev.dose_log ++ [(pump, vol)]).length = dev.dose_log.length + 1
                    simp
                  exact Nat.le_trans hl (by omega)
              · rw [w1 (by simpa using hv2)]
                refine ⟨hiff _ rfl, rfl, Or.inr ⟨pump, vol, hacc, rfl⟩, ?_⟩
                show (dev.dose_log ++ [(pump, vol)]).length ≤ dev.dose_log.length + 2
                simp
          · have he2 : ((c.subAdjustment attempt
                (c.target_ph - SetPHTargetCommand.getCurrentPH dev.sensor_manager)
                dev).2.execute dev).1 = false := by simpa using he
            rw [t2 hv he2]
            refine ⟨hiff _ rfl, (adjustPH_execute_frame _ _).1,
              Or.inl (adjustPH_execute_failed _ _ he2).2, ?_⟩
            have hl := adjustPH_execute_log_le (c.subAdjustment attempt
              (c.target_ph - SetPHTargetCommand.getCurrentPH dev.sensor_manager) dev).2 dev
            exact Nat.le_trans hl (by omega)
        · rw [t1 (by simpa using hv)]
          exact ⟨hiff _ rfl, rfl, Or.inl rfl, Nat.le_add_right _ _⟩

/-! ### CalibrateSensor -/

theorem parseSensorType_known (sensor_id : String) :
    CalibrateSensorCommand.parseSensorType sensor_id = SensorType.PH ∨
    CalibrateSensorCommand.parseSensorType sensor_id = SensorType.TDS := by
  unfold CalibrateSensorCommand.parseSensorType
  split
  · exact Or.inl rfl
  · split
    · exact Or.inr rfl
    · exact Or.inl rfl

/-! ### CommandProcessor -/

theorem queueCommand_cases (p : CommandProcessor) (command : CommandJson) :
    ((p.queueCommand command).1 = true ↔
      (p.validateCommandJson command = true ∧ p.command_queue.length < MAX_QUEUE_SIZE)) ∧
    ((p.queueCommand command).1 = true →
      (p.queueCommand command).2 = { p with command_queue := p.command_queue ++ [command] }) ∧
    ((p.queueCommand command).1 = false → (p.queueCommand command).2 = p) := by
  unfold CommandProcessor.queueCommand
  by_cases hv : p.validateCommandJson command = false
  · simp [hv]
  · have hv2 : p.validateCommandJson command = true := by simpa using hv
    by_cases hq : p.command_queue.length ≥ MAX_QUEUE_SIZE
    · simp only [hv2, Bool.true_eq_false, if_false, hq, if_true]
      simp
      omega
    · simp only [hv2, Bool.true_eq_false, if_false, hq]
      simp
      omega

theorem queueCommand_rejects_active_id (p : CommandProcessor) (command : CommandJson)
    (h : (activeFind (command.command_id.getD "") p.active_commands).isSome = true) :
    p.queueCommand command = (false, p) := by
  have hv : p.validateCommandJson command = false := by
    unfold CommandProcessor.validateCommandJson
    simp only [h, if_true]
    split
    · rfl
    · split
      · rfl
      · split
        · rfl
        · split <;> rfl
  unfold CommandProcessor.queueCommand
  simp [hv]

/-! ### The ring buffer of the moving-average filter -/

theorem scale2_nonneg (x : ℚ) (k : Int) (h : 0 ≤ x) : 0 ≤ scale2 x k := by
  unfold scale2
  split
  · positivity
  · positivity

theorem roundHalfEven_nonneg (n : ℚ) (h : 0 ≤ n) : 0 ≤ roundHalfEven n := by
  have hf : 0 ≤ ⌊n⌋ := Int.floor_nonneg.mpr h
  unfold roundHalfEven
  split
  · exact hf
  · split
    · omega
    · split
      · exact hf
      · omega

theorem roundFloat_nonneg (x : ℚ) (h : 0 ≤ x) : 0 ≤ roundFloat x := by
  unfold roundFloat
  split
  · exact le_refl 0
  · dsimp only
    rw [if_neg (not_lt.mpr h)]
    apply scale2_nonneg
    exact_mod_cast roundHalfEven_nonneg _ (scale2_nonneg _ _ (abs_nonneg x))

theorem roundFloat_zero : roundFloat 0 = 0 := by
  unfold roundFloat
  rw [if_pos rfl]

/-! ### The moving-average filter in binary32 arithmetic -/

theorem foldl_add32_replicate (c : ℚ) (N : Nat)
    (hc : ∀ j ≤ N, roundFloat ((j : ℚ) * c) = (j : ℚ) * c) (k : Nat) :
    ∀ i : Nat, i + k ≤ N →
      (List.replicate k c).foldl (fun sum val => roundFloat (sum + val)) ((i : ℚ) * c) =
        ((i + k : Nat) : ℚ) * c := by
  induction k with
  | zero => intro i _; simp
  | succ n ih =>
    intro i hi
    rw [List.replicate_succ, List.foldl_cons]
    have h1 : (i : ℚ) * c + c = ((i + 1 : Nat) : ℚ) * c := by
      push_cast
      ring
    rw [h1, hc (i + 1) (by omega), ih (i + 1) (by omega)]
    congr 2
    omega

theorem average32_replicate (f : MovingAverageFilter) (c : ℚ) (N : Nat)
    (hc : ∀ j ≤ N, roundFloat ((j : ℚ) * c) = (j : ℚ) * c)
    (hn : ∀ j ≤ N, roundFloat (j : ℚ) = (j : ℚ)) (k : Nat) (hk : 1 ≤ k) (hkN : k ≤ N)
    (hb : f.buffer = List.replicate k c) : f.calculateAverage32 = c := by
  unfold MovingAverageFilter.calculateAverage32
  have hne : f.buffer.isEmpty = false := by
    rw [hb]
    cases k with
    | zero => omega
    | succ n => rfl
  rw [hne]
  simp only [Bool.false_eq_true, if_false]
  have h0 : (0 : ℚ) = ((0 : Nat) : ℚ) * c := by simp
  rw [hb, h0, foldl_add32_replicate c N hc k 0 (by omega), List.length_replicate, hn k hkN]
  have hk0 : (k : ℚ) ≠ 0 := by
    have : 0 < k := hk
    exact_mod_cast (Nat.pos_iff_ne_zero.mp this)
  have h1 : ((0 + k : Nat) : ℚ) * c / (k : ℚ) = c := by
    rw [Nat.zero_add]
    field_simp
  rw [h1]
  have := hc 1 (by omega)
  simpa using this

theorem foldl_sqdiff32_replicate (c : ℚ) (k : Nat) :
    (List.replicate k c).foldl (fun sum_squared_diff val =>
        roundFloat (sum_squared_diff +
          roundFloat (roundFloat (val - c) * roundFloat (val - c)))) 0 = 0 := by
  induction k with
  | zero => simp
  | succ n ih =>
    rw [List.replicate_succ, List.foldl_cons]
    simp only [sub_self, roundFloat_zero, mul_zero, add_zero]
    exact ih

theorem stddev32_replicate (sqrtf : ℚ → ℚ) (h0 : sqrtf 0 = 0) (f : MovingAverageFilter) (c : ℚ)
    (N : Nat) (hc : ∀ j ≤ N, roundFloat ((j : ℚ) * c) = (j : ℚ) * c)
    (hn : ∀ j ≤ N, roundFloat (j : ℚ) = (j : ℚ)) (k : Nat) (hkN : k ≤ N)
    (hb : f.buffer = List.replicate k c) :
    f.calculateStandardDeviation32 sqrtf = 0 := by
  unfold MovingAverageFilter.calculateStandardDeviation32
  by_cases h2 : f.buffer.length < 2
  · rw [if_pos h2]
  · rw [if_neg h2]
    have hk : 1 ≤ k := by
      rw [hb, List.length_replicate] at h2
      omega
    dsimp only
    rw [average32_replicate f c N hc hn k hk hkN hb, hb, foldl_sqdiff32_replicate]
    simp [roundFloat_zero, h0]

theorem isOutlier32_replicate (sqrtf : ℚ → ℚ) (h0 : sqrtf 0 = 0) (f : MovingAverageFilter)
    (c value : ℚ) (N : Nat) (hc : ∀ j ≤ N, roundFloat ((j : ℚ) * c) = (j : ℚ) * c)
    (hn : ∀ j ≤ N, roundFloat (j : ℚ) = (j : ℚ)) (k : Nat) (hkN : k ≤ N)
    (hb : f.buffer = List.replicate k c) :
    f.isOutlier32 sqrtf value = false := by
  unfold MovingAverageFilter.isOutlier32
  by_cases h3 : f.buffer.length < 3
  · rw [if_pos h3]
  · rw [if_neg h3]
    dsimp only
    rw [if_pos (stddev32_replicate sqrtf h0 f c N hc hn k hkN hb)]

theorem filter32_replicate (sqrtf : ℚ → ℚ) (h0 : sqrtf 0 = 0) (f : MovingAverageFilter)
    (c : ℚ) (hc : ∀ j ≤ f.window_size, roundFloat ((j : ℚ) * c) = (j : ℚ) * c)
    (hn : ∀ j ≤ f.window_size, roundFloat (j : ℚ) = (j : ℚ))
    (k : Nat) (hb : f.buffer = List.replicate k c) (hk : k ≤ f.window_size)
    (hN : 1 ≤ f.window_size) :
    (f.filter32 sqrtf c).1 = c ∧
    (f.filter32 sqrtf c).2.buffer = List.replicate (min (k + 1) f.window_size) c ∧
    (f.filter32 sqrtf c).2.window_size = f.window_size := by
  unfold MovingAverageFilter.filter32
  have hno : ¬ (f.buffer.length ≥ 3 ∧ f.isOutlier32 sqrtf c = true) := by
    rw [isOutlier32_replicate sqrtf h0 f c c f.window_size hc hn k hk hb]
    simp
  rw [if_neg hno]
  have hlen : f.buffer.length = k := by rw [hb, List.length_replicate]
  by_cases hlt : f.buffer.length < f.window_size
  · simp only [hlt, if_true]
    have hk1 : k + 1 ≤ f.window_size := by omega
    have hbuf : f.buffer ++ [c] = List.replicate (k + 1) c := by
      rw [hb, List.replicate_succ']
    refine ⟨?_, ?_, trivial⟩
    · exact average32_replicate _ c f.window_size hc hn (k + 1) (by omega) hk1 hbuf
    · show f.buffer ++ [c] = _
      rw [hbuf, Nat.min_eq_left hk1]
  · simp only [hlt, if_false]
    have hkN : k = f.window_size := by omega
    have hbuf : f.buffer.set f.current_index c = List.replicate k c := by
      rw [hb, set_replicate_self]
    refine ⟨?_, ?_, trivial⟩
    · exact average32_replicate _ c f.window_size hc hn k (by omega) hk hbuf
    · show f.buffer.set f.current_index c = _
      rw [hbuf, Nat.min_eq_right (by omega), hkN]

theorem feed32_replicate (sqrtf : ℚ → ℚ) (h0 : sqrtf 0 = 0) (c : ℚ) (n : Nat) :
    ∀ (f : MovingAverageFilter) (k : Nat),
      (∀ j ≤ f.window_size, roundFloat ((j : ℚ) * c) = (j : ℚ) * c) →
      (∀ j ≤ f.window_size, roundFloat (j : ℚ) = (j : ℚ)) →
      f.buffer = List.replicate k c → k ≤ f.window_size → 1 ≤ f.window_size →
      (MovingAverageFilter.feed32 sqrtf f (List.replicate n c)).1 = List.replicate n c ∧
      (MovingAverageFilter.feed32 sqrtf f (List.replicate n c)).2.buffer =
        List.replicate (min (k + n) f.window_size) c ∧
      (MovingAverageFilter.feed32 sqrtf f (List.replicate n c)).2.window_size =
        f.window_size := by
  induction n with
  | zero =>
    intro f k _ _ hb hk _
    simp only [List.replicate_zero, MovingAverageFilter.feed32, Nat.add_zero]
    exact ⟨trivial, by rw [hb, Nat.min_eq_left hk], trivial⟩
  | succ m ih =>
    intro f k hc hn hb hk hN
    obtain ⟨a1, a2, a3⟩ := filter32_replicate sqrtf h0 f c hc hn k hb hk hN
    have hk' : min (k + 1) f.window_size ≤ (f.filter32 sqrtf c).2.window_size := by
      rw [a3]; exact Nat.min_le_right _ _
    obtain ⟨b1, b2, b3⟩ := ih (f.filter32 sqrtf c).2 (min (k + 1) f.window_size)
      (by rw [a3]; exact hc) (by rw [a3]; exact hn) a2 hk' (by rw [a3]; exact hN)
    simp only [List.replicate_succ, MovingAverageFilter.feed32]
    refine ⟨?_, ?_, ?_⟩
    · rw [a1, b1]
    · rw [b2, a3]
      congr 1
      omega
    · rw [b3, a3]

theorem filter32_length (sqrtf : ℚ → ℚ) (f : MovingAverageFilter) (value : ℚ)
    (h : f.buffer.length ≤ f.window_size) :
    (f.filter32 sqrtf value).2.buffer.length ≤ (f.filter32 sqrtf value).2.window_size ∧
    (f.filter32 sqrtf value).2.window_size = f.window_size := by
  unfold MovingAverageFilter.filter32
  split
  · exact ⟨h, rfl⟩
  · dsimp only
    split
    · rename_i hlt
      refine ⟨?_, rfl⟩
      show (f.buffer ++ [value]).length ≤ f.window_size
      rw [List.length_append, List.length_singleton]
      omega
    · refine ⟨?_, rfl⟩
      show (f.buffer.set f.current_index value).length ≤ f.window_size
      rw [List.length_set]
      exact h

theorem feed32_length (sqrtf : ℚ → ℚ) (values : List ℚ) :
    ∀ f : MovingAverageFilter, f.buffer.length ≤ f.window_size →
      (MovingAverageFilter.feed32 sqrtf f values).2.buffer.length ≤ f.window_size := by
  induction values with
  | nil => intro f h; exact h
  | cons value rest ih =>
    intro f h
    obtain ⟨a1, a2⟩ := filter32_length sqrtf f value h
    have := ih (f.filter32 sqrtf value).2 a1
    rw [a2] at this
    exact this

theorem publishCommandResponse_frame (p : CommandProcessor) (result : CommandResult) :
    (p.publishCommandResponse result).command_queue = p.command_queue ∧
    (p.publishCommandResponse result).commands_processed = p.commands_processed ∧
    (p.publishCommandResponse result).commands_failed = p.commands_failed := by
  unfold CommandProcessor.publishCommandResponse
  split
  · exact ⟨rfl, rfl, rfl⟩
  · exact ⟨rfl, rfl, rfl⟩

theorem executeCommand_frame (p : CommandProcessor) (dev : Device) (command : Command)
    (params : List (String × JsonValue)) :
    (p.executeCommand dev command params).2.1.command_queue = p.command_queue ∧
    (p.executeCommand dev command params).2.1.commands_processed = p.commands_processed ∧
    (p.executeCommand dev command params).2.1.commands_failed = p.commands_failed := by
  unfold CommandProcessor.executeCommand
  dsimp only
  split
  · exact publishCommandResponse_frame _ _
  · exact ⟨rfl, rfl, rfl⟩

theorem executeCommand_result (p : CommandProcessor) (dev : Device) (command : Command)
    (params : List (String × JsonValue)) :
    (p.executeCommand dev command params).1 =
      (if (command.validate dev params).1 = false then some false
       else ((command.validate dev params).2.execute dev).1) := by
  unfold CommandProcessor.executeCommand
  dsimp only
  split <;> rfl

theorem ite_some_property_of {c : Prop} [Decidable c] {x : Command} {o : Option Command}
    (Q : Command → Prop) (hx : c → Q x) (ho : ∀ cmd, o = some cmd → Q cmd) :
    ∀ cmd, (if c then some x else o) = some cmd → Q cmd := by
  intro cmd h
  by_cases hc : c
  · rw [if_pos hc] at h
    injection h with h
    rw [← h]
    exact hx hc
  · rw [if_neg hc] at h
    exact ho cmd h

theorem createCommand_reset (command_type command_id : String) :
    ∀ cmd, createCommand command_type command_id = some cmd →
      cmd.isReset = true → command_type = "reset_system" := by
  unfold createCommand
  repeat (refine ite_some_property_of _ (fun hc hr => by first | exact hc | cases hr) ?_)
  intro cmd h
  cases h

theorem validate_isReset (cmd : Command) (dev : Device) (params : List (String × JsonValue)) :
    (cmd.validate dev params).2.isReset = cmd.isReset := by
  cases cmd <;> rfl

theorem execute_returns (cmd : Command) (dev : Device) (h : cmd.isReset = false) :
    ∃ b : Bool, (cmd.execute dev).1 = some b := by
  cases cmd <;> first | exact ⟨_, rfl⟩ | cases h

theorem handleRequest_counts (p : CommandProcessor) (dev : Device) (command_doc : CommandJson)
    (hr : command_doc.command.getD "" ≠ "reset_system") :
    (CommandProcessor.handleRequest (p, dev) command_doc).1 = true ∧
    (CommandProcessor.handleRequest (p, dev) command_doc).2.1.command_queue = p.command_queue ∧
    (((CommandProcessor.handleRequest (p, dev) command_doc).2.1.commands_processed =
        uadd p.commands_processed 1 ∧
      (CommandProcessor.handleRequest (p, dev) command_doc).2.1.commands_failed =
        p.commands_failed ∧
      ∃ command, createCommand (command_doc.command.getD "") (command_doc.command_id.getD "") =
          some command ∧
        (command.validate dev (command_doc.params.getD [])).1 = true ∧
        ((command.validate dev (command_doc.params.getD [])).2.execute dev).1 = some true) ∨
     ((CommandProcessor.handleRequest (p, dev) command_doc).2.1.commands_processed =
        p.commands_processed ∧
      (CommandProcessor.handleRequest (p, dev) command_doc).2.1.commands_failed =
        uadd p.commands_failed 1 ∧
      ∀ command, createCommand (command_doc.command.getD "") (command_doc.command_id.getD "") =
          some command →
        (command.validate dev (command_doc.params.getD [])).1 = false ∨
        ((command.validate dev (command_doc.params.getD [])).2.execute dev).1 = some false)) := by
  unfold CommandProcessor.handleRequest
  dsimp only
  cases hc : createCommand (command_doc.command.getD "") (command_doc.command_id.getD "") with
  | none =>
    refine ⟨rfl, rfl, Or.inr ⟨rfl, rfl, ?_⟩⟩
    intro command h
    cases h
  | some command =>
    dsimp only
    obtain ⟨f1, f2, f3⟩ := executeCommand_frame p dev command (command_doc.params.getD [])
    have hres := executeCommand_result p dev command (command_doc.params.getD [])
    have hnr : command.isReset = false := by
      by_contra hx
      have hx2 : command.isReset = true := by simpa using hx
      exact hr (createCommand_reset _ _ command hc hx2)
    obtain ⟨b, hb⟩ := execute_returns (command.validate dev (command_doc.params.getD [])).2 dev
      (by rw [validate_isReset]; exact hnr)
    by_cases hv : (command.validate dev (command_doc.params.getD [])).1 = false
    · rw [if_pos hv] at hres
      rw [hres]
      refine ⟨rfl, f1, Or.inr ⟨f2, by rw [← f3], ?_⟩⟩
      intro command2 h
      cases h
      exact Or.inl hv
    · rw [if_neg hv, hb] at hres
      have hv2 : (command.validate dev (command_doc.params.getD [])).1 = true := by
        simpa using hv
      rw [hres]
      cases b with
      | true =>
        exact ⟨rfl, f1, Or.inl ⟨by rw [← f2], f3, command, rfl, hv2, hb⟩⟩
      | false =>
        refine ⟨rfl, f1, Or.inr ⟨f2, by rw [← f3], ?_⟩⟩
        intro command2 h
        cases h
        exact Or.inr hb

theorem processRequest_cons (p : CommandProcessor) (dev : Device) (command_doc : CommandJson)
    (rest : List CommandJson) (h : p.command_queue = command_doc :: rest) :
    p.processRequest dev =
      CommandProcessor.handleRequest ({ p with command_queue := rest }, dev) command_doc := by
  unfold CommandProcessor.processRequest
  rw [h]

theorem processRequests_counts (n : Nat) :
    ∀ (p : CommandProcessor) (dev : Device), p.command_queue.length = n →
      (∀ command_doc ∈ p.command_queue, command_doc.command.getD "" ≠ "reset_system") →
      (CommandProcessor.processRequests n p dev).1.command_queue = [] ∧
      ((CommandProcessor.processRequests n p dev).1.commands_processed +
        (CommandProcessor.processRequests n p dev).1.commands_failed) % ULONG_MOD =
        (p.commands_processed + p.commands_failed + n) % ULONG_MOD ∧
      (p.commands_processed + p.commands_failed + n < ULONG_MOD →
        (CommandProcessor.processRequests n p dev).1.commands_processed +
          (CommandProcessor.processRequests n p dev).1.commands_failed =
          p.commands_processed + p.commands_failed + n) := by
  induction n with
  | zero =>
    intro p dev h _
    exact ⟨List.length_eq_zero.mp h, rfl, fun _ => rfl⟩
  | succ k ih =>
    intro p dev h hreset
    cases hq : p.command_queue with
    | nil =>
      rw [hq] at h
      cases h
    | cons command_doc rest =>
      rw [hq] at h hreset
      have hlen : rest.length = k := by simpa using h
      have hstep := processRequest_cons p dev command_doc rest hq
      obtain ⟨c0, c1, c2⟩ := handleRequest_counts { p with command_queue := rest } dev
        command_doc (hreset command_doc (List.mem_cons_self _ _))
      rw [← hstep] at c0 c1 c2
      obtain ⟨i1, i2, i3⟩ := ih (p.processRequest dev).2.1 (p.processRequest dev).2.2
        (by rw [c1]; exact hlen)
        (by rw [c1]; exact fun d hd => hreset d (List.mem_cons_of_mem _ hd))
      have hunf : CommandProcessor.processRequests (k + 1) p dev =
          CommandProcessor.processRequests k (p.processRequest dev).2.1
            (p.processRequest dev).2.2 := by
        show (if (p.processRequest dev).1 = true then _ else _) = _
        rw [if_pos c0]
      rw [hunf]
      refine ⟨i1, ?_, ?_⟩
      · rw [i2]
        rcases c2 with ⟨a1, a2, _⟩ | ⟨a1, a2, _⟩
        · rw [a1, a2]
          show (uadd p.commands_processed 1 + p.commands_failed + k) % ULONG_MOD = _
          unfold uadd ULONG_MOD
          omega
        · rw [a1, a2]
          show (p.commands_processed + uadd p.commands_failed 1 + k) % ULONG_MOD = _
          unfold uadd ULONG_MOD
          omega
      · intro hno
        rcases c2 with ⟨a1, a2, _⟩ | ⟨a1, a2, _⟩
        · have hu : uadd p.commands_processed 1 = p.commands_processed + 1 := by
            unfold uadd
            exact Nat.mod_eq_of_lt (by omega)
          rw [a1, a2, hu] at i3
          have hu2 : p.commands_processed + 1 + p.commands_failed + k < ULONG_MOD := by
            show p.commands_processed + 1 + p.commands_failed + k < ULONG_MOD
            omega
          rw [i3 hu2]
          show p.commands_processed + 1 + p.commands_failed + k = _
          omega
        · have hu : uadd p.commands_failed 1 = p.commands_failed + 1 := by
            unfold uadd
            exact Nat.mod_eq_of_lt (by omega)
          rw [a1, a2, hu] at i3
          have hu2 : p.commands_processed + (p.commands_failed + 1) + k < ULONG_MOD := by
            show p.commands_processed + (p.commands_failed + 1) + k < ULONG_MOD
            omega
          rw [i3 hu2]
          show p.commands_processed + (p.commands_failed + 1) + k = _
          omega

/-! ## Claims -/

/-- C1: `Pump::activate(duration_ms)` returns true and leaves the pump Active
exactly when the pump is initialized, enabled, not Active, not in cooldown and
`duration_ms <= max_runtime_sec * 1000` (the `unsigned long` product of the
source); when one of these fails the call returns false and the pump, with all
its fields, is the pump before the call. -/
theorem C1_activate_guard (p : Pump) (now duration_ms : Nat) :
    (((p.activate now duration_ms).1 = true ∧
        (p.activate now duration_ms).2.state = ActuatorState.ACTIVE) ↔
      (p.initialized = true ∧ p.config.enabled = true ∧ p.state ≠ ActuatorState.ACTIVE ∧
        p.isInCooldown now = false ∧ duration_ms ≤ p.maxRuntimeMs)) ∧
    (¬ (p.initialized = true ∧ p.config.enabled = true ∧ p.state ≠ ActuatorState.ACTIVE ∧
        p.isInCooldown now = false ∧ duration_ms ≤ p.maxRuntimeMs) →
      p.activate now duration_ms = (false, p)) := by
  rw [← validate_true_iff]
  by_cases h : p.validateActivationRequest now duration_ms = true
  · rw [activate_accept p now duration_ms h]
    simp [h]
  · have h2 : p.validateActivationRequest now duration_ms = false := by simpa using h
    rw [activate_reject p now duration_ms h2]
    simp [h2]

/-- C2: the cooldown law fails at the clock value 0.  A pump with a 60 s
cooldown is activated when `millis()` is 0, runs, and is deactivated at 500 ms:
`logDeactivation` skips the stamp of `last_activation_end` because
`activation_start_time` is 0, and the `activate` call 100 ms later is accepted
although `600 - 500 < cooldown_sec * 1000`. -/
theorem C2_cooldown_skipped_after_activation_at_zero :
    (examplePump.activate 0 1000).1 = true ∧
    (examplePump.activate 0 1000).2.state = ActuatorState.ACTIVE ∧
    ((examplePump.activate 0 1000).2.deactivate 500).1 = true ∧
    ((examplePump.activate 0 1000).2.deactivate 500).2.last_activation_end = 0 ∧
    usub 600 500 < ((examplePump.activate 0 1000).2.deactivate 500).2.cooldownMs ∧
    (((examplePump.activate 0 1000).2.deactivate 500).2.activate 600 1000).1 = true ∧
    (((examplePump.activate 0 1000).2.deactivate 500).2.activate 600 1000).2.state =
      ActuatorState.ACTIVE := by
  decide

/-- C3: after `ActuatorManager::emergencyStop(reason)` and any sequence of
manager calls that contains no `clearEmergencyStop()`, every
`activateActuator(id, duration)` and every `dose(id, volume)` returns false and
leaves the manager, with all its actuators, as it was; `clearEmergencyStop()`
then clears the flag and the reason, keeps the actuators, and the gate
`validateActuatorOperation` passes again for the initialized manager. -/
theorem C3_emergency_stop_rejects (m : ActuatorManager) (t0 : Nat) (reason : String)
    (calls : List (Nat × ManagerOp)) (hcalls : ∀ c ∈ calls, c.2.isClear = false)
    (now : Nat) (id : String) (duration_ms : Nat) (volume_ml : ℚ) :
    ((m.emergencyStop t0 reason).run calls).activateActuator now id duration_ms =
      (false, (m.emergencyStop t0 reason).run calls) ∧
    ((m.emergencyStop t0 reason).run calls).dose now id volume_ml =
      (false, (m.emergencyStop t0 reason).run calls) ∧
    ((m.emergencyStop t0 reason).run calls).clearEmergencyStop.emergency_stop_active = false ∧
    ((m.emergencyStop t0 reason).run calls).clearEmergencyStop.emergency_stop_reason = "" ∧
    ((m.emergencyStop t0 reason).run calls).clearEmergencyStop.actuators =
      ((m.emergencyStop t0 reason).run calls).actuators ∧
    ((m.emergencyStop t0 reason).run calls).clearEmergencyStop.validateActuatorOperation id =
      ((m.emergencyStop t0 reason).run calls).initialized := by
  have h0 : (m.emergencyStop t0 reason).emergency_stop_active = true := rfl
  have hflag := run_keeps_emergency_stop calls (m.emergencyStop t0 reason) h0 hcalls
  refine ⟨?_, ?_, ?_, ?_, ?_, ?_⟩
  · simp [ActuatorManager.activateActuator, ActuatorManager.validateActuatorOperation, hflag]
  · simp [ActuatorManager.dose, ActuatorManager.validateActuatorOperation, hflag]
  · simp [ActuatorManager.clearEmergencyStop, hflag]
  · simp [ActuatorManager.clearEmergencyStop, hflag]
  · simp [ActuatorManager.clearEmergencyStop, hflag]
  · simp only [ActuatorManager.clearEmergencyStop, hflag, if_true,
      ActuatorManager.validateActuatorOperation]
    cases ((m.emergencyStop t0 reason).run calls).initialized <;> simp

/-- Witness for C3: the example manager after an emergency stop at 300100 ms,
followed by a poll, a `deactivateActuator` and a `setSchedule`; an
`activateActuator` of the air pump is rejected and changes nothing, and after
`clearEmergencyStop()` the gate passes again. -/
theorem C3_emergency_stop_rejects_witness :
    ((exampleManager.emergencyStop 300100 "leak").run
        [(300200, ManagerOp.loop), (300300, ManagerOp.deactivateActuator "air_pump"),
         (300400, ManagerOp.setSchedule "water_pump" 30 120)]).activateActuator
        400000 "air_pump" 1000 =
      (false, (exampleManager.emergencyStop 300100 "leak").run
        [(300200, ManagerOp.loop), (300300, ManagerOp.deactivateActuator "air_pump"),
         (300400, ManagerOp.setSchedule "water_pump" 30 120)]) ∧
    ((exampleManager.emergencyStop 300100 "leak").run
        [(300200, ManagerOp.loop), (300300, ManagerOp.deactivateActuator "air_pump"),
         (300400, ManagerOp.setSchedule "water_pump" 30 120)]).clearEmergencyStop.validateActuatorOperation
        "air_pump" = true :=
  ⟨(C3_emergency_stop_rejects exampleManager 300100 "leak"
      [(300200, ManagerOp.loop), (300300, ManagerOp.deactivateActuator "air_pump"),
       (300400, ManagerOp.setSchedule "water_pump" 30 120)] (by decide) 400000 "air_pump" 1000
      (1 / 2)).1,
   by decide⟩

/-- C4, as stated, fails: in the example manager one actuator is in Cooldown
and one in Error; after `emergencyStop` they are still in Cooldown and in
Error, not Idle. -/
theorem C4_emergency_stop_keeps_cooldown_and_error :
    exampleManager.actuators.map (fun e => (e.1, e.2.getState)) =
      [("air_pump", ActuatorState.COOLDOWN), ("water_pump", ActuatorState.ERROR)] ∧
    (exampleManager.emergencyStop 300100 "test").actuators.map (fun e => (e.1, e.2.getState)) =
      [("air_pump", ActuatorState.COOLDOWN), ("water_pump", ActuatorState.ERROR)] := by
  decide

/-- C4 as amended: immediately after `ActuatorManager::emergencyStop(reason)`
returns, the registry has the same ids in the same order, every actuator that
was Active is Idle and every other actuator has the state it had before the
call (Idle, Cooldown, Error or Disabled); so no actuator is Active. -/
theorem C4_emergency_stop_idles_active_only (m : ActuatorManager) (now : Nat) (reason : String) :
    (m.emergencyStop now reason).actuators.map (fun e => (e.1, e.2.getState)) =
      m.actuators.map (fun e =>
        (e.1, if e.2.getState = ActuatorState.ACTIVE then ActuatorState.IDLE
              else e.2.getState)) ∧
    (∀ e ∈ (m.emergencyStop now reason).actuators, e.2.getState ≠ ActuatorState.ACTIVE) := by
  have h1 : (m.emergencyStop now reason).actuators.map (fun e => (e.1, e.2.getState)) =
      m.actuators.map (fun e =>
        (e.1, if e.2.getState = ActuatorState.ACTIVE then ActuatorState.IDLE
              else e.2.getState)) := by
    simp only [ActuatorManager.emergencyStop, ActuatorManager.stopAllActuators]
    exact stopAllEntries_states now m.actuators
  refine ⟨h1, ?_⟩
  intro e he
  have hmem : (e.1, e.2.getState) ∈
      (m.emergencyStop now reason).actuators.map (fun e => (e.1, e.2.getState)) :=
    List.mem_map_of_mem _ he
  rw [h1, List.mem_map] at hmem
  obtain ⟨e0, _, heq⟩ := hmem
  have h2 : (if e0.2.getState = ActuatorState.ACTIVE then ActuatorState.IDLE
      else e0.2.getState) = e.2.getState := (Prod.mk.inj heq).2
  rw [← h2]
  split
  · decide
  · assumption

/-- C5, as stated, fails: a pump driven into Error by the max-runtime check
(activated with duration 0 and polled after 300 s) is Active again after an
`activate` call made once the cooldown has passed. -/
theorem C5_error_left_by_activate :
    (examplePump.run [(1, PumpOp.activate 0), (300002, PumpOp.loop)]).state =
      ActuatorState.ERROR ∧
    (examplePump.run [(1, PumpOp.activate 0), (300002, PumpOp.loop),
      (360002, PumpOp.activate 1000)]).state = ActuatorState.ACTIVE := by
  decide

/-- C5 as amended: once a pump is in Error, `deactivate` and `loop` calls and
every rejected `activate` or `dose` call leave it as it is, in Error, over any
sequence of such calls; an `activate` or `dose` call that the pump accepts
(initialized, enabled, not in cooldown, duration within the maximum runtime)
moves it from Error to Active. -/
theorem C5_error_kept_until_accepted_activation (p : Pump)
    (hE : p.state = ActuatorState.ERROR) (calls : List (Nat × PumpOp)) (now : Nat) (op : PumpOp) :
    (∀ q, p.runRejected calls = some q → q = p ∧ q.state = ActuatorState.ERROR) ∧
    (p.accepts now op = false → p.step now op = p) ∧
    (p.accepts now op = true → (p.step now op).state = ActuatorState.ACTIVE) := by
  refine ⟨?_, step_error_rejected p now op hE, step_accepted_active p now op⟩
  intro q hq
  have := runRejected_error p hE calls q hq
  subst this
  exact ⟨rfl, hE⟩

/-- Witness for C5: the pump in Error of the example keeps its state over a
poll, a `deactivate`, an `activate` during cooldown and another poll; an
`activate` call after the cooldown is accepted and leaves it Active. -/
theorem C5_error_kept_witness :
    exampleErrorPump.state = ActuatorState.ERROR ∧
    (exampleErrorPump.runRejected
      [(300500, PumpOp.loop), (300600, PumpOp.deactivate), (300700, PumpOp.activate 1000),
       (300800, PumpOp.loop)]).isSome = true ∧
    exampleErrorPump.step 300700 (PumpOp.activate 1000) = exampleErrorPump ∧
    (exampleErrorPump.step 360002 (PumpOp.activate 1000)).state = ActuatorState.ACTIVE :=
  ⟨by decide, by decide,
   (C5_error_kept_until_accepted_activation exampleErrorPump (by decide) [] 300700
     (PumpOp.activate 1000)).2.1 (by decide),
   (C5_error_kept_until_accepted_activation exampleErrorPump (by decide) [] 360002
     (PumpOp.activate 1000)).2.2 (by decide)⟩

/-- C6, as stated, fails: a pump activated for 1000 ms and first polled after
more than the 300 s maximum runtime is deactivated by the planned-duration
check; it ends in Cooldown with no error recorded, not in Error. -/
theorem C6_late_poll_with_planned_duration :
    (examplePump.activate 1 1000).2.state = ActuatorState.ACTIVE ∧
    usub 300002 (examplePump.activate 1 1000).2.activation_start_time >
      (examplePump.activate 1 1000).2.maxRuntimeMs ∧
    ((examplePump.activate 1 1000).2.loop 300002).state = ActuatorState.COOLDOWN ∧
    ((examplePump.activate 1 1000).2.loop 300002).last_error = "" := by
  decide

/-- C6 as amended: for every Active pump whose planned duration is 0 (it was
activated with `activate(0)`), a `loop()` poll at a time when
`now - activation_start_time > max_runtime_sec * 1000` leaves the pump in Error
with `last_error` "Max runtime exceeded" and the GPIO line low. -/
theorem C6_max_runtime_error_when_unplanned (p : Pump) (now : Nat)
    (hA : p.state = ActuatorState.ACTIVE) (hplan : p.planned_duration_ms = 0)
    (hrun : usub now p.activation_start_time > p.maxRuntimeMs) :
    (p.loop now).state = ActuatorState.ERROR ∧
    (p.loop now).last_error = "Max runtime exceeded" ∧
    (p.loop now).gpio_high = false := by
  have hx : p.hasExceededMaxRuntime now = true := by
    simp [Pump.hasExceededMaxRuntime, hA, hrun]
  have hc : p.checkAutoDeactivation now =
      { ((p.deactivate now).2.setState ActuatorState.ERROR) with
        last_error := "Max runtime exceeded" } := by
    simp [Pump.checkAutoDeactivation, hplan, hx]
  have hl : p.loop now = p.checkAutoDeactivation now := by
    unfold Pump.loop
    simp only [hA, if_true]
    rw [hc]
    simp [setState_eq]
  rw [hl, hc, deactivate_active p now hA]
  simp [setState_eq]

/-- Witness for C6: the example pump activated with duration 0 at 1 ms and
polled at 300002 ms. -/
theorem C6_max_runtime_error_witness :
    ((examplePump.activate 1 0).2.loop 300002).state = ActuatorState.ERROR ∧
    ((examplePump.activate 1 0).2.loop 300002).last_error = "Max runtime exceeded" ∧
    ((examplePump.activate 1 0).2.loop 300002).gpio_high = false :=
  C6_max_runtime_error_when_unplanned (examplePump.activate 1 0).2 300002
    (by decide) (by decide) (by decide)

/-- C7: the invariant fails at the clock value 0.  A freshly initialised pump
activated when `millis()` returns 0 is Active with `activation_start_time` 0. -/
theorem C7_active_with_zero_start_time :
    (examplePump.run [(0, PumpOp.activate 1000)]).state = ActuatorState.ACTIVE ∧
    (examplePump.run [(0, PumpOp.activate 1000)]).activation_start_time = 0 := by
  decide

/-- C9, as stated, fails: a dosing pump with the flow rate 0.3f
(0.300000011920929) accepts `dose(2.0)` and `Pump::dose` passes 6666 ms to
`activate`, where `2.0 / 0.3 * 1000` rounded to nearest is 6667, for the
`float` 0.3f as for the decimal 0.3. -/
theorem C9_dose_duration_not_rounded :
    roundFloat (3 / 10) = 5033165 / 16777216 ∧
    (exampleDosingPump (roundFloat (3 / 10))).flow_rate_ml_per_sec = roundFloat (3 / 10) ∧
    (exampleDosingPump (roundFloat (3 / 10))).toPump.dose 5 2 =
      (exampleDosingPump (roundFloat (3 / 10))).toPump.activate 5 6666 ∧
    ((exampleDosingPump (roundFloat (3 / 10))).dose 5 2).1 = true ∧
    ((exampleDosingPump (roundFloat (3 / 10))).dose 5 2).2.planned_duration_ms = 6666 ∧
    roundNearest (2 / roundFloat (3 / 10) * 1000) = 6667 ∧
    roundNearest (2 / (3 / 10) * 1000) = 6667 := by
  refine ⟨by decide!, by decide!, by decide!, by decide!, by decide!, by decide!, by decide!⟩

/-- C9 as amended: for every pump with `flow_rate_ml_per_sec > 0` and every
non-negative `volume_ml`, the duration passed by `Pump::dose` to `activate` is
the `float` that `calculateDurationForVolume` returns, with its fractional
part discarded: the quotient `volume_ml / flow_rate_ml_per_sec` rounded to
binary32, multiplied by 1000 and rounded to binary32 again (a value below
`2^32`), then rounded down to the integer `n` with `n <= value < n + 1`. -/
theorem C9_dose_duration_truncates (p : Pump) (now : Nat) (volume_ml : ℚ)
    (hflow : 0 < p.flow_rate_ml_per_sec) (hvol : 0 ≤ volume_ml)
    (hrange : roundFloat (roundFloat (volume_ml / p.flow_rate_ml_per_sec) * 1000) <
      (ULONG_MOD : ℚ)) :
    p.dose now volume_ml = p.activate now (p.doseDurationMs volume_ml) ∧
    p.calculateDurationForVolume volume_ml =
      roundFloat (roundFloat (volume_ml / p.flow_rate_ml_per_sec) * 1000) ∧
    ((p.doseDurationMs volume_ml : ℤ) =
      ⌊roundFloat (roundFloat (volume_ml / p.flow_rate_ml_per_sec) * 1000)⌋) ∧
    ((p.doseDurationMs volume_ml : ℚ) ≤
      roundFloat (roundFloat (volume_ml / p.flow_rate_ml_per_sec) * 1000)) ∧
    (roundFloat (roundFloat (volume_ml / p.flow_rate_ml_per_sec) * 1000) <
      (p.doseDurationMs volume_ml : ℚ) + 1) := by
  have hcalc : p.calculateDurationForVolume volume_ml =
      roundFloat (roundFloat (volume_ml / p.flow_rate_ml_per_sec) * 1000) := by
    unfold Pump.calculateDurationForVolume
    simp only [not_le.mpr hflow, if_false]
  have hx0 : 0 ≤ roundFloat (roundFloat (volume_ml / p.flow_rate_ml_per_sec) * 1000) := by
    apply roundFloat_nonneg
    have := roundFloat_nonneg (volume_ml / p.flow_rate_ml_per_sec) (by positivity)
    positivity
  have hfl : (p.doseDurationMs volume_ml : ℤ) =
      ⌊roundFloat (roundFloat (volume_ml / p.flow_rate_ml_per_sec) * 1000)⌋ := by
    unfold Pump.doseDurationMs
    rw [hcalc]
    exact floatToULong_of_range _ hx0 hrange
  have hq : (p.doseDurationMs volume_ml : ℚ) =
      ((⌊roundFloat (roundFloat (volume_ml / p.flow_rate_ml_per_sec) * 1000)⌋ : ℤ) : ℚ) := by
    rw [← hfl]
    norm_cast
  refine ⟨?_, hcalc, hfl, ?_, ?_⟩
  · unfold Pump.dose
    rw [if_neg (not_le.mpr hflow)]
  · rw [hq]
    exact Int.floor_le _
  · rw [hq]
    exact Int.lt_floor_add_one _

/-- Witness for C9: `dose(10.0)` at 0.5 ml/s passes 20000 ms to `activate`,
and `dose(0.9f)` at 0.01f ml/s passes 90000 ms, where the exact quotient of the
two `float` values times 1000 is below 90000. -/
theorem C9_dose_duration_witness :
    (exampleDosingPump (1 / 2)).toPump.dose 5 10 =
      (exampleDosingPump (1 / 2)).toPump.activate 5 20000 ∧
    ((exampleDosingPump (1 / 2)).toPump.doseDurationMs 10 : ℤ) =
      ⌊roundFloat (roundFloat (10 / (exampleDosingPump (1 / 2)).flow_rate_ml_per_sec) * 1000)⌋ ∧
    (exampleDosingPump (roundFloat (1 / 100))).toPump.doseDurationMs (roundFloat (9 / 10)) =
      90000 ∧
    ⌊roundFloat (9 / 10) / roundFloat (1 / 100) * 1000⌋ = 89999 := by
  have h := C9_dose_duration_truncates (exampleDosingPump (1 / 2)).toPump 5 10
    (by decide!) (by decide!) (by decide!)
  refine ⟨?_, h.2.2.1, by decide!, by decide!⟩
  rw [h.1]
  decide!

/-- C10, as stated, fails: a dosing pump initialised with flow rate 1 ml/s and
a maximum runtime of 134219 s has `max_dose_ml` 134219; the volume 134219
passes `validateDoseRequest`, and the computed duration is 134219008 ms, the
`float` nearest to 134219000, above `max_runtime_sec * 1000`.  The activation
guard rejects it: `dose` returns false and leaves the pump as it was. -/
theorem C10_rounded_duration_exceeds_max_runtime :
    exampleLongRuntimePump.max_dose_ml = 134219 ∧
    exampleLongRuntimePump.validateDoseRequest 5 134219 = true ∧
    exampleLongRuntimePump.toPump.doseDurationMs 134219 = 134219008 ∧
    exampleLongRuntimePump.config.max_runtime_sec * 1000 = 134219000 ∧
    exampleLongRuntimePump.toPump.maxRuntimeMs = 134219000 ∧
    exampleLongRuntimePump.dose 5 134219 = (false, exampleLongRuntimePump) := by
  refine ⟨by decide!, by decide!, by decide!, by decide!, by decide!, by decide!⟩

/-- C10 as amended: for every dosing pump and every volume, `dose` switches the
hardware on only when the volume passes `validateDoseRequest` and the computed
duration is at most `max_runtime_sec * 1000` (the `unsigned long` product of
the activation guard): the planned duration is then the computed duration and
within the maximum runtime.  A computed duration above that product makes
`dose` return false, and whenever `dose` returns false the pump is left as it
was.  The example pump at 0.5 ml/s accepts `dose(10.0)` with 20000 ms. -/
theorem C10_dose_activates_within_max_runtime (d : DosingPump) (now : Nat) (volume_ml : ℚ) :
    ((d.dose now volume_ml).1 = true →
      d.validateDoseRequest now volume_ml = true ∧
      d.toPump.doseDurationMs volume_ml ≤ d.toPump.maxRuntimeMs ∧
      (d.dose now volume_ml).2.planned_duration_ms = d.toPump.doseDurationMs volume_ml ∧
      (d.dose now volume_ml).2.planned_duration_ms ≤
        (d.dose now volume_ml).2.toPump.maxRuntimeMs ∧
      (d.dose now volume_ml).2.state = ActuatorState.ACTIVE ∧
      (d.dose now volume_ml).2.gpio_high = true) ∧
    (d.toPump.doseDurationMs volume_ml > d.toPump.maxRuntimeMs →
      d.dose now volume_ml = (false, d)) ∧
    ((d.dose now volume_ml).1 = false → d.dose now volume_ml = (false, d) ∧
      (d.dose now volume_ml).2.gpio_high = d.gpio_high) ∧
    ((exampleDosingPump (1 / 2)).validateDoseRequest 5 10 = true ∧
      (exampleDosingPump (1 / 2)).toPump.doseDurationMs 10 = 20000 ∧
      ((exampleDosingPump (1 / 2)).dose 5 10).1 = true ∧
      ((exampleDosingPump (1 / 2)).dose 5 10).2.planned_duration_ms = 20000 ∧
      (exampleDosingPump (1 / 2)).toPump.maxRuntimeMs = 60000) := by
  refine ⟨?_, ?_, ?_, by decide!⟩
  · intro ht
    rcases dosing_dose_cases d now volume_ml with h | ⟨_, hv, hp, _⟩
    · rw [h] at ht
      cases ht
    · have hv2 := (validate_true_iff d.toPump now _).mp hv
      have hval : d.validateDoseRequest now volume_ml = true := by
        by_contra hc
        have hc2 : d.validateDoseRequest now volume_ml = false := by simpa using hc
        rw [dosing_dose_reject d now volume_ml hc2] at ht
        cases ht
      refine ⟨hval, hv2.2.2.2.2, ?_, ?_, ?_, ?_⟩
      · show (d.dose now volume_ml).2.toPump.planned_duration_ms = _
        rw [hp, activate_accept _ _ _ hv]
      · show (d.dose now volume_ml).2.toPump.planned_duration_ms ≤ _
        rw [hp, activate_accept _ _ _ hv]
        exact hv2.2.2.2.2
      · show (d.dose now volume_ml).2.toPump.state = _
        rw [hp, activate_accept _ _ _ hv]
      · show (d.dose now volume_ml).2.toPump.gpio_high = _
        rw [hp, activate_accept _ _ _ hv]
  · intro hgt
    rcases dosing_dose_cases d now volume_ml with h | ⟨_, hv, _, _⟩
    · exact h
    · have hv2 := (validate_true_iff d.toPump now _).mp hv
      exact absurd hv2.2.2.2.2 (not_le.mpr hgt)
  · intro hf
    rcases dosing_dose_cases d now volume_ml with h | ⟨h, _⟩
    · rw [h]
      exact ⟨rfl, rfl⟩
    · rw [h] at hf
      cases hf

/-- C11: when `setTwoPoints(raw1, value1, raw2, value2)` succeeds, the
calibration is valid with `slope = (value2 - value1) / (raw2 - raw1)` and
`offset = value1 - slope * raw1`, and over the rationals `calibrate(raw1)` is
`value1` and `calibrate(raw2)` is `value2`. -/
theorem C11_two_point_calibration_exact (c : LinearCalibration) (raw1 value1 raw2 value2 : ℚ)
    (hok : (c.setTwoPoints raw1 value1 raw2 value2).1 = true) :
    (c.setTwoPoints raw1 value1 raw2 value2).2.calibrate raw1 = value1 ∧
    (c.setTwoPoints raw1 value1 raw2 value2).2.calibrate raw2 = value2 ∧
    (c.setTwoPoints raw1 value1 raw2 value2).2.slope = (value2 - value1) / (raw2 - raw1) ∧
    (c.setTwoPoints raw1 value1 raw2 value2).2.offset =
      value1 - (c.setTwoPoints raw1 value1 raw2 value2).2.slope * raw1 ∧
    (c.setTwoPoints raw1 value1 raw2 value2).2.isValid = true := by
  by_cases h : |raw2 - raw1| < 1 / 1000
  · rw [setTwoPoints_of_close c raw1 value1 raw2 value2 h] at hok
    cases hok
  · rw [setTwoPoints_of_apart c raw1 value1 raw2 value2 h]
    have hne : raw2 - raw1 ≠ 0 := by
      intro h0
      apply h
      rw [h0]
      norm_num
    refine ⟨?_, ?_, rfl, rfl, rfl⟩
    · simp [LinearCalibration.calibrate]
    · simp only [LinearCalibration.calibrate, Bool.true_eq_false, if_false]
      field_simp
      ring

/-- Witness for C11: the pH points `(2252, 4.0)` and `(1721, 7.0)`. -/
theorem C11_two_point_calibration_witness :
    (LinearCalibration.new.setTwoPoints 2252 4 1721 7).1 = true ∧
    (LinearCalibration.new.setTwoPoints 2252 4 1721 7).2.calibrate 2252 = 4 ∧
    (LinearCalibration.new.setTwoPoints 2252 4 1721 7).2.calibrate 1721 = 7 := by
  have hok : (LinearCalibration.new.setTwoPoints 2252 4 1721 7).1 = true := by
    rw [setTwoPoints_of_apart _ _ _ _ _ (by norm_num [abs_lt])]
  have h := C11_two_point_calibration_exact LinearCalibration.new 2252 4 1721 7 hok
  exact ⟨hok, h.1, h.2.1⟩

/-- C12: `setTwoPoints(raw1, value1, raw2, value2)` returns false exactly when
`|raw2 - raw1| < 0.001`, and exactly then the calibration is invalid after the
call (slope and offset are left as they were); `calibrate(raw)` of that invalid
calibration is `raw` for every `raw`. -/
theorem C12_two_point_rejection (c : LinearCalibration) (raw1 value1 raw2 value2 : ℚ) :
    ((c.setTwoPoints raw1 value1 raw2 value2).1 = false ↔ |raw2 - raw1| < 1 / 1000) ∧
    ((c.setTwoPoints raw1 value1 raw2 value2).2.isValid = false ↔ |raw2 - raw1| < 1 / 1000) ∧
    (|raw2 - raw1| < 1 / 1000 →
      (c.setTwoPoints raw1 value1 raw2 value2).2 = { c with valid := false } ∧
      ∀ raw : ℚ, (c.setTwoPoints raw1 value1 raw2 value2).2.calibrate raw = raw) := by
  by_cases h : |raw2 - raw1| < 1 / 1000
  · rw [setTwoPoints_of_close c raw1 value1 raw2 value2 h]
    refine ⟨⟨fun _ => h, fun _ => rfl⟩, ⟨fun _ => h, fun _ => rfl⟩, fun _ => ⟨rfl, ?_⟩⟩
    intro raw
    simp [LinearCalibration.calibrate]
  · rw [setTwoPoints_of_apart c raw1 value1 raw2 value2 h]
    refine ⟨⟨fun hc => ?_, fun hc => absurd hc h⟩, ⟨fun hc => ?_, fun hc => absurd hc h⟩,
      fun hc => absurd hc h⟩
    · cases hc
    · simp [LinearCalibration.isValid] at hc

/-- C13: for every multi-point calibration loaded by a successful
`loadFromJson` (its points are then in strictly ascending order of raw, at
least 0.001 apart), `calibrate(p.raw)` is `p.value` for every stored point `p`;
for every raw on the closed segment between two consecutive points `a`, `b` the
result is the linear interpolation `a.value + (b.value - a.value) /
(b.raw - a.raw) * (raw - a.raw)`, so adjoining segments agree at their common
point and on each segment `calibrate` is monotone in the direction of the
segment's slope. -/
theorem C13_multipoint_interpolation (c0 : MultiPointCalibration) (j : CalibrationJson)
    (hload : (c0.loadFromJson j).1 = true) :
    (c0.loadFromJson j).2.points.Pairwise (fun x y => x.raw < y.raw) ∧
    (c0.loadFromJson j).2.points.Pairwise (fun x y => (1 : ℚ) / 1000 ≤ |x.raw - y.raw|) ∧
    (∀ p ∈ (c0.loadFromJson j).2.points, (c0.loadFromJson j).2.calibrate p.raw = p.value) ∧
    (∀ (pre post : List CalibrationPoint) (a b : CalibrationPoint) (x : ℚ),
      (c0.loadFromJson j).2.points = pre ++ a :: b :: post → a.raw ≤ x → x ≤ b.raw →
      (c0.loadFromJson j).2.calibrate x =
        a.value + (b.value - a.value) / (b.raw - a.raw) * (x - a.raw)) ∧
    (∀ (pre post : List CalibrationPoint) (a b : CalibrationPoint) (x y : ℚ),
      (c0.loadFromJson j).2.points = pre ++ a :: b :: post → a.raw ≤ x → x ≤ y → y ≤ b.raw →
      (a.value ≤ b.value →
        (c0.loadFromJson j).2.calibrate x ≤ (c0.loadFromJson j).2.calibrate y) ∧
      (b.value ≤ a.value →
        (c0.loadFromJson j).2.calibrate y ≤ (c0.loadFromJson j).2.calibrate x)) := by
  rcases loadFromJson_cases c0 j with ⟨hf, _⟩ | ⟨_, hv, hl, hasc, hap⟩
  · rw [hf] at hload
    cases hload
  generalize (c0.loadFromJson j).2 = c at *
  have hvalid := isValid_of c hv hl
  have hseg : ∀ (pre post : List CalibrationPoint) (a b : CalibrationPoint) (x : ℚ),
      c.points = pre ++ a :: b :: post → a.raw ≤ x → x ≤ b.raw →
      c.calibrate x = lineThrough a b x := by
    intro pre post a b x hpts h1 h2
    rw [calibrate_of_valid c hvalid]
    exact interpolate_segment c pre post a b x hpts hasc h1 h2
  have hlt : ∀ (pre post : List CalibrationPoint) (a b : CalibrationPoint),
      c.points = pre ++ a :: b :: post → a.raw < b.raw := by
    intro pre post a b hpts
    have h := hasc
    rw [hpts] at h
    exact (List.pairwise_cons.mp (List.pairwise_append.mp h).2.1).1 b (by simp)
  refine ⟨hasc, hap, ?_, ?_, ?_⟩
  · intro p hp
    rcases mem_segment_end c.points p hp hl with ⟨pre, b, post, hpts⟩ | ⟨pre, a, hpts⟩
    · rw [hseg pre post p b p.raw hpts (le_refl _) (le_of_lt (hlt pre post p b hpts))]
      exact lineThrough_left p b
    · have hab := hlt pre [] a p hpts
      rw [hseg pre [] a p p.raw hpts (le_of_lt hab) (le_refl _)]
      exact lineThrough_right a p hab
  · intro pre post a b x hpts h1 h2
    exact hseg pre post a b x hpts h1 h2
  · intro pre post a b x y hpts h1 hxy h2
    have hab := hlt pre post a b hpts
    rw [hseg pre post a b x hpts h1 (le_trans hxy h2),
      hseg pre post a b y hpts (le_trans h1 hxy) h2]
    unfold lineThrough
    have hd : 0 < b.raw - a.raw := by linarith
    constructor
    · intro hval
      have hs : 0 ≤ (b.value - a.value) / (b.raw - a.raw) :=
        div_nonneg (by linarith) (le_of_lt hd)
      have := mul_le_mul_of_nonneg_left (sub_le_sub_right hxy a.raw) hs
      linarith
    · intro hval
      have hs : (b.value - a.value) / (b.raw - a.raw) ≤ 0 :=
        div_nonpos_of_nonpos_of_nonneg (by linarith) (le_of_lt hd)
      have := mul_le_mul_of_nonpos_left (sub_le_sub_right hxy a.raw) hs
      linarith

/-- Witness for C13: the points `(2252, 4.0)` and `(1721, 7.0)` give
`calibrate(1721) = 7.0`, `calibrate(2252) = 4.0` and `calibrate(1986.5) = 5.5`. -/
theorem C13_multipoint_interpolation_witness :
    (MultiPointCalibration.new.loadFromJson examplePhJson).1 = true ∧
    examplePhCalibration.calibrate 1721 = 7 ∧
    examplePhCalibration.calibrate 2252 = 4 ∧
    examplePhCalibration.calibrate (3973 / 2) = 11 / 2 := by
  have hok : (MultiPointCalibration.new.loadFromJson examplePhJson).1 = true := by
    rw [examplePhCalibration_eq]
  have hpts : (MultiPointCalibration.new.loadFromJson examplePhJson).2.points =
      [] ++ ({ raw := 1721, value := 7 } : CalibrationPoint) ::
        ({ raw := 2252, value := 4 } : CalibrationPoint) :: [] := by
    rw [examplePhCalibration_eq]
    rfl
  have h := C13_multipoint_interpolation MultiPointCalibration.new examplePhJson hok
  have hseg := h.2.2.2.1 [] [] { raw := 1721, value := 7 } { raw := 2252, value := 4 }
  refine ⟨hok, ?_, ?_, ?_⟩
  · have := hseg 1721 hpts (by norm_num) (by norm_num)
    unfold examplePhCalibration
    rw [this]
    norm_num
  · have := hseg 2252 hpts (by norm_num) (by norm_num)
    unfold examplePhCalibration
    rw [this]
    norm_num
  · have := hseg (3973 / 2) hpts (by norm_num) (by norm_num)
    unfold examplePhCalibration
    rw [this]
    norm_num

/-- C14: for every valid multi-point calibration whose points `p0 < p1 < ... <
pn` are in strictly ascending order of raw, a raw value below `p0.raw` yields
`p0.value + s0 * (raw - p0.raw)` with `s0` the slope of the first segment, and a
raw value above `pn.raw` yields `pn.value + sn * (raw - pn.raw)` with `sn` the
slope of the last segment; the result is not clamped: it differs from
`p0.value` (from `pn.value`) whenever that slope is not zero. -/
theorem C14_multipoint_extrapolation (c : MultiPointCalibration) (hvalid : c.isValid = true)
    (hasc : c.points.Pairwise (fun x y => x.raw < y.raw)) :
    (∀ (p0 p1 : CalibrationPoint) (rest : List CalibrationPoint) (x : ℚ),
      c.points = p0 :: p1 :: rest → x < p0.raw →
      c.calibrate x =
        p0.value + (p1.value - p0.value) / (p1.raw - p0.raw) * (x - p0.raw) ∧
      (p1.value ≠ p0.value → c.calibrate x ≠ p0.value)) ∧
    (∀ (pre : List CalibrationPoint) (a b : CalibrationPoint) (x : ℚ),
      c.points = pre ++ [a, b] → x > b.raw →
      c.calibrate x = b.value + (b.value - a.value) / (b.raw - a.raw) * (x - b.raw) ∧
      (b.value ≠ a.value → c.calibrate x ≠ b.value)) := by
  constructor
  · intro p0 p1 rest x hpts hx
    have h01 : p0.raw < p1.raw := by
      have h := hasc
      rw [hpts] at h
      exact (List.pairwise_cons.mp h).1 p1 (by simp)
    have h0 : c.pointAt 0 = p0 := by
      unfold MultiPointCalibration.pointAt
      rw [hpts]
      rfl
    have h1 : c.pointAt 1 = p1 := by
      unfold MultiPointCalibration.pointAt
      rw [hpts]
      rfl
    have hcal : c.calibrate x =
        p0.value + (p1.value - p0.value) / (p1.raw - p0.raw) * (x - p0.raw) := by
      rw [calibrate_of_valid c hvalid]
      unfold MultiPointCalibration.interpolate
      have hne : c.points.isEmpty = false := by rw [hpts]; rfl
      have hl : ¬ c.points.length = 1 := by rw [hpts]; simp
      rw [hne]
      simp only [Bool.false_eq_true, if_false]
      rw [if_neg hl, h0, h1, if_pos (le_of_lt hx)]
    refine ⟨hcal, ?_⟩
    intro hne heq
    rw [hcal] at heq
    have hprod : (p1.value - p0.value) / (p1.raw - p0.raw) * (x - p0.raw) = 0 := by linarith
    rcases mul_eq_zero.mp hprod with h | h
    · rcases div_eq_zero_iff.mp h with h' | h'
      · exact hne (by linarith)
      · linarith
    · linarith
  · intro pre a b x hpts hx
    have hab : a.raw < b.raw := by
      have h := hasc
      rw [hpts] at h
      exact (List.pairwise_cons.mp (List.pairwise_append.mp h).2.1).1 b (by simp)
    have hfirst : (c.pointAt 0).raw ≤ b.raw := by
      unfold MultiPointCalibration.pointAt
      rw [hpts]
      cases pre with
      | nil => exact le_of_lt hab
      | cons p pre' =>
        have h := hasc
        rw [hpts] at h
        exact le_of_lt ((List.pairwise_cons.mp h).1 b (by simp))
    have hl1 : c.pointAt (c.points.length - 1) = b := by
      unfold MultiPointCalibration.pointAt
      have : c.points = (pre ++ [a]) ++ [b] := by rw [hpts]; simp
      rw [this]
      exact getD_last_concat _ _ _
    have hl2 : c.pointAt (c.points.length - 2) = a := by
      unfold MultiPointCalibration.pointAt
      rw [hpts]
      exact getD_before_last _ _ _ _
    have hcal : c.calibrate x =
        b.value + (b.value - a.value) / (b.raw - a.raw) * (x - b.raw) := by
      rw [calibrate_of_valid c hvalid]
      unfold MultiPointCalibration.interpolate
      have hne : c.points.isEmpty = false := by
        rw [hpts]
        cases pre <;> rfl
      have hl : ¬ c.points.length = 1 := by rw [hpts]; simp
      rw [hne]
      simp only [Bool.false_eq_true, if_false]
      rw [if_neg hl, if_neg (by linarith), hl1, if_pos (le_of_lt hx), hl2]
    refine ⟨hcal, ?_⟩
    intro hne heq
    rw [hcal] at heq
    have hprod : (b.value - a.value) / (b.raw - a.raw) * (x - b.raw) = 0 := by linarith
    rcases mul_eq_zero.mp hprod with h | h
    · rcases div_eq_zero_iff.mp h with h' | h'
      · exact hne (by linarith)
      · linarith
    · linarith

/-- Witness for C14: the pH calibration with points `(1721, 7.0)`, `(2252, 4.0)`
returns `1960/177` (about 11.07, above 7) for raw 1000 and `-40/177` (below 4)
for raw 3000. -/
theorem C14_multipoint_extrapolation_witness :
    examplePhCalibration.calibrate 1000 = 1960 / 177 ∧
    examplePhCalibration.calibrate 3000 = -40 / 177 := by
  have heq : examplePhCalibration =
      { points := [{ raw := 1721, value := 7 }, { raw := 2252, value := 4 }], valid := true } := by
    unfold examplePhCalibration
    rw [examplePhCalibration_eq]
  have hvalid : examplePhCalibration.isValid = true := by
    rw [heq]
    rfl
  have hasc : examplePhCalibration.points.Pairwise (fun x y => x.raw < y.raw) := by
    rw [heq]
    norm_num [List.pairwise_cons]
  have h := C14_multipoint_extrapolation examplePhCalibration hvalid hasc
  constructor
  · have := (h.1 { raw := 1721, value := 7 } { raw := 2252, value := 4 } [] 1000
      (by rw [heq]) (by norm_num)).1
    rw [this]
    norm_num
  · have := (h.2 [] { raw := 1721, value := 7 } { raw := 2252, value := 4 } 3000
      (by rw [heq]; rfl) (by norm_num)).1
    rw [this]
    norm_num

/-- C15, as stated, fails: `addPoint` appends without sorting.  On a new
calibration `addPoint(2, 7)` then `addPoint(1, 4)` leaves the points in the order
2, 1; after the pH calibration has been loaded, `addPoint(2000, 5.5)` leaves the
valid calibration with the raw values 1721, 2252, 2000. -/
theorem C15_add_point_breaks_order :
    (MultiPointCalibration.new.run
      [CalibrationOp.addPoint 2 7, CalibrationOp.addPoint 1 4]).points =
        [{ raw := 2, value := 7 }, { raw := 1, value := 4 }] ∧
    ¬ (MultiPointCalibration.new.run
      [CalibrationOp.addPoint 2 7, CalibrationOp.addPoint 1 4]).points.Pairwise
        (fun x y => x.raw < y.raw) ∧
    (MultiPointCalibration.new.run
      [CalibrationOp.loadFromJson examplePhJson, CalibrationOp.addPoint 2000 (11 / 2)]).points =
        [{ raw := 1721, value := 7 }, { raw := 2252, value := 4 },
         { raw := 2000, value := 11 / 2 }] ∧
    (MultiPointCalibration.new.run
      [CalibrationOp.loadFromJson examplePhJson, CalibrationOp.addPoint 2000 (11 / 2)]).isValid =
        true ∧
    ¬ (MultiPointCalibration.new.run
      [CalibrationOp.loadFromJson examplePhJson,
       CalibrationOp.addPoint 2000 (11 / 2)]).points.Pairwise (fun x y => x.raw < y.raw) := by
  have h1 : (MultiPointCalibration.new.run
      [CalibrationOp.addPoint 2 7, CalibrationOp.addPoint 1 4]) =
        { points := [{ raw := 2, value := 7 }, { raw := 1, value := 4 }], valid := false } := by
    norm_num [MultiPointCalibration.run, MultiPointCalibration.step, MultiPointCalibration.new,
      MultiPointCalibration.addPoint, abs_lt]
  have h2 : (MultiPointCalibration.new.run
      [CalibrationOp.loadFromJson examplePhJson, CalibrationOp.addPoint 2000 (11 / 2)]) =
        { points := [{ raw := 1721, value := 7 }, { raw := 2252, value := 4 },
                     { raw := 2000, value := 11 / 2 }], valid := true } := by
    simp only [MultiPointCalibration.run, MultiPointCalibration.step, examplePhCalibration_eq]
    norm_num [MultiPointCalibration.addPoint, abs_lt]
  rw [h1, h2]
  refine ⟨rfl, ?_, rfl, ?_, ?_⟩
  · norm_num [List.pairwise_cons]
  · simp [MultiPointCalibration.isValid]
  · norm_num [List.pairwise_cons]

/-- C15 as amended: after any sequence of `addPoint`, `clearPoints` and
`loadFromJson` calls on a new `MultiPointCalibration`, any two stored points
have raw values at least 0.001 apart, so no two stored points have the same
raw; the points a successful `loadFromJson` leaves are in strictly ascending
order of raw; `addPoint(raw, value)` with a raw already present returns false
and leaves the calibration unchanged. -/
theorem C15_points_apart_and_sorted_on_load (calls : List CalibrationOp) :
    (MultiPointCalibration.new.run calls).points.Pairwise
      (fun x y => (1 : ℚ) / 1000 ≤ |x.raw - y.raw|) ∧
    (MultiPointCalibration.new.run calls).points.Pairwise (fun x y => x.raw ≠ y.raw) ∧
    (∀ j : CalibrationJson, ((MultiPointCalibration.new.run calls).loadFromJson j).1 = true →
      ((MultiPointCalibration.new.run calls).loadFromJson j).2.points.Pairwise
        (fun x y => x.raw < y.raw)) ∧
    (∀ raw value : ℚ, (∃ p ∈ (MultiPointCalibration.new.run calls).points, p.raw = raw) →
      (MultiPointCalibration.new.run calls).addPoint raw value =
        (false, MultiPointCalibration.new.run calls)) := by
  have hap := calibration_run_apart calls MultiPointCalibration.new List.Pairwise.nil
  refine ⟨hap, ?_, ?_, ?_⟩
  · refine hap.imp ?_
    intro x y hxy heq
    rw [heq, sub_self, abs_zero] at hxy
    norm_num at hxy
  · intro j hj
    rcases loadFromJson_cases (MultiPointCalibration.new.run calls) j with
      ⟨hf, _⟩ | ⟨_, _, _, hasc, _⟩
    · rw [hf] at hj
      cases hj
    · exact hasc
  · intro raw value hex
    obtain ⟨p, hp, hpr⟩ := hex
    rcases addPoint_cases (MultiPointCalibration.new.run calls) raw value with
      ⟨_, he⟩ | ⟨hall, _⟩
    · exact he
    · have := hall p hp
      rw [hpr, sub_self, abs_zero] at this
      norm_num at this

/-- C16, as stated, fails in `float` arithmetic: a freshly reset filter with
window size 5 fed the value 7.3f (7.30000019) returns it on the first two
calls, and on the third call 7.30000067, the rounded sum 21.9000015 of the
three samples divided by 3. -/
theorem C16_constant_stream_average_is_rounded :
    roundFloat (73 / 10) = 7654605 / 1048576 ∧
    (MovingAverageFilter.feed32 exampleSqrt (MovingAverageFilter.new 5 2).reset
      (List.replicate 3 (roundFloat (73 / 10)))).1 =
      [7654605 / 1048576, 7654605 / 1048576, 15309211 / 2097152] ∧
    (15309211 / 2097152 : ℚ) ≠ roundFloat (73 / 10) := by
  refine ⟨by decide!, by decide!, by decide!⟩

/-- C16 as amended: with a square root that maps 0 to 0, for every window size
`N >= 1`, every threshold and every value `c` whose multiples `j * c` for
`j <= N` are `float` values (as are the counts `j <= N` themselves), a freshly
reset filter fed `c` any number of times returns exactly `c` on every call and
flags no outlier; the buffer then holds `min(k, N)` copies of `c`.  For every
stream of samples the buffer never holds more than `N` samples. -/
theorem C16_moving_average_constant_stream (sqrtf : ℚ → ℚ) (h0 : sqrtf 0 = 0)
    (f : MovingAverageFilter) (hN : 1 ≤ f.window_size) (c : ℚ) (k : Nat)
    (hc : ∀ j ≤ f.window_size, roundFloat ((j : ℚ) * c) = (j : ℚ) * c)
    (hn : ∀ j ≤ f.window_size, roundFloat (j : ℚ) = (j : ℚ)) :
    (MovingAverageFilter.feed32 sqrtf f.reset (List.replicate k c)).1 = List.replicate k c ∧
    (MovingAverageFilter.feed32 sqrtf f.reset (List.replicate k c)).2.buffer =
      List.replicate (min k f.window_size) c ∧
    (MovingAverageFilter.feed32 sqrtf f.reset (List.replicate k c)).2.buffer.length ≤
      f.window_size ∧
    (∀ values : List ℚ,
      (MovingAverageFilter.feed32 sqrtf f.reset values).2.buffer.length ≤ f.window_size) := by
  obtain ⟨a1, a2, _⟩ := feed32_replicate sqrtf h0 c k f.reset 0 hc hn rfl (Nat.zero_le _) hN
  have hw : f.reset.window_size = f.window_size := rfl
  rw [hw, Nat.zero_add] at a2
  refine ⟨a1, a2, ?_, ?_⟩
  · rw [a2, List.length_replicate]
    exact Nat.min_le_right _ _
  · intro values
    exact feed32_length sqrtf values f.reset (Nat.zero_le _)

/-- Witness for C16: window size 3 fed the value 7.5 five times; 7.5, 15 and
22.5 are `float` values. -/
theorem C16_moving_average_constant_witness :
    (MovingAverageFilter.feed32 exampleSqrt (MovingAverageFilter.new 3 2).reset
      (List.replicate 5 (15 / 2))).1 = [15 / 2, 15 / 2, 15 / 2, 15 / 2, 15 / 2] ∧
    (MovingAverageFilter.feed32 exampleSqrt (MovingAverageFilter.new 3 2).reset
      (List.replicate 5 (15 / 2))).2.buffer = [15 / 2, 15 / 2, 15 / 2] := by
  have h := C16_moving_average_constant_stream exampleSqrt exampleSqrt_zero
    (MovingAverageFilter.new 3 2) (by decide) (15 / 2) 5 (by decide!) (by decide!)
  exact ⟨h.1, h.2.1⟩

/-- C19: the constructor does not clamp.  `ExponentialFilter(2.0, 2.0)` has
`getAlpha() == 2`; fed 10 and then 10.5 it returns 11, beyond both samples.
The same value given to `setAlpha` is clamped to 1. -/
theorem C19_constructor_keeps_alpha_above_one :
    (ExponentialFilter.new 2 2).getAlpha = 2 ∧
    ¬ ((ExponentialFilter.new 2 2).getAlpha ≤ 1) ∧
    (((ExponentialFilter.new 2 2).filter 10).2.filter (21 / 2)).1 = 11 ∧
    ((ExponentialFilter.new 2 2).setAlpha 2).getAlpha = 1 := by
  refine ⟨rfl, ?_, ?_, ?_⟩
  · norm_num [ExponentialFilter.new, ExponentialFilter.getAlpha]
  · norm_num [ExponentialFilter.new, ExponentialFilter.filter, ExponentialFilter.isOutlier,
      abs_of_pos, abs_of_nonneg]
  · norm_num [ExponentialFilter.new, ExponentialFilter.setAlpha, ExponentialFilter.getAlpha]

/-- C20, as stated, fails in two places.  The 32-bit total wraps: a pump that
has run for 4000000000 ms in total and is deactivated after a further
2000000000 ms has `total_runtime_ms` 1705032704.  And a pump activated when
`millis()` is 0 is deactivated at 500 ms with the total still 0 and
`last_activation_end` still 0. -/
theorem C20_total_runtime_wraps_and_zero_start :
    exampleLongRunPump.state = ActuatorState.ACTIVE ∧
    exampleLongRunPump.total_runtime_ms = 4000000000 ∧
    usub 1705152705 exampleLongRunPump.activation_start_time = 2000000000 ∧
    (exampleLongRunPump.deactivate 1705152705).1 = true ∧
    (exampleLongRunPump.deactivate 1705152705).2.total_runtime_ms = 1705032704 ∧
    (examplePump.activate 0 1000).2.state = ActuatorState.ACTIVE ∧
    ((examplePump.activate 0 1000).2.deactivate 500).1 = true ∧
    ((examplePump.activate 0 1000).2.deactivate 500).2.total_runtime_ms = 0 ∧
    ((examplePump.activate 0 1000).2.deactivate 500).2.last_activation_end = 0 := by
  decide

/-- C20 as amended: `Pump::deactivate` on an Active pump whose
`activation_start_time` is not 0, at time `now`, returns true, sets the state to
Idle, sets `total_runtime_ms` to the sum of its old value and
`now - activation_start_time` modulo `2^32`, sets `last_activation_end = now`
and resets `planned_duration_ms` to 0; `deactivate` on a pump that is not Active
returns false and changes nothing; every call (`activate`, `deactivate`, `dose`,
`loop`) leaves `total_runtime_ms` as it is or adds `now - activation_start_time`
to it modulo `2^32`, so it does not decrease at a call at which that sum stays
below `2^32`. -/
theorem C20_deactivate_effect (p : Pump) (now : Nat) (op : PumpOp) :
    (p.state = ActuatorState.ACTIVE → p.activation_start_time ≠ 0 →
      p.deactivate now =
        (true, { p with gpio_high := false
                        state := ActuatorState.IDLE
                        total_runtime_ms :=
                          uadd p.total_runtime_ms (usub now p.activation_start_time)
                        last_activation_end := now
                        activation_start_time := 0
                        planned_duration_ms := 0 })) ∧
    (p.state ≠ ActuatorState.ACTIVE → p.deactivate now = (false, p)) ∧
    ((p.step now op).total_runtime_ms = p.total_runtime_ms ∨
      (p.step now op).total_runtime_ms =
        uadd p.total_runtime_ms (usub now p.activation_start_time)) ∧
    (p.total_runtime_ms + usub now p.activation_start_time < ULONG_MOD →
      p.total_runtime_ms ≤ (p.step now op).total_runtime_ms) := by
  refine ⟨?_, deactivate_not_active p now, step_total p now op, ?_⟩
  · intro hA hs
    have hpos : p.activation_start_time > 0 := Nat.pos_of_ne_zero hs
    rw [deactivate_active p now hA]
    simp [hpos]
  · intro hlt
    rcases step_total p now op with h | h
    · rw [h]
    · rw [h]
      unfold uadd
      rw [Nat.mod_eq_of_lt hlt]
      exact Nat.le_add_right _ _

/-- C21, as stated, fails in two ways.  A pump with a 60 s cooldown activated
for 5000 ms at 1000 ms and polled at 6000 ms (elapsed 5000) is deactivated by
the planned-duration check, and the same poll reports it as Cooldown, not
Idle.  A pump activated with duration 0 and polled 1000 ms later (elapsed
1000 ≥ 0) stays Active. -/
theorem C21_poll_reports_cooldown_and_zero_duration_stays_active :
    (examplePump.activate 1000 5000).1 = true ∧
    usub 6000 (examplePump.activate 1000 5000).2.activation_start_time ≥ 5000 ∧
    ((examplePump.activate 1000 5000).2.loop 6000).state = ActuatorState.COOLDOWN ∧
    (examplePump.activate 1000 0).1 = true ∧
    usub 2000 (examplePump.activate 1000 0).2.activation_start_time ≥ 0 ∧
    ((examplePump.activate 1000 0).2.loop 2000).state = ActuatorState.ACTIVE := by
  decide

/-- C21 as amended: for every pump on which `activate(d)` with `d > 0` has
succeeded at clock value `t`, a `loop()` poll at a time when
`now - activation_start_time >= d` deactivates the pump (line low, planned
duration cleared, no error recorded) and reports it as Cooldown when the
deactivation has recorded an end time and the poll lies in the cooldown it
starts, and as Idle otherwise, never as Error or Active; a poll at a time when
the elapsed runtime is `< d` leaves the pump as it is, Active. -/
theorem C21_planned_duration_watchdog (p0 : Pump) (t d now : Nat)
    (hacc : (p0.activate t d).1 = true) (hd : 0 < d) :
    (usub now t ≥ d →
      (p0.activate t d).2.loop now =
        (if ((p0.activate t d).2.deactivate now).2.last_activation_end > 0 ∧
            ((p0.activate t d).2.deactivate now).2.isInCooldown now = true then
          { ((p0.activate t d).2.deactivate now).2 with state := ActuatorState.COOLDOWN }
        else ((p0.activate t d).2.deactivate now).2) ∧
      (((p0.activate t d).2.loop now).state = ActuatorState.IDLE ∨
        ((p0.activate t d).2.loop now).state = ActuatorState.COOLDOWN) ∧
      ((p0.activate t d).2.loop now).gpio_high = false ∧
      ((p0.activate t d).2.loop now).planned_duration_ms = 0 ∧
      ((p0.activate t d).2.loop now).last_error = p0.last_error) ∧
    (usub now t < d →
      (p0.activate t d).2.loop now = (p0.activate t d).2 ∧
      ((p0.activate t d).2.loop now).state = ActuatorState.ACTIVE) := by
  have hv : p0.validateActivationRequest t d = true := by
    by_contra hv
    have hv2 : p0.validateActivationRequest t d = false := by simpa using hv
    rw [activate_reject p0 t d hv2] at hacc
    simp at hacc
  have hmax : d ≤ p0.maxRuntimeMs := ((validate_true_iff p0 t d).mp hv).2.2.2.2
  have hA : (p0.activate t d).2.state = ActuatorState.ACTIVE := by
    rw [activate_accept p0 t d hv]
  have hpl : (p0.activate t d).2.planned_duration_ms = d := by
    rw [activate_accept p0 t d hv]
  have hst : (p0.activate t d).2.activation_start_time = t := by
    rw [activate_accept p0 t d hv]
  have hmr : (p0.activate t d).2.maxRuntimeMs = p0.maxRuntimeMs := by
    rw [activate_accept p0 t d hv]
    rfl
  have herr : (p0.activate t d).2.last_error = p0.last_error := by
    rw [activate_accept p0 t d hv]
  constructor
  · intro hr
    have hl := loop_planned_reached (p0.activate t d).2 now hA (by rw [hpl]; exact hd)
      (by rw [hpl, hst]; exact hr)
    refine ⟨hl, ?_⟩
    rw [hl]
    have hde := deactivate_active (p0.activate t d).2 now hA
    split
    · rw [hde]
      exact ⟨Or.inr rfl, rfl, rfl, herr⟩
    · rw [hde]
      exact ⟨Or.inl rfl, rfl, rfl, herr⟩
  · intro hr
    have hl := loop_planned_not_reached (p0.activate t d).2 now hA
      (by rw [hpl, hst]; exact hr) (by rw [hpl, hmr]; exact hmax)
    rw [hl]
    exact ⟨rfl, hA⟩

/-- Witness for C21: the example pump activated for 5000 ms at 1000 ms, polled
at 6000 ms (Cooldown) and at 3000 ms (still Active). -/
theorem C21_planned_duration_witness :
    ((examplePump.activate 1000 5000).2.loop 6000).state = ActuatorState.COOLDOWN ∧
    ((examplePump.activate 1000 5000).2.loop 6000).gpio_high = false ∧
    ((examplePump.activate 1000 5000).2.loop 3000).state = ActuatorState.ACTIVE :=
  ⟨by decide,
   ((C21_planned_duration_watchdog examplePump 1000 5000 6000 (by decide) (by decide)).1
     (by decide)).2.2.1,
   ((C21_planned_duration_watchdog examplePump 1000 5000 3000 (by decide) (by decide)).2
     (by decide)).2⟩

/-- C22 fails on the code.  A poll of an Idle pump that has been deactivated
reports Cooldown exactly while `now - last_activation_end` is below the
cooldown, as claimed; but a pump once reported as Cooldown is left untouched by
every later poll, because the branch of `Pump::loop` that would set it back to
Idle sits inside the test `state == IDLE`.  The example pump, deactivated at
500 ms and polled at 600 ms, is in Cooldown; polled again at 100000 ms, 99500 ms
after the deactivation and past the 60000 ms cooldown, it is still in
Cooldown. -/
theorem C22_cooldown_not_left_by_polling :
    (∀ (p : Pump) (now : Nat), p.state = ActuatorState.IDLE → p.last_activation_end > 0 →
      (p.loop now).state =
        (if usub now p.last_activation_end < p.cooldownMs then ActuatorState.COOLDOWN
         else ActuatorState.IDLE)) ∧
    (∀ (p : Pump) (now : Nat), p.state = ActuatorState.COOLDOWN → p.loop now = p) ∧
    (examplePump.run [(1, PumpOp.activate 1000), (500, PumpOp.deactivate),
      (600, PumpOp.loop)]).state = ActuatorState.COOLDOWN ∧
    (examplePump.run [(1, PumpOp.activate 1000), (500, PumpOp.deactivate),
      (600, PumpOp.loop)]).last_activation_end = 500 ∧
    (examplePump.run [(1, PumpOp.activate 1000), (500, PumpOp.deactivate),
      (600, PumpOp.loop)]).cooldownMs = 60000 ∧
    usub 100000 500 = 99500 ∧
    (examplePump.run [(1, PumpOp.activate 1000), (500, PumpOp.deactivate),
      (600, PumpOp.loop), (100000, PumpOp.loop)]).state = ActuatorState.COOLDOWN := by
  refine ⟨loop_idle_projection, ?_, by decide, by decide, by decide, by decide, by decide⟩
  intro p now h
  exact loop_not_active_not_idle p now (by rw [h]; decide) (by rw [h]; decide)

/-- C23, as stated, fails for three of the five calls.  With the emergency
stop active, `setSchedule` of the water pump returns true and sets its
schedule, `cancelSchedule` returns true and clears it again, and, once a poll
has started the scheduled water pump, `deactivateActuator` returns true and
stops it. -/
theorem C23_ungated_calls_under_emergency_stop :
    exampleStoppedManager.emergency_stop_active = true ∧
    (exampleStoppedManager.setSchedule "water_pump" 30 120).1 = true ∧
    (exampleStoppedManager.setSchedule "water_pump" 30 120).2 ≠ exampleStoppedManager ∧
    ((exampleStoppedManager.setSchedule "water_pump" 30 120).2.cancelSchedule "water_pump").1 =
      true ∧
    ((exampleStoppedManager.setSchedule "water_pump" 30 120).2.cancelSchedule "water_pump").2 ≠
      (exampleStoppedManager.setSchedule "water_pump" 30 120).2 ∧
    ((exampleStoppedManager.setSchedule "water_pump" 30 120).2.loop 20).emergency_stop_active =
      true ∧
    (((exampleStoppedManager.setSchedule "water_pump" 30 120).2.loop 20).deactivateActuator 30
      "water_pump").1 = true ∧
    (((exampleStoppedManager.setSchedule "water_pump" 30 120).2.loop 20).deactivateActuator 30
      "water_pump").2 ≠ (exampleStoppedManager.setSchedule "water_pump" 30 120).2.loop 20 := by
  decide

/-- C23 as amended: with the emergency stop active or the manager
uninitialised, `activateActuator` and `dose` return false and leave the manager
and every actuator, including its schedule, unchanged.  The other three calls
do not consult the two flags: `deactivateActuator` returns what `deactivate` of
the named actuator returns and stores that actuator, and `setSchedule` and
`cancelSchedule` return what the named water or air pump returns and store that
pump, whatever the flags. -/
theorem C23_manager_gating (m : ActuatorManager)
    (hgate : m.emergency_stop_active = true ∨ m.initialized = false)
    (now : Nat) (id : String) (duration_ms : Nat) (volume_ml : ℚ)
    (interval_minutes duration_seconds : Nat) :
    m.activateActuator now id duration_ms = (false, m) ∧
    m.dose now id volume_ml = (false, m) ∧
    (∀ a : Actuator, m.getActuator id = some a →
      m.deactivateActuator now id =
        ((a.deactivate now).1,
         { m with actuators := mapUpdate id (a.deactivate now).2 m.actuators })) ∧
    (∀ w : WaterPump, m.getActuator id = some (Actuator.water w) →
      w.type = ActuatorType.WATER_PUMP →
      m.setSchedule id interval_minutes duration_seconds =
        ((w.setSchedule interval_minutes duration_seconds).1,
         { m with
           actuators :=
             mapUpdate id (Actuator.water (w.setSchedule interval_minutes duration_seconds).2)
               m.actuators }) ∧
      m.cancelSchedule id =
        (true,
         { m with
           actuators := mapUpdate id (Actuator.water w.cancelSchedule.2) m.actuators })) ∧
    (∀ a : AirPump, m.getActuator id = some (Actuator.air a) →
      a.type = ActuatorType.AIR_PUMP →
      m.setSchedule id interval_minutes duration_seconds =
        ((a.setSchedule interval_minutes duration_seconds).1,
         { m with
           actuators :=
             mapUpdate id (Actuator.air (a.setSchedule interval_minutes duration_seconds).2)
               m.actuators }) ∧
      m.cancelSchedule id =
        (true,
         { m with
           actuators := mapUpdate id (Actuator.air a.cancelSchedule.2) m.actuators })) := by
  have hv : m.validateActuatorOperation id = false := by
    unfold ActuatorManager.validateActuatorOperation
    rcases hgate with h | h
    · simp [h]
    · simp [h]
  refine ⟨?_, ?_, ?_, ?_, ?_⟩
  · simp [ActuatorManager.activateActuator, hv]
  · simp [ActuatorManager.dose, hv]
  · intro a ha
    simp [ActuatorManager.deactivateActuator, ha]
  · intro w hw ht
    have ht2 : (Actuator.water w).getType = ActuatorType.WATER_PUMP := ht
    constructor
    · simp [ActuatorManager.setSchedule, hw, ht2]
    · simp [ActuatorManager.cancelSchedule, hw, ht2, WaterPump.cancelSchedule]
  · intro a ha ht
    have ht2 : (Actuator.air a).getType = ActuatorType.AIR_PUMP := ht
    constructor
    · simp [ActuatorManager.setSchedule, ha, ht2]
    · simp [ActuatorManager.cancelSchedule, ha, ht2, AirPump.cancelSchedule]

/-- Witness for C23: the stopped example manager rejects `activateActuator`
and `dose` unchanged, while `setSchedule` and `cancelSchedule` reach its water
pump. -/
theorem C23_manager_gating_witness :
    exampleStoppedManager.activateActuator 20 "water_pump" 1000 = (false, exampleStoppedManager) ∧
    exampleStoppedManager.dose 20 "water_pump" 1 = (false, exampleStoppedManager) ∧
    (exampleStoppedManager.setSchedule "water_pump" 30 120).1 = true :=
  ⟨(C23_manager_gating exampleStoppedManager (Or.inl (by decide)) 20 "water_pump" 1000 1 30
      120).1,
   (C23_manager_gating exampleStoppedManager (Or.inl (by decide)) 20 "water_pump" 1000 1 30
      120).2.1,
   by decide⟩

/-- C24: `ActuatorManager::stopAllActuators` replaces every actuator that is
Active when visited by the result of its `deactivate`, whatever the earlier
calls of the same pass returned, leaves the entries of all other actuators and
the two manager flags as they are, and returns true if and only if every
`deactivate` it attempted returned true; with no actuator Active it returns
true and changes nothing. -/
theorem C24_stop_all_actuators (m : ActuatorManager) (now : Nat) :
    (m.stopAllActuators now).2.actuators =
      m.actuators.map
        (fun e => (e.1, if e.2.isActive = true then (e.2.deactivate now).2 else e.2)) ∧
    (m.stopAllActuators now).2.emergency_stop_active = m.emergency_stop_active ∧
    (m.stopAllActuators now).2.initialized = m.initialized ∧
    ((m.stopAllActuators now).1 = true ↔
      ∀ e ∈ m.actuators, e.2.isActive = true → (e.2.deactivate now).1 = true) ∧
    ((∀ e ∈ m.actuators, e.2.isActive = false) → m.stopAllActuators now = (true, m)) := by
  refine ⟨stopAllEntries_map now m.actuators, rfl, rfl, stopAllEntries_flag now m.actuators, ?_⟩
  intro hnone
  have h1 : (stopAllEntries now m.actuators).1 = true := by
    rw [stopAllEntries_flag]
    intro e he ha
    rw [hnone e he] at ha
    exact absurd ha (by decide)
  have h2 : (stopAllEntries now m.actuators).2 = m.actuators := by
    rw [stopAllEntries_map]
    conv_rhs => rw [← List.map_id m.actuators]
    apply List.map_congr_left
    intro e he
    simp [hnone e he]
  unfold ActuatorManager.stopAllActuators
  simp only [h1, h2]

/-- C25: a `loop()` poll of a `WaterPump` or an `AirPump` first runs the base
poll `Pump::loop`; it then calls `activate(schedule_duration_ms)` exactly when
the schedule is enabled, the pump is not Active after the base poll, and
`last_scheduled_activation == 0` or
`now - last_scheduled_activation >= schedule_interval_ms`.
`last_scheduled_activation` becomes `now` when that `activate` returns true and
keeps its value when it returns false; `scheduled_enabled`, the interval and
the duration are never changed by the poll. -/
theorem C25_scheduled_activation_rule (w : WaterPump) (a : AirPump) (now : Nat) :
    w.loop now =
      (if w.scheduled_enabled = true ∧ (w.toPump.loop now).state ≠ ActuatorState.ACTIVE ∧
          (w.last_scheduled_activation = 0 ∨
            usub now w.last_scheduled_activation ≥ w.schedule_interval_ms) then
        { w with
          toPump := ((w.toPump.loop now).activate now w.schedule_duration_ms).2
          last_scheduled_activation :=
            if ((w.toPump.loop now).activate now w.schedule_duration_ms).1 = true then now
            else w.last_scheduled_activation }
      else { w with toPump := w.toPump.loop now }) ∧
    a.loop now =
      (if a.scheduled_enabled = true ∧ (a.toPump.loop now).state ≠ ActuatorState.ACTIVE ∧
          (a.last_scheduled_activation = 0 ∨
            usub now a.last_scheduled_activation ≥ a.schedule_interval_ms) then
        { a with
          toPump := ((a.toPump.loop now).activate now a.schedule_duration_ms).2
          last_scheduled_activation :=
            if ((a.toPump.loop now).activate now a.schedule_duration_ms).1 = true then now
            else a.last_scheduled_activation }
      else { a with toPump := a.toPump.loop now }) := by
  constructor
  · unfold WaterPump.loop WaterPump.checkScheduledActivation WaterPump.shouldActivateScheduled
    dsimp only
    generalize w.toPump.loop now = q
    by_cases h1 : w.scheduled_enabled = true
    · by_cases h2 : q.state = ActuatorState.ACTIVE
      · simp [h1, h2]
      · by_cases h3 : w.last_scheduled_activation = 0
        · by_cases h4 : (q.activate now w.schedule_duration_ms).1 = true
          · simp [h1, h2, h3, h4]
          · simp [h1, h2, h3, h4]
        · by_cases h5 : usub now w.last_scheduled_activation ≥ w.schedule_interval_ms
          · by_cases h4 : (q.activate now w.schedule_duration_ms).1 = true
            · simp [h1, h2, h3, h4, h5]
            · simp [h1, h2, h3, h4, h5]
          · simp [h1, h2, h3, h5]
    · simp [h1]
  · unfold AirPump.loop AirPump.checkScheduledActivation AirPump.shouldActivateScheduled
    dsimp only
    generalize a.toPump.loop now = q
    by_cases h1 : a.scheduled_enabled = true
    · by_cases h2 : q.state = ActuatorState.ACTIVE
      · simp [h1, h2]
      · by_cases h3 : a.last_scheduled_activation = 0
        · by_cases h4 : (q.activate now a.schedule_duration_ms).1 = true
          · simp [h1, h2, h3, h4]
          · simp [h1, h2, h3, h4]
        · by_cases h5 : usub now a.last_scheduled_activation ≥ a.schedule_interval_ms
          · by_cases h4 : (q.activate now a.schedule_duration_ms).1 = true
            · simp [h1, h2, h3, h4, h5]
            · simp [h1, h2, h3, h4, h5]
          · simp [h1, h2, h3, h5]
    · simp [h1]

/-- C26, as stated, fails: a validated `delta_ph` of -0.5 needs 5 ml, within
the default maximum of 10 ml, yet on a device without a pH sensor `execute`
ends as Failed and requests no dose. -/
theorem C26_no_dose_without_ph_reading :
    ((AdjustPHByCommand.new "cmd-1").validate exampleDeviceNoSensor
      [("delta_ph", JsonValue.float (-1 / 2))]).1 = true ∧
    (exampleAdjustPH (-1 / 2)).delta_ph = -1 / 2 ∧
    (exampleAdjustPH (-1 / 2)).max_volume_ml = 10 ∧
    (exampleAdjustPH (-1 / 2)).calculateRequiredVolume
      (AdjustPHByCommand.getCurrentPH exampleDeviceNoSensor.sensor_manager) (-1 / 2) = 5 ∧
    ((exampleAdjustPH (-1 / 2)).execute exampleDeviceNoSensor).1 = false ∧
    ((exampleAdjustPH (-1 / 2)).execute exampleDeviceNoSensor).2.1.status =
      CommandStatus.FAILED ∧
    ((exampleAdjustPH (-1 / 2)).execute exampleDeviceNoSensor).2.2.dose_log = [] := by
  have hle : |(-1 / 2 : ℚ)| ≤ 2 := by
    rw [abs_le]
    constructor <;> norm_num
  obtain ⟨h1, h2, h3⟩ := exampleAdjustPH_eq (-1 / 2) hle
  have hread : AdjustPHByCommand.getCurrentPH exampleDeviceNoSensor.sensor_manager < 0 := by
    rw [exampleDeviceNoSensor_reading]
    norm_num
  have habs : |(-1 / 2 : ℚ)| = 1 / 2 := by
    rw [abs_of_neg (by norm_num)]
    norm_num
  refine ⟨h1, h2, h3, ?_, ?_, ?_, ?_⟩
  · unfold AdjustPHByCommand.calculateRequiredVolume
    rw [h3, habs]
    norm_num
  · rw [adjustPH_execute_no_reading _ _ hread]
  · rw [adjustPH_execute_no_reading _ _ hread]
    exact adjustPH_setError_status _ _ _
  · rw [adjustPH_execute_no_reading _ _ hread]
    rfl

/-- C26 as amended: for every validated `delta_ph` (so `|delta_ph| <= 2.0`) and
a pH reading that is not negative, `execute` selects pump "ph_down" when
`delta_ph < 0` and "ph_up" when `delta_ph > 0` and fails without dosing when
`delta_ph == 0`; it computes the volume
`max(0.5, min(|delta_ph| * 10, max_volume_ml))`, fails without dosing when that
volume exceeds `max_volume_ml`, and otherwise makes exactly one call
`ActuatorManager::dose(pump, volume)`, whose result is the result of `execute`
and decides between Completed and Failed. -/
theorem C26_adjust_ph_by_model (c0 : AdjustPHByCommand) (dev0 dev : Device)
    (parameters : List (String × JsonValue))
    (hval : (c0.validate dev0 parameters).1 = true)
    (hread : 0 ≤ AdjustPHByCommand.getCurrentPH dev.sensor_manager) :
    |(c0.validate dev0 parameters).2.delta_ph| ≤ 2 ∧
    ((c0.validate dev0 parameters).2.delta_ph < 0 →
      AdjustPHByCommand.selectPHPump (c0.validate dev0 parameters).2.delta_ph = "ph_down") ∧
    ((c0.validate dev0 parameters).2.delta_ph > 0 →
      AdjustPHByCommand.selectPHPump (c0.validate dev0 parameters).2.delta_ph = "ph_up") ∧
    (c0.validate dev0 parameters).2.calculateRequiredVolume
        (AdjustPHByCommand.getCurrentPH dev.sensor_manager)
        (c0.validate dev0 parameters).2.delta_ph =
      max (1 / 2) (min (|(c0.validate dev0 parameters).2.delta_ph| * 10)
        (c0.validate dev0 parameters).2.max_volume_ml) ∧
    ((c0.validate dev0 parameters).2.delta_ph = 0 ∨
      (c0.validate dev0 parameters).2.calculateRequiredVolume
        (AdjustPHByCommand.getCurrentPH dev.sensor_manager)
        (c0.validate dev0 parameters).2.delta_ph >
          (c0.validate dev0 parameters).2.max_volume_ml →
      ((c0.validate dev0 parameters).2.execute dev).1 = false ∧
      ((c0.validate dev0 parameters).2.execute dev).2.1.status = CommandStatus.FAILED ∧
      ((c0.validate dev0 parameters).2.execute dev).2.2 = dev) ∧
    ((c0.validate dev0 parameters).2.delta_ph ≠ 0 →
      ¬ (c0.validate dev0 parameters).2.calculateRequiredVolume
        (AdjustPHByCommand.getCurrentPH dev.sensor_manager)
        (c0.validate dev0 parameters).2.delta_ph >
          (c0.validate dev0 parameters).2.max_volume_ml →
      ((c0.validate dev0 parameters).2.execute dev).1 =
        (dev.dose (AdjustPHByCommand.selectPHPump (c0.validate dev0 parameters).2.delta_ph)
          ((c0.validate dev0 parameters).2.calculateRequiredVolume
            (AdjustPHByCommand.getCurrentPH dev.sensor_manager)
            (c0.validate dev0 parameters).2.delta_ph)).1 ∧
      ((c0.validate dev0 parameters).2.execute dev).2.2 =
        (dev.dose (AdjustPHByCommand.selectPHPump (c0.validate dev0 parameters).2.delta_ph)
          ((c0.validate dev0 parameters).2.calculateRequiredVolume
            (AdjustPHByCommand.getCurrentPH dev.sensor_manager)
            (c0.validate dev0 parameters).2.delta_ph)).2 ∧
      ((c0.validate dev0 parameters).2.execute dev).2.2.dose_log =
        dev.dose_log ++
          [(AdjustPHByCommand.selectPHPump (c0.validate dev0 parameters).2.delta_ph,
            (c0.validate dev0 parameters).2.calculateRequiredVolume
              (AdjustPHByCommand.getCurrentPH dev.sensor_manager)
              (c0.validate dev0 parameters).2.delta_ph)] ∧
      ((c0.validate dev0 parameters).2.execute dev).2.1.status =
        (if ((c0.validate dev0 parameters).2.execute dev).1 = true then CommandStatus.COMPLETED
         else CommandStatus.FAILED)) := by
  generalize hc : (c0.validate dev0 parameters).2 = c
  have hle : |c.delta_ph| ≤ 2 := by
    rw [← hc]
    exact adjustPH_validate_true c0 dev0 parameters hval
  refine ⟨hle, ?_, ?_, rfl, ?_, ?_⟩
  · intro h
    simp [AdjustPHByCommand.selectPHPump, h]
  · intro h
    simp [AdjustPHByCommand.selectPHPump, h, not_lt.mpr (le_of_lt h)]
  · intro h
    by_cases h0 : c.delta_ph = 0
    · exact adjustPH_execute_zero c dev hread h0
    · rcases h with h | h
      · exact absurd h h0
      · exact adjustPH_execute_exceeds c dev hread h0 h
  · intro h0 hfit
    obtain ⟨h1, h2, h3⟩ := adjustPH_execute_dose c dev hread h0 hfit
    refine ⟨h1, h2, ?_, ?_⟩
    · rw [h2]
      rfl
    · rw [h3, h1]

/-- Witness for C26: `delta_ph = -0.5` on the example device with a pH reading
of 7: one dose of 5 ml is requested from "ph_down", it is accepted and the
command ends as Completed. -/
theorem C26_adjust_ph_by_witness :
    0 ≤ AdjustPHByCommand.getCurrentPH (exampleDevice 7 500).sensor_manager ∧
    ((exampleAdjustPH (-1 / 2)).execute (exampleDevice 7 500)).2.2.dose_log =
      [("ph_down", 5)] ∧
    ((exampleAdjustPH (-1 / 2)).execute (exampleDevice 7 500)).1 = true ∧
    ((exampleAdjustPH (-1 / 2)).execute (exampleDevice 7 500)).2.1.status =
      CommandStatus.COMPLETED :=
  ⟨by decide!,
   ((C26_adjust_ph_by_model (AdjustPHByCommand.new "cmd-1") exampleDeviceNoSensor
      (exampleDevice 7 500) [("delta_ph", JsonValue.float (-1 / 2))] (by decide!)
      (by decide!)).2.2.2.2.2 (by decide!) (by decide!)).2.2.1.trans (by decide!),
   by decide!,
   ((C26_adjust_ph_by_model (AdjustPHByCommand.new "cmd-1") exampleDeviceNoSensor
      (exampleDevice 7 500) [("delta_ph", JsonValue.float (-1 / 2))] (by decide!)
      (by decide!)).2.2.2.2.2 (by decide!) (by decide!)).2.2.2.trans (by decide!)⟩

/-- C27, as stated, fails in two ways.  With `delta_tds = 100` validated and
two nutrient pumps registered, no pump is asked to dose when the device has no
TDS sensor, and none is asked when `max_volume_ml` is 0.5: the total of 1 ml
then exceeds the maximum and `execute` ends as Failed. -/
theorem C27_no_dose_without_reading_or_above_maximum :
    ((AdjustTDSByCommand.new "cmd-2").validate exampleDeviceNoSensor
      [("delta_tds", JsonValue.float 100), ("max_volume_ml", JsonValue.float 20)]).1 = true ∧
    AdjustTDSByCommand.selectNutrientPumps exampleDeviceNoSensor.actuator_manager =
      ["nutrient_a", "nutrient_b"] ∧
    (exampleAdjustTDS 100 20).calculateRequiredVolume
      (AdjustTDSByCommand.getCurrentTDS exampleDeviceNoSensor.sensor_manager) 100 = 2 ∧
    ((exampleAdjustTDS 100 20).execute exampleDeviceNoSensor).1 = false ∧
    ((exampleAdjustTDS 100 20).execute exampleDeviceNoSensor).2.2.dose_log = [] ∧
    ((AdjustTDSByCommand.new "cmd-2").validate exampleDeviceNoSensor
      [("delta_tds", JsonValue.float 100), ("max_volume_ml", JsonValue.float (1 / 2))]).1 =
      true ∧
    AdjustTDSByCommand.selectNutrientPumps (exampleDevice 7 500).actuator_manager =
      ["nutrient_a", "nutrient_b"] ∧
    (exampleAdjustTDS 100 (1 / 2)).calculateRequiredVolume 500 100 = 1 ∧
    ((exampleAdjustTDS 100 (1 / 2)).execute (exampleDevice 7 500)).1 = false ∧
    ((exampleAdjustTDS 100 (1 / 2)).execute (exampleDevice 7 500)).2.2.dose_log = [] := by
  decide!

/-- C27 as amended: for every validated `delta_tds` (so `0 <= delta_tds <= 500`)
the total required volume is `max(1.0, min(delta_tds / 50, max_volume_ml))`;
when the TDS reading is not negative, that total does not exceed
`max_volume_ml` and `k >= 1` of the dosing pumps nutrient_a, nutrient_b,
cal_mag are registered, `execute` asks each of the `k` pumps, in this order, to
dose exactly `total / k`, so the requested volumes sum to the total; with
`delta_tds = 100` and `max_volume_ml = 20` the total is 2.0 ml. -/
theorem C27_adjust_tds_by_model (c0 : AdjustTDSByCommand) (dev0 dev : Device)
    (parameters : List (String × JsonValue))
    (hval : (c0.validate dev0 parameters).1 = true)
    (hread : 0 ≤ AdjustTDSByCommand.getCurrentTDS dev.sensor_manager)
    (hk : AdjustTDSByCommand.selectNutrientPumps dev.actuator_manager ≠ [])
    (hfit : ¬ (c0.validate dev0 parameters).2.calculateRequiredVolume
      (AdjustTDSByCommand.getCurrentTDS dev.sensor_manager)
      (c0.validate dev0 parameters).2.delta_tds > (c0.validate dev0 parameters).2.max_volume_ml) :
    0 ≤ (c0.validate dev0 parameters).2.delta_tds ∧
    (c0.validate dev0 parameters).2.delta_tds ≤ 500 ∧
    (c0.validate dev0 parameters).2.calculateRequiredVolume
        (AdjustTDSByCommand.getCurrentTDS dev.sensor_manager)
        (c0.validate dev0 parameters).2.delta_tds =
      max 1 (min ((c0.validate dev0 parameters).2.delta_tds / 50)
        (c0.validate dev0 parameters).2.max_volume_ml) ∧
    (∀ pump_id, pump_id ∈ AdjustTDSByCommand.selectNutrientPumps dev.actuator_manager ↔
      (pump_id = "nutrient_a" ∨ pump_id = "nutrient_b" ∨ pump_id = "cal_mag") ∧
        (dev.actuator_manager.getDosingPump pump_id).isSome = true) ∧
    ((c0.validate dev0 parameters).2.execute dev).2.2.dose_log =
      dev.dose_log ++
        (AdjustTDSByCommand.selectNutrientPumps dev.actuator_manager).map
          (fun pump_id =>
            (pump_id,
             (c0.validate dev0 parameters).2.calculateRequiredVolume
                (AdjustTDSByCommand.getCurrentTDS dev.sensor_manager)
                (c0.validate dev0 parameters).2.delta_tds /
              ((AdjustTDSByCommand.selectNutrientPumps dev.actuator_manager).length : ℚ))) ∧
    ((AdjustTDSByCommand.selectNutrientPumps dev.actuator_manager).map
        (fun _ =>
          (c0.validate dev0 parameters).2.calculateRequiredVolume
              (AdjustTDSByCommand.getCurrentTDS dev.sensor_manager)
              (c0.validate dev0 parameters).2.delta_tds /
            ((AdjustTDSByCommand.selectNutrientPumps dev.actuator_manager).length : ℚ))).sum =
      (c0.validate dev0 parameters).2.calculateRequiredVolume
        (AdjustTDSByCommand.getCurrentTDS dev.sensor_manager)
        (c0.validate dev0 parameters).2.delta_tds ∧
    (∀ (c : AdjustTDSByCommand) (current_tds : ℚ), c.max_volume_ml = 20 →
      c.calculateRequiredVolume current_tds 100 = 2) := by
  obtain ⟨h0, h500⟩ := adjustTDS_validate_true c0 dev0 parameters hval
  generalize (c0.validate dev0 parameters).2 = c at h0 h500 hfit ⊢
  refine ⟨h0, h500, rfl, selectNutrientPumps_mem dev.actuator_manager, ?_, ?_, ?_⟩
  · rw [(adjustTDS_execute_dose c dev hread hk hfit).2.1, doseEach_log]
  · rw [sum_map_const]
    have hlen : ((AdjustTDSByCommand.selectNutrientPumps dev.actuator_manager).length : ℚ) ≠ 0 := by
      have : (AdjustTDSByCommand.selectNutrientPumps dev.actuator_manager).length ≠ 0 := by
        intro h
        exact hk (List.length_eq_zero.mp h)
      exact_mod_cast this
    field_simp
  · intro c current_tds hmax
    unfold AdjustTDSByCommand.calculateRequiredVolume
    rw [hmax]
    norm_num

/-- Witness for C27: `delta_tds = 100` with `max_volume_ml = 20` on the example
device, where nutrient_a and nutrient_b are registered and the TDS reading is
500: each of the two pumps is asked for 1 ml. -/
theorem C27_adjust_tds_by_witness :
    ((exampleAdjustTDS 100 20).execute (exampleDevice 7 500)).2.2.dose_log =
      [("nutrient_a", 1), ("nutrient_b", 1)] ∧
    (exampleAdjustTDS 100 20).calculateRequiredVolume 500 100 = 2 :=
  ⟨(C27_adjust_tds_by_model (AdjustTDSByCommand.new "cmd-2") exampleDeviceNoSensor
      (exampleDevice 7 500)
      [("delta_tds", JsonValue.float 100), ("max_volume_ml", JsonValue.float 20)]
      (by decide!) (by decide!) (by decide!) (by decide!)).2.2.2.2.1.trans (by decide!),
   by decide!⟩

/-- C28, as stated, fails: on a device without a pH sensor the reading is -1;
with target 6.5 and tolerance 8 the reading satisfies
`|target_ph - current| <= tolerance`, yet the command ends as Failed. -/
theorem C28_negative_reading_fails_within_tolerance :
    ((SetPHTargetCommand.new "cmd-3").validate exampleDeviceNoSensor
      [("target_ph", JsonValue.float (13 / 2)), ("tolerance", JsonValue.float 8),
       ("max_attempts", JsonValue.int 3)]).1 = true ∧
    SetPHTargetCommand.getCurrentPH exampleDeviceNoSensor.sensor_manager = -1 ∧
    |(exampleSetPHTarget (13 / 2) 8 3).target_ph -
        SetPHTargetCommand.getCurrentPH exampleDeviceNoSensor.sensor_manager| ≤
      (exampleSetPHTarget (13 / 2) 8 3).tolerance ∧
    ((exampleSetPHTarget (13 / 2) 8 3).execute exampleDeviceNoSensor).1 = false ∧
    ((exampleSetPHTarget (13 / 2) 8 3).execute exampleDeviceNoSensor).2.1.status =
      CommandStatus.FAILED ∧
    ((exampleSetPHTarget (13 / 2) 8 3).execute exampleDeviceNoSensor).2.2.dose_log = [] := by
  decide!

/-- C28 as amended: `execute` ends as Completed when the loop of
`adjustPHToTarget` returns true and as Failed when it returns false.  The loop
performs at most `max_attempts` iterations, each requesting at most one dose,
and returns false when they are exhausted.  An iteration whose reading is
negative ends the loop with false, without dosing.  An iteration whose reading
is not negative and satisfies `|target_ph - current| <= tolerance` ends it
with true, without dosing.  Otherwise the iteration builds a sub-adjustment
with `delta_ph = (target_ph - current) * 0.5` and `max_volume_ml = 5.0`; when
its validation or its execution fails the loop ends with false, and when both
succeed the loop waits 30000 ms and goes on with the next iteration. -/
theorem C28_set_ph_target_loop (c : SetPHTargetCommand) (dev : Device) :
    (c.execute dev).1 = (c.adjustLoop c.max_attempts.toNat 0 dev).1 ∧
    (c.execute dev).2.2 = (c.adjustLoop c.max_attempts.toNat 0 dev).2 ∧
    (c.execute dev).2.1.status =
      (if (c.adjustLoop c.max_attempts.toNat 0 dev).1 = true then CommandStatus.COMPLETED
       else CommandStatus.FAILED) ∧
    (c.execute dev).2.2.dose_log.length ≤ dev.dose_log.length + c.max_attempts.toNat ∧
    (∀ (attempt : Nat) (d : Device), c.adjustLoop 0 attempt d = (false, d)) ∧
    (∀ (remaining attempt : Nat) (d : Device),
      (SetPHTargetCommand.getCurrentPH d.sensor_manager < 0 →
        c.adjustLoop (remaining + 1) attempt d = (false, d)) ∧
      (0 ≤ SetPHTargetCommand.getCurrentPH d.sensor_manager →
        |c.target_ph - SetPHTargetCommand.getCurrentPH d.sensor_manager| ≤ c.tolerance →
        c.adjustLoop (remaining + 1) attempt d = (true, d)) ∧
      (0 ≤ SetPHTargetCommand.getCurrentPH d.sensor_manager →
        ¬ |c.target_ph - SetPHTargetCommand.getCurrentPH d.sensor_manager| ≤ c.tolerance →
        ((c.subAdjustment attempt
            (c.target_ph - SetPHTargetCommand.getCurrentPH d.sensor_manager) d).1 = false →
          c.adjustLoop (remaining + 1) attempt d = (false, d)) ∧
        ((c.subAdjustment attempt
            (c.target_ph - SetPHTargetCommand.getCurrentPH d.sensor_manager) d).1 = true →
          ((c.subAdjustment attempt
            (c.target_ph - SetPHTargetCommand.getCurrentPH d.sensor_manager) d).2.execute d).1 =
            false →
          c.adjustLoop (remaining + 1) attempt d =
            (false, ((c.subAdjustment attempt
              (c.target_ph - SetPHTargetCommand.getCurrentPH d.sensor_manager) d).2.execute
                d).2.2)) ∧
        ((c.subAdjustment attempt
            (c.target_ph - SetPHTargetCommand.getCurrentPH d.sensor_manager) d).1 = true →
          ((c.subAdjustment attempt
            (c.target_ph - SetPHTargetCommand.getCurrentPH d.sensor_manager) d).2.execute d).1 =
            true →
          c.adjustLoop (remaining + 1) attempt d =
            c.adjustLoop remaining (attempt + 1)
              (((c.subAdjustment attempt
                (c.target_ph - SetPHTargetCommand.getCurrentPH d.sensor_manager) d).2.execute
                  d).2.2.delay 30000)))) ∧
    (∀ (attempt : Nat) (delta : ℚ) (d : Device),
      (c.subAdjustment attempt delta d).1 = true →
        (c.subAdjustment attempt delta d).2.delta_ph = delta * (1 / 2) ∧
        (c.subAdjustment attempt delta d).2.max_volume_ml = 5) := by
  obtain ⟨h1, h2, h3⟩ := setPH_execute_loop c dev
  refine ⟨h1, h2, h3, ?_, fun _ _ => rfl, setPH_adjustLoop_step c, subAdjustment_fields c⟩
  rw [h2]
  exact setPH_adjustLoop_log_le c _ 0 dev

/-- C29: for every validated `target_tds` (within 100 and 2000) and
`max_attempts >= 1`, if the TDS reading at the first iteration is not negative
and is at least `target_tds`, `execute` returns true, the command ends as
Completed and the device is as before: no dose is requested, the clock has
not been delayed; the tolerance plays no part. -/
theorem C29_set_tds_target_early_success (c0 : SetTDSTargetCommand) (dev0 dev : Device)
    (parameters : List (String × JsonValue))
    (hval : (c0.validate dev0 parameters).1 = true)
    (hattempts : 1 ≤ (c0.validate dev0 parameters).2.max_attempts)
    (hread : 0 ≤ SetTDSTargetCommand.getCurrentTDS dev.sensor_manager)
    (hge : (c0.validate dev0 parameters).2.target_tds ≤
      SetTDSTargetCommand.getCurrentTDS dev.sensor_manager) :
    100 ≤ (c0.validate dev0 parameters).2.target_tds ∧
    (c0.validate dev0 parameters).2.target_tds ≤ 2000 ∧
    ((c0.validate dev0 parameters).2.execute dev).1 = true ∧
    ((c0.validate dev0 parameters).2.execute dev).2.1.status = CommandStatus.COMPLETED ∧
    ((c0.validate dev0 parameters).2.execute dev).2.2 = dev ∧
    ((c0.validate dev0 parameters).2.execute dev).2.2.dose_log = dev.dose_log := by
  obtain ⟨hlo, hhi⟩ := setTDS_validate_true c0 dev0 parameters hval
  generalize (c0.validate dev0 parameters).2 = c at hattempts hge hlo hhi ⊢
  obtain ⟨n, hn⟩ : ∃ n, c.max_attempts.toNat = n + 1 := by
    refine ⟨c.max_attempts.toNat - 1, ?_⟩
    omega
  have hl : (c.setStatus dev.millis CommandStatus.EXECUTING).adjustTDSToTarget dev =
      (true, dev) := by
    unfold SetTDSTargetCommand.adjustTDSToTarget
    have hm : (c.setStatus dev.millis CommandStatus.EXECUTING).max_attempts.toNat = n + 1 := hn
    rw [hm]
    exact setTDS_loop_early _ n 0 dev hread hge
  have he : (c.execute dev).1 = true ∧ (c.execute dev).2.1.status = CommandStatus.COMPLETED ∧
      (c.execute dev).2.2 = dev := by
    unfold SetTDSTargetCommand.execute
    simp only [hl, if_true]
    refine ⟨trivial, ?_, trivial⟩
    simp [SetTDSTargetCommand.setStatus, setStatus_status]
  refine ⟨hlo, hhi, he.1, he.2.1, he.2.2, ?_⟩
  rw [he.2.2]

/-- Witness for C29: target 600 with tolerance 0 and one attempt on the
example device, whose TDS reading is 700. -/
theorem C29_set_tds_target_witness :
    ((exampleSetTDSTarget 600 0 1).execute (exampleDevice 7 700)).1 = true ∧
    ((exampleSetTDSTarget 600 0 1).execute (exampleDevice 7 700)).2.1.status =
      CommandStatus.COMPLETED ∧
    ((exampleSetTDSTarget 600 0 1).execute (exampleDevice 7 700)).2.2.dose_log = [] :=
  ⟨(C29_set_tds_target_early_success (SetTDSTargetCommand.new "cmd-4") exampleDeviceNoSensor
      (exampleDevice 7 700)
      [("target_tds", JsonValue.float 600), ("tolerance", JsonValue.float 0),
       ("max_attempts", JsonValue.int 1)]
      (by decide!) (by decide!) (by decide!) (by decide!)).2.2.1,
   (C29_set_tds_target_early_success (SetTDSTargetCommand.new "cmd-4") exampleDeviceNoSensor
      (exampleDevice 7 700)
      [("target_tds", JsonValue.float 600), ("tolerance", JsonValue.float 0),
       ("max_attempts", JsonValue.int 1)]
      (by decide!) (by decide!) (by decide!) (by decide!)).2.2.2.1,
   (C29_set_tds_target_early_success (SetTDSTargetCommand.new "cmd-4") exampleDeviceNoSensor
      (exampleDevice 7 700)
      [("target_tds", JsonValue.float 600), ("tolerance", JsonValue.float 0),
       ("max_attempts", JsonValue.int 1)]
      (by decide!) (by decide!) (by decide!) (by decide!)).2.2.2.2.2⟩

/-- C30: a command object made by `CommandProcessor::createCommand`, of any
of the fifteen classes, is Pending with `start_time` 0.  A `validate(params)`
call on it that returns false leaves it Failed with `start_time` 0 and no
execution time; one that returns true leaves it Pending.  No `validate` and
no `abort` of any class puts a command that is not Executing into Executing
or changes `start_time`: the status after the call is the status before it or
Failed. -/
theorem C30_failed_validation_never_executing (command_type command_id : String)
    (cmd : Command) (hmade : createCommand command_type command_id = some cmd)
    (dev : Device) (parameters : List (String × JsonValue)) :
    cmd.base.status = CommandStatus.PENDING ∧ cmd.base.start_time = 0 ∧
    ((cmd.validate dev parameters).1 = false →
      (cmd.validate dev parameters).2.base.status = CommandStatus.FAILED ∧
      (cmd.validate dev parameters).2.base.start_time = 0 ∧
      (cmd.validate dev parameters).2.base.execution_time_ms = 0) ∧
    ((cmd.validate dev parameters).1 = true →
      (cmd.validate dev parameters).2.base.status = CommandStatus.PENDING ∧
      (cmd.validate dev parameters).2.base.start_time = 0) ∧
    (∀ (other : Command) (d : Device) (ps : List (String × JsonValue)),
      ((other.validate d ps).2.base.status = other.base.status ∨
        (other.validate d ps).2.base.status = CommandStatus.FAILED) ∧
      (other.validate d ps).2.base.start_time = other.base.start_time ∧
      ((other.abort d).1.base.status = other.base.status ∨
        (other.abort d).1.base.status = CommandStatus.FAILED) ∧
      (other.abort d).1.base.start_time = other.base.start_time) := by
  obtain ⟨hs, ht, he⟩ := createCommand_fresh command_type command_id cmd hmade
  refine ⟨hs, ht, ?_, ?_, ?_⟩
  · intro hf
    rcases command_validate_base cmd dev parameters with ⟨h1, _⟩ | ⟨_, error, h2⟩
    · rw [hf] at h1
      exact absurd h1 (by decide)
    · have hfacts := setError_facts { cmd.base with params := parameters } dev.millis error
      rw [h2]
      exact ⟨hfacts.1, hfacts.2.1.trans ht, (hfacts.2.2 ht).trans he⟩
  · intro htrue
    rcases command_validate_base cmd dev parameters with ⟨_, h2⟩ | ⟨h1, _⟩
    · rw [h2]
      exact ⟨hs, ht⟩
    · rw [htrue] at h1
      exact absurd h1 (by decide)
  · intro other d ps
    refine ⟨?_, ?_, ?_, ?_⟩
    · rcases command_validate_base other d ps with ⟨_, h2⟩ | ⟨_, error, h2⟩
      · rw [h2]
        exact Or.inl rfl
      · rw [h2]
        exact Or.inr (setError_facts _ d.millis error).1
    · rcases command_validate_base other d ps with ⟨_, h2⟩ | ⟨_, error, h2⟩
      · rw [h2]
      · rw [h2]
        exact (setError_facts _ d.millis error).2.1
    · rcases command_abort_base other d with h | h
      · rw [h]
        exact Or.inl rfl
      · rw [h]
        exact Or.inr (setStatus_status _ _ _)
    · rcases command_abort_base other d with h | h
      · rw [h]
      · rw [h]
        exact setStatus_failed_start _ _

/-- Witness for C30: an `activate_pump` command without parameters fails
validation; it is Failed with `start_time` 0. -/
theorem C30_failed_validation_witness :
    ((Command.activatePump (ActivatePumpCommand.new "cmd-1")).validate
      exampleDeviceNoSensor []).1 = false ∧
    ((Command.activatePump (ActivatePumpCommand.new "cmd-1")).validate
      exampleDeviceNoSensor []).2.base.status = CommandStatus.FAILED ∧
    ((Command.activatePump (ActivatePumpCommand.new "cmd-1")).validate
      exampleDeviceNoSensor []).2.base.start_time = 0 :=
  ⟨by decide,
   ((C30_failed_validation_never_executing "activate_pump" "cmd-1"
      (Command.activatePump (ActivatePumpCommand.new "cmd-1")) rfl
      exampleDeviceNoSensor []).2.2.1 (by decide)).1,
   ((C30_failed_validation_never_executing "activate_pump" "cmd-1"
      (Command.activatePump (ActivatePumpCommand.new "cmd-1")) rfl
      exampleDeviceNoSensor []).2.2.1 (by decide)).2.1⟩

/-- C31 fails in the code.  `parseSensorType` returns PH or TDS for every
text (PH for every text other than "tds"), so the test for an invalid
`sensor_id` in `validate` never holds.  A `calibrate_sensor` command with
`sensor_id` "ec" and two points is validated (true, status Pending, sensor type
PH), and its `execute` ends Completed and gives the pH sensor, which had no
calibration, one that maps raw 1500 to pH 5.5. -/
theorem C31_unknown_sensor_id_calibrates_ph_sensor :
    (∀ sensor_id : String,
      CalibrateSensorCommand.parseSensorType sensor_id = SensorType.PH ∨
      CalibrateSensorCommand.parseSensorType sensor_id = SensorType.TDS) ∧
    CalibrateSensorCommand.parseSensorType "ec" = SensorType.PH ∧
    ((CalibrateSensorCommand.new "cmd-6").validate (exampleDevice 6 800)
      (exampleCalibrationParams "ec")).1 = true ∧
    ((CalibrateSensorCommand.new "cmd-6").validate (exampleDevice 6 800)
      (exampleCalibrationParams "ec")).2.status = CommandStatus.PENDING ∧
    ((CalibrateSensorCommand.new "cmd-6").validate (exampleDevice 6 800)
      (exampleCalibrationParams "ec")).2.sensor_type = SensorType.PH ∧
    (((CalibrateSensorCommand.new "cmd-6").validate (exampleDevice 6 800)
      (exampleCalibrationParams "ec")).2.execute (exampleDevice 6 800)).1 = true ∧
    (((CalibrateSensorCommand.new "cmd-6").validate (exampleDevice 6 800)
      (exampleCalibrationParams "ec")).2.execute (exampleDevice 6 800)).2.1.status =
        CommandStatus.COMPLETED ∧
    (exampleDevice 6 800).calibratedBy SensorType.PH 1500 = some none ∧
    (((CalibrateSensorCommand.new "cmd-6").validate (exampleDevice 6 800)
      (exampleCalibrationParams "ec")).2.execute (exampleDevice 6 800)).2.2.calibratedBy
        SensorType.PH 1500 = some (some (11 / 2)) := by
  refine ⟨parseSensorType_known, by decide, by decide!, by decide!, by decide!, by decide!,
    by decide!, by decide!, by decide!⟩

/-- C32 fails in the code.  `queueCommand` looks for the id in the active
table only, not in the queue: the second of two requests with the id "cmd-7"
is accepted while the first is still queued.  One `processCommandQueue` call
executes both (two `dose` calls, two commands counted as processed), the
second assignment to `active_commands["cmd-7"]` replaces the first command,
and the `loop()` call publishes one result, that of the second command: the
result of the first is lost. -/
theorem C32_same_id_queued_twice_loses_first_result :
    (exampleProcessor.queueCommand (exampleDoseRequest "cmd-7" "nutrient_a" 5)).1 = true ∧
    ((exampleProcessor.queueCommand (exampleDoseRequest "cmd-7" "nutrient_a" 5)).2.queueCommand
      (exampleDoseRequest "cmd-7" "nutrient_b" 3)).1 = true ∧
    exampleDuplicateQueue.command_queue =
      [exampleDoseRequest "cmd-7" "nutrient_a" 5, exampleDoseRequest "cmd-7" "nutrient_b" 3] ∧
    (exampleDuplicateQueue.processCommandQueue (exampleDevice 6 800)).2.dose_log =
      [("nutrient_a", 5), ("nutrient_b", 3)] ∧
    (exampleDuplicateQueue.processCommandQueue (exampleDevice 6 800)).1.commands_processed = 2 ∧
    (exampleDuplicateQueue.processCommandQueue (exampleDevice 6 800)).1.commands_failed = 0 ∧
    (exampleDuplicateQueue.processCommandQueue (exampleDevice 6 800)).1.active_commands.map
      (fun entry => (entry.1, entry.2.base.result_data)) =
      [("cmd-7", [("pump_id", JsonValue.str "nutrient_b"), ("volume_ml", JsonValue.float 3)])] ∧
    (exampleDuplicateQueue.loop (exampleDevice 6 800)).1.published.map
      (fun result => (result.command_id, result.status, result.result_data)) =
      [("cmd-7", CommandStatus.COMPLETED,
        [("pump_id", JsonValue.str "nutrient_b"), ("volume_ml", JsonValue.float 3)])] ∧
    (exampleDuplicateQueue.loop (exampleDevice 6 800)).1.active_commands.length = 0 := by
  refine ⟨by decide, by decide, by decide!, by decide!, by decide!, by decide!, by decide!,
    by decide!, by decide!⟩

/-- C33: when `execute` of a `DoseVolumeCommand` or of an `AdjustPHByCommand`
returns false, the command is Failed and the actuator manager, with the state,
planned duration, runtime counters and dispensed volume of every actuator, is
the one before `execute`; in particular a `dose` call that the manager rejects
leaves the manager as it was. -/
theorem C33_rejected_dose_leaves_actuators_unchanged (cd : DoseVolumeCommand)
    (cp : AdjustPHByCommand) (dev : Device)
    (hd : (cd.execute dev).1 = false) (hp : (cp.execute dev).1 = false) :
    (cd.execute dev).2.1.status = CommandStatus.FAILED ∧
    (cd.execute dev).2.2.actuator_manager = dev.actuator_manager ∧
    (cp.execute dev).2.1.status = CommandStatus.FAILED ∧
    (cp.execute dev).2.2.actuator_manager = dev.actuator_manager ∧
    (∀ (now : Nat) (pump_id : String) (volume_ml : ℚ),
      (dev.actuator_manager.dose now pump_id volume_ml).1 = false →
      (dev.actuator_manager.dose now pump_id volume_ml).2 = dev.actuator_manager) := by
  obtain ⟨h1, h2, h3⟩ := doseVolume_execute_cases cd dev
  rw [h1] at hd
  refine ⟨?_, ?_, (adjustPH_execute_failed cp dev hp).1, (adjustPH_execute_failed cp dev hp).2,
    fun now pump_id v h => manager_dose_rejected _ now pump_id v h⟩
  · rw [h3]
    simp [hd]
  · rw [h2]
    exact device_dose_rejected dev _ _ hd

/-- Witness for C33: on the device stopped by an emergency stop, a 1 ml dose on
`nutrient_a` and a pH adjustment by -1 both fail and leave the manager as it
was. -/
theorem C33_rejected_dose_witness :
    ((exampleDoseVolume "nutrient_a" 1).execute exampleStoppedDevice).2.1.status =
      CommandStatus.FAILED ∧
    ((exampleDoseVolume "nutrient_a" 1).execute exampleStoppedDevice).2.2.actuator_manager =
      exampleStoppedDevice.actuator_manager ∧
    ((exampleAdjustPH (-1)).execute exampleStoppedDevice).2.2.actuator_manager =
      exampleStoppedDevice.actuator_manager :=
  ⟨(C33_rejected_dose_leaves_actuators_unchanged (exampleDoseVolume "nutrient_a" 1)
      (exampleAdjustPH (-1)) exampleStoppedDevice (by decide!) (by decide!)).1,
   (C33_rejected_dose_leaves_actuators_unchanged (exampleDoseVolume "nutrient_a" 1)
      (exampleAdjustPH (-1)) exampleStoppedDevice (by decide!) (by decide!)).2.1,
   (C33_rejected_dose_leaves_actuators_unchanged (exampleDoseVolume "nutrient_a" 1)
      (exampleAdjustPH (-1)) exampleStoppedDevice (by decide!) (by decide!)).2.2.2.1⟩

/-- C34 fails in the code.  The manager whose water pump has a schedule and
that was stopped by `emergencyStop("leak")` has the pump Idle and the flag set;
the next `loop()` poll, at 20 ms, leaves the flag set and the water pump Active
with its line high, while `activateActuator` on the same pump at the same time
is refused. -/
theorem C34_scheduled_pump_restarts_under_emergency_stop :
    exampleScheduledStoppedManager.emergency_stop_active = true ∧
    (exampleScheduledStoppedManager.getActuator "water_pump").map
      (fun a => a.toPump.state) = some ActuatorState.IDLE ∧
    (exampleScheduledStoppedManager.loop 20).emergency_stop_active = true ∧
    ((exampleScheduledStoppedManager.loop 20).getActuator "water_pump").map
      (fun a => (a.toPump.state, a.toPump.gpio_high, a.toPump.planned_duration_ms)) =
        some (ActuatorState.ACTIVE, true, 120000) ∧
    (exampleScheduledStoppedManager.activateActuator 20 "water_pump" 120000).1 = false := by
  decide

/-- C35: after an accepted `activate(d)` with `d > 0`, at every clock value and
after any number of polls, a poll does not take the max-runtime branch; the
pump is either still the one the activation left (Active) or not Active and
not in Error, with `last_error` as before the activation.  For every pump
reached from a pump that is not Active by `activate`, `deactivate`, `dose` and
`loop` calls, a poll that takes the max-runtime branch finds the planned
duration 0: the activation in force was an `activate(0)`.  After `activate(0)`
the branch is reached: the example pump activated with duration 0 at 1 ms and
polled at 300002 ms takes it and ends in Error with "Max runtime exceeded". -/
theorem C35_max_runtime_branch_only_after_zero_duration (p0 : Pump) (t d : Nat)
    (hacc : (p0.activate t d).1 = true) (hd : 0 < d) :
    (∀ (polls : List Nat) (now : Nat),
      ((p0.activate t d).2.polls polls).takesMaxRuntimeBranch now = false ∧
      ((p0.activate t d).2.polls polls).state ≠ ActuatorState.ERROR ∧
      ((p0.activate t d).2.polls polls).last_error = p0.last_error) ∧
    (∀ (p : Pump) (calls : List (Nat × PumpOp)) (now : Nat),
      p.state ≠ ActuatorState.ACTIVE →
      (p.run calls).takesMaxRuntimeBranch now = true →
      (p.run calls).planned_duration_ms = 0) ∧
    ((examplePump.activate 1 0).1 = true ∧
      (examplePump.activate 1 0).2.takesMaxRuntimeBranch 300002 = true ∧
      ((examplePump.activate 1 0).2.loop 300002).state = ActuatorState.ERROR ∧
      ((examplePump.activate 1 0).2.loop 300002).last_error = "Max runtime exceeded") := by
  have hv : p0.validateActivationRequest t d = true := by
    by_contra hv
    have hv2 : p0.validateActivationRequest t d = false := by simpa using hv
    rw [activate_reject p0 t d hv2] at hacc
    simp at hacc
  have hmax : d ≤ p0.maxRuntimeMs := ((validate_true_iff p0 t d).mp hv).2.2.2.2
  have hJ1 : (p0.activate t d).2.state = ActuatorState.ACTIVE →
      (p0.activate t d).2.planned_duration_ms ≤ (p0.activate t d).2.maxRuntimeMs := by
    rw [activate_accept p0 t d hv]
    intro _
    exact hmax
  refine ⟨?_, ?_, by decide⟩
  · intro polls now
    rcases polls_after_planned_activation p0 t d hacc hd polls (p0.activate t d).2 (Or.inl rfl)
      with h | ⟨h1, h2, h3⟩
    · rw [h]
      refine ⟨?_, ?_, ?_⟩
      · by_contra hb
        have hb2 : (p0.activate t d).2.takesMaxRuntimeBranch now = true := by simpa using hb
        have h0 := takesMaxRuntimeBranch_planned _ now hJ1 hb2
        rw [activate_accept p0 t d hv] at h0
        simp only at h0
        omega
      · rw [activate_accept p0 t d hv]
        intro h
        cases h
      · rw [activate_accept p0 t d hv]
    · exact ⟨takesMaxRuntimeBranch_not_active _ now h1, h2, h3⟩
  · intro p calls now hp hb
    exact takesMaxRuntimeBranch_planned _ now
      (run_planned_within_max calls p (fun h => absurd h hp)) hb

/-- Witness for C35: the example pump activated for 5000 ms at 1000 ms. -/
theorem C35_max_runtime_branch_witness :
    ((examplePump.activate 1000 5000).2.polls [3000, 400000]).takesMaxRuntimeBranch 500000 =
      false ∧
    ((examplePump.activate 1000 5000).2.polls [3000, 400000]).state ≠ ActuatorState.ERROR :=
  ⟨((C35_max_runtime_branch_only_after_zero_duration examplePump 1000 5000 (by decide)
      (by decide)).1 [3000, 400000] 500000).1,
   ((C35_max_runtime_branch_only_after_zero_duration examplePump 1000 5000 (by decide)
      (by decide)).1 [3000, 400000] 500000).2.1⟩

/-- C36: for every `SetPHTargetCommand` and device, `execute` ends Completed
exactly when `max_attempts >= 1`, the reading at the start is non-negative and
`|target_ph - reading| <= tolerance`, and Failed otherwise.  The sensors are
never touched, so every iteration sees the same reading.  A pump on which a
`dose` call was accepted rejects every further `dose` call made before it is
polled, whatever the clock value: the actuators after `execute` are either
those before it or those left by one accepted `dose` call, and `execute` makes
at most two `dose` calls. -/
theorem C36_set_ph_target_makes_no_progress (c : SetPHTargetCommand) (dev : Device) :
    ((c.execute dev).2.1.status = CommandStatus.COMPLETED ↔
      (1 ≤ c.max_attempts ∧ 0 ≤ SetPHTargetCommand.getCurrentPH dev.sensor_manager ∧
        |c.target_ph - SetPHTargetCommand.getCurrentPH dev.sensor_manager| ≤ c.tolerance)) ∧
    ((c.execute dev).2.1.status ≠ CommandStatus.COMPLETED →
      (c.execute dev).2.1.status = CommandStatus.FAILED) ∧
    (c.execute dev).2.2.sensor_manager = dev.sensor_manager ∧
    (∀ (pump_id : String) (volume_ml : ℚ) (now : Nat) (volume2 : ℚ),
      (dev.actuator_manager.dose dev.millis pump_id volume_ml).1 = true →
      ((dev.actuator_manager.dose dev.millis pump_id volume_ml).2.dose now pump_id
        volume2).1 = false) ∧
    ((c.execute dev).2.2.actuator_manager = dev.actuator_manager ∨
      ∃ (pump_id : String) (volume_ml : ℚ),
        (dev.actuator_manager.dose dev.millis pump_id volume_ml).1 = true ∧
        (c.execute dev).2.2.actuator_manager =
          (dev.actuator_manager.dose dev.millis pump_id volume_ml).2) ∧
    (c.execute dev).2.2.dose_log.length ≤ dev.dose_log.length + 2 := by
  obtain ⟨_, e2, e3⟩ := setPH_execute_loop c dev
  obtain ⟨l1, l2, l3, l4⟩ := setPH_adjustLoop_single_pass c c.max_attempts.toNat 0 dev
  have hn : 1 ≤ c.max_attempts.toNat ↔ 1 ≤ c.max_attempts := by omega
  rw [hn] at l1
  refine ⟨?_, ?_, ?_, ?_, ?_, ?_⟩
  · rw [e3, ← l1]
    split <;> simp_all
  · rw [e3]
    split
    · intro h
      exact absurd rfl h
    · intro _
      rfl
  · rw [e2]
    exact l2
  · intro pump_id volume_ml now volume2 h
    exact manager_dose_blocks _ _ _ _ h now volume2
  · rw [e2]
    exact l3
  · rw [e2]
    exact l4

/-- C37: the volume computed by `AdjustPHByCommand` exceeds `max_volume_ml`
exactly when `max_volume_ml < 0.5`, and the total computed by
`AdjustTDSByCommand` exactly when `max_volume_ml < 1.0`.  For a `max_volume_ml`
at or above the minimum, a request of `max_volume_ml` or more is computed as
`max_volume_ml`, and an `AdjustPHByCommand` with a reading and a non-zero
delta, or an `AdjustTDSByCommand` with a reading and a nutrient pump, is not
rejected for its volume: `execute` goes on to the `dose` calls with the
computed volume. -/
theorem C37_volume_check_fires_only_below_minimum (cph : AdjustPHByCommand)
    (ctds : AdjustTDSByCommand) (current delta : ℚ) (dev : Device) :
    (cph.calculateRequiredVolume current delta > cph.max_volume_ml ↔
      cph.max_volume_ml < 1 / 2) ∧
    (ctds.calculateRequiredVolume current delta > ctds.max_volume_ml ↔
      ctds.max_volume_ml < 1) ∧
    (1 / 2 ≤ cph.max_volume_ml → cph.max_volume_ml ≤ |delta| * 10 →
      cph.calculateRequiredVolume current delta = cph.max_volume_ml) ∧
    (1 ≤ ctds.max_volume_ml → ctds.max_volume_ml ≤ delta / 50 →
      ctds.calculateRequiredVolume current delta = ctds.max_volume_ml) ∧
    (1 / 2 ≤ cph.max_volume_ml → 0 ≤ AdjustPHByCommand.getCurrentPH dev.sensor_manager →
      cph.delta_ph ≠ 0 →
      (cph.execute dev).2.2.dose_log = dev.dose_log ++
        [(AdjustPHByCommand.selectPHPump cph.delta_ph,
          max (1 / 2) (min (|cph.delta_ph| * 10) cph.max_volume_ml))]) ∧
    (1 ≤ ctds.max_volume_ml → 0 ≤ AdjustTDSByCommand.getCurrentTDS dev.sensor_manager →
      AdjustTDSByCommand.selectNutrientPumps dev.actuator_manager ≠ [] →
      (ctds.execute dev).2.2.dose_log = dev.dose_log ++
        (AdjustTDSByCommand.selectNutrientPumps dev.actuator_manager).map
          (fun pump_id => (pump_id,
            max 1 (min (ctds.delta_tds / 50) ctds.max_volume_ml) /
              ((AdjustTDSByCommand.selectNutrientPumps dev.actuator_manager).length : ℚ)))) := by
  refine ⟨max_min_gt_iff _ _ _, max_min_gt_iff _ _ _, fun h1 h2 => max_min_eq_cap _ _ _ h1 h2,
    fun h1 h2 => max_min_eq_cap _ _ _ h1 h2, ?_, ?_⟩
  · intro hm hr h0
    have hfit : ¬ cph.calculateRequiredVolume
        (AdjustPHByCommand.getCurrentPH dev.sensor_manager) cph.delta_ph > cph.max_volume_ml := by
      intro h
      exact absurd ((max_min_gt_iff _ _ _).mp h) (not_lt.mpr hm)
    rw [(adjustPH_execute_dose cph dev hr h0 hfit).2.1, device_dose_log]
    rfl
  · intro hm hr hk
    have hfit : ¬ ctds.calculateRequiredVolume
        (AdjustTDSByCommand.getCurrentTDS dev.sensor_manager) ctds.delta_tds >
          ctds.max_volume_ml := by
      intro h
      exact absurd ((max_min_gt_iff _ _ _).mp h) (not_lt.mpr hm)
    rw [(adjustTDS_execute_dose ctds dev hr hk hfit).2.1, doseEach_log]
    rfl

/-- C38: when `AdjustTDSByCommand::execute` reaches its dosing loop (a reading,
a nutrient pump, a total within `max_volume_ml`), it calls `dose` once on every
selected pump, in order and with the same volume, whatever the earlier calls
returned, and the command ends Completed exactly when every one of these calls
returned true, and Failed otherwise.  On the example device, where `nutrient_a`
is in its cooldown and `nutrient_b` is idle, the command ends Failed (the calls
returned false and true) while `nutrient_b` has gone from Idle with 0 ml
dispensed to Active with 1 ml dispensed. -/
theorem C38_adjust_tds_by_not_atomic (c : AdjustTDSByCommand) (dev : Device)
    (hread : 0 ≤ AdjustTDSByCommand.getCurrentTDS dev.sensor_manager)
    (hk : AdjustTDSByCommand.selectNutrientPumps dev.actuator_manager ≠ [])
    (hfit : ¬ c.calculateRequiredVolume (AdjustTDSByCommand.getCurrentTDS dev.sensor_manager)
      c.delta_tds > c.max_volume_ml) :
    (c.execute dev).2.2.dose_log = dev.dose_log ++
      (AdjustTDSByCommand.selectNutrientPumps dev.actuator_manager).map
        (fun pump_id => (pump_id, c.volumePerPump dev)) ∧
    (AdjustTDSByCommand.doseResults (c.volumePerPump dev)
      (AdjustTDSByCommand.selectNutrientPumps dev.actuator_manager) dev).length =
      (AdjustTDSByCommand.selectNutrientPumps dev.actuator_manager).length ∧
    ((c.execute dev).2.1.status = CommandStatus.COMPLETED ↔
      ∀ r ∈ AdjustTDSByCommand.doseResults (c.volumePerPump dev)
        (AdjustTDSByCommand.selectNutrientPumps dev.actuator_manager) dev, r = true) ∧
    ((c.execute dev).2.1.status = CommandStatus.FAILED ↔
      ¬ ∀ r ∈ AdjustTDSByCommand.doseResults (c.volumePerPump dev)
        (AdjustTDSByCommand.selectNutrientPumps dev.actuator_manager) dev, r = true) ∧
    (((exampleAdjustTDS 100 20).execute exampleCooldownDevice).2.1.status =
        CommandStatus.FAILED ∧
      AdjustTDSByCommand.doseResults ((exampleAdjustTDS 100 20).volumePerPump exampleCooldownDevice)
        (AdjustTDSByCommand.selectNutrientPumps exampleCooldownDevice.actuator_manager)
        exampleCooldownDevice = [false, true] ∧
      exampleCooldownDevice.dosingPumpStatus "nutrient_b" = some (ActuatorState.IDLE, 0) ∧
      ((exampleAdjustTDS 100 20).execute exampleCooldownDevice).2.2.dosingPumpStatus
        "nutrient_b" = some (ActuatorState.ACTIVE, 1)) := by
  obtain ⟨h1, h2, h3⟩ := adjustTDS_execute_dose c dev hread hk hfit
  refine ⟨?_, doseResults_length _ _ _, ?_, ?_, by decide!⟩
  · rw [h2, doseEach_log]
    rfl
  · rw [h3, ← doseEach_all]
    unfold AdjustTDSByCommand.volumePerPump
    split <;> simp_all
  · rw [h3, ← doseEach_all]
    unfold AdjustTDSByCommand.volumePerPump
    split <;> simp_all

/-- Witness for C38: the example device with `nutrient_a` in its cooldown. -/
theorem C38_adjust_tds_by_witness :
    ((exampleAdjustTDS 100 20).execute exampleCooldownDevice).2.2.dose_log =
      [("nutrient_a", 1), ("nutrient_b", 1)] := by
  have h := (C38_adjust_tds_by_not_atomic (exampleAdjustTDS 100 20) exampleCooldownDevice
    (by decide!) (by decide!) (by decide!)).1
  rw [h]
  decide!

/-- C40, as stated, fails for a queue that holds a `reset_system` request.
With such a request at the front and a dose request behind it, the device
restarts in the first iteration of `processCommandQueue`: the dose request is
still queued and is never handled (no `dose` call), and neither counter has
been increased, although both requests were accepted and one was dequeued. -/
theorem C40_reset_system_cuts_the_queue_short :
    exampleResetQueue.command_queue.length = 2 ∧
    (exampleResetQueue.processCommandQueue (exampleDevice 6 800)).2.restart_requested = true ∧
    (exampleResetQueue.processCommandQueue (exampleDevice 6 800)).1.command_queue =
      [exampleDoseRequest "cmd-2" "nutrient_a" 5] ∧
    (exampleResetQueue.processCommandQueue (exampleDevice 6 800)).2.dose_log = [] ∧
    exampleResetQueue.commands_processed + exampleResetQueue.commands_failed = 0 ∧
    (exampleResetQueue.processCommandQueue (exampleDevice 6 800)).1.commands_processed +
      (exampleResetQueue.processCommandQueue (exampleDevice 6 800)).1.commands_failed = 0 := by
  refine ⟨by decide, by decide!, by decide!, by decide!, by decide, by decide!⟩

/-- C40 as amended: `queueCommand` accepts a request exactly when
`validateCommandJson` accepts it and fewer than 10 requests are queued; an
accepted request is put at the end of the queue and a rejected one changes
nothing.  When no queued request is a `reset_system` command, one
`processCommandQueue` call handles the request at the front of the queue
first and then the remaining ones in the same way, leaves the queue empty, and
increases `commands_processed + commands_failed` by the number of requests
that were queued (modulo 2^32, the range of the two counters, and exactly when
the sum stays below 2^32).  Each such request increases exactly one of the two
counters by one: `commands_processed` when the command is created, validated
and executed with result true, `commands_failed` when the command type is
unknown or `validate` or `execute` returns false. -/
theorem C40_queue_accounting (p : CommandProcessor) (dev : Device)
    (hreset : ∀ command_doc ∈ p.command_queue, command_doc.command.getD "" ≠ "reset_system")
    (hno : p.commands_processed + p.commands_failed + p.command_queue.length < ULONG_MOD) :
    (∀ command : CommandJson,
      ((p.queueCommand command).1 = true ↔
        (p.validateCommandJson command = true ∧ p.command_queue.length < 10)) ∧
      ((p.queueCommand command).1 = true →
        (p.queueCommand command).2 =
          { p with command_queue := p.command_queue ++ [command] }) ∧
      ((p.queueCommand command).1 = false → (p.queueCommand command).2 = p)) ∧
    (∀ (command_doc : CommandJson) (rest : List CommandJson),
      p.command_queue = command_doc :: rest →
      p.processCommandQueue dev =
        (CommandProcessor.handleRequest ({ p with command_queue := rest }, dev)
          command_doc).2.1.processCommandQueue
          (CommandProcessor.handleRequest ({ p with command_queue := rest }, dev)
            command_doc).2.2) ∧
    (p.processCommandQueue dev).1.command_queue = [] ∧
    ((p.processCommandQueue dev).1.commands_processed +
      (p.processCommandQueue dev).1.commands_failed) % ULONG_MOD =
      (p.commands_processed + p.commands_failed + p.command_queue.length) % ULONG_MOD ∧
    (p.processCommandQueue dev).1.commands_processed +
      (p.processCommandQueue dev).1.commands_failed =
      p.commands_processed + p.commands_failed + p.command_queue.length ∧
    (∀ command_doc : CommandJson, command_doc.command.getD "" ≠ "reset_system" →
      (CommandProcessor.handleRequest (p, dev) command_doc).1 = true ∧
      (((CommandProcessor.handleRequest (p, dev) command_doc).2.1.commands_processed =
          uadd p.commands_processed 1 ∧
        (CommandProcessor.handleRequest (p, dev) command_doc).2.1.commands_failed =
          p.commands_failed ∧
        ∃ command, createCommand (command_doc.command.getD "")
            (command_doc.command_id.getD "") = some command ∧
          (command.validate dev (command_doc.params.getD [])).1 = true ∧
          ((command.validate dev (command_doc.params.getD [])).2.execute dev).1 =
            some true) ∨
      ((CommandProcessor.handleRequest (p, dev) command_doc).2.1.commands_processed =
          p.commands_processed ∧
        (CommandProcessor.handleRequest (p, dev) command_doc).2.1.commands_failed =
          uadd p.commands_failed 1 ∧
        ∀ command, createCommand (command_doc.command.getD "")
            (command_doc.command_id.getD "") = some command →
          (command.validate dev (command_doc.params.getD [])).1 = false ∨
          ((command.validate dev (command_doc.params.getD [])).2.execute dev).1 =
            some false))) := by
  obtain ⟨h1, h2, h3⟩ := processRequests_counts p.command_queue.length p dev rfl hreset
  refine ⟨fun command => queueCommand_cases p command, ?_, h1, h2, h3 hno,
    fun command_doc hr =>
      ⟨(handleRequest_counts p dev command_doc hr).1,
       (handleRequest_counts p dev command_doc hr).2.2⟩⟩
  intro command_doc rest hq
  have hstep := processRequest_cons p dev command_doc rest hq
  obtain ⟨c0, hlen, _⟩ := handleRequest_counts { p with command_queue := rest } dev command_doc
    (hreset command_doc (by rw [hq]; exact List.mem_cons_self _ _))
  unfold CommandProcessor.processCommandQueue
  rw [hlen, hq]
  show (if (p.processRequest dev).1 = true then
    CommandProcessor.processRequests rest.length (p.processRequest dev).2.1
      (p.processRequest dev).2.2 else _) = _
  rw [hstep, if_pos c0]

/-- Witness for C40: the example queue of three requests, none of them a
`reset_system` request, of which the first is executed and the other two
fail. -/
theorem C40_queue_accounting_witness :
    (exampleQueue.processCommandQueue (exampleDevice 6 800)).1.command_queue = [] ∧
    (exampleQueue.processCommandQueue (exampleDevice 6 800)).1.commands_processed +
      (exampleQueue.processCommandQueue (exampleDevice 6 800)).1.commands_failed =
      exampleQueue.commands_processed + exampleQueue.commands_failed +
        exampleQueue.command_queue.length ∧
    exampleQueue.command_queue.length = 3 :=
  ⟨(C40_queue_accounting exampleQueue (exampleDevice 6 800) (by decide) (by decide)).2.2.1,
   (C40_queue_accounting exampleQueue (exampleDevice 6 800) (by decide) (by decide)).2.2.2.2.1,
   by decide⟩

end HomeGrow
